import Mathlib

/-!
# Inferno physics core: shallow embedding and verified properties

The definitions below embed the parts of `src/Inferno/Physics.cpp` and
`src/Inferno.Core/Level.h` that the verified properties talk about.

Conventions of the embedding
* `float` values are exact rationals (`ℚ`); NaN and rounding are outside the model.
* `SegID` and `ObjID` are integers with `None = -1`, as in the C++ enums.
* An unchecked container access (`Segments[(int)id]`) outside the container is
  undefined behaviour in C++; the embedding returns `none` there.
* Loops that are `while` loops in the source take a `fuel` argument; `none` is
  returned when the fuel runs out. Termination theorems show that enough fuel
  always yields a result.
* Library routines whose source is not part of the repository sources at hand
  (DirectX SimpleMath, `Face`, `Segment` predicates, resource tables) are
  parameters collected in environment structures.
-/

namespace Inferno

/-! ## Vectors and planes -/

/-- Three component vector (`DirectX::SimpleMath::Vector3`) over exact rationals. -/
structure Vector3 where
  x : ℚ
  y : ℚ
  z : ℚ
deriving DecidableEq

namespace Vector3

/-- The constant `Vector3::Zero`. -/
def Zero : Vector3 := ⟨0, 0, 0⟩

/-- Component-wise sum (`operator+`). -/
def add (a b : Vector3) : Vector3 := ⟨a.x + b.x, a.y + b.y, a.z + b.z⟩

/-- Component-wise difference (`operator-`). -/
def sub (a b : Vector3) : Vector3 := ⟨a.x - b.x, a.y - b.y, a.z - b.z⟩

/-- Negation (unary `operator-`). -/
def neg (a : Vector3) : Vector3 := ⟨-a.x, -a.y, -a.z⟩

/-- Scaling by a scalar (`operator*` with a float). -/
def scale (a : Vector3) (s : ℚ) : Vector3 := ⟨a.x * s, a.y * s, a.z * s⟩

/-- Division by a scalar (`operator/` with a float). -/
def div (a : Vector3) (s : ℚ) : Vector3 := ⟨a.x / s, a.y / s, a.z / s⟩

/-- Dot product (`Vector3::Dot`). -/
def Dot (a b : Vector3) : ℚ := a.x * b.x + a.y * b.y + a.z * b.z

/-- Cross product (`Vector3::Cross`). -/
def Cross (a b : Vector3) : Vector3 :=
  ⟨a.y * b.z - a.z * b.y, a.z * b.x - a.x * b.z, a.x * b.y - a.y * b.x⟩

instance : Add Vector3 := ⟨add⟩
instance : Sub Vector3 := ⟨sub⟩
instance : Neg Vector3 := ⟨neg⟩
instance : HMul Vector3 ℚ Vector3 := ⟨scale⟩
instance : HDiv Vector3 ℚ Vector3 := ⟨div⟩

end Vector3

/-- Row-major 3x3 rotation matrix (`Matrix3x3`). -/
structure Matrix3x3 where
  Right : Vector3
  Up : Vector3
  Backward : Vector3
deriving DecidableEq

/-- Plane `normal . p + d = 0` (`DirectX::SimpleMath::Plane`). -/
structure Plane where
  normal : Vector3
  d : ℚ
deriving DecidableEq

namespace Plane

/-- The constructor `Plane(point, normal)`: the plane through `point` with the given normal. -/
def fromPointNormal (point normal : Vector3) : Plane :=
  ⟨normal, -(Vector3.Dot point normal)⟩

/-- Signed plane value of a point (`Plane::DotCoordinate`); negative is behind the plane. -/
def DotCoordinate (p : Plane) (point : Vector3) : ℚ :=
  Vector3.Dot p.normal point + p.d

end Plane

/-- A ray (`DirectX::SimpleMath::Ray`). -/
structure Ray where
  position : Vector3
  direction : Vector3
deriving DecidableEq

/-! ## Identifiers -/

/-- Segment identifier; `SegID::None` is `-1`. -/
abbrev SegID := Int

/-- The enumerator `SegID::None`. -/
def SegID.None : SegID := -1

/-- Object identifier; `ObjID::None` is `-1`. -/
abbrev ObjID := Int

/-- The enumerator `ObjID::None`. -/
def ObjID.None : ObjID := -1

/-- One of the six sides of a segment (`SideID::Left .. SideID::Front`). -/
abbrev SideID := Fin 6

/-- The iteration order `SideIDs` of the six sides. -/
def SideIDs : List SideID := [0, 1, 2, 3, 4, 5]

/-- A segment/side pair (`Tag`); `Side = none` stands for `SideID::None`. -/
structure Tag where
  Segment : SegID
  Side : Option SideID
deriving DecidableEq

/-! ## Level data -/

/-- The fields of `SegmentSide` read by the broad phase. -/
structure SegmentSide where
  Center : Vector3
  AverageNormal : Vector3
deriving DecidableEq

/-- A level cell (`Segment`): six connections, six sides and the objects inside. -/
structure Segment where
  Connections : SideID → SegID
  Sides : SideID → SegmentSide
  Objects : List ObjID

namespace Segment

/-- The accessor `Segment::GetConnection`. -/
def GetConnection (seg : Segment) (side : SideID) : SegID := seg.Connections side

/-- The accessor `Segment::GetSide`. -/
def GetSide (seg : Segment) (side : SideID) : SegmentSide := seg.Sides side

end Segment

/-! ## Objects -/

/-- The object kinds (`ObjectType`) that index the collision table. -/
inductive ObjectType
  | Wall
  | Robot
  | Hostage
  | Player
  | Weapon
  | Powerup
  | Reactor
  | Clutter
  | Coop
  | Marker
  | Building
  | Door
deriving DecidableEq

/-- The enumeration `MovementType`. -/
inductive MovementType
  | None
  | Physics
  | Spinning
deriving DecidableEq

/-- The bits of `PhysicsFlag` tested by the physics code. -/
structure PhysicsFlags where
  UseThrust : Bool
  FixedAngVel : Bool
  TurnRoll : Bool
  Piercing : Bool
  Bounce : Bool
deriving DecidableEq

/-- The block `PhysicsData` of an object. -/
structure PhysicsData where
  Velocity : Vector3
  PrevVelocity : Vector3
  AngularVelocity : Vector3
  AngularAcceleration : Vector3
  Thrust : Vector3
  AngularThrust : Vector3
  Drag : ℚ
  Mass : ℚ
  TurnRoll : ℚ
  Wiggle : ℚ
  Bounces : Int
  Flags : PhysicsFlags
deriving DecidableEq

/-- The weapon control block `Control.Weapon` of an object. -/
structure WeaponControl where
  AliveTime : ℚ
  RecentHits : List Int
  SineMovement : Bool
deriving DecidableEq

/-- A game object (`Object`), with the fields the physics core reads and writes. The field
`Type_` is the C++ member `Type`, `Weapon` is `Control.Weapon`. -/
structure Object where
  Signature : Int
  Type_ : ObjectType
  ID : Int
  Parent : ObjID
  Segment : SegID
  Movement : MovementType
  Position : Vector3
  PrevPosition : Vector3
  Rotation : Matrix3x3
  Radius : ℚ
  HitPoints : ℚ
  Lifespan : ℚ
  Physics : PhysicsData
  Weapon : WeaponControl
  LastHitForce : Vector3
deriving DecidableEq

/-- The level: its segments and its objects (`Level::Segments`, `Level::Objects`). -/
structure Level where
  Segments : List Segment
  Objects : List Object

namespace Level

/-- The range check `Level::SegmentExists`, that is `Seq::inRange(Segments, (int)id)`. -/
def SegmentExists (level : Level) (id : SegID) : Prop :=
  0 ≤ id ∧ id < level.Segments.length

instance (level : Level) (id : SegID) : Decidable (level.SegmentExists id) := by
  unfold SegmentExists; infer_instance

/-- The unchecked accessor `Level::GetSegment`; `none` when the index is outside `Segments`. -/
def GetSegment (level : Level) (id : SegID) : Option Segment :=
  if 0 ≤ id then level.Segments[id.toNat]? else none

/-- The checked accessor `Level::TryGetObject`. -/
def TryGetObject (level : Level) (id : ObjID) : Option Object :=
  if id < 0 ∨ id ≥ level.Objects.length then none else level.Objects[id.toNat]?

/-- Every connection of every segment is `SegID::None` or the index of a segment of the level. -/
def ConnectionsValid (level : Level) : Prop :=
  ∀ seg ∈ level.Segments, ∀ side : SideID,
    seg.GetConnection side = SegID.None ∨ level.SegmentExists (seg.GetConnection side)

instance (level : Level) : Decidable level.ConnectionsValid := by
  unfold ConnectionsValid; infer_instance

end Level

/-! ## Potential segment set (`GetPotentialSegments`) -/

/-- The two process-wide scratch buffers `g_VisitedSegs` and `g_VisitedStack`. -/
structure PvsScratch where
  g_VisitedSegs : List SegID
  g_VisitedStack : List SegID
deriving DecidableEq

/-- Value of the side plane moved outward by `radius` along the side normal, at `point`:
`Plane p(side.Center + side.AverageNormal * radius, side.AverageNormal); p.DotCoordinate(point)`. -/
def inflatedPlaneValue (side : SegmentSide) (point : Vector3) (radius : ℚ) : ℚ :=
  (Plane.fromPointNormal (side.Center + side.AverageNormal * radius) side.AverageNormal).DotCoordinate point

/-- Body of the `for (auto& sideId : SideIDs)` loop of `GetPotentialSegments`: the queue after
looking at one side of the segment `seg` dequeued at iteration number `depth`. -/
def pvsVisitSide (seg : Segment) (point : Vector3) (radius : ℚ) (depth : Nat)
    (visited : List SegID) (queue : List SegID) (sideId : SideID) : List SegID :=
  if depth = 0 ∨ inflatedPlaneValue (seg.GetSide sideId) point radius ≤ 0 then
    if seg.GetConnection sideId ≠ SegID.None ∧ ¬ seg.GetConnection sideId ∈ visited then
      queue ++ [seg.GetConnection sideId]
    else queue
  else queue

/-- The `while (!g_VisitedStack.empty())` loop of `GetPotentialSegments`, started at iteration
number `depth` with the given visited set and queue. The counter `int depth` is a natural
number here: it is only compared with zero, and it is not modelled past `INT_MAX`. -/
def GetPotentialSegmentsLoop (level : Level) (point : Vector3) (radius : ℚ) :
    Nat → Nat → List SegID → List SegID → Option PvsScratch
  | 0, _, _, _ => none
  | _ + 1, _, visited, [] => some ⟨visited, []⟩
  | fuel + 1, depth, visited, segId :: rest =>
    match level.GetSegment segId with
    | none => none
    | some seg =>
      GetPotentialSegmentsLoop level point radius fuel (depth + 1) (visited.insert segId)
        (SideIDs.foldl (pvsVisitSide seg point radius depth (visited.insert segId)) rest)

/-- The function `GetPotentialSegments`: clears the visited set, pushes `start` on the shared
queue and floods. Returns the scratch buffers after the call; the result set is `g_VisitedSegs`. -/
def GetPotentialSegments (fuel : Nat) (level : Level) (scratch : PvsScratch) (start : SegID)
    (point : Vector3) (radius : ℚ) : Option PvsScratch :=
  GetPotentialSegmentsLoop level point radius fuel 0 [] (scratch.g_VisitedStack ++ [start])

/-! ## Collision dispatch (`COLLISION_TABLE`, `ObjectCanHitTarget`) -/

/-- The enumeration `CollisionType`. -/
inductive CollisionType
  | None
  | SphereRoom
  | SpherePoly
  | PolySphere
  | SphereSphere
deriving DecidableEq

/-- The two-dimensional array `CollisionTable`, indexed by source and target type. -/
abbrev CollisionTable := ObjectType → ObjectType → CollisionType

/-- The lambda `setEntry` of `InitCollisionTable`: overwrite one cell. -/
def setEntry (table : CollisionTable) (a b : ObjectType) (type : CollisionType) : CollisionTable :=
  fun x y => if x = a ∧ y = b then type else table x y

/-- The function `InitCollisionTable`: the zero-initialised table after the assignments of the
source, in source order. -/
def InitCollisionTable : CollisionTable :=
  let table : CollisionTable := fun _ _ => CollisionType.None
  let table := setEntry table .Player .Wall .SphereRoom
  let table := setEntry table .Player .Robot .SpherePoly
  let table := setEntry table .Player .Wall .SphereSphere
  let table := setEntry table .Player .Powerup .SphereSphere
  let table := setEntry table .Player .Clutter .SpherePoly
  let table := setEntry table .Player .Building .SpherePoly
  let table := setEntry table .Player .Reactor .SpherePoly
  let table := setEntry table .Player .Hostage .SphereSphere
  let table := setEntry table .Player .Marker .SphereSphere
  let table := setEntry table .Powerup .Player .SphereSphere
  let table := setEntry table .Robot .Player .PolySphere
  let table := setEntry table .Robot .Robot .SphereSphere
  let table := setEntry table .Robot .Wall .SphereRoom
  let table := setEntry table .Robot .Building .SpherePoly
  let table := setEntry table .Robot .Reactor .SpherePoly
  let table := setEntry table .Weapon .Weapon .SphereSphere
  let table := setEntry table .Weapon .Robot .SpherePoly
  let table := setEntry table .Weapon .Player .SpherePoly
  let table := setEntry table .Weapon .Clutter .SpherePoly
  let table := setEntry table .Weapon .Building .SpherePoly
  let table := setEntry table .Weapon .Reactor .SpherePoly
  table

/-- The constant `COLLISION_TABLE`. -/
def COLLISION_TABLE : CollisionTable := InitCollisionTable

/-- The constant `Game::MINE_ARM_TIME` (seconds). -/
def MINE_ARM_TIME : ℚ := 2

/-- Object predicates and resource lookups used by the dispatcher whose definitions are outside
the physics sources: `Object::IsAlive`, `WeaponIsMine` and
`Resources::GetRobotInfo(id).IsCompanion`. -/
structure GameEnv where
  IsAlive : Object → Bool
  WeaponIsMine : Int → Bool
  IsCompanion : Int → Bool

/-- The gameplay filter `ObjectCanHitTarget`. -/
def ObjectCanHitTarget (env : GameEnv) (src target : Object) : CollisionType :=
  if env.IsAlive target = false ∧ target.Type_ ≠ ObjectType.Reactor then CollisionType.None
  else if src.Signature = target.Signature then CollisionType.None
  else if (src.Type_ = ObjectType.Player ∧ target.Type_ = ObjectType.Weapon) ∧
      (env.WeaponIsMine target.ID = true ∧ target.Weapon.AliveTime < MINE_ARM_TIME) then
    CollisionType.None
  else if src.Type_ = ObjectType.Weapon then
    if target.Signature ∈ src.Weapon.RecentHits then CollisionType.None
    else
      match target.Type_ with
      | ObjectType.Robot =>
        if env.IsCompanion target.ID = true then CollisionType.None
        else COLLISION_TABLE src.Type_ target.Type_
      | ObjectType.Player =>
        if target.ID > 0 then CollisionType.None
        else if src.Parent = 0 then CollisionType.None
        else if env.WeaponIsMine src.ID = true ∧ src.Weapon.AliveTime < MINE_ARM_TIME then
          CollisionType.None
        else COLLISION_TABLE src.Type_ target.Type_
      | ObjectType.Weapon =>
        if env.WeaponIsMine src.ID = true then CollisionType.None
        else if env.WeaponIsMine target.ID = false then CollisionType.None
        else COLLISION_TABLE src.Type_ target.Type_
      | _ => COLLISION_TABLE src.Type_ target.Type_
  else COLLISION_TABLE src.Type_ target.Type_

/-- The narrow-phase routine that the body of the object loop of `IntersectLevelNew` runs for
one entry of a segment's object list. `CollideObjects` is called only inside the `SpherePoly`
and `PolySphere` arms. -/
inductive NarrowPhase
  | Skipped
  | SpherePoly
  | PolySphere
  | SphereSphere
deriving DecidableEq

/-- Selection made by the body of the object loop of `IntersectLevelNew` for the moving object
`obj` with identifier `oid` and the list entry `entry` of `seg.Objects`: the self test, the
lookup, the child test and the `switch` on `ObjectCanHitTarget`. -/
def IntersectLevelNew_select (env : GameEnv) (level : Level) (obj : Object) (oid : ObjID)
    (entry : ObjID) : NarrowPhase :=
  if oid = entry then NarrowPhase.Skipped
  else
    match level.TryGetObject entry with
    | none => NarrowPhase.Skipped
    | some other =>
      if oid = other.Parent then NarrowPhase.Skipped
      else
        match ObjectCanHitTarget env obj other with
        | CollisionType.None => NarrowPhase.Skipped
        | CollisionType.SphereRoom => NarrowPhase.Skipped
        | CollisionType.SpherePoly => NarrowPhase.SpherePoly
        | CollisionType.PolySphere => NarrowPhase.PolySphere
        | CollisionType.SphereSphere => NarrowPhase.SphereSphere

/-! ## Forces (`ApplyForce`, `ApplyRotation`) -/

/-- Routines of DirectX SimpleMath used by the force code, and the constant `XM_2PI`:
`Vector3::Length`, `Matrix3x3::Forward`, `Quaternion::FromToRotation(a, b).ToEuler()` and
`Vector3::Transform`. -/
structure MathEnv where
  Length : Vector3 → ℚ
  XM_2PI : ℚ
  Forward : Matrix3x3 → Vector3
  FromToRotationEuler : Vector3 → Vector3 → Vector3
  Transform : Vector3 → Matrix3x3 → Vector3

/-- An object after a call, together with the divisors of the floating point divisions the
call executed, in execution order. -/
structure Forced where
  obj : Object
  divisors : List ℚ
deriving DecidableEq

/-- The function `ApplyForce`. -/
def ApplyForce (obj : Object) (force : Vector3) : Forced :=
  if obj.Movement ≠ MovementType.Physics then ⟨obj, []⟩
  else if obj.Physics.Mass = 0 then ⟨obj, []⟩
  else
    ⟨{ obj with Physics := { obj.Physics with
        Velocity := obj.Physics.Velocity + force / obj.Physics.Mass } },
     [obj.Physics.Mass]⟩

/-- The function `TurnTowardsVector`. -/
def TurnTowardsVector (m : MathEnv) (obj : Object) (towards : Vector3) (rate : ℚ) : Forced :=
  if towards = Vector3.Zero then ⟨obj, []⟩
  else
    ⟨{ obj with Physics := { obj.Physics with
        AngularVelocity :=
          m.Transform (m.FromToRotationEuler (m.Forward obj.Rotation) towards / rate / m.XM_2PI)
            obj.Rotation } },
     [rate, m.XM_2PI]⟩

/-- The function `ApplyRotation`. -/
def ApplyRotation (m : MathEnv) (obj : Object) (force : Vector3) : Forced :=
  if obj.Movement ≠ MovementType.Physics ∨ obj.Physics.Mass ≤ 0 then ⟨obj, []⟩
  else if m.Length force = 0 then ⟨obj, []⟩
  else
    let vecmag := m.Length force / 8
    let rate := obj.Physics.Mass / vecmag
    let rate :=
      if obj.Type_ = ObjectType.Robot then (if rate < 1 / 4 then 1 / 4 else rate)
      else (if rate < 1 / 2 then 1 / 2 else rate)
    let turned := TurnTowardsVector m obj force rate
    ⟨turned.obj, [8, vecmag] ++ turned.divisors⟩

/-! ## Level ray caster (`IntersectRayLevel`) -/

/-- The in/out record `LevelHit`. -/
structure LevelHit where
  Distance : ℚ
  Point : Vector3
  Normal : Vector3
  Tangent : Vector3
  WallPoint : Vector3
  Tag : Tag
  EdgeDistance : ℚ
  Speed : ℚ
  Tri : Int
  HitObj : Option ObjID
deriving DecidableEq

/-- Geometry and wall queries used by the ray caster whose definitions are outside the physics
sources. `FaceIntersects` is `Face::FromSide(level, seg, side).Intersects(ray, dist)` and returns
the triangle index (`-1` for no intersection) and `dist`. -/
structure RayEnv where
  FaceIntersects : Level → Segment → SideID → Ray → Int × ℚ
  SideIsWall : Segment → SideID → Bool
  WallIsTransparent : Level → Tag → Bool
  WallPointIsTransparent : Level → Segment → SideID → Vector3 → Int → Bool
  SideIsSolid : Segment → SideID → Level → Bool
  FaceAverageNormal : Level → Segment → SideID → Vector3
  SideTangent : Level → Segment → SideID → Int → Vector3
  FaceEdgeDistance : Level → Segment → SideID → Vector3 → ℚ

/-- The value of the local `isSolid` of `IntersectRayLevel` for the side struck at `intersect`. -/
def rayIsSolid (env : RayEnv) (level : Level) (segId : SegID) (seg : Segment) (side : SideID)
    (passTransparent hitTestTextures : Bool) (intersect : Vector3) (tri : Int) : Bool :=
  if env.SideIsWall seg side = true ∧ env.WallIsTransparent level ⟨segId, some side⟩ = true then
    if passTransparent = true then false
    else if hitTestTextures = true then
      !env.WallPointIsTransparent level seg side intersect tri
    else false
  else env.SideIsSolid seg side level

/-- How the `for (auto& side : SideIDs)` loop of `IntersectRayLevel` ended in one segment. -/
inductive SideScan
  | returned (result : Bool) (hit : LevelHit) (side : SideID)
  | broke (hit : LevelHit) (next : SegID) (side : SideID)
  | finished
deriving DecidableEq

/-- The `for (auto& side : SideIDs)` loop of `IntersectRayLevel` over the remaining sides. -/
def rayScanSides (env : RayEnv) (level : Level) (ray : Ray) (maxDist : ℚ)
    (passTransparent hitTestTextures : Bool) (segId : SegID) (seg : Segment)
    (visitedSegs : List SegID) (hit : LevelHit) : List SideID → SideScan
  | [] => SideScan.finished
  | side :: rest =>
    if (env.FaceIntersects level seg side ray).1 ≠ -1 ∧
        (env.FaceIntersects level seg side ray).2 < hit.Distance then
      if (env.FaceIntersects level seg side ray).2 > maxDist then
        SideScan.returned false hit side
      else
        let dist := (env.FaceIntersects level seg side ray).2
        let tri := (env.FaceIntersects level seg side ray).1
        let intersect := ray.position + ray.direction * dist
        if rayIsSolid env level segId seg side passTransparent hitTestTextures intersect tri
            = true then
          SideScan.returned true
            { hit with
              Tag := ⟨segId, some side⟩
              Distance := dist
              Normal := env.FaceAverageNormal level seg side
              Tangent := env.SideTangent level seg side tri
              WallPoint := ray.position + ray.direction * dist
              Point := ray.position + ray.direction * dist
              EdgeDistance :=
                env.FaceEdgeDistance level seg side (ray.position + ray.direction * dist) }
            side
        else
          SideScan.broke { hit with Point := intersect }
            (if seg.GetConnection side ∈ visitedSegs then SegID.None else seg.GetConnection side)
            side
    else
      rayScanSides env level ray maxDist passTransparent hitTestTextures segId seg visitedSegs
        hit rest

/-- Result of `IntersectRayLevel`: the returned flag and the `hit` record, and two ghost
traces: the segments entered by the `while` loop, in order, and for each of them the side the
side loop acted on (returned at or broke at), if any. -/
structure RayResult where
  result : Bool
  hit : LevelHit
  walked : List SegID
  acted : List (SegID × SideID)
deriving DecidableEq

/-- The `while (next > SegID::None)` loop of `IntersectRayLevel`. -/
def IntersectRayLevelLoop (env : RayEnv) (level : Level) (ray : Ray) (maxDist : ℚ)
    (passTransparent hitTestTextures : Bool) :
    Nat → SegID → List SegID → List SegID → List (SegID × SideID) → LevelHit → Option RayResult
  | 0, _, _, _, _, _ => none
  | fuel + 1, next, visitedSegs, walked, acted, hit =>
    if next > SegID.None then
      match level.GetSegment next with
      | none => none
      | some seg =>
        match rayScanSides env level ray maxDist passTransparent hitTestTextures next seg
            (visitedSegs.insert next) hit SideIDs with
        | SideScan.returned result hit1 side =>
          some ⟨result, hit1, walked ++ [next], acted ++ [(next, side)]⟩
        | SideScan.broke hit1 next1 side =>
          IntersectRayLevelLoop env level ray maxDist passTransparent hitTestTextures fuel next1
            (visitedSegs.insert next) (walked ++ [next]) (acted ++ [(next, side)]) hit1
        | SideScan.finished =>
          IntersectRayLevelLoop env level ray maxDist passTransparent hitTestTextures fuel
            SegID.None (visitedSegs.insert next) (walked ++ [next]) acted hit
    else some ⟨false, hit, walked, acted⟩

/-- The function `IntersectRayLevel`. -/
def IntersectRayLevel (fuel : Nat) (env : RayEnv) (level : Level) (ray : Ray) (start : SegID)
    (maxDist : ℚ) (passTransparent hitTestTextures : Bool) (hit : LevelHit) : Option RayResult :=
  if start = SegID.None then some ⟨false, hit, [], []⟩
  else if maxDist ≤ 1 / 100 then some ⟨false, hit, [], []⟩
  else
    IntersectRayLevelLoop env level ray maxDist passTransparent hitTestTextures fuel start
      [] [] [] hit

/-! ## Specification predicates and proof measures -/

/-- The chain relation of the soundness property of the potential segment set: `t` is reached
from `start` by crossing, segment after segment, a side whose connection is a segment and whose
plane, moved outward by `radius`, has `point` behind or on it. -/
inductive PvsChain (level : Level) (point : Vector3) (radius : ℚ) (start : SegID) : SegID → Prop
  | start : PvsChain level point radius start start
  | cross (s : SegID) (seg : Segment) (side : SideID) :
      PvsChain level point radius start s →
      level.GetSegment s = some seg →
      inflatedPlaneValue (seg.GetSide side) point radius ≤ 0 →
      seg.GetConnection side ≠ SegID.None →
      PvsChain level point radius start (seg.GetConnection side)

/-- Number of segments of a level with `n` segments that are not in `visited`. -/
def pvsUnvisited (n : Nat) (visited : List SegID) : Nat :=
  ((Finset.range n).filter (fun i : Nat => (i : Int) ∉ visited)).card

/-- Weight of a work queue relative to a visited set: a visited entry counts 7, an unvisited one 1. -/
def pvsWeight (visited : List SegID) (queue : List SegID) : Nat :=
  (queue.map (fun s => if s ∈ visited then 7 else 1)).sum

/-- The closure invariant of the flood: every qualifying connection of a visited segment is
visited or queued. -/
def pvsClosed (level : Level) (point : Vector3) (radius : ℚ) (visited queue : List SegID) : Prop :=
  ∀ s ∈ visited, ∀ seg, level.GetSegment s = some seg → ∀ side : SideID,
    inflatedPlaneValue (seg.GetSide side) point radius ≤ 0 →
    seg.GetConnection side ≠ SegID.None →
    seg.GetConnection side ∈ visited ∨ seg.GetConnection side ∈ queue

/-- The test of the side loop of `IntersectRayLevel`: the face of `side` is intersected by the
ray (`tri != -1`) at a distance below `bound`. -/
def rayStruck (env : RayEnv) (level : Level) (seg : Segment) (ray : Ray) (side : SideID)
    (bound : ℚ) : Prop :=
  (env.FaceIntersects level seg side ray).1 ≠ -1 ∧ (env.FaceIntersects level seg side ray).2 < bound

/-! ## Sample data for the witnesses and counterexamples -/

/-- A side at the origin facing `+z`. -/
def sampleSide : SegmentSide := { Center := ⟨0, 0, 0⟩, AverageNormal := ⟨0, 0, 1⟩ }

/-- A segment with the given six connections, all sides equal to `sampleSide`, and no objects. -/
def sampleSegment (c0 c1 c2 c3 c4 c5 : SegID) : Segment :=
  { Connections := fun i => [c0, c1, c2, c3, c4, c5].getD i.val SegID.None
    Sides := fun _ => sampleSide
    Objects := [] }

/-- A level of three segments: segment 0 is connected to segment 1 and back to itself, segment 1
to segments 0 and 2 (twice), segment 2 to segment 1. -/
def sampleLevel : Level :=
  { Segments :=
      [sampleSegment 1 0 (-1) (-1) (-1) (-1),
       sampleSegment 0 2 2 (-1) (-1) (-1),
       sampleSegment 1 (-1) (-1) (-1) (-1) (-1)]
    Objects := [] }

/-- A `LevelHit` as a caller passes it in: nothing hit yet, `Distance` at `FLT_MAX`. -/
def sampleHit : LevelHit :=
  { Distance := 340282346638528859811704183484516925440
    Point := Vector3.Zero
    Normal := Vector3.Zero
    Tangent := Vector3.Zero
    WallPoint := Vector3.Zero
    Tag := ⟨SegID.None, none⟩
    EdgeDistance := 0
    Speed := 0
    Tri := -1
    HitObj := none }

/-- A ray from the origin along `+x`. -/
def sampleRay : Ray := { position := ⟨0, 0, 0⟩, direction := ⟨1, 0, 0⟩ }

/-- Ray environment in which, in every segment, the ray meets side 1 at distance 1 and no other
side, and every side is an open connection without a wall. -/
def openRayEnv : RayEnv :=
  { FaceIntersects := fun _ _ side _ => if side = 1 then (0, 1) else (-1, 0)
    SideIsWall := fun _ _ => false
    WallIsTransparent := fun _ _ => false
    WallPointIsTransparent := fun _ _ _ _ _ => false
    SideIsSolid := fun _ _ _ => false
    FaceAverageNormal := fun _ _ _ => Vector3.Zero
    SideTangent := fun _ _ _ _ => Vector3.Zero
    FaceEdgeDistance := fun _ _ _ _ => 0 }

/-- Ray environment in which the ray meets side 0 at distance 5 and side 1 at distance 2, in a
segment whose sides are all solid. -/
def twoHitRayEnv : RayEnv :=
  { FaceIntersects := fun _ _ side _ =>
      if side = 0 then (0, 5) else if side = 1 then (0, 2) else (-1, 0)
    SideIsWall := fun _ _ => false
    WallIsTransparent := fun _ _ => false
    WallPointIsTransparent := fun _ _ _ _ _ => false
    SideIsSolid := fun _ _ _ => true
    FaceAverageNormal := fun _ _ _ => Vector3.Zero
    SideTangent := fun _ _ _ _ => Vector3.Zero
    FaceEdgeDistance := fun _ _ _ _ => 0 }

/-- Ray environment in which the ray meets side 0 at distance 1 in every segment, and every side
holds a closed transparent wall whose texels are all opaque. -/
def transparentWallRayEnv : RayEnv :=
  { FaceIntersects := fun _ _ side _ => if side = 0 then (0, 1) else (-1, 0)
    SideIsWall := fun _ _ => true
    WallIsTransparent := fun _ _ => true
    WallPointIsTransparent := fun _ _ _ _ _ => false
    SideIsSolid := fun _ _ _ => true
    FaceAverageNormal := fun _ _ _ => Vector3.Zero
    SideTangent := fun _ _ _ _ => Vector3.Zero
    FaceEdgeDistance := fun _ _ _ _ => 0 }

/-- A robot of mass 4 and radius 2 at rest at the origin, driven by physics. -/
def sampleObject : Object :=
  { Signature := 1
    Type_ := ObjectType.Robot
    ID := 0
    Parent := ObjID.None
    Segment := 0
    Movement := MovementType.Physics
    Position := Vector3.Zero
    PrevPosition := Vector3.Zero
    Rotation := ⟨⟨1, 0, 0⟩, ⟨0, 1, 0⟩, ⟨0, 0, 1⟩⟩
    Radius := 2
    HitPoints := 10
    Lifespan := 1
    Physics :=
      { Velocity := Vector3.Zero
        PrevVelocity := Vector3.Zero
        AngularVelocity := Vector3.Zero
        AngularAcceleration := Vector3.Zero
        Thrust := Vector3.Zero
        AngularThrust := Vector3.Zero
        Drag := 0
        Mass := 4
        TurnRoll := 0
        Wiggle := 0
        Bounces := 0
        Flags := ⟨false, false, false, false, false⟩ }
    Weapon := { AliveTime := 0, RecentHits := [], SineMovement := false }
    LastHitForce := Vector3.Zero }

/-- The object `sampleObject` with mass `-2`. -/
def negativeMassObject : Object :=
  { sampleObject with Physics := { sampleObject.Physics with Mass := -2 } }

/-- A piercing weapon (signature 7) that has already hit the object of signature 1. -/
def samplePiercingWeapon : Object :=
  { sampleObject with
    Signature := 7
    Type_ := ObjectType.Weapon
    Physics := { sampleObject.Physics with Flags := ⟨false, false, false, true, false⟩ }
    Weapon := { AliveTime := 3, RecentHits := [1], SineMovement := false } }

/-- A weapon (signature 8) that has not hit anything yet. -/
def sampleWeapon : Object :=
  { sampleObject with Signature := 8, Type_ := ObjectType.Weapon }

/-- A reactor (signature 9) whose hit points are used up. -/
def deadReactor : Object :=
  { sampleObject with Signature := 9, Type_ := ObjectType.Reactor, HitPoints := -1 }

/-- A robot (signature 2) whose hit points are used up. -/
def deadRobot : Object :=
  { sampleObject with Signature := 2, HitPoints := -1 }

/-- A game environment: an object is alive while its hit points and lifespan are not negative;
no weapon is a mine and no robot is a companion. -/
def sampleGameEnv : GameEnv :=
  { IsAlive := fun o => decide (0 ≤ o.HitPoints ∧ 0 ≤ o.Lifespan)
    WeaponIsMine := fun _ => false
    IsCompanion := fun _ => false }

/-- A math environment with the taxicab norm standing in for `Vector3::Length`. -/
def sampleMathEnv : MathEnv :=
  { Length := fun v => |v.x| + |v.y| + |v.z|
    XM_2PI := 6
    Forward := fun m => m.Backward
    FromToRotationEuler := fun a b => b - a
    Transform := fun v _ => v }

/-! ## Two-body response (`CollideObjects`) -/

/-- What `CollideObjects` uses from outside the physics sources: the matrix routine
`Vector3::Transform(v, Matrix(rotation).Invert())` of DirectX SimpleMath, and `DivideByZero v`,
the value that the float division `v / 0.0f` leaves. Its components are infinities or NaN, which
no rational vector equals, so nothing is known about it. -/
structure CollideEnv where
  TransformInverse : Vector3 → Matrix3x3 → Vector3
  DivideByZero : Vector3 → Vector3

/-- The two objects after `CollideObjects`, together with the divisors of the floating point
divisions the call executed, in execution order. -/
structure Collided where
  a : Object
  b : Object
  divisors : List ℚ
deriving DecidableEq

/-- The constant `RESITUTION` of `CollideObjects`. -/
def RESITUTION : ℚ := 1 / 2

/-- The locals `m1` and `m2` of `CollideObjects`: the mass of an object, with a mass of zero
replaced by one. -/
def collideMass (o : Object) : ℚ :=
  if o.Physics.Mass = 0 then 1 else o.Physics.Mass

/-- The local `force` of `CollideObjects`: `-hit.Normal * hit.Speed * m1 / m2`. -/
def collideForce (hit : LevelHit) (a b : Object) : Vector3 :=
  (-hit.Normal) * hit.Speed * collideMass a / collideMass b

/-- The local `inertia` of `CollideObjects`: `(2.0f / 5.0f) * m2 * b.Radius * b.Radius`. -/
def collideInertia (b : Object) : ℚ :=
  2 / 5 * collideMass b * b.Radius * b.Radius

/-- The function `CollideObjects` (the unused parameter `dt` is left out). The division
`torque / inertia` is the rational quotient for a non-zero `inertia`; for `inertia = 0`, that is
for a robot of radius zero, the local `accel` is the unknown `env.DivideByZero torque`. -/
def CollideObjects (env : CollideEnv) (hit : LevelHit) (a b : Object) : Collided :=
  if hit.Speed ≤ 1 / 10 then ⟨a, b, []⟩
  else if b.Type_ = ObjectType.Powerup ∨ b.Type_ = ObjectType.Marker then ⟨a, b, []⟩
  else
    let force := collideForce hit a b
    let a1 : Object := { a with LastHitForce := force * RESITUTION }
    let b1 : Object :=
      { b with
        Physics := { b.Physics with Velocity := b.Physics.Velocity + force * RESITUTION }
        LastHitForce := force * RESITUTION }
    if b.Type_ = ObjectType.Robot then
      let torque :=
        (env.TransformInverse force b.Rotation).Cross
          (env.TransformInverse (hit.Point - b.Position) b.Rotation)
      let accel :=
        if collideInertia b = 0 then env.DivideByZero torque else torque / collideInertia b
      ⟨a1,
       { b1 with Physics := { b1.Physics with
          AngularAcceleration := b1.Physics.AngularAcceleration + accel } },
       [collideMass b, collideInertia b]⟩
    else ⟨a1, b1, [collideMass b]⟩

/-! ## Sample data for the two-body response and the mine rules -/

/-- Collision environment for objects with the identity rotation: the inverse rotation leaves
a vector as it is. The stand-in for a division by zero is never read by a sample result. -/
def sampleCollideEnv : CollideEnv :=
  { TransformInverse := fun v _ => v
    DivideByZero := fun _ => ⟨1, 1, 1⟩ }

/-- A hit with `Speed = 10` along the normal `(0, 0, 1)`, at the point `(1, 0, 0)`. -/
def sampleSpeedHit : LevelHit :=
  { sampleHit with Speed := 10, Normal := ⟨0, 0, 1⟩, Point := ⟨1, 0, 0⟩ }

/-- A second robot (signature 2) with the mass and radius of `sampleObject`. -/
def sampleRobotB : Object := { sampleObject with Signature := 2 }

/-- A powerup (signature 3). -/
def samplePowerup : Object := { sampleObject with Signature := 3, Type_ := ObjectType.Powerup }

/-- A robot (signature 4) of radius zero. -/
def zeroRadiusRobot : Object := { sampleObject with Signature := 4, Radius := 0 }

/-- A mine (signature 5) that has been alive for one second. -/
def sampleMine : Object :=
  { sampleObject with
    Signature := 5
    Type_ := ObjectType.Weapon
    ID := 16
    Weapon := { AliveTime := 1, RecentHits := [], SineMovement := false } }

/-- The player object (signature 6, player number 0). -/
def samplePlayer : Object := { sampleObject with Signature := 6, Type_ := ObjectType.Player }

/-- A second mine (signature 15), armed. -/
def armedMine : Object :=
  { sampleMine with
    Signature := 15
    Weapon := { AliveTime := 3, RecentHits := [], SineMovement := false } }

/-- A game environment in which the weapon with identifier 16 is a mine. -/
def mineGameEnv : GameEnv :=
  { IsAlive := fun o => decide (0 ≤ o.HitPoints ∧ 0 ≤ o.Lifespan)
    WeaponIsMine := fun id => decide (id = 16)
    IsCompanion := fun _ => false }

/-! ## Explosions (`CreateExplosion`) -/

/-- The fields of `GameExplosion` read by `CreateExplosion`. -/
structure GameExplosion where
  Position : Vector3
  Segment : SegID
  Radius : ℚ
  Damage : ℚ
  Force : ℚ
deriving DecidableEq

/-- What `CreateExplosion` uses from outside the physics sources: the game, ray and math
environments, `Vector3::Distance`, `Vector3::Normalize`, `Object::ApplyDamage`,
`Object::IsPlayer`, the setting `Settings::Cheats.DisableWeaponDamage`, the three mine
identifiers of `WeaponID`, and the default-constructed `LevelHit`. -/
structure ExplosionEnv where
  game : GameEnv
  ray : RayEnv
  math : MathEnv
  Distance : Vector3 → Vector3 → ℚ
  Normalize : Vector3 → Vector3
  ApplyDamage : Object → ℚ → Object
  IsPlayer : Object → Bool
  DisableWeaponDamage : Bool
  ProxMine : Int
  SmartMine : Int
  LevelMine : Int
  DefaultHit : LevelHit

/-- Ghost record of one object that `CreateExplosion` affected: its index in `level.Objects`,
the object before and after, the locals `dist` (after the radius adjustment and the clamp at
zero), `damage`, `force` and `forceVec`, whether `ApplyDamage(damage)` was called, and the
divisors of the divisions executed for it. -/
structure ExplosionEffect where
  index : Nat
  before : Object
  after : Object
  dist : ℚ
  damage : ℚ
  force : ℚ
  forceVec : Vector3
  damaged : Bool
  divisors : List ℚ
deriving DecidableEq

/-- The local `dist` of `CreateExplosion` before the range test: the distance of the object
from the explosion, less the object radius unless the object is a `Player` or `Coop`. -/
def explosionDistance (env : ExplosionEnv) (explosion : GameExplosion) (obj : Object) : ℚ :=
  if obj.Type_ ≠ ObjectType.Player ∧ obj.Type_ ≠ ObjectType.Coop then
    env.Distance obj.Position explosion.Position - obj.Radius
  else env.Distance obj.Position explosion.Position

/-- The `switch (obj.Type)` of `CreateExplosion`: the object after the type-specific effects,
whether `ApplyDamage` was called, and the divisors used; `none` when the `default` branch
throws. `sourceIsPlayer` is the value of `source && source->IsPlayer()`. -/
def explosionApply (env : ExplosionEnv) (sourceIsPlayer : Bool) (obj : Object) (damage : ℚ)
    (forceVec : Vector3) : Option (Object × Bool × List ℚ) :=
  match obj.Type_ with
  | ObjectType.Weapon =>
    some ((ApplyForce obj forceVec).obj, false, (ApplyForce obj forceVec).divisors)
  | ObjectType.Robot =>
    let forced := ApplyForce obj forceVec
    let damagedObj :=
      if env.DisableWeaponDamage = false then env.ApplyDamage forced.obj damage else forced.obj
    let rotated := ApplyRotation env.math { damagedObj with LastHitForce := forceVec } forceVec
    some (rotated.obj, !env.DisableWeaponDamage, forced.divisors ++ rotated.divisors)
  | ObjectType.Reactor =>
    if env.DisableWeaponDamage = false ∧ sourceIsPlayer = true then
      some (env.ApplyDamage obj damage, true, [])
    else some (obj, false, [])
  | ObjectType.Player =>
    some ((ApplyForce obj forceVec).obj, false, (ApplyForce obj forceVec).divisors)
  | _ => none

/-- Outcome of the body of the object loop of `CreateExplosion` for one object. -/
inductive ExplosionStep
  | skipped
  | thrown
  | applied (effect : ExplosionEffect)
deriving DecidableEq

/-- The value of `source && source->IsPlayer()` in `CreateExplosion`. The pointer `source` is
`none` for `nullptr` and otherwise the index of an object of the level; the result is `none`
when the index is outside `level.Objects`. -/
def explosionSourceIsPlayer (env : ExplosionEnv) (level : Level) (source : Option Nat) :
    Option Bool :=
  match source with
  | none => some false
  | some s => (level.Objects[s]?).map env.IsPlayer

/-- The body of the `for (auto& obj : level.Objects)` loop of `CreateExplosion` for the object
`obj` at position `index`. The result is `none` when the line-of-sight ray cast does not
complete or `source` does not point into `level.Objects`. -/
def CreateExplosion_object (fuel : Nat) (env : ExplosionEnv) (level : Level)
    (source : Option Nat) (explosion : GameExplosion) (index : Nat) (obj : Object) :
    Option ExplosionStep :=
  if source = some index then some ExplosionStep.skipped
  else if env.game.IsAlive obj = false then some ExplosionStep.skipped
  else if obj.Type_ = ObjectType.Weapon ∧
      (obj.ID ≠ env.ProxMine ∧ obj.ID ≠ env.SmartMine ∧ obj.ID ≠ env.LevelMine) then
    some ExplosionStep.skipped
  else if obj.Type_ ≠ ObjectType.Player ∧ obj.Type_ ≠ ObjectType.Robot ∧
      obj.Type_ ≠ ObjectType.Weapon ∧ obj.Type_ ≠ ObjectType.Reactor then
    some ExplosionStep.skipped
  else if explosionDistance env explosion obj ≥ explosion.Radius then some ExplosionStep.skipped
  else
    match IntersectRayLevel fuel env.ray level
        ⟨explosion.Position, env.Normalize (obj.Position - explosion.Position)⟩
        explosion.Segment (max (explosionDistance env explosion obj) 0) true true
        env.DefaultHit with
    | none => none
    | some cast =>
      if cast.result = true then some ExplosionStep.skipped
      else
        match explosionSourceIsPlayer env level source with
        | none => none
        | some isPlayer =>
          let dist := max (explosionDistance env explosion obj) 0
          let damage := explosion.Damage - dist * explosion.Damage / explosion.Radius
          let force := explosion.Force - dist * explosion.Force / explosion.Radius
          let forceVec := env.Normalize (obj.Position - explosion.Position) * force
          match explosionApply env isPlayer obj damage forceVec with
          | none => some ExplosionStep.thrown
          | some (after, damaged, divisors) =>
            some (ExplosionStep.applied
              ⟨index, obj, after, dist, damage, force, forceVec, damaged,
                [explosion.Radius, explosion.Radius] ++ divisors⟩)

/-- Result of `CreateExplosion`: whether the exception of the `default` branch was thrown, the
level after the call, and the ghost records of the affected objects in loop order. -/
structure ExplosionResult where
  thrown : Bool
  level : Level
  effects : List ExplosionEffect

/-- The object loop of `CreateExplosion` over the `count` objects from position `index` on. -/
def CreateExplosionFrom (fuel : Nat) (env : ExplosionEnv) (source : Option Nat)
    (explosion : GameExplosion) :
    Nat → Nat → Level → List ExplosionEffect → Option ExplosionResult
  | 0, _, level, effects => some ⟨false, level, effects⟩
  | count + 1, index, level, effects =>
    match level.Objects[index]? with
    | none => none
    | some obj =>
      match CreateExplosion_object fuel env level source explosion index obj with
      | none => none
      | some ExplosionStep.skipped =>
        CreateExplosionFrom fuel env source explosion count (index + 1) level effects
      | some ExplosionStep.thrown => some ⟨true, level, effects⟩
      | some (ExplosionStep.applied effect) =>
        CreateExplosionFrom fuel env source explosion count (index + 1)
          { level with Objects := level.Objects.set index effect.after } (effects ++ [effect])

/-- The function `CreateExplosion`; `fuel` bounds each line-of-sight ray cast. -/
def CreateExplosion (fuel : Nat) (env : ExplosionEnv) (level : Level) (source : Option Nat)
    (explosion : GameExplosion) : Option ExplosionResult :=
  CreateExplosionFrom fuel env source explosion level.Objects.length 0 level []

/-! ## Sample data for the explosion scenario -/

/-- Explosion environment for objects displaced from the explosion along one coordinate axis,
where the sum of the absolute coordinates is the Euclidean length: `Distance` and `Normalize`
use that sum; rays see no wall (`openRayEnv`); damage is subtracted from the hit points. -/
def sampleExplosionEnv : ExplosionEnv :=
  { game := sampleGameEnv
    ray := openRayEnv
    math := sampleMathEnv
    Distance := fun a b => |a.x - b.x| + |a.y - b.y| + |a.z - b.z|
    Normalize := fun v => v / (|v.x| + |v.y| + |v.z|)
    ApplyDamage := fun o d => { o with HitPoints := o.HitPoints - d }
    IsPlayer := fun o => decide (o.Type_ = ObjectType.Player)
    DisableWeaponDamage := false
    ProxMine := 16
    SmartMine := 17
    LevelMine := 18
    DefaultHit := sampleHit }

/-- The explosion of the scenario: radius 40, damage 40, force 20, at the origin in segment 0. -/
def sampleExplosion : GameExplosion :=
  { Position := ⟨0, 0, 0⟩, Segment := 0, Radius := 40, Damage := 40, Force := 20 }

/-- The robot `sampleObject` (radius 2, mass 4, 100 hit points) placed at distance `x` from
the origin on the x axis. -/
def robotAt (x : ℚ) : Object :=
  { sampleObject with Position := ⟨x, 0, 0⟩, HitPoints := 100 }

/-- The level `sampleLevel` with the given objects. -/
def levelWith (objects : List Object) : Level := { sampleLevel with Objects := objects }

/-! ## Geometry primitives used by the narrow phase -/

/-- The constant `FLT_MAX`. -/
def FLT_MAX : ℚ := 340282346638528859811704183484516925440

/-- Geometry routines used by the narrow phase whose definitions are outside the physics
sources: `Vector3::Length`, `Vector3::Normalize`, `Vector3::Distance`, the three-point
constructor of `Plane`, `ProjectPointOntoPlane`, `TriangleContainsPoint`,
`ClosestPointOnTriangle2` (closest point, its distance and the edge index) and
`Ray::Intersects` for a triangle (the distance when the ray meets the triangle). -/
structure GeomEnv where
  Length : Vector3 → ℚ
  Normalize : Vector3 → Vector3
  Distance : Vector3 → Vector3 → ℚ
  PlaneFromPoints : Vector3 → Vector3 → Vector3 → Plane
  ProjectPointOntoPlane : Vector3 → Plane → Vector3
  TriangleContainsPoint : Vector3 → Vector3 → Vector3 → Vector3 → Bool
  ClosestPointOnTriangle2 : Vector3 → Vector3 → Vector3 → Vector3 → Vector3 × ℚ × Int
  RayIntersectsTriangle : Ray → Vector3 → Vector3 → Vector3 → Option ℚ

/-! ## Sample geometry over the rationals -/

/-- Newton iteration for the integer square root of `n` from the estimate `x`, at most `fuel`
steps. -/
def sampleSqrtIter : Nat → Nat → Nat → Nat
  | 0, _, x => x
  | fuel + 1, n, x =>
    if (x + n / x) / 2 < x then sampleSqrtIter fuel n ((x + n / x) / 2) else x

/-- Integer square root, rounded down, for numbers below `2 ^ 128`. -/
def sampleSqrtNat (n : Nat) : Nat := if n ≤ 1 then n else sampleSqrtIter 256 n n

/-- Square root of a rational whose numerator and denominator are perfect squares (and a
rounded-down quotient of integer square roots otherwise). -/
def sampleSqrt (q : ℚ) : ℚ := (sampleSqrtNat q.num.natAbs : ℚ) / (sampleSqrtNat q.den : ℚ)

/-- Closest point to `p` on the triangle `a b c`, by the Voronoi regions of the triangle, and
the index of the edge it lies on (0 for `a b`, 1 for `b c`, 2 for `c a`; 0 inside the face). -/
def sampleClosestPoint (a b c p : Vector3) : Vector3 × Int :=
  let ab := b - a
  let ac := c - a
  let ap := p - a
  let d1 := ab.Dot ap
  let d2 := ac.Dot ap
  if d1 ≤ 0 ∧ d2 ≤ 0 then (a, 0)
  else
    let bp := p - b
    let d3 := ab.Dot bp
    let d4 := ac.Dot bp
    if d3 ≥ 0 ∧ d4 ≤ d3 then (b, 0)
    else
      let vc := d1 * d4 - d3 * d2
      if vc ≤ 0 ∧ d1 ≥ 0 ∧ d3 ≤ 0 then (a + ab * (d1 / (d1 - d3)), 0)
      else
        let cp := p - c
        let d5 := ab.Dot cp
        let d6 := ac.Dot cp
        if d6 ≥ 0 ∧ d5 ≤ d6 then (c, 2)
        else
          let vb := d5 * d2 - d1 * d6
          if vb ≤ 0 ∧ d2 ≥ 0 ∧ d6 ≤ 0 then (a + ac * (d2 / (d2 - d6)), 2)
          else
            let va := d3 * d6 - d5 * d4
            if va ≤ 0 ∧ d4 - d3 ≥ 0 ∧ d5 - d6 ≥ 0 then
              (b + (c - b) * ((d4 - d3) / ((d4 - d3) + (d5 - d6))), 1)
            else
              (a + ab * (vb / (va + vb + vc)) + ac * (vc / (va + vb + vc)), 0)

/-- Exact geometry over the rationals, for configurations whose lengths are rational: lengths
by `sampleSqrt`, the plane through three points with the normalised normal
`(p0 - p1) x (p0 - p2)`, orthogonal projection onto a plane, the same-side test for a point in
the plane of a triangle, the closest point on a triangle, and the ray/triangle intersection by
the edge-vector method (front and back faces). -/
def sampleGeomEnv : GeomEnv :=
  { Length := fun v => sampleSqrt (v.Dot v)
    Normalize := fun v => if sampleSqrt (v.Dot v) = 0 then v else v / sampleSqrt (v.Dot v)
    Distance := fun a b => sampleSqrt ((a - b).Dot (a - b))
    PlaneFromPoints := fun p0 p1 p2 =>
      let c := (p0 - p1).Cross (p0 - p2)
      let n := if sampleSqrt (c.Dot c) = 0 then c else c / sampleSqrt (c.Dot c)
      ⟨n, -(n.Dot p0)⟩
    ProjectPointOntoPlane := fun p plane => p - plane.normal * plane.DotCoordinate p
    TriangleContainsPoint := fun p0 p1 p2 pt =>
      let n := (p1 - p0).Cross (p2 - p0)
      decide (0 ≤ ((p1 - p0).Cross (pt - p0)).Dot n ∧ 0 ≤ ((p2 - p1).Cross (pt - p1)).Dot n ∧
        0 ≤ ((p0 - p2).Cross (pt - p2)).Dot n)
    ClosestPointOnTriangle2 := fun p0 p1 p2 pt =>
      let cp := sampleClosestPoint p0 p1 p2 pt
      (cp.1, sampleSqrt ((pt - cp.1).Dot (pt - cp.1)), cp.2)
    RayIntersectsTriangle := fun ray p0 p1 p2 =>
      let e1 := p1 - p0
      let e2 := p2 - p0
      let h := ray.direction.Cross e2
      let det := e1.Dot h
      if det = 0 then none
      else
        let s := ray.position - p0
        let u := s.Dot h / det
        let q := s.Cross e1
        let v := ray.direction.Dot q / det
        let t := e2.Dot q / det
        if 0 ≤ u ∧ 0 ≤ v ∧ u + v ≤ 1 ∧ 0 ≤ t then some t else none }

/-! ## Linear physics and the sphere against the level mesh (`IntersectLevelMesh`) -/

/-- The constant `Game::TICK_RATE`. -/
def TICK_RATE : ℚ := 1 / 64

/-- The function `LinearPhysics`. -/
def LinearPhysics (obj : Object) (dt : ℚ) : Object :=
  if obj.Physics.Velocity = Vector3.Zero ∧ obj.Physics.Thrust = Vector3.Zero then obj
  else
    let velocity :=
      if obj.Physics.Drag > 0 then
        (if obj.Physics.Thrust ≠ Vector3.Zero ∧ obj.Physics.Mass > 0 then
          obj.Physics.Velocity + obj.Physics.Thrust / obj.Physics.Mass * (dt / TICK_RATE)
        else obj.Physics.Velocity) * (1 - obj.Physics.Drag * (dt / TICK_RATE))
      else obj.Physics.Velocity
    { obj with
      Physics := { obj.Physics with Velocity := velocity }
      Position := obj.Position + velocity * dt }

/-- What `IntersectLevelMesh` uses from outside the physics sources: the geometry routines, the
side queries of the ray environment (`SideIsSolid`, `WallPointIsTransparent`, the side tangents
and `FaceEdgeDistance`), the per-triangle side normals `side.Normals[tri]`, and the vertices of
the two triangles of a face, `face[indices[tri * 3 + k]]`. -/
structure MeshEnv where
  geom : GeomEnv
  ray : RayEnv
  SideNormal : Segment → SideID → Int → Vector3
  FaceVertex : Level → Segment → SideID → Int → Nat → Vector3

/-- The state that `IntersectLevelMesh` carries through its loops: the object, the locals
`averagePosition` and `hits`, the in/out record `hit`, and the ghost list of the corrected
positions added to `averagePosition`. -/
structure MeshState where
  obj : Object
  averagePosition : Vector3
  hits : Nat
  hit : LevelHit
  corrected : List Vector3
deriving DecidableEq

/-- The tail of the triangle loop body of `IntersectLevelMesh`, from `float hitSpeed = 0` on,
for the locals `hitDistance`, `hitPoint`, `hitNormal`, `tangent` and `edgeDistance`. -/
def IntersectLevelMesh_resolve (env : MeshEnv) (level : Level) (segId : SegID) (seg : Segment)
    (sideId : SideID) (tri : Int) (st : MeshState) (hitDistance : ℚ)
    (hitPoint hitNormal tangent : Vector3) (edgeDistance : ℚ) : MeshState :=
  if hitDistance < st.obj.Radius then
    if st.obj.Type_ = ObjectType.Weapon ∧
        env.ray.WallPointIsTransparent level seg sideId hitPoint tri = true then st
    else
      let hitSpeed := hitNormal.Dot st.obj.Physics.Velocity
      let st1 : MeshState :=
        if st.obj.Physics.Flags.Piercing = false then
          { st with
            obj := { st.obj with Physics := { st.obj.Physics with
              Velocity := st.obj.Physics.Velocity - hitNormal * hitSpeed } }
            averagePosition := st.averagePosition + (hitPoint + hitNormal * st.obj.Radius)
            hits := st.hits + 1
            corrected := st.corrected ++ [hitPoint + hitNormal * st.obj.Radius] }
        else st
      let st2 : MeshState :=
        if st1.obj.Type_ = ObjectType.Robot then
          { st1 with obj := { st1.obj with Physics := { st1.obj.Physics with
              AngularAcceleration := st1.obj.Physics.AngularAcceleration * (1 / 2 : ℚ) } } }
        else st1
      if hitDistance < st2.hit.Distance then
        { st2 with hit := { st2.hit with
            Distance := hitDistance
            Normal := hitNormal
            Point := hitPoint
            Tag := ⟨segId, some sideId⟩
            Tangent := tangent
            EdgeDistance := edgeDistance
            Tri := tri
            WallPoint := hitPoint
            Speed := |hitSpeed| } }
      else st2
  else if hitDistance < st.hit.Distance then
    { st with hit := { st.hit with
        Distance := hitDistance
        Normal := hitNormal
        Point := hitPoint
        Tag := ⟨segId, some sideId⟩
        Tangent := tangent
        EdgeDistance := edgeDistance
        Tri := tri
        WallPoint := hitPoint
        Speed := |(0 : ℚ)| } }
  else st

/-- The body of the `for (int tri = 0; tri < 2; tri++)` loop of `IntersectLevelMesh` for one
triangle: the state and the side-wide local `edgeDistance` after it. -/
def IntersectLevelMesh_triangle (env : MeshEnv) (level : Level) (pathRay : Ray)
    (travelDistance : ℚ) (segId : SegID) (seg : Segment) (sideId : SideID) (tri : Int)
    (st : MeshState) (edgeDistance : ℚ) : MeshState × ℚ :=
  let normal := env.SideNormal seg sideId tri
  let offset := normal * st.obj.Radius
  let p0 := env.FaceVertex level seg sideId tri 0
  let p1 := env.FaceVertex level seg sideId tri 1
  let p2 := env.FaceVertex level seg sideId tri 2
  let tangent := env.ray.SideTangent level seg sideId tri
  if st.obj.Type_ = ObjectType.Weapon then
    match env.geom.RayIntersectsTriangle pathRay p0 p1 p2 with
    | some dist =>
      if pathRay.direction.Dot normal ≤ 0 ∧ dist < travelDistance then
        let hitPoint := st.obj.PrevPosition + pathRay.direction * dist
        if env.ray.WallPointIsTransparent level seg sideId hitPoint tri = true then
          (st, edgeDistance)
        else
          let st1 : MeshState :=
            { st with
              averagePosition :=
                st.averagePosition + (hitPoint - pathRay.direction * st.obj.Radius)
              hits := st.hits + 1
              corrected := st.corrected ++ [hitPoint - pathRay.direction * st.obj.Radius] }
          (IntersectLevelMesh_resolve env level segId seg sideId tri st1 dist hitPoint normal
              tangent (env.ray.FaceEdgeDistance level seg sideId hitPoint),
            env.ray.FaceEdgeDistance level seg sideId hitPoint)
      else
        (IntersectLevelMesh_resolve env level segId seg sideId tri st FLT_MAX Vector3.Zero
          Vector3.Zero tangent edgeDistance, edgeDistance)
    | none =>
      (IntersectLevelMesh_resolve env level segId seg sideId tri st FLT_MAX Vector3.Zero
        Vector3.Zero tangent edgeDistance, edgeDistance)
  else
    let plane := env.geom.PlaneFromPoints (p0 + offset) (p1 + offset) (p2 + offset)
    let planeDist := plane.DotCoordinate st.obj.Position
    if planeDist ≥ 0 ∨ planeDist < -st.obj.Radius then (st, edgeDistance)
    else
      let point := env.geom.ProjectPointOntoPlane st.obj.Position plane
      if pathRay.direction.Dot normal ≤ 0 ∧
          env.geom.TriangleContainsPoint (p0 + offset) (p1 + offset) (p2 + offset) point
            = true then
        (IntersectLevelMesh_resolve env level segId seg sideId tri st planeDist (point - offset)
            normal tangent (env.ray.FaceEdgeDistance level seg sideId (point - offset)),
          env.ray.FaceEdgeDistance level seg sideId (point - offset))
      else
        let closest := env.geom.ClosestPointOnTriangle2 p0 p1 p2 st.obj.Position
        if closest.2.1 ≤ st.obj.Radius then
          let hitNormal := env.geom.Normalize (st.obj.Position - closest.1)
          if pathRay.direction.Dot hitNormal > 0 then (st, edgeDistance)
          else
            let tanVec :=
              if closest.2.2 = 0 then p1 - p0
              else if closest.2.2 = 1 then p2 - p1
              else p0 - p2
            (IntersectLevelMesh_resolve env level segId seg sideId tri st closest.2.1 closest.1
              hitNormal (env.geom.Normalize tanVec) edgeDistance, edgeDistance)
        else
          (IntersectLevelMesh_resolve env level segId seg sideId tri st FLT_MAX Vector3.Zero
            Vector3.Zero tangent edgeDistance, edgeDistance)

/-- The body of the `for (auto& sideId : SideIDs)` loop of `IntersectLevelMesh`: a side that is
not solid is skipped, otherwise both triangles are tested, `edgeDistance` starting at 0. -/
def IntersectLevelMesh_side (env : MeshEnv) (level : Level) (pathRay : Ray)
    (travelDistance : ℚ) (segId : SegID) (seg : Segment) (st : MeshState) (sideId : SideID) :
    MeshState :=
  if env.ray.SideIsSolid seg sideId level = false then st
  else
    let first := IntersectLevelMesh_triangle env level pathRay travelDistance segId seg sideId 0
      st 0
    (IntersectLevelMesh_triangle env level pathRay travelDistance segId seg sideId 1
      first.1 first.2).1

/-- The `for (auto& segId : pvs)` loop of `IntersectLevelMesh`; `none` when a segment index is
outside `level.Segments`. -/
def IntersectLevelMesh_segments (env : MeshEnv) (level : Level) (pathRay : Ray)
    (travelDistance : ℚ) : List SegID → MeshState → Option MeshState
  | [], st => some st
  | segId :: rest, st =>
    match level.GetSegment segId with
    | none => none
    | some seg =>
      IntersectLevelMesh_segments env level pathRay travelDistance rest
        (SideIDs.foldl (IntersectLevelMesh_side env level pathRay travelDistance segId seg) st)

/-- The function `IntersectLevelMesh`: the state after the loops, with the object moved to the
average of the corrected positions when `hits > 0`. -/
def IntersectLevelMesh (env : MeshEnv) (level : Level) (obj : Object) (pvs : List SegID)
    (hit : LevelHit) (dt : ℚ) : Option MeshState :=
  match IntersectLevelMesh_segments env level
      ⟨obj.PrevPosition, env.geom.Normalize obj.Physics.Velocity⟩
      (env.geom.Length obj.Physics.Velocity * dt) pvs ⟨obj, Vector3.Zero, 0, hit, []⟩ with
  | none => none
  | some st =>
    if st.hits > 0 then
      some { st with obj := { st.obj with Position := st.averagePosition / (st.hits : ℚ) } }
    else some st

/-- The plane of a triangle of a level side moved outward by `radius` along the triangle normal,
as `IntersectLevelMesh` builds it: `Plane plane(p0 + offset, p1 + offset, p2 + offset)`. -/
def meshInflatedPlane (env : MeshEnv) (level : Level) (seg : Segment) (sideId : SideID)
    (tri : Int) (radius : ℚ) : Plane :=
  env.geom.PlaneFromPoints
    (env.FaceVertex level seg sideId tri 0 + env.SideNormal seg sideId tri * radius)
    (env.FaceVertex level seg sideId tri 1 + env.SideNormal seg sideId tri * radius)
    (env.FaceVertex level seg sideId tri 2 + env.SideNormal seg sideId tri * radius)

/-- Whether the projection of `position` onto the inflated plane of a triangle falls inside the
inflated triangle (`TriangleContainsPoint(p0 + offset, p1 + offset, p2 + offset, point)`). -/
def meshProjectionInside (env : MeshEnv) (level : Level) (seg : Segment) (sideId : SideID)
    (tri : Int) (position : Vector3) (radius : ℚ) : Prop :=
  env.geom.TriangleContainsPoint
    (env.FaceVertex level seg sideId tri 0 + env.SideNormal seg sideId tri * radius)
    (env.FaceVertex level seg sideId tri 1 + env.SideNormal seg sideId tri * radius)
    (env.FaceVertex level seg sideId tri 2 + env.SideNormal seg sideId tri * radius)
    (env.geom.ProjectPointOntoPlane position
      (meshInflatedPlane env level seg sideId tri radius)) = true

/-- A triangle of a level side registers no hit for a sphere that is not a weapon, at
`position` with the given radius and path direction: the centre is not within `radius` behind
the inflated plane, or the face test fails and the closest point of the triangle is farther
than `radius`. -/
def meshMisses (env : MeshEnv) (level : Level) (direction : Vector3) (position : Vector3)
    (radius : ℚ) (seg : Segment) (sideId : SideID) (tri : Int) : Prop :=
  (meshInflatedPlane env level seg sideId tri radius).DotCoordinate position ≥ 0 ∨
  (meshInflatedPlane env level seg sideId tri radius).DotCoordinate position < -radius ∨
  (¬ (direction.Dot (env.SideNormal seg sideId tri) ≤ 0 ∧
      meshProjectionInside env level seg sideId tri position radius) ∧
    radius < (env.geom.ClosestPointOnTriangle2 (env.FaceVertex level seg sideId tri 0)
      (env.FaceVertex level seg sideId tri 1) (env.FaceVertex level seg sideId tri 2)
      position).2.1)

/-- Two object states agree on what the triangle tests of `IntersectLevelMesh` read apart from
the velocity: position, previous position, radius, type and physics flags. -/
def meshShape (a b : Object) : Prop :=
  a.Position = b.Position ∧ a.PrevPosition = b.PrevPosition ∧ a.Radius = b.Radius ∧
  a.Type_ = b.Type_ ∧ a.Physics.Flags = b.Physics.Flags

/-- A triangle of a level side registers a face hit for a sphere that is not a weapon, at
`position` with the given radius and path direction, and the corrected position added to
`averagePosition` is `c`: the centre is behind the inflated plane by at most `radius`, the
triangle faces the path, the projection falls inside the inflated triangle, and
`hitPoint + hitNormal * radius = c` for `hitPoint = point - offset`. -/
def meshFaceHit (env : MeshEnv) (level : Level) (direction : Vector3) (position : Vector3)
    (radius : ℚ) (seg : Segment) (sideId : SideID) (tri : Int) (c : Vector3) : Prop :=
  (meshInflatedPlane env level seg sideId tri radius).DotCoordinate position < 0 ∧
  -radius ≤ (meshInflatedPlane env level seg sideId tri radius).DotCoordinate position ∧
  direction.Dot (env.SideNormal seg sideId tri) ≤ 0 ∧
  meshProjectionInside env level seg sideId tri position radius ∧
  (env.geom.ProjectPointOntoPlane position (meshInflatedPlane env level seg sideId tri radius)
      - env.SideNormal seg sideId tri * radius) + env.SideNormal seg sideId tri * radius = c

/-! ## Sample data for the wall scenarios -/

/-- The four corners of the sample wall, a square in the plane `z = -2` whose diagonal from
corner 0 to corner 2 lies on the x axis. -/
def wallCorner (k : Nat) : Vector3 :=
  match k with
  | 0 => ⟨-10, 0, -2⟩
  | 1 => ⟨0, -10, -2⟩
  | 2 => ⟨10, 0, -2⟩
  | _ => ⟨0, 10, -2⟩

/-- Mesh environment of the sample wall: side 0 of every segment is the only solid side; its
triangle 0 has the corners 0, 1, 2 and its triangle 1 the corners 0, 2, 3; both triangle
normals are `(0, 0, 1)`. Geometry is `sampleGeomEnv`. -/
def wallMeshEnv : MeshEnv :=
  { geom := sampleGeomEnv
    ray :=
      { openRayEnv with
        SideIsSolid := fun _ side _ => decide (side = 0) }
    SideNormal := fun _ _ _ => ⟨0, 0, 1⟩
    FaceVertex := fun _ _ _ tri k =>
      if tri = 0 then wallCorner k else (if k = 0 then wallCorner 0 else wallCorner (k + 1)) }

/-- The sphere of the spec scenario: radius 1 at the origin with velocity `(0, 0, -50)`. -/
def scenarioSphere : Object :=
  { sampleObject with
    Radius := 1
    Physics := { sampleObject.Physics with Velocity := ⟨0, 0, -50⟩ } }

/-- A robot of radius 1 at `(0, -2/5, -4/5)`, in front of the inflated wall plane `z = -1`,
with velocity `(0, 0, -576/5)`: in a sub-step of `1/128` it moves `9/10` straight at the wall. -/
def diagonalSphere : Object :=
  { sampleObject with
    Radius := 1
    Position := ⟨0, -2 / 5, -4 / 5⟩
    PrevPosition := ⟨0, -2 / 5, -4 / 5⟩
    Physics := { sampleObject.Physics with Velocity := ⟨0, 0, -576 / 5⟩ } }

/-- The start of a sub-step of `UpdatePhysics` for a free object: the previous position is
saved and `LinearPhysics` moves the object. -/
def subStepMove (obj : Object) (dt : ℚ) : Object :=
  LinearPhysics { obj with PrevPosition := obj.Position } dt

/-- One sub-step of `UpdatePhysics` restricted to `LinearPhysics` and `IntersectLevelMesh`:
the previous position is saved, the object is moved, and the level mesh is resolved. -/
def meshSubStep (env : MeshEnv) (level : Level) (pvs : List SegID) (hit : LevelHit) (dt : ℚ)
    (obj : Object) : Option MeshState :=
  IntersectLevelMesh env level (subStepMove obj dt) pvs hit dt

/-- A robot of radius 1 at `(0, -5, -4/5)`, well inside triangle 0 of the sample wall, with
velocity `(0, 0, -576/5)`: in a sub-step of `1/128` it moves `9/10` straight at the wall. -/
def offsetSphere : Object :=
  { diagonalSphere with
    Position := ⟨0, -5, -4 / 5⟩
    PrevPosition := ⟨0, -5, -4 / 5⟩ }

/-- One tick of `UpdatePhysics` for one free object, restricted to `LinearPhysics` and
`IntersectLevelMesh`: `STEPS = 2` sub-steps of `dt / STEPS`, each with a fresh `hit`. -/
def meshTick (env : MeshEnv) (level : Level) (pvs : List SegID) (hit : LevelHit) (dt : ℚ)
    (obj : Object) : Option MeshState :=
  (meshSubStep env level pvs hit (dt / 2) obj).bind
    (fun st => meshSubStep env level pvs hit (dt / 2) st.obj)

/-! ## Sample data for the dispatch exclusions -/

/-- A weapon (signature 8) fired by the robot with identifier 1. -/
def robotShot : Object := { sampleWeapon with Parent := 1 }

/-- The sample level with three objects: the player at index 0, the robot `sampleObject` at
index 1 and its shot `robotShot` at index 2. -/
def parentLevel : Level := { sampleLevel with Objects := [samplePlayer, sampleObject, robotShot] }

/-! ## Sphere against a model mesh (`IntersectSpherePoly`, `IntersectPolySphere`) -/

/-- The fields of `HitInfo` that the intersectors write. -/
structure HitInfo where
  Distance : ℚ
  Point : Vector3
  Normal : Vector3
  Speed : ℚ
deriving DecidableEq

/-- The index lists of a submodel read by `IntersectSpherePoly`. -/
structure Submodel where
  Indices : List Nat
  FlatIndices : List Nat
deriving DecidableEq

/-- The fields of a model read by `IntersectSpherePoly`. -/
structure Model where
  Vertices : List Vector3
  Normals : List Vector3
  FlatNormals : List Vector3
  Submodels : List Submodel
deriving DecidableEq

/-- What `IntersectSpherePoly` uses from outside the physics sources: the geometry routines;
`GetModel target`, which is `none` when `target.Render.Type != RenderType::Model` and otherwise
`Resources::GetModel(target.Render.Model.ID)`; `Model::GetSubmodelOffset`; the four transforms
`Vector3::Transform(v, target.GetTransform().Invert())` (`ToLocal`),
`Vector3::TransformNormal(v, Matrix(target.Rotation).Invert())` (`DirToLocal`),
`Vector3::Transform(v, target.GetTransform())` (`ToWorld`) and
`Vector3::TransformNormal(v, target.Rotation)` (`NormalToWorld`); and the default constructed
`HitInfo`. -/
structure PolyEnv where
  geom : GeomEnv
  GetModel : Object → Option Model
  GetSubmodelOffset : Model → Nat → Vector3
  ToLocal : Object → Vector3 → Vector3
  DirToLocal : Object → Vector3 → Vector3
  ToWorld : Object → Vector3 → Vector3
  NormalToWorld : Object → Vector3 → Vector3
  DefaultHit : HitInfo

/-- The state that `IntersectSpherePoly` carries through its loops: the sphere object `obj`, the
local `localPos`, the result `hit`, and the locals `averagePosition` and `hits`. -/
structure PolyState where
  obj : Object
  localPos : Vector3
  hit : HitInfo
  averagePosition : Vector3
  hits : Nat
deriving DecidableEq

/-- The tail of the triangle loop body of `IntersectSpherePoly`, from
`if (hitDistance < obj.Radius)` on, for the locals `hitDistance`, `hitPoint` and `hitNormal`. -/
def IntersectSpherePoly_resolve (env : PolyEnv) (target : Object) (st : PolyState)
    (hitDistance : ℚ) (hitPoint hitNormal : Vector3) : PolyState :=
  if hitDistance < st.obj.Radius then
    let hit1 : HitInfo :=
      { st.hit with
        Point := env.ToWorld target hitPoint
        Normal := env.NormalToWorld target hitNormal
        Distance := hitDistance }
    if st.obj.Physics.Flags.Piercing = false then
      let wallPart := hit1.Normal.Dot st.obj.Physics.Velocity
      { st with
        hit := { hit1 with Speed := max |wallPart| hit1.Speed }
        obj := { st.obj with Physics := { st.obj.Physics with
          Velocity := st.obj.Physics.Velocity - hit1.Normal * wallPart } }
        averagePosition :=
          if st.obj.Type_ ≠ ObjectType.Weapon ∧ st.obj.Type_ ≠ ObjectType.Reactor then
            st.averagePosition + (hit1.Point + hit1.Normal * st.obj.Radius)
          else st.averagePosition
        hits := st.hits + 1 }
    else { st with hit := hit1 }
  else st

/-- The body of the loop of `hitTestIndices` for one triangle with the (already offset and
flipped) corners `p0 p1 p2` and the stored normal `normal`. -/
def IntersectSpherePoly_triangle (env : PolyEnv) (target : Object) (travelDist : ℚ)
    (needsRaycast : Bool) (ray : Ray) (localDir : Vector3) (p0 p1 p2 normal : Vector3)
    (st : PolyState) : PolyState :=
  let localPos :=
    if needsRaycast = true then
      match env.geom.RayIntersectsTriangle ray p0 p1 p2 with
      | some dist =>
        if localDir.Dot normal ≤ 0 ∧ dist < travelDist then
          st.localPos + localDir * (dist - st.obj.Radius)
        else st.localPos
      | none => st.localPos
    else st.localPos
  let st1 : PolyState := { st with localPos := localPos }
  let offset := normal * st.obj.Radius
  let plane := env.geom.PlaneFromPoints (p0 + offset) (p1 + offset) (p2 + offset)
  let planeDist := -plane.DotCoordinate localPos
  if planeDist > 0 ∨ planeDist < -st.obj.Radius then st1
  else
    let point := env.geom.ProjectPointOntoPlane localPos plane
    if localDir.Dot normal ≤ 0 ∧
        env.geom.TriangleContainsPoint (p0 + offset) (p1 + offset) (p2 + offset) point
          = true then
      IntersectSpherePoly_resolve env target st1 planeDist (point - offset) normal
    else
      let closest := env.geom.ClosestPointOnTriangle2 p0 p1 p2 localPos
      if closest.2.1 ≤ st.obj.Radius then
        if ray.direction.Dot (localPos - closest.1) > 0 then st1
        else
          IntersectSpherePoly_resolve env target st1 closest.2.1 closest.1
            (env.geom.Normalize (localPos - closest.1))
      else IntersectSpherePoly_resolve env target st1 FLT_MAX Vector3.Zero normal

/-- The corner `model.Vertices[index] + submodelOffset` with `z` flipped; `none` when the index
is outside `Vertices`. -/
def modelCorner (model : Model) (submodelOffset : Vector3) (index : Nat) : Option Vector3 :=
  match model.Vertices[index]? with
  | none => none
  | some v => some ⟨(v + submodelOffset).x, (v + submodelOffset).y, (v + submodelOffset).z * -1⟩

/-- The lambda `hitTestIndices` of `IntersectSpherePoly`: walks `indices` three at a time,
taking `normals[normalIndex++]` for each triangle. Returns the state and the normal counter;
`none` when a read falls outside `indices`, `Vertices` or `normals`. -/
def hitTestIndices (env : PolyEnv) (target : Object) (travelDist : ℚ) (needsRaycast : Bool)
    (ray : Ray) (localDir : Vector3) (model : Model) (submodelOffset : Vector3)
    (normals : List Vector3) : List Nat → Nat → PolyState → Option (PolyState × Nat)
  | [], normalIndex, st => some (st, normalIndex)
  | i0 :: i1 :: i2 :: rest, normalIndex, st =>
    match modelCorner model submodelOffset i0, modelCorner model submodelOffset i1,
        modelCorner model submodelOffset i2, normals[normalIndex]? with
    | some p0, some p1, some p2, some normal =>
      hitTestIndices env target travelDist needsRaycast ray localDir model submodelOffset
        normals rest (normalIndex + 1)
        (IntersectSpherePoly_triangle env target travelDist needsRaycast ray localDir p0 p1 p2
          normal st)
    | _, _, _, _ => none
  | _, _, _ => none

/-- The loop over `model.Submodels` of `IntersectSpherePoly`, from the submodel `smIndex` on,
with the counters `texNormalIndex` and `flatNormalIndex`. -/
def IntersectSpherePoly_submodels (env : PolyEnv) (target : Object) (travelDist : ℚ)
    (needsRaycast : Bool) (ray : Ray) (localDir : Vector3) (model : Model) :
    List Submodel → Nat → Nat → Nat → PolyState → Option PolyState
  | [], _, _, _, st => some st
  | submodel :: rest, smIndex, texNormalIndex, flatNormalIndex, st =>
    match hitTestIndices env target travelDist needsRaycast ray localDir model
        (env.GetSubmodelOffset model smIndex) model.Normals submodel.Indices texNormalIndex
        st with
    | none => none
    | some (st1, tex1) =>
      match hitTestIndices env target travelDist needsRaycast ray localDir model
          (env.GetSubmodelOffset model smIndex) model.FlatNormals submodel.FlatIndices
          flatNormalIndex st1 with
      | none => none
      | some (st2, flat1) =>
        IntersectSpherePoly_submodels env target travelDist needsRaycast ray localDir model
          rest (smIndex + 1) tex1 flat1 st2

/-- What a call of `IntersectSpherePoly` leaves behind: the sphere object `obj`, which the call
may have slid and repositioned, and the returned `HitInfo`. -/
structure SpherePolyResult where
  obj : Object
  info : HitInfo
deriving DecidableEq

/-- The function `IntersectSpherePoly`: the sphere `obj` against the model mesh of `target`. -/
def IntersectSpherePoly (env : PolyEnv) (obj target : Object) (dt : ℚ) :
    Option SpherePolyResult :=
  match env.GetModel target with
  | none => some ⟨obj, env.DefaultHit⟩
  | some model =>
    let travelDist := env.geom.Length obj.Physics.Velocity * dt
    let needsRaycast : Bool := decide (travelDist > obj.Radius * (3 / 2 : ℚ))
    if needsRaycast = false ∧
        env.geom.Distance obj.Position target.Position > obj.Radius + target.Radius then
      some ⟨obj, env.DefaultHit⟩
    else
      let localPos := env.ToLocal target obj.Position
      let localDir :=
        env.geom.Normalize (env.DirToLocal target (env.geom.Normalize obj.Physics.Velocity))
      match IntersectSpherePoly_submodels env target travelDist needsRaycast
          ⟨localPos, localDir⟩ localDir model model.Submodels 0 0 0
          ⟨obj, localPos, env.DefaultHit, Vector3.Zero, 0⟩ with
      | none => none
      | some st =>
        if st.hits > 0 ∧ st.obj.Type_ ≠ ObjectType.Weapon ∧
            st.obj.Type_ ≠ ObjectType.Reactor then
          some ⟨{ st.obj with Position := st.averagePosition / (st.hits : ℚ) }, st.hit⟩
        else some ⟨st.obj, st.hit⟩

/-- The function `IntersectPolySphere`: `IntersectSpherePoly` with the objects swapped, so the
object of the result is `target` after the call. -/
def IntersectPolySphere (env : PolyEnv) (obj target : Object) (dt : ℚ) :
    Option SpherePolyResult :=
  IntersectSpherePoly env target obj dt

/-! ## The collision phase of a sub-step (`IntersectLevelNew`) -/

/-- What `IntersectLevelNew` uses from outside the physics sources, apart from the environments
of the routines it calls: `IntersectSphereSphere` on two bounding spheres (centre and radius),
the conversion of a `HitInfo` to `bool`, `LevelHit::Update(info, &other)` and the conversion of
a `LevelHit` to `bool`. -/
structure CollisionEnv where
  game : GameEnv
  collide : CollideEnv
  poly : PolyEnv
  mesh : MeshEnv
  IntersectSphereSphere : Vector3 → ℚ → Vector3 → ℚ → HitInfo
  HitInfoIsHit : HitInfo → Bool
  LevelHitUpdate : LevelHit → HitInfo → ObjID → LevelHit
  LevelHitIsHit : LevelHit → Bool

/-- The routine that wrote to an object other than the moving one. -/
inductive Writer
  | PolySphere
  | CollideObjects
deriving DecidableEq

/-- A write to `level.Objects[index]` made while another object is processed: the routine and
the object before and after. -/
structure ObjectWrite where
  index : ObjID
  routine : Writer
  before : Object
  after : Object
deriving DecidableEq

/-- The state of `IntersectLevelNew` during the object loops: the moving object `obj`, the
objects of the level (the slot of `obj` itself is neither read nor written in these loops, the
moving object is carried in `obj`), the in/out record `hit`, and the ghost list of the writes
made to other objects, in order. -/
structure CollisionState where
  obj : Object
  objects : List Object
  hit : LevelHit
  writes : List ObjectWrite

/-- The body of the loop over `seg.Objects` of `IntersectLevelNew` for the entry `entry`. -/
def IntersectLevelNew_object (env : CollisionEnv) (level : Level) (oid : ObjID) (dt : ℚ)
    (st : CollisionState) (entry : ObjID) : Option CollisionState :=
  if oid = entry then some st
  else
    match ({ level with Objects := st.objects } : Level).TryGetObject entry with
    | none => some st
    | some other =>
      if oid = other.Parent then some st
      else
        match ObjectCanHitTarget env.game st.obj other with
        | CollisionType.None => some st
        | CollisionType.SphereRoom => some st
        | CollisionType.SpherePoly =>
          match IntersectSpherePoly env.poly st.obj other dt with
          | none => none
          | some res =>
            if env.HitInfoIsHit res.info = true then
              let hit := env.LevelHitUpdate st.hit res.info entry
              let c := CollideObjects env.collide hit res.obj other
              some
                { obj := c.a
                  objects := st.objects.set entry.toNat c.b
                  hit := hit
                  writes := st.writes ++ [⟨entry, Writer.CollideObjects, other, c.b⟩] }
            else some { st with obj := res.obj }
        | CollisionType.PolySphere =>
          match IntersectPolySphere env.poly st.obj other dt with
          | none => none
          | some res =>
            if env.HitInfoIsHit res.info = true then
              let hit := env.LevelHitUpdate st.hit res.info entry
              let c := CollideObjects env.collide hit st.obj res.obj
              some
                { obj := c.a
                  objects := (st.objects.set entry.toNat res.obj).set entry.toNat c.b
                  hit := hit
                  writes := st.writes ++
                    [⟨entry, Writer.PolySphere, other, res.obj⟩,
                     ⟨entry, Writer.CollideObjects, res.obj, c.b⟩] }
            else
              some
                { st with
                  objects := st.objects.set entry.toNat res.obj
                  writes := st.writes ++ [⟨entry, Writer.PolySphere, other, res.obj⟩] }
        | CollisionType.SphereSphere =>
          let radiusMult : ℚ :=
            if st.obj.Type_ = ObjectType.Robot ∧ other.Type_ = ObjectType.Robot then 66 / 100
            else 1
          let info := env.IntersectSphereSphere st.obj.Position (st.obj.Radius * radiusMult)
            other.Position (other.Radius * radiusMult)
          if env.HitInfoIsHit info = true then
            let hit := env.LevelHitUpdate st.hit info entry
            if (st.obj.Type_ = ObjectType.Robot ∨ st.obj.Type_ = ObjectType.Player) ∧
                (other.Type_ = ObjectType.Robot ∨ other.Type_ = ObjectType.Player) then
              let hitSpeed := info.Normal.Dot st.obj.Physics.Velocity
              some
                { st with
                  hit := { hit with Speed := |hitSpeed| }
                  obj := { st.obj with
                    Position := info.Point + info.Normal * st.obj.Radius * radiusMult
                    Physics := { st.obj.Physics with
                      Velocity := st.obj.Physics.Velocity - info.Normal * hitSpeed } } }
            else some { st with hit := hit }
          else some st

/-- The loop `for (int i = 0; i < seg.Objects.size(); i++)` of `IntersectLevelNew`. -/
def IntersectLevelNew_objects (env : CollisionEnv) (level : Level) (oid : ObjID) (dt : ℚ) :
    List ObjID → CollisionState → Option CollisionState
  | [], st => some st
  | entry :: rest, st =>
    match IntersectLevelNew_object env level oid dt st entry with
    | none => none
    | some st1 => IntersectLevelNew_objects env level oid dt rest st1

/-- The loop `for (auto& segId : pvs)` of `IntersectLevelNew`; `none` when a segment index is
outside `level.Segments`. -/
def IntersectLevelNew_segments (env : CollisionEnv) (level : Level) (oid : ObjID) (dt : ℚ) :
    List SegID → CollisionState → Option CollisionState
  | [], st => some st
  | segId :: rest, st =>
    match level.GetSegment segId with
    | none => none
    | some seg =>
      match IntersectLevelNew_objects env level oid dt seg.Objects st with
      | none => none
      | some st1 => IntersectLevelNew_segments env level oid dt rest st1

/-- What `IntersectLevelNew` leaves behind: the state after the object loops and the level mesh
test, and the returned `bool`. -/
structure CollisionResult where
  obj : Object
  objects : List Object
  hit : LevelHit
  writes : List ObjectWrite
  returned : Bool

/-- The function `IntersectLevelNew` for the moving object `obj` with identifier `oid`; `fuel`
bounds the flood of `GetPotentialSegments`. -/
def IntersectLevelNew (fuel : Nat) (env : CollisionEnv) (level : Level) (scratch : PvsScratch)
    (obj : Object) (oid : ObjID) (hit : LevelHit) (dt : ℚ) : Option CollisionResult :=
  match GetPotentialSegments fuel level scratch obj.Segment obj.Position (obj.Radius * 2) with
  | none => none
  | some pvs =>
    match IntersectLevelNew_segments env level oid dt pvs.g_VisitedSegs
        ⟨obj, level.Objects, hit, []⟩ with
    | none => none
    | some st =>
      match IntersectLevelMesh env.mesh { level with Objects := st.objects } st.obj
          pvs.g_VisitedSegs st.hit dt with
      | none => none
      | some ms =>
        some
          { obj := ms.obj
            objects := st.objects
            hit := ms.hit
            writes := st.writes
            returned := env.LevelHitIsHit ms.hit }

/-- The objects after the writes of a log are applied in order. -/
def replayWrites (objects : List Object) : List ObjectWrite → List Object
  | [] => objects
  | w :: rest => replayWrites (objects.set w.index.toNat w.after) rest

/-- A write of the log is one of the two kinds that `IntersectLevelNew` makes to an object
other than the moving object `oid`: the result of `IntersectPolySphere` for the written object
as the sphere, or the second object of a `CollideObjects` call. -/
def writeJustified (env : CollisionEnv) (oid : ObjID) (dt : ℚ) (w : ObjectWrite) : Prop :=
  w.index ≠ oid ∧
  ((w.routine = Writer.PolySphere ∧
      ∃ obj info, IntersectPolySphere env.poly obj w.before dt = some ⟨w.after, info⟩) ∨
    (w.routine = Writer.CollideObjects ∧
      ∃ hit a, w.after = (CollideObjects env.collide hit a w.before).b))

/-- Every write of the log reads the object that the earlier writes left at its index and is
justified. -/
def writesValid (env : CollisionEnv) (oid : ObjID) (dt : ℚ) :
    List Object → List ObjectWrite → Prop
  | _, [] => True
  | objects, w :: rest =>
    (0 ≤ w.index ∧ objects[w.index.toNat]? = some w.before ∧ writeJustified env oid dt w) ∧
    writesValid env oid dt (objects.set w.index.toNat w.after) rest

/-! ## Sample data for the collision phase -/

/-- A model of one triangle in the plane `z = 0` with the corners `(-10, -10)`, `(-10, 30)` and
`(30, -10)` and the stored normal `(0, 0, 1)`; the winding gives the plane normal `(0, 0, -1)`. -/
def triangleModel : Model :=
  { Vertices := [⟨-10, -10, 0⟩, ⟨-10, 30, 0⟩, ⟨30, -10, 0⟩]
    Normals := [⟨0, 0, 1⟩]
    FlatNormals := []
    Submodels := [{ Indices := [0, 1, 2], FlatIndices := [] }] }

/-- A hit record with nothing hit: `Distance` at `FLT_MAX`. -/
def sampleHitInfo : HitInfo :=
  { Distance := FLT_MAX, Point := Vector3.Zero, Normal := Vector3.Zero, Speed := 0 }

/-- Model environment for targets with the identity rotation: every robot is rendered with
`triangleModel`, no other object has a model, submodel offsets are zero, and the transforms are
the translation by the target position. -/
def samplePolyEnv : PolyEnv :=
  { geom := sampleGeomEnv
    GetModel := fun o => if o.Type_ = ObjectType.Robot then some triangleModel else none
    GetSubmodelOffset := fun _ _ => Vector3.Zero
    ToLocal := fun target v => v - target.Position
    DirToLocal := fun _ v => v
    ToWorld := fun target v => v + target.Position
    NormalToWorld := fun _ v => v
    DefaultHit := sampleHitInfo }

/-- Collision environment of the samples: no side of the level is solid, two spheres never
intersect, a `HitInfo` or `LevelHit` counts as a hit when its distance is below `FLT_MAX`, and
`LevelHit::Update` takes over a closer hit with the object hit. -/
def sampleCollisionEnv : CollisionEnv :=
  { game := sampleGameEnv
    collide := sampleCollideEnv
    poly := samplePolyEnv
    mesh :=
      { geom := sampleGeomEnv
        ray := openRayEnv
        SideNormal := fun _ _ _ => ⟨0, 0, 1⟩
        FaceVertex := fun _ _ _ _ _ => Vector3.Zero }
    IntersectSphereSphere := fun _ _ _ _ => sampleHitInfo
    HitInfoIsHit := fun info => decide (info.Distance < FLT_MAX)
    LevelHitUpdate := fun hit info other =>
      if info.Distance < hit.Distance then
        { hit with
          Distance := info.Distance
          Point := info.Point
          Normal := info.Normal
          Speed := info.Speed
          HitObj := some other }
      else hit
    LevelHitIsHit := fun hit => decide (hit.Distance < FLT_MAX) }

/-- A player (signature 6) of radius 1 at `(0, 0, 1/2)`, drifting with velocity
`(0, 0, -1/20)` towards the plane `z = 0`. -/
def slowPlayer : Object :=
  { samplePlayer with
    Radius := 1
    Position := ⟨0, 0, 1 / 2⟩
    PrevPosition := ⟨0, 0, 1 / 2⟩
    Physics := { samplePlayer.Physics with Velocity := ⟨0, 0, -1 / 20⟩ } }

/-- A level of one segment without connections that lists the objects 0 and 1: the robot
`sampleObject` at index 0 and `slowPlayer` at index 1. -/
def polyLevel : Level :=
  { Segments := [{ sampleSegment (-1) (-1) (-1) (-1) (-1) (-1) with Objects := [0, 1] }]
    Objects := [sampleObject, slowPlayer] }

/-- The conditions under which `CreateExplosion` affects the object `obj` at position `index`:
it is not the source, it is alive, it is a player, robot, reactor or mine, its adjusted distance
is below the explosion radius, and a completed line-of-sight ray cast reports no wall, whatever
the objects of the level are. -/
def explosionReaches (fuel : Nat) (env : ExplosionEnv) (level : Level) (source : Option Nat)
    (explosion : GameExplosion) (index : Nat) (obj : Object) : Prop :=
  source ≠ some index ∧ env.game.IsAlive obj = true ∧
  ¬ (obj.Type_ = ObjectType.Weapon ∧
    (obj.ID ≠ env.ProxMine ∧ obj.ID ≠ env.SmartMine ∧ obj.ID ≠ env.LevelMine)) ∧
  ¬ (obj.Type_ ≠ ObjectType.Player ∧ obj.Type_ ≠ ObjectType.Robot ∧
    obj.Type_ ≠ ObjectType.Weapon ∧ obj.Type_ ≠ ObjectType.Reactor) ∧
  explosionDistance env explosion obj < explosion.Radius ∧
  ∀ (objects : List Object) (cast : RayResult),
    IntersectRayLevel fuel env.ray { level with Objects := objects }
      ⟨explosion.Position, env.Normalize (obj.Position - explosion.Position)⟩
      explosion.Segment (max (explosionDistance env explosion obj) 0) true true
      env.DefaultHit = some cast → cast.result = false

/-- The queries of the ray environment give the same answers whatever the objects of the level
are. -/
def rayEnvIgnoresObjects (env : RayEnv) (level : Level) : Prop :=
  ∀ objects : List Object,
    env.FaceIntersects { level with Objects := objects } = env.FaceIntersects level ∧
    env.WallIsTransparent { level with Objects := objects } = env.WallIsTransparent level ∧
    env.WallPointIsTransparent { level with Objects := objects }
      = env.WallPointIsTransparent level ∧
    (∀ seg side, env.SideIsSolid seg side { level with Objects := objects }
      = env.SideIsSolid seg side level) ∧
    env.FaceAverageNormal { level with Objects := objects } = env.FaceAverageNormal level ∧
    env.SideTangent { level with Objects := objects } = env.SideTangent level ∧
    env.FaceEdgeDistance { level with Objects := objects } = env.FaceEdgeDistance level

/-! ## Turn roll (`TurnRoll`) -/

/-- The value of the local `roll` of `TurnRoll` when it is passed to `pd.BankState.Update`. -/
def TurnRoll_roll (pd : PhysicsData) (rollScale rollRate : ℚ) : ℚ :=
  let desiredBank := pd.AngularVelocity.y * rollScale
  let theta := desiredBank - pd.TurnRoll
  if |theta| < rollRate then theta
  else if theta < 0 then -rollRate
  else rollRate

/-- The function `TurnRoll`. The member `pd.BankState` and its method `Update` are outside the
physics sources; `Update roll dt` stands for the value `pd.BankState.Update(roll, dt)`
returns. -/
def TurnRoll (Update : ℚ → ℚ → ℚ) (pd : PhysicsData) (rollScale rollRate dt : ℚ) :
    PhysicsData :=
  { pd with TurnRoll := Update (TurnRoll_roll pd rollScale rollRate) dt }

/-- Physics data with yaw rate 2 and a current bank of 1/2. -/
def samplePhysicsBank : PhysicsData :=
  { sampleObject.Physics with AngularVelocity := ⟨0, 2, 0⟩, TurnRoll := 1 / 2 }

/-! ## Weapon autoselection (`GetWeaponPriority`, `AutoselectPrimary`) -/

/-- The constant `Game::DefaultPrimaryPriority`. -/
def DefaultPrimaryPriority : List Nat := [9, 8, 7, 6, 5, 4, 3, 2, 1, 0, 255]

/-- The loop of `GetWeaponPriority` from the index `i` on, over the remaining entries of
`Game::PrimaryPriority`; the value after the loop is 0. -/
def GetWeaponPriorityLoop (primary : Int) : List Nat → Nat → Int
  | [], _ => 0
  | entry :: rest, i =>
    if i = 255 then 255
    else if (entry : Int) = primary then (i : Int)
    else GetWeaponPriorityLoop primary rest (i + 1)

/-- The function `GetWeaponPriority` for the content `PrimaryPriority` of
`Game::PrimaryPriority`. -/
def GetWeaponPriority (PrimaryPriority : List Nat) (primary : Int) : Int :=
  GetWeaponPriorityLoop primary PrimaryPriority 0

/-- The loop of the lambda `getPriority` of `AutoselectSecondary` from the index `i` on. -/
def getPriorityLoop (secondary : Int) : List Nat → Nat → Int
  | [], _ => 0
  | prio :: rest, i =>
    if prio = 255 then 255
    else if (prio : Int) = secondary then (i : Int)
    else getPriorityLoop secondary rest (i + 1)

/-- The lambda `getPriority` of `AutoselectSecondary` for the content `SecondaryPriority` of
`Game::SecondaryPriority`. -/
def getPriority (SecondaryPriority : List Nat) (secondary : Int) : Int :=
  getPriorityLoop secondary SecondaryPriority 0

/-- What `AutoselectPrimary` reads from outside its body: `numWeapons` (5 or 10 by
`Game::Level.IsDescent1()`), the energy usage of the weapon of each primary index, the energy
of the player and `CanFirePrimary`. -/
structure AutoselectEnv where
  numWeapons : Nat
  EnergyUsage : Nat → ℚ
  Energy : ℚ
  CanFirePrimary : Nat → Bool

/-- The body of the loop of `AutoselectPrimary` for the weapon index `i`, on the locals
`priority` and `index`. -/
def AutoselectPrimary_step (env : AutoselectEnv) (PrimaryPriority : List Nat)
    (state : Int × Int) (i : Nat) : Int × Int :=
  if env.EnergyUsage i > 0 ∧ env.Energy < 1 then state
  else if env.CanFirePrimary i = false then state
  else if GetWeaponPriority PrimaryPriority i = 255 then state
  else if GetWeaponPriority PrimaryPriority i < state.1 ∨ state.1 = -1 then
    (GetWeaponPriority PrimaryPriority i, (i : Int))
  else state

/-- The value of the local `index` of `AutoselectPrimary` after its loop: `-1` when no weapon
is available, otherwise the weapon that is selected. -/
def AutoselectPrimary_index (env : AutoselectEnv) (PrimaryPriority : List Nat) : Int :=
  ((List.range env.numWeapons).foldl (AutoselectPrimary_step env PrimaryPriority) (-1, -1)).2

/-- A priority list that puts weapon 1 first and every other weapon after the 255 marker. -/
def vulcanOnlyPriority : List Nat := [1, 255, 0, 2, 3, 4, 5, 6, 7, 8, 9]

/-- A player with full energy who can fire the weapon with index 0 only. -/
def laserOnlyEnv : AutoselectEnv :=
  { numWeapons := 10
    EnergyUsage := fun _ => 1
    Energy := 100
    CanFirePrimary := fun i => decide (i = 0) }

/-! ## Debris against the objects of the level (`IntersectLevelDebris`) -/

/-- The fields of `BoundingCapsule` read by `IntersectLevelDebris`. -/
structure BoundingCapsule where
  A : Vector3
  B : Vector3
  Radius : ℚ
deriving DecidableEq

/-- What `IntersectLevelDebris` uses from outside the physics sources: `Object::IsAlive` (in
the game environment), `Vector3::Normalize`, `Ray::Intersects` for a bounding sphere (the
distance when the ray meets the sphere with the given centre and radius) and the conversion of
a `LevelHit` to `bool`. -/
structure DebrisEnv where
  game : GameEnv
  Normalize : Vector3 → Vector3
  RayIntersectsSphere : Ray → Vector3 → ℚ → Option ℚ
  LevelHitIsHit : LevelHit → Bool

/-- The ways in which a scan of the physics core can fail to complete: the flood of
`GetPotentialSegments` does not return, a segment index is outside `level.Segments`, or the
null pointer that `TryGetObject` returned for an absent object is dereferenced. -/
inductive ScanFault
  | floodIncomplete
  | segmentOutOfRange
  | nullObject
deriving DecidableEq

/-- Equality of scan outcomes is decidable. -/
instance {ε α : Type} [DecidableEq ε] [DecidableEq α] : DecidableEq (Except ε α)
  | Except.error a, Except.error b =>
    if h : a = b then isTrue (by rw [h]) else isFalse (fun h2 => h (Except.error.inj h2))
  | Except.ok a, Except.ok b =>
    if h : a = b then isTrue (by rw [h]) else isFalse (fun h2 => h (Except.ok.inj h2))
  | Except.error _, Except.ok _ => isFalse (fun h => by cases h)
  | Except.ok _, Except.error _ => isFalse (fun h => by cases h)

/-- The loop over `seg.Objects` of `IntersectLevelDebris` in the segment `segment`: `some` of
the returned hit when the loop returns `true`, `none` when it runs to its end. The pointer
`other` is dereferenced without a test, so an entry for which `TryGetObject` returns nothing is
a fault. -/
def IntersectLevelDebris_objects (env : DebrisEnv) (level : Level) (capsule : BoundingCapsule)
    (ray : Ray) (segment : SegID) (hit : LevelHit) :
    List ObjID → Except ScanFault (Option LevelHit)
  | [] => Except.ok none
  | entry :: rest =>
    match level.TryGetObject entry with
    | none => Except.error ScanFault.nullObject
    | some other =>
      if env.game.IsAlive other = false ∨ other.Segment ≠ segment then
        IntersectLevelDebris_objects env level capsule ray segment hit rest
      else if other.Type_ ≠ ObjectType.Player ∧ other.Type_ ≠ ObjectType.Robot ∧
          other.Type_ ≠ ObjectType.Reactor then
        IntersectLevelDebris_objects env level capsule ray segment hit rest
      else
        match env.RayIntersectsSphere ray other.Position other.Radius with
        | some dist =>
          if dist < other.Radius then
            Except.ok (some
              { hit with
                Distance := dist
                Normal := -ray.direction
                Point := capsule.A + ray.direction * dist })
          else IntersectLevelDebris_objects env level capsule ray segment hit rest
        | none => IntersectLevelDebris_objects env level capsule ray segment hit rest

/-- The loop `for (auto& segment : pvs)` of `IntersectLevelDebris`. -/
def IntersectLevelDebris_segments (env : DebrisEnv) (level : Level) (capsule : BoundingCapsule)
    (ray : Ray) (hit : LevelHit) : List SegID → Except ScanFault (Bool × LevelHit)
  | [] => Except.ok (env.LevelHitIsHit hit, hit)
  | segment :: rest =>
    match level.GetSegment segment with
    | none => Except.error ScanFault.segmentOutOfRange
    | some seg =>
      match IntersectLevelDebris_objects env level capsule ray segment hit seg.Objects with
      | Except.error fault => Except.error fault
      | Except.ok (some found) => Except.ok (true, found)
      | Except.ok none => IntersectLevelDebris_segments env level capsule ray hit rest

/-- The function `IntersectLevelDebris`: the returned `bool` and the record `hit` after the
call, or the fault that stops it; `fuel` bounds the flood of `GetPotentialSegments`. -/
def IntersectLevelDebris (fuel : Nat) (env : DebrisEnv) (level : Level) (scratch : PvsScratch)
    (capsule : BoundingCapsule) (segId : SegID) (hit : LevelHit) :
    Except ScanFault (Bool × LevelHit) :=
  match GetPotentialSegments fuel level scratch segId capsule.A capsule.Radius with
  | none => Except.error ScanFault.floodIncomplete
  | some pvs =>
    IntersectLevelDebris_segments env level capsule
      ⟨capsule.A, env.Normalize (capsule.B - capsule.A)⟩ hit pvs.g_VisitedSegs

/-! ## Sample data for the object scans -/

/-- Debris environment of the samples: the ray never meets a sphere. -/
def sampleDebrisEnv : DebrisEnv :=
  { game := sampleGameEnv
    Normalize := sampleGeomEnv.Normalize
    RayIntersectsSphere := fun _ _ _ => none
    LevelHitIsHit := fun hit => decide (hit.Distance < FLT_MAX) }

/-- A level of one segment without connections whose object list names the identifiers 0, 5
and -1, with the robot `sampleObject` as its only object. -/
def staleLevel : Level :=
  { Segments := [{ sampleSegment (-1) (-1) (-1) (-1) (-1) (-1) with Objects := [0, 5, -1] }]
    Objects := [sampleObject] }

/-- A capsule from the origin to `(0, 0, 3)` with radius 1. -/
def sampleCapsule : BoundingCapsule := { A := ⟨0, 0, 0⟩, B := ⟨0, 0, 3⟩, Radius := 1 }

/-- The least set of the exactness property of the potential segment set: the start segment,
every segment connected to a side of the start segment, and every segment connected to a
member across a side whose plane, moved outward by `radius`, has `point` behind or on it. -/
inductive PvsReach (level : Level) (point : Vector3) (radius : ℚ) (start : SegID) : SegID → Prop
  | start : PvsReach level point radius start start
  | neighbour (seg : Segment) (side : SideID) :
      level.GetSegment start = some seg →
      seg.GetConnection side ≠ SegID.None →
      PvsReach level point radius start (seg.GetConnection side)
  | cross (s : SegID) (seg : Segment) (side : SideID) :
      PvsReach level point radius start s →
      level.GetSegment s = some seg →
      inflatedPlaneValue (seg.GetSide side) point radius ≤ 0 →
      seg.GetConnection side ≠ SegID.None →
      PvsReach level point radius start (seg.GetConnection side)

/-- A set of segments is closed under the three rules of `PvsReach`. -/
def pvsRulesClosed (level : Level) (point : Vector3) (radius : ℚ) (start : SegID)
    (S : SegID → Prop) : Prop :=
  S start ∧
  (∀ seg side, level.GetSegment start = some seg → seg.GetConnection side ≠ SegID.None →
    S (seg.GetConnection side)) ∧
  ∀ s seg side, S s → level.GetSegment s = some seg →
    inflatedPlaneValue (seg.GetSide side) point radius ≤ 0 →
    seg.GetConnection side ≠ SegID.None → S (seg.GetConnection side)

/-! ## Corrected positions and slides of one triangle test -/

/-- What one triangle test of `IntersectLevelMesh` does to the running sums and the velocity,
between the state `st` before and `st1` after it: the positions added to `averagePosition` are
`pre ++ post`, `hits` grows by their number, `pre` is empty or the ray correction
`hitPoint - direction * Radius` of a weapon, and `post` is empty with the velocity kept, or the
one position `hitPoint + hitNormal * Radius` of a hit closer than the radius on an object without
`Piercing`, with the velocity slid along `hitNormal`. -/
def meshTriangleStep (direction : Vector3) (st st1 : MeshState) : Prop :=
  ∃ pre post : List Vector3,
    st1.corrected = st.corrected ++ (pre ++ post) ∧
    st1.hits = st.hits + (pre ++ post).length ∧
    st1.averagePosition = (pre ++ post).foldl (fun a b => a + b) st.averagePosition ∧
    (pre = [] ∨ (st.obj.Type_ = ObjectType.Weapon ∧
      ∃ hitPoint : Vector3, pre = [hitPoint - direction * st.obj.Radius])) ∧
    ((post = [] ∧ st1.obj.Physics.Velocity = st.obj.Physics.Velocity) ∨
      (st.obj.Physics.Flags.Piercing = false ∧
        ∃ (hitPoint hitNormal : Vector3) (hitDistance : ℚ),
          hitDistance < st.obj.Radius ∧
          post = [hitPoint + hitNormal * st.obj.Radius] ∧
          st1.obj.Physics.Velocity
            = st.obj.Physics.Velocity - hitNormal * hitNormal.Dot st.obj.Physics.Velocity))

/-- The sum of a list of positions, starting from `Vector3::Zero`. -/
def sumPositions (positions : List Vector3) : Vector3 :=
  positions.foldl (fun a b => a + b) Vector3.Zero

/-- A weapon of the given radius with previous position `(0, -4, -6/5)` flying along
`(0, -3/5, -4/5)` with speed 320 towards the wall of `wallMeshEnv`, one tick of `1/128` after
`LinearPhysics`. -/
def obliqueWeapon (radius : ℚ) : Object :=
  { scenarioSphere with
    Type_ := ObjectType.Weapon
    Radius := radius
    PrevPosition := ⟨0, -4, -6 / 5⟩
    Position := ⟨0, -11 / 2, -16 / 5⟩
    Physics := { scenarioSphere.Physics with Velocity := ⟨0, -192, -256⟩ } }

/-- The state of the loops of `IntersectLevelMesh` on `obj`, by the number of positions added
to `averagePosition` so far: none, with the velocity of `obj` and the closest recorded hit not
closer than the radius; one, which is `hit.Point + hit.Normal * Radius` of the recorded hit,
with the velocity of `obj` slid along `hit.Normal`; or at least two. -/
def meshSingleHit (obj : Object) (st : MeshState) : Prop :=
  (st.corrected = [] ∧ st.obj.Physics.Velocity = obj.Physics.Velocity ∧
    obj.Radius ≤ st.hit.Distance) ∨
  (st.corrected = [st.hit.Point + st.hit.Normal * obj.Radius] ∧
    st.obj.Physics.Velocity
      = obj.Physics.Velocity - st.hit.Normal * st.hit.Normal.Dot obj.Physics.Velocity ∧
    st.hit.Distance < obj.Radius) ∨
  2 ≤ st.corrected.length

/-- The state of the loops of `IntersectSpherePoly` on `obj`, by the value of `hits`: zero, with
the velocity of `obj`; one, with the velocity of `obj` slid along `hit.Normal`; or at least
two. -/
def polySingleHit (obj : Object) (st : PolyState) : Prop :=
  (st.hits = 0 ∧ st.obj.Physics.Velocity = obj.Physics.Velocity) ∨
  (st.hits = 1 ∧
    st.obj.Physics.Velocity
      = obj.Physics.Velocity - st.hit.Normal * st.hit.Normal.Dot obj.Physics.Velocity) ∨
  2 ≤ st.hits

/-- A robot of radius 1 that `LinearPhysics` moved in `1/100` from `(-3/10, -5, -4/5)` to
`(0, -5, -6/5)` with velocity `(30, 0, -40)`: it ends `1/5` behind the inflated plane `z = -1`
of triangle 0 of the sample wall, which it approaches at a slant. -/
def glancingSphere : Object :=
  { offsetSphere with
    Position := ⟨0, -5, -6 / 5⟩
    PrevPosition := ⟨-3 / 10, -5, -4 / 5⟩
    Physics := { offsetSphere.Physics with Velocity := ⟨30, 0, -40⟩ } }

/-- The object `glancingSphere` with the `Piercing` flag set. -/
def piercingSphere : Object :=
  { glancingSphere with
    Physics := { glancingSphere.Physics with
      Flags := { glancingSphere.Physics.Flags with Piercing := true } } }

/-- The player `slowPlayer` with velocity `(3/100, 0, -1/25)`: it drifts at a slant towards the
plane `z = 0` of `triangleModel`. -/
def glancingPlayer : Object :=
  { slowPlayer with Physics := { slowPlayer.Physics with Velocity := ⟨3 / 100, 0, -1 / 25⟩ } }

/-- The object `glancingPlayer` with the `Piercing` flag set. -/
def piercingPlayer : Object :=
  { glancingPlayer with
    Physics := { glancingPlayer.Physics with
      Flags := { glancingPlayer.Physics.Flags with Piercing := true } } }

/-! ## Connections of the level (`Level::TryAddConnection`) -/

/-- The assignment `seg.Connections[(int)side] = value` on segment `id` of the level, which the
caller has checked to exist. -/
def Level.setConnection (level : Level) (id : SegID) (side : SideID) (value : SegID) : Level :=
  match level.GetSegment id with
  | none => level
  | some seg =>
    { level with
      Segments := level.Segments.set id.toNat
        { seg with Connections := fun s => if s = side then value else seg.Connections s } }

/-- The function `Level::TryAddConnection`, with `Segment::SideHasConnection` passed in. The
result is the returned flag and the level after the call; `none` when a side of a tag that is
read is `SideID::None`, which indexes outside `Connections`. The second test of the `||` is only
evaluated when the first is false. -/
def Level.TryAddConnection (SideHasConnection : Segment → SideID → Bool) (level : Level)
    (srcId destId : Tag) : Option (Bool × Level) :=
  if ¬ level.SegmentExists srcId.Segment ∨ ¬ level.SegmentExists destId.Segment then
    some (false, level)
  else
    match level.GetSegment srcId.Segment, level.GetSegment destId.Segment with
    | some src, some dest =>
      match srcId.Side with
      | none => none
      | some srcSide =>
        if SideHasConnection src srcSide = true then some (false, level)
        else
          match destId.Side with
          | none => none
          | some destSide =>
            if SideHasConnection dest destSide = true then some (false, level)
            else
              some (true,
                (level.setConnection srcId.Segment srcSide destId.Segment).setConnection
                  destId.Segment destSide srcId.Segment)
    | _, _ => none

/-- Every connection of the level to a segment of the level has a back-connection: when side
`side` of segment `s` connects to the segment `other`, some side of `other` connects to `s`. -/
def Level.Bidirectional (level : Level) : Prop :=
  ∀ (s : SegID) (seg : Segment), level.GetSegment s = some seg →
    ∀ (side : SideID) (other : Segment),
      level.GetSegment (seg.GetConnection side) = some other →
      ∃ back : SideID, other.GetConnection back = s

/-- A reading of `Segment::SideHasConnection` for the samples: the connection is not negative. -/
def sampleSideHasConnection (seg : Segment) (side : SideID) : Bool :=
  decide (0 ≤ seg.GetConnection side)

/-- A level of two segments without connections. -/
def looseLevel : Level :=
  { Segments :=
      [sampleSegment (-1) (-1) (-1) (-1) (-1) (-1), sampleSegment (-1) (-1) (-1) (-1) (-1) (-1)]
    Objects := [] }

theorem pvsVisitSide_cases (seg : Segment) (point : Vector3) (radius : ℚ) (depth : Nat)
    (visited queue : List SegID) (sideId : SideID) :
    pvsVisitSide seg point radius depth visited queue sideId = queue ∨
    (pvsVisitSide seg point radius depth visited queue sideId = queue ++ [seg.GetConnection sideId]
      ∧ seg.GetConnection sideId ≠ SegID.None ∧ seg.GetConnection sideId ∉ visited) := by
  unfold pvsVisitSide
  by_cases h1 : depth = 0 ∨ inflatedPlaneValue (seg.GetSide sideId) point radius ≤ 0
  · by_cases h2 : seg.GetConnection sideId ≠ SegID.None ∧ ¬ seg.GetConnection sideId ∈ visited
    · right; rw [if_pos h1, if_pos h2]; exact ⟨rfl, h2.1, h2.2⟩
    · left; rw [if_pos h1, if_neg h2]
  · left; rw [if_neg h1]

theorem pvsVisitSide_pushes (seg : Segment) (point : Vector3) (radius : ℚ) (depth : Nat)
    (visited queue : List SegID) (sideId : SideID)
    (hq : depth = 0 ∨ inflatedPlaneValue (seg.GetSide sideId) point radius ≤ 0)
    (hc : seg.GetConnection sideId ≠ SegID.None) :
    seg.GetConnection sideId ∈ visited ∨
      seg.GetConnection sideId ∈ pvsVisitSide seg point radius depth visited queue sideId := by
  by_cases hv : seg.GetConnection sideId ∈ visited
  · exact Or.inl hv
  · right
    unfold pvsVisitSide
    rw [if_pos hq, if_pos ⟨hc, hv⟩]
    simp

theorem pvsFold_subset (seg : Segment) (point : Vector3) (radius : ℚ) (depth : Nat)
    (visited : List SegID) (sides : List SideID) :
    ∀ queue : List SegID, ∀ x ∈ queue,
      x ∈ sides.foldl (pvsVisitSide seg point radius depth visited) queue := by
  induction sides with
  | nil => intro queue x hx; simpa using hx
  | cons sideId rest ih =>
    intro queue x hx
    rw [List.foldl_cons]
    apply ih
    rcases pvsVisitSide_cases seg point radius depth visited queue sideId with h | ⟨h, _, _⟩
    · rw [h]; exact hx
    · rw [h]; exact List.mem_append_left _ hx

theorem pvsFold_pushes (seg : Segment) (point : Vector3) (radius : ℚ) (depth : Nat)
    (visited : List SegID) (sides : List SideID) :
    ∀ queue : List SegID, ∀ sideId ∈ sides,
      (depth = 0 ∨ inflatedPlaneValue (seg.GetSide sideId) point radius ≤ 0) →
      seg.GetConnection sideId ≠ SegID.None →
      seg.GetConnection sideId ∈ visited ∨
        seg.GetConnection sideId ∈ sides.foldl (pvsVisitSide seg point radius depth visited) queue := by
  induction sides with
  | nil => intro queue sideId hs; simp at hs
  | cons s rest ih =>
    intro queue sideId hs hq hc
    rw [List.foldl_cons]
    rcases List.mem_cons.mp hs with rfl | hrest
    · rcases pvsVisitSide_pushes seg point radius depth visited queue sideId hq hc with h | h
      · exact Or.inl h
      · exact Or.inr (pvsFold_subset seg point radius depth visited rest _ _ h)
    · exact ih _ sideId hrest hq hc

theorem pvsFold_origin (seg : Segment) (point : Vector3) (radius : ℚ) (depth : Nat)
    (visited : List SegID) (sides : List SideID) :
    ∀ queue : List SegID, ∀ x ∈ sides.foldl (pvsVisitSide seg point radius depth visited) queue,
      x ∈ queue ∨ ∃ sideId, x = seg.GetConnection sideId ∧ x ≠ SegID.None ∧ x ∉ visited := by
  induction sides with
  | nil => intro queue x hx; exact Or.inl (by simpa using hx)
  | cons s rest ih =>
    intro queue x hx
    rw [List.foldl_cons] at hx
    rcases ih _ x hx with h | h
    · rcases pvsVisitSide_cases seg point radius depth visited queue s with e | ⟨e, hn, hv⟩
      · rw [e] at h; exact Or.inl h
      · rw [e] at h
        rcases List.mem_append.mp h with h | h
        · exact Or.inl h
        · right
          have hx2 : x = seg.GetConnection s := by simpa using h
          exact ⟨s, hx2, hx2 ▸ hn, hx2 ▸ hv⟩
    · exact Or.inr h

theorem mem_SideIDs (side : SideID) : side ∈ SideIDs := by
  revert side; decide

theorem Level.GetSegment_of_exists (level : Level) (s : Int) (h : level.SegmentExists s) :
    ∃ seg, level.GetSegment s = some seg ∧ seg ∈ level.Segments := by
  have h0 : (0 : Int) ≤ s := h.1
  have h1 : (s : Int) < level.Segments.length := h.2
  have hlt : s.toNat < level.Segments.length := by omega
  refine ⟨level.Segments[s.toNat], ?_, List.getElem_mem hlt⟩
  unfold Level.GetSegment
  rw [if_pos h0, List.getElem?_eq_getElem hlt]

theorem Level.GetSegment_mem (level : Level) (s : Int) (seg : Segment)
    (h : level.GetSegment s = some seg) : seg ∈ level.Segments ∧ level.SegmentExists s := by
  unfold Level.GetSegment at h
  by_cases h0 : 0 ≤ s
  · rw [if_pos h0] at h
    obtain ⟨hlt, heq⟩ := List.getElem?_eq_some.mp h
    have h0i : (0 : Int) ≤ s := h0
    have h1 : (s : Int) < level.Segments.length := by omega
    exact ⟨heq ▸ List.getElem_mem hlt, h0, h1⟩
  · rw [if_neg h0] at h; cases h

theorem pvsUnvisited_insert_lt (n : Nat) (visited : List SegID) (s : Int)
    (h0 : 0 ≤ s) (hn : s < n) (hv : s ∉ visited) :
    pvsUnvisited n (visited.insert s) < pvsUnvisited n visited := by
  unfold pvsUnvisited
  apply Finset.card_lt_card
  rw [Finset.ssubset_iff_of_subset]
  · refine ⟨s.toNat, ?_, ?_⟩
    · rw [Finset.mem_filter, Finset.mem_range, Int.toNat_of_nonneg h0]
      exact ⟨by omega, hv⟩
    · rw [Finset.mem_filter, Int.toNat_of_nonneg h0]
      exact fun h => h.2 (List.mem_insert_iff.mpr (Or.inl rfl))
  · intro i hi
    rw [Finset.mem_filter] at hi ⊢
    exact ⟨hi.1, fun hmem => hi.2 (List.mem_insert_iff.mpr (Or.inr hmem))⟩

theorem pvsWeight_append (visited q1 q2 : List SegID) :
    pvsWeight visited (q1 ++ q2) = pvsWeight visited q1 + pvsWeight visited q2 := by
  simp [pvsWeight]

theorem pvsWeight_fold_le (seg : Segment) (point : Vector3) (radius : ℚ) (depth : Nat)
    (visited : List SegID) (sides : List SideID) :
    ∀ queue : List SegID,
      pvsWeight visited (sides.foldl (pvsVisitSide seg point radius depth visited) queue)
        ≤ pvsWeight visited queue + sides.length := by
  induction sides with
  | nil => intro queue; simp
  | cons s rest ih =>
    intro queue
    rw [List.foldl_cons]
    have h1 := ih (pvsVisitSide seg point radius depth visited queue s)
    have h2 : pvsWeight visited (pvsVisitSide seg point radius depth visited queue s)
        ≤ pvsWeight visited queue + 1 := by
      rcases pvsVisitSide_cases seg point radius depth visited queue s with e | ⟨e, _, hv⟩
      · rw [e]; omega
      · rw [e, pvsWeight_append]
        simp [pvsWeight, hv]
    simp only [List.length_cons]
    omega

theorem pvsLoop_terminates (level : Level) (point : Vector3) (radius : ℚ)
    (hvalid : level.ConnectionsValid) :
    ∀ (n w depth : Nat) (visited queue : List SegID),
      pvsUnvisited level.Segments.length visited = n → pvsWeight visited queue = w →
      (∀ x ∈ queue, level.SegmentExists x) →
      ∃ fuel r, GetPotentialSegmentsLoop level point radius fuel depth visited queue = some r := by
  intro n
  induction n using Nat.strong_induction_on with
  | _ n ihn =>
    intro w
    induction w using Nat.strong_induction_on with
    | _ w ihw =>
      intro depth visited queue hn hw hq
      cases queue with
      | nil => exact ⟨1, _, rfl⟩
      | cons s rest =>
        have hs := hq s (List.mem_cons_self _ _)
        obtain ⟨seg, hseg, hmem⟩ := level.GetSegment_of_exists s hs
        have hq1 : ∀ x ∈ SideIDs.foldl
            (pvsVisitSide seg point radius depth (visited.insert s)) rest,
            level.SegmentExists x := by
          intro x hx
          rcases pvsFold_origin seg point radius depth _ SideIDs rest x hx with h | ⟨side, he, hne, _⟩
          · exact hq x (List.mem_cons_of_mem _ h)
          · rcases hvalid seg hmem side with h | h
            · exact absurd (he ▸ h) hne
            · exact he ▸ h
        have key : ∃ fuel r, GetPotentialSegmentsLoop level point radius fuel (depth + 1)
            (visited.insert s)
            (SideIDs.foldl (pvsVisitSide seg point radius depth (visited.insert s)) rest)
              = some r := by
          by_cases hv : s ∈ visited
          · have hins : visited.insert s = visited := List.insert_of_mem hv
            rw [hins] at hq1 ⊢
            refine ihw _ ?_ (depth + 1) visited _ hn rfl hq1
            have h1 := pvsWeight_fold_le seg point radius depth visited SideIDs rest
            have h2 : pvsWeight visited (s :: rest) = 7 + pvsWeight visited rest := by
              simp [pvsWeight, hv]
            have h3 : SideIDs.length = 6 := rfl
            omega
          · refine ihn _ ?_ _ (depth + 1) _ _ rfl rfl hq1
            rw [← hn]
            exact pvsUnvisited_insert_lt _ visited s hs.1 hs.2 hv
        obtain ⟨fuel, r, h⟩ := key
        refine ⟨fuel + 1, r, ?_⟩
        simp only [GetPotentialSegmentsLoop, hseg]
        exact h

theorem pvsLoop_invariant (level : Level) (point : Vector3) (radius : ℚ) :
    ∀ (fuel depth : Nat) (visited queue : List SegID) (r : PvsScratch),
      GetPotentialSegmentsLoop level point radius fuel depth visited queue = some r →
      pvsClosed level point radius visited queue →
      pvsClosed level point radius r.g_VisitedSegs [] ∧ r.g_VisitedStack = [] ∧
        (∀ x ∈ visited, x ∈ r.g_VisitedSegs) ∧ (∀ x ∈ queue, x ∈ r.g_VisitedSegs) := by
  intro fuel
  induction fuel with
  | zero => intro depth visited queue r h; simp [GetPotentialSegmentsLoop] at h
  | succ fuel ih =>
    intro depth visited queue r h hinv
    cases queue with
    | nil =>
      simp only [GetPotentialSegmentsLoop, Option.some.injEq] at h
      subst h
      exact ⟨hinv, rfl, fun x hx => hx, fun x hx => by simp at hx⟩
    | cons segId rest =>
      simp only [GetPotentialSegmentsLoop] at h
      cases hseg : level.GetSegment segId with
      | none => rw [hseg] at h; simp at h
      | some seg =>
        rw [hseg] at h
        have hclosed : pvsClosed level point radius (visited.insert segId)
            (SideIDs.foldl (pvsVisitSide seg point radius depth (visited.insert segId)) rest) := by
          intro s hs seg1 hseg1 side hval hconn
          rcases List.mem_insert_iff.mp hs with rfl | hs
          · rw [hseg] at hseg1
            cases hseg1
            exact pvsFold_pushes seg point radius depth _ SideIDs rest side (mem_SideIDs side)
              (Or.inr hval) hconn
          · rcases hinv s hs seg1 hseg1 side hval hconn with h1 | h1
            · exact Or.inl (List.mem_insert_iff.mpr (Or.inr h1))
            · rcases List.mem_cons.mp h1 with h2 | h2
              · exact Or.inl (List.mem_insert_iff.mpr (Or.inl h2))
              · exact Or.inr (pvsFold_subset seg point radius depth _ SideIDs rest _ h2)
        obtain ⟨h1, h2, h3, h4⟩ := ih _ _ _ r h hclosed
        refine ⟨h1, h2, fun x hx => h3 x (List.mem_insert_iff.mpr (Or.inr hx)), ?_⟩
        intro x hx
        rcases List.mem_cons.mp hx with rfl | hx
        · exact h3 x (List.mem_insert_iff.mpr (Or.inl rfl))
        · exact h4 x (pvsFold_subset seg point radius depth _ SideIDs rest _ hx)

/-- First iteration: all neighbours of the start segment are visited or queued. -/
theorem pvsLoop_first (level : Level) (point : Vector3) (radius : ℚ) (fuel : Nat)
    (start : SegID) (r : PvsScratch)
    (h : GetPotentialSegmentsLoop level point radius fuel 0 [] [start] = some r) :
    pvsClosed level point radius r.g_VisitedSegs [] ∧ r.g_VisitedStack = [] ∧
      start ∈ r.g_VisitedSegs ∧
      ∀ seg, level.GetSegment start = some seg → ∀ side : SideID,
        seg.GetConnection side ≠ SegID.None → seg.GetConnection side ∈ r.g_VisitedSegs := by
  cases fuel with
  | zero => simp [GetPotentialSegmentsLoop] at h
  | succ fuel =>
    simp only [GetPotentialSegmentsLoop] at h
    cases hseg : level.GetSegment start with
    | none => rw [hseg] at h; simp at h
    | some seg =>
      rw [hseg] at h
      have hclosed : pvsClosed level point radius (([] : List SegID).insert start)
          (SideIDs.foldl (pvsVisitSide seg point radius 0 (([] : List SegID).insert start)) []) := by
        intro s hs seg1 hseg1 side hval hconn
        rcases List.mem_insert_iff.mp hs with rfl | hs
        · rw [hseg] at hseg1
          cases hseg1
          exact pvsFold_pushes seg point radius 0 _ SideIDs [] side (mem_SideIDs side)
            (Or.inl rfl) hconn
        · simp at hs
      obtain ⟨h1, h2, h3, h4⟩ := pvsLoop_invariant level point radius _ _ _ _ r h hclosed
      refine ⟨h1, h2, h3 start (List.mem_insert_iff.mpr (Or.inl rfl)), ?_⟩
      intro seg1 hseg1 side hconn
      cases hseg1
      rcases pvsFold_pushes seg point radius 0 (([] : List SegID).insert start) SideIDs [] side
        (mem_SideIDs side) (Or.inl rfl) hconn with h5 | h5
      · exact h3 _ h5
      · exact h4 _ h5

/-- C1: on a level whose connections are `None` or in range, from a clean work queue,
`GetPotentialSegments` returns (with enough fuel), and every set it returns contains the start
segment and every segment connected to one of the six sides of the start segment, whatever the
side planes, the point and the radius are. -/
theorem GetPotentialSegments_start_and_neighbours (level : Level) (scratch : PvsScratch)
    (start : SegID) (point : Vector3) (radius : ℚ)
    (hvalid : level.ConnectionsValid) (hstart : level.SegmentExists start)
    (hqueue : scratch.g_VisitedStack = []) :
    (∃ fuel r, GetPotentialSegments fuel level scratch start point radius = some r) ∧
    ∀ fuel r, GetPotentialSegments fuel level scratch start point radius = some r →
      start ∈ r.g_VisitedSegs ∧
      ∀ seg, level.GetSegment start = some seg → ∀ side : SideID,
        seg.GetConnection side ≠ SegID.None → seg.GetConnection side ∈ r.g_VisitedSegs := by
  unfold GetPotentialSegments
  rw [hqueue, List.nil_append]
  constructor
  · refine pvsLoop_terminates level point radius hvalid _ _ 0 [] [start] rfl rfl ?_
    intro x hx
    rw [List.mem_singleton] at hx
    exact hx ▸ hstart
  · intro fuel r h
    obtain ⟨_, _, h3, h4⟩ := pvsLoop_first level point radius fuel start r h
    exact ⟨h3, h4⟩

/-- Witness of C1 on `sampleLevel`, which has a self-connected segment and a cycle. -/
theorem GetPotentialSegments_start_and_neighbours_witness :
    sampleLevel.ConnectionsValid ∧ sampleLevel.SegmentExists 0 ∧
    ((∃ fuel r, GetPotentialSegments fuel sampleLevel ⟨[7], []⟩ 0 ⟨0, 0, 5⟩ 1 = some r) ∧
    ∀ fuel r, GetPotentialSegments fuel sampleLevel ⟨[7], []⟩ 0 ⟨0, 0, 5⟩ 1 = some r →
      (0 : SegID) ∈ r.g_VisitedSegs ∧
      ∀ seg, sampleLevel.GetSegment 0 = some seg → ∀ side : SideID,
        seg.GetConnection side ≠ SegID.None → seg.GetConnection side ∈ r.g_VisitedSegs) :=
  ⟨by decide, by decide,
    GetPotentialSegments_start_and_neighbours sampleLevel ⟨[7], []⟩ 0 ⟨0, 0, 5⟩ 1
      (by decide) (by decide) rfl⟩

/-- C2 (soundness of the potential segment set): on a level whose connections are `None` or in
range, from a clean work queue, `GetPotentialSegments` returns, and every segment reached from the
start segment by a chain of connections, each across a side whose plane moved outward by `radius`
has the query point behind or on it (plane value `<= 0`), is in every returned set. -/
theorem GetPotentialSegments_sound (level : Level) (scratch : PvsScratch)
    (start : SegID) (point : Vector3) (radius : ℚ)
    (hvalid : level.ConnectionsValid) (hstart : level.SegmentExists start)
    (hqueue : scratch.g_VisitedStack = [])
    (t : SegID) (hchain : PvsChain level point radius start t) :
    (∃ fuel r, GetPotentialSegments fuel level scratch start point radius = some r) ∧
    ∀ fuel r, GetPotentialSegments fuel level scratch start point radius = some r →
      t ∈ r.g_VisitedSegs := by
  unfold GetPotentialSegments
  rw [hqueue, List.nil_append]
  constructor
  · refine pvsLoop_terminates level point radius hvalid _ _ 0 [] [start] rfl rfl ?_
    intro x hx
    rw [List.mem_singleton] at hx
    exact hx ▸ hstart
  · intro fuel r h
    obtain ⟨hclosed, _, h3, _⟩ := pvsLoop_first level point radius fuel start r h
    induction hchain with
    | start => exact h3
    | cross s seg side _ hseg hval hconn ih =>
      rcases hclosed s ih seg hseg side hval hconn with h5 | h5
      · exact h5
      · simp at h5

/-- Witness of C2 on `sampleLevel`: segment 2 is reached from segment 0 through segment 1. -/
theorem GetPotentialSegments_sound_witness :
    sampleLevel.ConnectionsValid ∧ sampleLevel.SegmentExists 0 ∧
    PvsChain sampleLevel ⟨0, 0, -5⟩ 1 0 2 ∧
    ((∃ fuel r, GetPotentialSegments fuel sampleLevel ⟨[], []⟩ 0 ⟨0, 0, -5⟩ 1 = some r) ∧
    ∀ fuel r, GetPotentialSegments fuel sampleLevel ⟨[], []⟩ 0 ⟨0, 0, -5⟩ 1 = some r →
      (2 : SegID) ∈ r.g_VisitedSegs) :=
  have hval : inflatedPlaneValue sampleSide ⟨0, 0, -5⟩ 1 ≤ 0 := by decide!
  have hchain : PvsChain sampleLevel ⟨0, 0, -5⟩ 1 0 2 :=
    PvsChain.cross 1 (sampleSegment 0 2 2 (-1) (-1) (-1)) 1
      (PvsChain.cross 0 (sampleSegment 1 0 (-1) (-1) (-1) (-1)) 0 PvsChain.start rfl hval
        (by decide))
      rfl hval (by decide)
  ⟨by decide, by decide, hchain,
    GetPotentialSegments_sound sampleLevel ⟨[], []⟩ 0 ⟨0, 0, -5⟩ 1
      (by decide) (by decide) rfl 2 hchain⟩

/-! ## Level ray caster: proofs -/

theorem length_le_of_nodup_of_range (l : List Int) (n : Nat) (hl : l.Nodup)
    (hr : ∀ x ∈ l, 0 ≤ x ∧ x < n) : l.length ≤ n := by
  have hinj : ∀ x ∈ l, ∀ y ∈ l, Int.toNat x = Int.toNat y → x = y := by
    intro x hx y hy hxy
    have h1 := (hr x hx).1
    have h2 := (hr y hy).1
    omega
  have hnd : (l.map Int.toNat).Nodup := List.Nodup.map_on hinj hl
  have hsub : l.map Int.toNat ⊆ List.range n := by
    intro k hk
    obtain ⟨x, hx, rfl⟩ := List.mem_map.mp hk
    have h1 := hr x hx
    rw [List.mem_range]
    omega
  have := (List.Nodup.subperm hnd hsub).length_le
  simpa using this

theorem rayScanSides_spec (env : RayEnv) (level : Level) (ray : Ray) (maxDist : ℚ)
    (passTransparent hitTestTextures : Bool) (segId : SegID) (seg : Segment)
    (visitedSegs : List SegID) (hit : LevelHit) :
    ∀ sides : List SideID,
      (rayScanSides env level ray maxDist passTransparent hitTestTextures segId seg visitedSegs
          hit sides = SideScan.finished →
        ∀ s ∈ sides, ¬ rayStruck env level seg ray s hit.Distance) ∧
      (∀ result h side,
        rayScanSides env level ray maxDist passTransparent hitTestTextures segId seg visitedSegs
          hit sides = SideScan.returned result h side →
        (∃ pre post, sides = pre ++ side :: post ∧
          ∀ s ∈ pre, ¬ rayStruck env level seg ray s hit.Distance) ∧
        rayStruck env level seg ray side hit.Distance ∧
        (result = false → h = hit) ∧
        (result = true →
          h.Distance = (env.FaceIntersects level seg side ray).2 ∧
          h.Distance ≤ maxDist ∧
          h.Point = ray.position + ray.direction * h.Distance ∧
          h.Tag = ⟨segId, some side⟩ ∧
          rayIsSolid env level segId seg side passTransparent hitTestTextures
            (ray.position + ray.direction * (env.FaceIntersects level seg side ray).2)
            (env.FaceIntersects level seg side ray).1 = true)) ∧
      (∀ h next side,
        rayScanSides env level ray maxDist passTransparent hitTestTextures segId seg visitedSegs
          hit sides = SideScan.broke h next side →
        (∃ pre post, sides = pre ++ side :: post ∧
          ∀ s ∈ pre, ¬ rayStruck env level seg ray s hit.Distance) ∧
        rayStruck env level seg ray side hit.Distance ∧
        h.Distance = hit.Distance ∧
        (next = SegID.None ∨ (next = seg.GetConnection side ∧ next ∉ visitedSegs)) ∧
        rayIsSolid env level segId seg side passTransparent hitTestTextures
            (ray.position + ray.direction * (env.FaceIntersects level seg side ray).2)
            (env.FaceIntersects level seg side ray).1 = false) := by
  intro sides
  induction sides with
  | nil =>
    refine ⟨(fun _ s hs => by simp at hs), ?_, ?_⟩
    · intro result h side hres; simp [rayScanSides] at hres
    · intro h next side hres; simp [rayScanSides] at hres
  | cons s rest ih =>
    obtain ⟨ih1, ih2, ih3⟩ := ih
    by_cases hc : (env.FaceIntersects level seg s ray).1 ≠ -1 ∧
        (env.FaceIntersects level seg s ray).2 < hit.Distance
    · by_cases hfar : (env.FaceIntersects level seg s ray).2 > maxDist
      · have e : rayScanSides env level ray maxDist passTransparent hitTestTextures segId seg
            visitedSegs hit (s :: rest) = SideScan.returned false hit s := by
          simp only [rayScanSides]; rw [if_pos hc, if_pos hfar]
        rw [e]
        refine ⟨(fun h => by cases h), ?_, (fun h next side hres => by cases hres)⟩
        intro result h side hres
        cases hres
        exact ⟨⟨[], rest, rfl, (fun s hs => by simp at hs)⟩, hc, (fun _ => rfl),
          (fun h => by cases h)⟩
      · by_cases hsolid : rayIsSolid env level segId seg s passTransparent hitTestTextures
            (ray.position + ray.direction * (env.FaceIntersects level seg s ray).2)
            (env.FaceIntersects level seg s ray).1 = true
        · simp only [rayScanSides]
          rw [if_pos hc, if_neg hfar]
          simp only [hsolid, if_true]
          refine ⟨(fun h => by cases h), ?_, (fun h next side hres => by cases hres)⟩
          intro result h side hres
          cases hres
          refine ⟨⟨[], rest, rfl, (fun s hs => by simp at hs)⟩, hc, (fun h => by cases h), ?_⟩
          intro _
          exact ⟨rfl, not_lt.mp hfar, rfl, rfl, hsolid⟩
        · simp only [rayScanSides]
          rw [if_pos hc, if_neg hfar]
          simp only [hsolid]
          refine ⟨(fun h => by cases h), (fun result h side hres => by cases hres), ?_⟩
          intro h next side hres
          simp only [Bool.false_eq_true, if_false] at hres
          cases hres
          refine ⟨⟨[], rest, rfl, (fun s hs => by simp at hs)⟩, hc, rfl, ?_,
            (by simpa using hsolid)⟩
          by_cases hv : seg.GetConnection s ∈ visitedSegs
          · rw [if_pos hv]; exact Or.inl rfl
          · rw [if_neg hv]; exact Or.inr ⟨rfl, hv⟩
    · have e : rayScanSides env level ray maxDist passTransparent hitTestTextures segId seg
          visitedSegs hit (s :: rest) = rayScanSides env level ray maxDist passTransparent
          hitTestTextures segId seg visitedSegs hit rest := by
        simp only [rayScanSides]; rw [if_neg hc]
      rw [e]
      refine ⟨?_, ?_, ?_⟩
      · intro hfin x hx
        rcases List.mem_cons.mp hx with rfl | hx
        · exact hc
        · exact ih1 hfin x hx
      · intro result h side hres
        obtain ⟨⟨pre, post, hsplit, hpre⟩, h2⟩ := ih2 result h side hres
        refine ⟨⟨s :: pre, post, by rw [hsplit]; rfl, ?_⟩, h2⟩
        intro x hx
        rcases List.mem_cons.mp hx with rfl | hx
        · exact hc
        · exact hpre x hx
      · intro h next side hres
        obtain ⟨⟨pre, post, hsplit, hpre⟩, h2⟩ := ih3 h next side hres
        refine ⟨⟨s :: pre, post, by rw [hsplit]; rfl, ?_⟩, h2⟩
        intro x hx
        rcases List.mem_cons.mp hx with rfl | hx
        · exact hc
        · exact hpre x hx

theorem SideIDs_before (side : SideID) (pre post : List SideID)
    (h : SideIDs = pre ++ side :: post) (s : SideID) (hs : s < side) : s ∈ pre := by
  have hsorted : List.Pairwise (fun a b : SideID => a < b) SideIDs := by decide
  rw [h, List.pairwise_append] at hsorted
  obtain ⟨_, hpost, _⟩ := hsorted
  have hmem : s ∈ pre ++ side :: post := h ▸ mem_SideIDs s
  rcases List.mem_append.mp hmem with h1 | h1
  · exact h1
  · rcases List.mem_cons.mp h1 with h2 | h2
    · exact absurd (h2 ▸ hs) (lt_irrefl _)
    · have := (List.pairwise_cons.mp hpost).1 s h2
      exact absurd (lt_trans this hs) (lt_irrefl _)

theorem rayLoop_acted (env : RayEnv) (level : Level) (ray : Ray) (maxDist : ℚ)
    (passTransparent hitTestTextures : Bool) :
    ∀ (fuel : Nat) (next : SegID) (visitedSegs walked : List SegID)
      (acted : List (SegID × SideID)) (hit : LevelHit) (r : RayResult),
      IntersectRayLevelLoop env level ray maxDist passTransparent hitTestTextures fuel next
        visitedSegs walked acted hit = some r →
      ∀ p ∈ r.acted, p ∈ acted ∨ ∃ seg, level.GetSegment p.1 = some seg ∧
        rayStruck env level seg ray p.2 hit.Distance ∧
        ∀ s : SideID, s < p.2 → ¬ rayStruck env level seg ray s hit.Distance := by
  intro fuel
  induction fuel with
  | zero => intro next visitedSegs walked acted hit r h; simp [IntersectRayLevelLoop] at h
  | succ fuel ih =>
    intro next visitedSegs walked acted hit r h p hp
    simp only [IntersectRayLevelLoop] at h
    by_cases hnext : next > SegID.None
    · rw [if_pos hnext] at h
      cases hseg : level.GetSegment next with
      | none => rw [hseg] at h; simp at h
      | some seg =>
        rw [hseg] at h
        dsimp only at h
        obtain ⟨_, hret, hbrk⟩ := rayScanSides_spec env level ray maxDist passTransparent
          hitTestTextures next seg (visitedSegs.insert next) hit SideIDs
        cases hscan : rayScanSides env level ray maxDist passTransparent hitTestTextures next seg
            (visitedSegs.insert next) hit SideIDs with
        | returned result hit1 side =>
          rw [hscan] at h
          simp only [Option.some.injEq] at h
          subst h
          obtain ⟨⟨pre, post, hsplit, hpre⟩, hstruck, _, _⟩ := hret result hit1 side hscan
          rcases List.mem_append.mp hp with h1 | h1
          · exact Or.inl h1
          · rw [List.mem_singleton] at h1
            subst h1
            exact Or.inr ⟨seg, hseg, hstruck,
              fun s hs => hpre s (SideIDs_before side pre post hsplit s hs)⟩
        | broke hit1 next1 side =>
          rw [hscan] at h
          obtain ⟨⟨pre, post, hsplit, hpre⟩, hstruck, hdist, _, _⟩ := hbrk hit1 next1 side hscan
          rcases ih _ _ _ _ _ r h p hp with h1 | h1
          · rcases List.mem_append.mp h1 with h2 | h2
            · exact Or.inl h2
            · rw [List.mem_singleton] at h2
              subst h2
              exact Or.inr ⟨seg, hseg, hstruck,
                fun s hs => hpre s (SideIDs_before side pre post hsplit s hs)⟩
          · rw [hdist] at h1
            exact Or.inr h1
        | finished =>
          rw [hscan] at h
          exact ih _ _ _ _ _ r h p hp
    · rw [if_neg hnext] at h
      simp only [Option.some.injEq] at h
      subst h
      exact Or.inl hp

theorem rayLoop_hit (env : RayEnv) (level : Level) (ray : Ray) (maxDist : ℚ)
    (passTransparent hitTestTextures : Bool) :
    ∀ (fuel : Nat) (next : SegID) (visitedSegs walked : List SegID)
      (acted : List (SegID × SideID)) (hit : LevelHit) (r : RayResult),
      IntersectRayLevelLoop env level ray maxDist passTransparent hitTestTextures fuel next
        visitedSegs walked acted hit = some r →
      r.result = true →
      ∃ segId side seg, r.acted.getLast? = some (segId, side) ∧
        r.hit.Tag = ⟨segId, some side⟩ ∧ level.GetSegment segId = some seg ∧
        r.hit.Distance = (env.FaceIntersects level seg side ray).2 ∧
        r.hit.Distance ≤ maxDist ∧
        r.hit.Point = ray.position + ray.direction * r.hit.Distance ∧
        rayIsSolid env level segId seg side passTransparent hitTestTextures
          (ray.position + ray.direction * (env.FaceIntersects level seg side ray).2)
          (env.FaceIntersects level seg side ray).1 = true := by
  intro fuel
  induction fuel with
  | zero => intro next visitedSegs walked acted hit r h; simp [IntersectRayLevelLoop] at h
  | succ fuel ih =>
    intro next visitedSegs walked acted hit r h hres
    simp only [IntersectRayLevelLoop] at h
    by_cases hnext : next > SegID.None
    · rw [if_pos hnext] at h
      cases hseg : level.GetSegment next with
      | none => rw [hseg] at h; simp at h
      | some seg =>
        rw [hseg] at h
        dsimp only at h
        obtain ⟨_, hret, _⟩ := rayScanSides_spec env level ray maxDist passTransparent
          hitTestTextures next seg (visitedSegs.insert next) hit SideIDs
        cases hscan : rayScanSides env level ray maxDist passTransparent hitTestTextures next seg
            (visitedSegs.insert next) hit SideIDs with
        | returned result hit1 side =>
          rw [hscan] at h
          simp only [Option.some.injEq] at h
          subst h
          obtain ⟨_, _, _, htrue⟩ := hret result hit1 side hscan
          obtain ⟨h1, h2, h3, h4, h5⟩ := htrue hres
          exact ⟨next, side, seg, by simp, h4, hseg, h1, h2, h3, h5⟩
        | broke hit1 next1 side =>
          rw [hscan] at h
          exact ih _ _ _ _ _ r h hres
        | finished =>
          rw [hscan] at h
          exact ih _ _ _ _ _ r h hres
    · rw [if_neg hnext] at h
      simp only [Option.some.injEq] at h
      subst h
      cases hres

theorem rayLoop_walked (env : RayEnv) (level : Level) (ray : Ray) (maxDist : ℚ)
    (passTransparent hitTestTextures : Bool) :
    ∀ (fuel : Nat) (next : SegID) (visitedSegs walked : List SegID)
      (acted : List (SegID × SideID)) (hit : LevelHit) (r : RayResult),
      IntersectRayLevelLoop env level ray maxDist passTransparent hitTestTextures fuel next
        visitedSegs walked acted hit = some r →
      (∀ x ∈ walked, x ∈ visitedSegs) → walked.Nodup →
      (next > SegID.None → next ∉ visitedSegs) →
      (∀ x ∈ walked, level.SegmentExists x) →
      r.walked.Nodup ∧ ∀ x ∈ r.walked, level.SegmentExists x := by
  intro fuel
  induction fuel with
  | zero => intro next visitedSegs walked acted hit r h; simp [IntersectRayLevelLoop] at h
  | succ fuel ih =>
    intro next visitedSegs walked acted hit r h hsub hnd hnew hex
    simp only [IntersectRayLevelLoop] at h
    by_cases hnext : next > SegID.None
    · rw [if_pos hnext] at h
      cases hseg : level.GetSegment next with
      | none => rw [hseg] at h; simp at h
      | some seg =>
        rw [hseg] at h
        dsimp only at h
        have hnw : next ∉ walked := fun hw => hnew hnext (hsub next hw)
        have hnd1 : (walked ++ [next]).Nodup := by
          rw [List.nodup_append]
          refine ⟨hnd, List.nodup_singleton _, ?_⟩
          intro a ha hb
          rw [List.mem_singleton] at hb
          exact hnw (hb ▸ ha)
        have hex1 : ∀ x ∈ walked ++ [next], level.SegmentExists x := by
          intro x hx
          rcases List.mem_append.mp hx with h1 | h1
          · exact hex x h1
          · rw [List.mem_singleton] at h1
            exact h1 ▸ (level.GetSegment_mem next seg hseg).2
        have hsub1 : ∀ x ∈ walked ++ [next], x ∈ visitedSegs.insert next := by
          intro x hx
          rcases List.mem_append.mp hx with h1 | h1
          · exact List.mem_insert_iff.mpr (Or.inr (hsub x h1))
          · rw [List.mem_singleton] at h1
            exact List.mem_insert_iff.mpr (Or.inl h1)
        obtain ⟨_, _, hbrk⟩ := rayScanSides_spec env level ray maxDist passTransparent
          hitTestTextures next seg (visitedSegs.insert next) hit SideIDs
        cases hscan : rayScanSides env level ray maxDist passTransparent hitTestTextures next seg
            (visitedSegs.insert next) hit SideIDs with
        | returned result hit1 side =>
          rw [hscan] at h
          simp only [Option.some.injEq] at h
          subst h
          exact ⟨hnd1, hex1⟩
        | broke hit1 next1 side =>
          rw [hscan] at h
          obtain ⟨_, _, _, hn1, _⟩ := hbrk hit1 next1 side hscan
          refine ih _ _ _ _ _ r h hsub1 hnd1 ?_ hex1
          intro hgt
          rcases hn1 with h1 | ⟨_, h1⟩
          · rw [h1] at hgt; exact absurd hgt (lt_irrefl _)
          · exact h1
        | finished =>
          rw [hscan] at h
          exact ih _ _ _ _ _ r h hsub1 hnd1 (fun hgt => absurd hgt (lt_irrefl _)) hex1
    · rw [if_neg hnext] at h
      simp only [Option.some.injEq] at h
      subst h
      exact ⟨hnd, hex⟩

theorem rayLoop_terminates (env : RayEnv) (level : Level) (ray : Ray) (maxDist : ℚ)
    (passTransparent hitTestTextures : Bool) (hvalid : level.ConnectionsValid) :
    ∀ (fuel : Nat) (next : SegID) (visitedSegs walked : List SegID)
      (acted : List (SegID × SideID)) (hit : LevelHit),
      visitedSegs.Nodup → (∀ x ∈ visitedSegs, level.SegmentExists x) →
      (next > SegID.None → level.SegmentExists next ∧ next ∉ visitedSegs) →
      level.Segments.length - visitedSegs.length + 1 ≤ fuel →
      ∃ r, IntersectRayLevelLoop env level ray maxDist passTransparent hitTestTextures fuel next
        visitedSegs walked acted hit = some r := by
  intro fuel
  induction fuel with
  | zero => intro next visitedSegs walked acted hit _ _ _ hfuel; omega
  | succ fuel ih =>
    intro next visitedSegs walked acted hit hnd hex hnew hfuel
    simp only [IntersectRayLevelLoop]
    by_cases hnext : next > SegID.None
    · rw [if_pos hnext]
      obtain ⟨hexn, hnv⟩ := hnew hnext
      obtain ⟨seg, hseg, hmem⟩ := level.GetSegment_of_exists next hexn
      rw [hseg]
      dsimp only
      have hins : visitedSegs.insert next = next :: visitedSegs := List.insert_of_not_mem hnv
      have hnd1 : (visitedSegs.insert next).Nodup := hnd.insert
      have hex1 : ∀ x ∈ visitedSegs.insert next, level.SegmentExists x := by
        intro x hx
        rcases List.mem_insert_iff.mp hx with h1 | h1
        · exact h1 ▸ hexn
        · exact hex x h1
      have hlen : (visitedSegs.insert next).length ≤ level.Segments.length :=
        length_le_of_nodup_of_range _ _ hnd1 hex1
      have hlen1 : (visitedSegs.insert next).length = visitedSegs.length + 1 := by
        rw [hins]; rfl
      have hfuel1 : level.Segments.length - (visitedSegs.insert next).length + 1 ≤ fuel := by
        omega
      obtain ⟨_, _, hbrk⟩ := rayScanSides_spec env level ray maxDist passTransparent
        hitTestTextures next seg (visitedSegs.insert next) hit SideIDs
      cases hscan : rayScanSides env level ray maxDist passTransparent hitTestTextures next seg
          (visitedSegs.insert next) hit SideIDs with
      | returned result hit1 side => exact ⟨_, rfl⟩
      | broke hit1 next1 side =>
        obtain ⟨_, _, _, hn1, _⟩ := hbrk hit1 next1 side hscan
        refine ih _ _ _ _ _ hnd1 hex1 ?_ hfuel1
        intro hgt
        rcases hn1 with h1 | ⟨h1, h2⟩
        · rw [h1] at hgt; exact absurd hgt (lt_irrefl _)
        · refine ⟨?_, h2⟩
          rcases hvalid seg hmem side with h3 | h3
          · rw [h1, h3] at hgt; exact absurd hgt (lt_irrefl _)
          · exact h1 ▸ h3
      | finished =>
        exact ih _ _ _ _ _ hnd1 hex1 (fun hgt => absurd hgt (lt_irrefl _)) hfuel1
    · rw [if_neg hnext]
      exact ⟨_, rfl⟩

/-- C3: on a level whose connections are `None` or in range, `IntersectRayLevel` returns for
every ray, start segment (below the segment count; `None` and other negative values included),
`maxDist`, flags and incoming hit, as soon as the fuel exceeds the segment count, also when
segments are connected to themselves or in a cycle; and every completed call enters each
segment at most once, so it walks at most as many segments as the level has. -/
theorem IntersectRayLevel_terminates (env : RayEnv) (level : Level) (ray : Ray) (start : SegID)
    (maxDist : ℚ) (passTransparent hitTestTextures : Bool) (hit : LevelHit)
    (hvalid : level.ConnectionsValid) (hstart : start < (level.Segments.length : Int)) :
    (∀ fuel, level.Segments.length + 1 ≤ fuel →
      ∃ r, IntersectRayLevel fuel env level ray start maxDist passTransparent hitTestTextures hit
        = some r) ∧
    ∀ fuel r,
      IntersectRayLevel fuel env level ray start maxDist passTransparent hitTestTextures hit
        = some r →
      r.walked.Nodup ∧ r.walked.length ≤ level.Segments.length := by
  constructor
  · intro fuel hfuel
    unfold IntersectRayLevel
    by_cases h1 : start = SegID.None
    · rw [if_pos h1]; exact ⟨_, rfl⟩
    · rw [if_neg h1]
      by_cases h2 : maxDist ≤ 1 / 100
      · rw [if_pos h2]; exact ⟨_, rfl⟩
      · rw [if_neg h2]
        refine rayLoop_terminates env level ray maxDist passTransparent hitTestTextures hvalid
          fuel start [] [] [] hit List.nodup_nil (fun x hx => by simp at hx) ?_
          (by simpa using hfuel)
        intro hgt
        refine ⟨⟨?_, hstart⟩, by simp⟩
        change (-1 : Int) < start at hgt
        change (0 : Int) ≤ start
        omega
  · intro fuel r h
    unfold IntersectRayLevel at h
    by_cases h1 : start = SegID.None
    · rw [if_pos h1] at h
      simp only [Option.some.injEq] at h
      subst h
      exact ⟨List.nodup_nil, Nat.zero_le _⟩
    · rw [if_neg h1] at h
      by_cases h2 : maxDist ≤ 1 / 100
      · rw [if_pos h2] at h
        simp only [Option.some.injEq] at h
        subst h
        exact ⟨List.nodup_nil, Nat.zero_le _⟩
      · rw [if_neg h2] at h
        obtain ⟨hnd, hex⟩ := rayLoop_walked env level ray maxDist passTransparent
          hitTestTextures fuel start [] [] [] hit r h (fun x hx => by simp at hx)
          List.nodup_nil (fun _ => by simp) (fun x hx => by simp at hx)
        exact ⟨hnd, length_le_of_nodup_of_range _ _ hnd hex⟩

/-- Witness of C3 on `sampleLevel`: the ray leaves segment 0 through the side that connects
segment 0 back to itself. -/
theorem IntersectRayLevel_terminates_witness :
    sampleLevel.ConnectionsValid ∧ (0 : SegID) < (sampleLevel.Segments.length : Int) ∧
    ((∀ fuel, sampleLevel.Segments.length + 1 ≤ fuel →
      ∃ r, IntersectRayLevel fuel openRayEnv sampleLevel sampleRay 0 10 false false sampleHit
        = some r) ∧
    ∀ fuel r,
      IntersectRayLevel fuel openRayEnv sampleLevel sampleRay 0 10 false false sampleHit
        = some r →
      r.walked.Nodup ∧ r.walked.length ≤ sampleLevel.Segments.length) :=
  ⟨by decide, by decide,
    IntersectRayLevel_terminates openRayEnv sampleLevel sampleRay 0 10 false false sampleHit
      (by decide) (by decide)⟩

/-- C4: whenever `IntersectRayLevel` returns true, the reported `hit.Distance` is at most
`maxDist` and `hit.Point` is `ray.position + ray.direction * hit.Distance`; and the call returns
false, whatever the fuel, when `start` is `None` or `maxDist <= 0.01`. -/
theorem IntersectRayLevel_hit_within_maxDist (env : RayEnv) (level : Level) (ray : Ray)
    (start : SegID) (maxDist : ℚ) (passTransparent hitTestTextures : Bool) (hit : LevelHit) :
    (∀ fuel r,
      IntersectRayLevel fuel env level ray start maxDist passTransparent hitTestTextures hit
        = some r →
      r.result = true →
      r.hit.Distance ≤ maxDist ∧
        r.hit.Point = ray.position + ray.direction * r.hit.Distance) ∧
    ((start = SegID.None ∨ maxDist ≤ 1 / 100) → ∀ fuel, ∃ r,
      IntersectRayLevel fuel env level ray start maxDist passTransparent hitTestTextures hit
        = some r ∧ r.result = false) := by
  constructor
  · intro fuel r h hres
    unfold IntersectRayLevel at h
    by_cases h1 : start = SegID.None
    · rw [if_pos h1] at h
      simp only [Option.some.injEq] at h
      subst h
      cases hres
    · rw [if_neg h1] at h
      by_cases h2 : maxDist ≤ 1 / 100
      · rw [if_pos h2] at h
        simp only [Option.some.injEq] at h
        subst h
        cases hres
      · rw [if_neg h2] at h
        obtain ⟨_, _, _, _, _, _, _, h5, h6, _⟩ := rayLoop_hit env level ray maxDist
          passTransparent hitTestTextures fuel start [] [] [] hit r h hres
        exact ⟨h5, h6⟩
  · intro hcase fuel
    unfold IntersectRayLevel
    by_cases h1 : start = SegID.None
    · rw [if_pos h1]; exact ⟨_, rfl, rfl⟩
    · rw [if_neg h1]
      have h2 : maxDist ≤ 1 / 100 := hcase.resolve_left h1
      rw [if_pos h2]; exact ⟨_, rfl, rfl⟩

/-- The result of the ray cast of `twoHitRayEnv` from segment 0: a hit on side 0 at distance 5. -/
theorem twoHitRayEnv_result :
    IntersectRayLevel 10 twoHitRayEnv sampleLevel sampleRay 0 10 false false sampleHit =
      some ⟨true,
        { sampleHit with
          Tag := ⟨0, some 0⟩
          Distance := 5
          WallPoint := ⟨5, 0, 0⟩
          Point := ⟨5, 0, 0⟩ },
        [0], [(0, 0)]⟩ := by
  decide!

/-- Witness of C4: a reported hit at distance 5 with `maxDist = 10`, and the early exits. -/
theorem IntersectRayLevel_hit_within_maxDist_witness :
    ((5 : ℚ) ≤ 10 ∧ (⟨5, 0, 0⟩ : Vector3) = sampleRay.position + sampleRay.direction * (5 : ℚ)) ∧
    ∀ fuel, ∃ r,
      IntersectRayLevel fuel twoHitRayEnv sampleLevel sampleRay SegID.None 10 false false sampleHit
        = some r ∧ r.result = false :=
  ⟨(IntersectRayLevel_hit_within_maxDist twoHitRayEnv sampleLevel sampleRay 0 10 false false
      sampleHit).1 10 _ twoHitRayEnv_result rfl,
   (IntersectRayLevel_hit_within_maxDist twoHitRayEnv sampleLevel sampleRay SegID.None 10 false
      false sampleHit).2 (Or.inl rfl)⟩

/-- C5, counterexample: with `twoHitRayEnv` the ray meets side 0 of segment 0 at distance 5 and
side 1 at distance 2; `IntersectRayLevel` reports the hit on side 0 at distance 5 although side 1
is intersected at the smaller distance 2. -/
theorem IntersectRayLevel_reports_farther_side :
    IntersectRayLevel 10 twoHitRayEnv sampleLevel sampleRay 0 10 false false sampleHit =
      some ⟨true,
        { sampleHit with
          Tag := ⟨0, some 0⟩
          Distance := 5
          WallPoint := ⟨5, 0, 0⟩
          Point := ⟨5, 0, 0⟩ },
        [0], [(0, 0)]⟩ ∧
    sampleLevel.GetSegment 0 = some (sampleSegment 1 0 (-1) (-1) (-1) (-1)) ∧
    (twoHitRayEnv.FaceIntersects sampleLevel (sampleSegment 1 0 (-1) (-1) (-1) (-1)) 1
      sampleRay).1 ≠ -1 ∧
    (twoHitRayEnv.FaceIntersects sampleLevel (sampleSegment 1 0 (-1) (-1) (-1) (-1)) 1
      sampleRay).2 < 5 :=
  ⟨twoHitRayEnv_result, rfl, by decide, by decide!⟩

/-- C5, amended: in each segment it walks, `IntersectRayLevel` acts on the first side in
`SideIDs` order that the ray intersects at a distance below the `hit.Distance` passed in: for
every side it acted on (reported as the hit, or crossed into the next segment), that side is
intersected below that bound and no earlier side of the segment is; and a reported hit lies on
the last side acted on, at that side's intersection distance. -/
theorem IntersectRayLevel_acts_on_first_struck_side (env : RayEnv) (level : Level) (ray : Ray)
    (start : SegID) (maxDist : ℚ) (passTransparent hitTestTextures : Bool) (hit : LevelHit)
    (fuel : Nat) (r : RayResult)
    (h : IntersectRayLevel fuel env level ray start maxDist passTransparent hitTestTextures hit
      = some r) :
    (∀ p ∈ r.acted, ∃ seg, level.GetSegment p.1 = some seg ∧
      rayStruck env level seg ray p.2 hit.Distance ∧
      ∀ s : SideID, s < p.2 → ¬ rayStruck env level seg ray s hit.Distance) ∧
    (r.result = true → ∃ segId side seg, r.acted.getLast? = some (segId, side) ∧
      r.hit.Tag = ⟨segId, some side⟩ ∧ level.GetSegment segId = some seg ∧
      r.hit.Distance = (env.FaceIntersects level seg side ray).2) := by
  unfold IntersectRayLevel at h
  by_cases h1 : start = SegID.None
  · rw [if_pos h1] at h
    simp only [Option.some.injEq] at h
    subst h
    exact ⟨fun p hp => by simp at hp, fun hres => by cases hres⟩
  · rw [if_neg h1] at h
    by_cases h2 : maxDist ≤ 1 / 100
    · rw [if_pos h2] at h
      simp only [Option.some.injEq] at h
      subst h
      exact ⟨fun p hp => by simp at hp, fun hres => by cases hres⟩
    · rw [if_neg h2] at h
      constructor
      · intro p hp
        rcases rayLoop_acted env level ray maxDist passTransparent hitTestTextures fuel start
          [] [] [] hit r h p hp with h3 | h3
        · simp at h3
        · exact h3
      · intro hres
        obtain ⟨segId, side, seg, h3, h4, h5, h6, _⟩ := rayLoop_hit env level ray maxDist
          passTransparent hitTestTextures fuel start [] [] [] hit r h hres
        exact ⟨segId, side, seg, h3, h4, h5, h6⟩

/-- Witness of the amended C5 at the input of the counterexample. -/
theorem IntersectRayLevel_acts_on_first_struck_side_witness :
    (∀ p ∈ [((0 : SegID), (0 : SideID))], ∃ seg, sampleLevel.GetSegment p.1 = some seg ∧
      rayStruck twoHitRayEnv sampleLevel seg sampleRay p.2 sampleHit.Distance ∧
      ∀ s : SideID, s < p.2 → ¬ rayStruck twoHitRayEnv sampleLevel seg sampleRay s
        sampleHit.Distance) ∧
    (true = true → ∃ segId side seg,
      [((0 : SegID), (0 : SideID))].getLast? = some (segId, side) ∧
      (⟨0, some 0⟩ : Tag) = ⟨segId, some side⟩ ∧ sampleLevel.GetSegment segId = some seg ∧
      (5 : ℚ) = (twoHitRayEnv.FaceIntersects sampleLevel seg side sampleRay).2) :=
  IntersectRayLevel_acts_on_first_struck_side twoHitRayEnv sampleLevel sampleRay 0 10 false
    false sampleHit 10 _ twoHitRayEnv_result

/-- C6, the code at the failing input: a ray that strikes a closed transparent wall with
`passTransparent = false` and `hitTestTextures = false` is not stopped. The local `isSolid`
stays false for every such wall: on a transparent wall it is false exactly when
`passTransparent` is true, or `hitTestTextures` is false, or the struck texel is transparent.
On `sampleLevel` the walk continues from segment 0 into segment 1 and the call returns false,
while the same ray with `hitTestTextures = true` is stopped by the wall at distance 1. -/
theorem IntersectRayLevel_passes_transparent_wall :
    (∀ (env : RayEnv) (level : Level) (segId : SegID) (seg : Segment) (side : SideID)
      (intersect : Vector3) (tri : Int),
      env.SideIsWall seg side = true → env.WallIsTransparent level ⟨segId, some side⟩ = true →
      rayIsSolid env level segId seg side false false intersect tri = false) ∧
    (∀ (env : RayEnv) (level : Level) (segId : SegID) (seg : Segment) (side : SideID)
      (passTransparent hitTestTextures : Bool) (intersect : Vector3) (tri : Int),
      env.SideIsWall seg side = true → env.WallIsTransparent level ⟨segId, some side⟩ = true →
      (rayIsSolid env level segId seg side passTransparent hitTestTextures intersect tri = false ↔
        (passTransparent = true ∨ hitTestTextures = false ∨
          env.WallPointIsTransparent level seg side intersect tri = true))) ∧
    IntersectRayLevel 10 transparentWallRayEnv sampleLevel sampleRay 0 10 false false sampleHit =
      some ⟨false, { sampleHit with Point := ⟨1, 0, 0⟩ }, [0, 1], [(0, 0), (1, 0)]⟩ ∧
    IntersectRayLevel 10 transparentWallRayEnv sampleLevel sampleRay 0 10 false true sampleHit =
      some ⟨true,
        { sampleHit with
          Tag := ⟨0, some 0⟩
          Distance := 1
          WallPoint := ⟨1, 0, 0⟩
          Point := ⟨1, 0, 0⟩ },
        [0], [(0, 0)]⟩ := by
  refine ⟨?_, ?_, by decide!, by decide!⟩
  · intro env level segId seg side intersect tri h1 h2
    simp [rayIsSolid, h1, h2]
  · intro env level segId seg side passTransparent hitTestTextures intersect tri h1 h2
    cases passTransparent <;> cases hitTestTextures <;> simp [rayIsSolid, h1, h2]

/-! ## Forces and collision dispatch: proofs -/

/-- C7, the code at the failing input: `ApplyForce` guards only `Mass == 0`. For every
physics-driven object of negative mass it divides the force by the mass and adds the quotient
to the velocity; on `negativeMassObject` (mass `-2`) the force `(4, 0, 0)` changes the velocity
from zero to `(-2, 0, 0)` with one division by `-2`. -/
theorem ApplyForce_negative_mass_divides :
    (∀ (obj : Object) (force : Vector3),
      obj.Movement = MovementType.Physics → obj.Physics.Mass < 0 →
      (ApplyForce obj force).obj.Physics.Velocity
          = obj.Physics.Velocity + force / obj.Physics.Mass ∧
        (ApplyForce obj force).divisors = [obj.Physics.Mass]) ∧
    (ApplyForce negativeMassObject ⟨4, 0, 0⟩).obj.Physics.Velocity = ⟨-2, 0, 0⟩ ∧
    (ApplyForce negativeMassObject ⟨4, 0, 0⟩).obj ≠ negativeMassObject ∧
    (ApplyForce negativeMassObject ⟨4, 0, 0⟩).divisors = [-2] := by
  refine ⟨?_, by decide!, by decide!, by decide!⟩
  intro obj force hmove hmass
  have h0 : obj.Physics.Mass ≠ 0 := ne_of_lt hmass
  simp [ApplyForce, hmove, h0]

/-- The part of the mass-zero safety that `ApplyForce` does have: a mass of exactly zero, or a
movement type other than `Physics`, leaves the object unchanged without any division. -/
theorem ApplyForce_zero_mass (obj : Object) (force : Vector3)
    (h : obj.Physics.Mass = 0 ∨ obj.Movement ≠ MovementType.Physics) :
    ApplyForce obj force = ⟨obj, []⟩ := by
  unfold ApplyForce
  by_cases hm : obj.Movement ≠ MovementType.Physics
  · rw [if_pos hm]
  · rw [if_neg hm, if_pos (h.resolve_right hm)]

/-- C8: `ApplyRotation` leaves the object unchanged and performs no division when the object's
mass is `<= 0`, when the force has zero length, or when the object's movement type is not
`Physics`. -/
theorem ApplyRotation_noop (m : MathEnv) (obj : Object) (force : Vector3)
    (h : obj.Physics.Mass ≤ 0 ∨ m.Length force = 0 ∨ obj.Movement ≠ MovementType.Physics) :
    (ApplyRotation m obj force).obj = obj ∧ (ApplyRotation m obj force).divisors = [] := by
  unfold ApplyRotation
  by_cases h1 : obj.Movement ≠ MovementType.Physics ∨ obj.Physics.Mass ≤ 0
  · rw [if_pos h1]; exact ⟨rfl, rfl⟩
  · rw [if_neg h1]
    have h2 : m.Length force = 0 := by
      rcases h with h | h | h
      · exact absurd (Or.inr h) h1
      · exact h
      · exact absurd (Or.inl h) h1
    rw [if_pos h2]; exact ⟨rfl, rfl⟩

/-- Witness of C8 on an object of mass `-2`. -/
theorem ApplyRotation_noop_witness :
    (negativeMassObject.Physics.Mass ≤ 0 ∨ sampleMathEnv.Length ⟨4, 0, 0⟩ = 0 ∨
      negativeMassObject.Movement ≠ MovementType.Physics) ∧
    (ApplyRotation sampleMathEnv negativeMassObject ⟨4, 0, 0⟩).obj = negativeMassObject ∧
    (ApplyRotation sampleMathEnv negativeMassObject ⟨4, 0, 0⟩).divisors = [] :=
  ⟨Or.inl (by decide!),
    ApplyRotation_noop sampleMathEnv negativeMassObject ⟨4, 0, 0⟩ (Or.inl (by decide!))⟩

/-- C9: for a `Weapon` source whose `RecentHits` list contains the target's signature,
`ObjectCanHitTarget` returns `None`, and the object loop of `IntersectLevelNew` selects no
intersector (hence no `CollideObjects` call) for a list entry that resolves to that target. -/
theorem ObjectCanHitTarget_recent_hit (env : GameEnv) (src target : Object)
    (hsrc : src.Type_ = ObjectType.Weapon)
    (hrecent : target.Signature ∈ src.Weapon.RecentHits) :
    ObjectCanHitTarget env src target = CollisionType.None ∧
    ∀ (level : Level) (oid entry : ObjID), level.TryGetObject entry = some target →
      IntersectLevelNew_select env level src oid entry = NarrowPhase.Skipped := by
  have hnone : ObjectCanHitTarget env src target = CollisionType.None := by
    unfold ObjectCanHitTarget
    split_ifs <;> rfl
  refine ⟨hnone, ?_⟩
  intro level oid entry hget
  unfold IntersectLevelNew_select
  rw [hget]
  dsimp only
  rw [hnone]
  split_ifs <;> rfl

/-- Witness of C9: a piercing weapon that already hit the robot of signature 1. -/
theorem ObjectCanHitTarget_recent_hit_witness :
    samplePiercingWeapon.Type_ = ObjectType.Weapon ∧
    sampleObject.Signature ∈ samplePiercingWeapon.Weapon.RecentHits ∧
    ObjectCanHitTarget sampleGameEnv samplePiercingWeapon sampleObject = CollisionType.None ∧
    ∀ (level : Level) (oid entry : ObjID), level.TryGetObject entry = some sampleObject →
      IntersectLevelNew_select sampleGameEnv level samplePiercingWeapon oid entry
        = NarrowPhase.Skipped :=
  ⟨rfl, by decide,
    ObjectCanHitTarget_recent_hit sampleGameEnv samplePiercingWeapon sampleObject rfl
      (by decide)⟩

/-- C10: `ObjectCanHitTarget` returns `None` for every target that is not alive and is not a
`Reactor`; a `Reactor`, dead or alive, hit by a `Weapon` source with a different signature that
does not hold the reactor in its `RecentHits`, gets `SpherePoly`. -/
theorem ObjectCanHitTarget_dead_target (env : GameEnv) (src target : Object) :
    (env.IsAlive target = false → target.Type_ ≠ ObjectType.Reactor →
      ObjectCanHitTarget env src target = CollisionType.None) ∧
    (src.Type_ = ObjectType.Weapon → target.Type_ = ObjectType.Reactor →
      src.Signature ≠ target.Signature → target.Signature ∉ src.Weapon.RecentHits →
      ObjectCanHitTarget env src target = CollisionType.SpherePoly) := by
  constructor
  · intro hdead htype
    unfold ObjectCanHitTarget
    rw [if_pos ⟨hdead, htype⟩]
  · intro hsrc htarget hsig hrecent
    unfold ObjectCanHitTarget
    have h1 : ¬ (env.IsAlive target = false ∧ target.Type_ ≠ ObjectType.Reactor) :=
      fun h => h.2 htarget
    have h3 : ¬ ((src.Type_ = ObjectType.Player ∧ target.Type_ = ObjectType.Weapon) ∧
        (env.WeaponIsMine target.ID = true ∧ target.Weapon.AliveTime < MINE_ARM_TIME)) := by
      intro h
      rw [hsrc] at h
      exact absurd h.1.1 (by decide)
    rw [if_neg h1, if_neg hsig, if_neg h3, if_pos hsrc, if_neg hrecent, htarget, hsrc]
    rfl

/-- Witness of C10: a dead robot is rejected, a dead reactor is still hit by a weapon. -/
theorem ObjectCanHitTarget_dead_target_witness :
    (sampleGameEnv.IsAlive deadRobot = false ∧ deadRobot.Type_ ≠ ObjectType.Reactor ∧
      ObjectCanHitTarget sampleGameEnv sampleWeapon deadRobot = CollisionType.None) ∧
    (sampleGameEnv.IsAlive deadReactor = false ∧
      ObjectCanHitTarget sampleGameEnv sampleWeapon deadReactor = CollisionType.SpherePoly) :=
  ⟨⟨by decide!, by decide,
      (ObjectCanHitTarget_dead_target sampleGameEnv sampleWeapon deadRobot).1
        (by decide!) (by decide)⟩,
    ⟨by decide!,
      (ObjectCanHitTarget_dead_target sampleGameEnv sampleWeapon deadReactor).2
        rfl rfl (by decide) (by decide)⟩⟩

/-! ## Mine arming -/

/-- C11: for a mine (a `Weapon` whose identifier satisfies `WeaponIsMine`) whose `AliveTime` is
below `MINE_ARM_TIME`, which is 2 seconds, `ObjectCanHitTarget` returns `None` when the mine is
the source and the target is a `Player` or another mine, and when a `Player` is the source and
the mine is the target. -/
theorem ObjectCanHitTarget_unarmed_mine (env : GameEnv) (mine other : Object)
    (hmine : mine.Type_ = ObjectType.Weapon) (hid : env.WeaponIsMine mine.ID = true)
    (harm : mine.Weapon.AliveTime < MINE_ARM_TIME) :
    MINE_ARM_TIME = 2 ∧
    (other.Type_ = ObjectType.Player → ObjectCanHitTarget env mine other = CollisionType.None) ∧
    (other.Type_ = ObjectType.Weapon → env.WeaponIsMine other.ID = true →
      ObjectCanHitTarget env mine other = CollisionType.None) ∧
    (other.Type_ = ObjectType.Player → ObjectCanHitTarget env other mine = CollisionType.None) := by
  refine ⟨rfl, ?_, ?_, ?_⟩
  · intro hp
    unfold ObjectCanHitTarget
    rw [hp]
    simp only [hid, harm, and_self, if_true]
    split_ifs <;> rfl
  · intro hw _
    unfold ObjectCanHitTarget
    rw [hw]
    simp only [hid, if_true]
    split_ifs <;> rfl
  · intro hp
    have h3 : (other.Type_ = ObjectType.Player ∧ mine.Type_ = ObjectType.Weapon) ∧
        (env.WeaponIsMine mine.ID = true ∧ mine.Weapon.AliveTime < MINE_ARM_TIME) :=
      ⟨⟨hp, hmine⟩, hid, harm⟩
    unfold ObjectCanHitTarget
    rw [if_pos h3]
    split_ifs <;> rfl

/-- Witness of C11: a mine one second old against the player and against a second mine, and
the player against it. -/
theorem ObjectCanHitTarget_unarmed_mine_witness :
    (sampleMine.Type_ = ObjectType.Weapon ∧ mineGameEnv.WeaponIsMine sampleMine.ID = true ∧
      sampleMine.Weapon.AliveTime < MINE_ARM_TIME) ∧
    ObjectCanHitTarget mineGameEnv sampleMine samplePlayer = CollisionType.None ∧
    ObjectCanHitTarget mineGameEnv sampleMine armedMine = CollisionType.None ∧
    ObjectCanHitTarget mineGameEnv samplePlayer sampleMine = CollisionType.None :=
  ⟨⟨rfl, by decide, by decide!⟩,
    (ObjectCanHitTarget_unarmed_mine mineGameEnv sampleMine samplePlayer rfl (by decide)
      (by decide!)).2.1 rfl,
    (ObjectCanHitTarget_unarmed_mine mineGameEnv sampleMine armedMine rfl (by decide)
      (by decide!)).2.2.1 rfl (by decide),
    (ObjectCanHitTarget_unarmed_mine mineGameEnv sampleMine samplePlayer rfl (by decide)
      (by decide!)).2.2.2 rfl⟩

/-! ## Two-body response: proofs -/

theorem Vector3.add_def (a b : Vector3) : a + b = ⟨a.x + b.x, a.y + b.y, a.z + b.z⟩ := rfl

theorem Vector3.sub_def (a b : Vector3) : a - b = ⟨a.x - b.x, a.y - b.y, a.z - b.z⟩ := rfl

theorem Vector3.neg_def (a : Vector3) : -a = ⟨-a.x, -a.y, -a.z⟩ := rfl

theorem Vector3.scale_def (a : Vector3) (s : ℚ) : a * s = ⟨a.x * s, a.y * s, a.z * s⟩ := rfl

theorem Vector3.div_def (a : Vector3) (s : ℚ) : a / s = ⟨a.x / s, a.y / s, a.z / s⟩ := rfl

theorem collideMass_ne_zero (o : Object) : collideMass o ≠ 0 := by
  unfold collideMass
  split_ifs with h
  · exact one_ne_zero
  · exact h

theorem CollideObjects_active (env : CollideEnv) (hit : LevelHit) (a b : Object)
    (hs : 1 / 10 < hit.Speed) (hp : b.Type_ ≠ ObjectType.Powerup)
    (hm : b.Type_ ≠ ObjectType.Marker) :
    (CollideObjects env hit a b).a = { a with LastHitForce := collideForce hit a b * RESITUTION } ∧
    (CollideObjects env hit a b).b.Physics.Velocity
      = b.Physics.Velocity + collideForce hit a b * RESITUTION ∧
    (CollideObjects env hit a b).b.LastHitForce = collideForce hit a b * RESITUTION ∧
    (b.Type_ = ObjectType.Robot →
      (collideInertia b ≠ 0 →
        (CollideObjects env hit a b).b.Physics.AngularAcceleration
          = b.Physics.AngularAcceleration +
            ((env.TransformInverse (collideForce hit a b) b.Rotation).Cross
              (env.TransformInverse (hit.Point - b.Position) b.Rotation)) / collideInertia b) ∧
      (CollideObjects env hit a b).divisors = [collideMass b, collideInertia b]) ∧
    (b.Type_ ≠ ObjectType.Robot →
      (CollideObjects env hit a b).b.Physics.AngularAcceleration
        = b.Physics.AngularAcceleration ∧
      (CollideObjects env hit a b).divisors = [collideMass b]) := by
  have h1 : ¬ hit.Speed ≤ 1 / 10 := not_le.mpr hs
  have h2 : ¬ (b.Type_ = ObjectType.Powerup ∨ b.Type_ = ObjectType.Marker) := by
    rintro (h | h)
    · exact hp h
    · exact hm h
  unfold CollideObjects
  rw [if_neg h1, if_neg h2]
  by_cases hr : b.Type_ = ObjectType.Robot
  · rw [if_pos hr]
    refine ⟨rfl, rfl, rfl, fun _ => ⟨fun hi => ?_, rfl⟩, fun h => absurd hr h⟩
    dsimp only
    rw [if_neg hi]
  · rw [if_neg hr]
    exact ⟨rfl, rfl, rfl, fun h => absurd h hr, fun _ => ⟨rfl, rfl⟩⟩

theorem CollideObjects_inactive (env : CollideEnv) (hit : LevelHit) (a b : Object)
    (h : hit.Speed ≤ 1 / 10 ∨ b.Type_ = ObjectType.Powerup ∨ b.Type_ = ObjectType.Marker) :
    CollideObjects env hit a b = ⟨a, b, []⟩ := by
  unfold CollideObjects
  by_cases h1 : hit.Speed ≤ 1 / 10
  · rw [if_pos h1]
  · rw [if_neg h1, if_pos (h.resolve_left h1)]

/-- C15, counterexample: two robots of equal mass 4, `hit.Speed = 10` along the normal
`(0, 0, 1)`. `CollideObjects` changes the velocity of the struck robot `b` by `(0, 0, -5)` and
leaves the velocity of `a` as it was, so `a` receives no velocity change of magnitude 5. -/
theorem CollideObjects_first_object_keeps_velocity :
    sampleObject.Type_ = ObjectType.Robot ∧ sampleRobotB.Type_ = ObjectType.Robot ∧
    sampleObject.Physics.Mass = sampleRobotB.Physics.Mass ∧ sampleObject.Physics.Mass ≠ 0 ∧
    sampleSpeedHit.Speed = 10 ∧
    (CollideObjects sampleCollideEnv sampleSpeedHit sampleObject sampleRobotB).a.Physics.Velocity
      = sampleObject.Physics.Velocity ∧
    (CollideObjects sampleCollideEnv sampleSpeedHit sampleObject sampleRobotB).b.Physics.Velocity
      = sampleRobotB.Physics.Velocity + (⟨0, 0, -5⟩ : Vector3) := by
  decide!

/-- C15, amended: `CollideObjects` on two robots of equal non-zero mass with `hit.Speed = 10`
changes the velocity of the struck robot `b` by `-hit.Normal * 5`, leaves the velocity of `a`
unchanged, and sets `LastHitForce` of both objects to that same vector `-hit.Normal * 5`. -/
theorem CollideObjects_equal_mass_robots (env : CollideEnv) (hit : LevelHit) (a b : Object)
    (hb : b.Type_ = ObjectType.Robot)
    (hmass : a.Physics.Mass = b.Physics.Mass) (hne : a.Physics.Mass ≠ 0)
    (hs : hit.Speed = 10) :
    (CollideObjects env hit a b).b.Physics.Velocity = b.Physics.Velocity + (-hit.Normal) * (5 : ℚ) ∧
    (CollideObjects env hit a b).a.Physics.Velocity = a.Physics.Velocity ∧
    (CollideObjects env hit a b).a.LastHitForce = (-hit.Normal) * (5 : ℚ) ∧
    (CollideObjects env hit a b).b.LastHitForce = (-hit.Normal) * (5 : ℚ) := by
  have hforce : collideForce hit a b * RESITUTION = (-hit.Normal) * (5 : ℚ) := by
    have hb0 : b.Physics.Mass ≠ 0 := hmass ▸ hne
    simp only [collideForce, collideMass, RESITUTION, hs, if_neg hne, if_neg hb0,
      Vector3.scale_def, Vector3.div_def, Vector3.neg_def, ← hmass]
    congr 1 <;> field_simp <;> ring
  obtain ⟨h1, h2, h3, _, _⟩ := CollideObjects_active env hit a b (by rw [hs]; norm_num)
    (by rw [hb]; decide) (by rw [hb]; decide)
  rw [h1, h2, h3, hforce]
  exact ⟨rfl, rfl, rfl, rfl⟩

/-- Witness of the amended C15 on the two sample robots. -/
theorem CollideObjects_equal_mass_robots_witness :
    (sampleRobotB.Type_ = ObjectType.Robot ∧
      sampleObject.Physics.Mass = sampleRobotB.Physics.Mass ∧ sampleObject.Physics.Mass ≠ 0 ∧
      sampleSpeedHit.Speed = 10) ∧
    ((CollideObjects sampleCollideEnv sampleSpeedHit sampleObject sampleRobotB).b.Physics.Velocity
      = sampleRobotB.Physics.Velocity + (-sampleSpeedHit.Normal) * (5 : ℚ) ∧
    (CollideObjects sampleCollideEnv sampleSpeedHit sampleObject sampleRobotB).a.Physics.Velocity
      = sampleObject.Physics.Velocity ∧
    (CollideObjects sampleCollideEnv sampleSpeedHit sampleObject sampleRobotB).a.LastHitForce
      = (-sampleSpeedHit.Normal) * (5 : ℚ) ∧
    (CollideObjects sampleCollideEnv sampleSpeedHit sampleObject sampleRobotB).b.LastHitForce
      = (-sampleSpeedHit.Normal) * (5 : ℚ)) :=
  ⟨⟨rfl, rfl, by decide!, rfl⟩,
    CollideObjects_equal_mass_robots sampleCollideEnv sampleSpeedHit sampleObject sampleRobotB
      rfl rfl (by decide!) rfl⟩

/-- C16: for every hit with `Speed > 0.1` and every struck object `b` that is neither `Powerup`
nor `Marker`, `b.Physics.Velocity` increases by exactly
`-hit.Normal * hit.Speed * (m1 / m2) * 0.5`, where `m1` and `m2` are the masses of `a` and `b`
with a mass of 0 replaced by 1; the divisor `m2` of the impulse is never zero, and no divisor
of the call is zero unless `b` is a `Robot` of radius zero; when `hit.Speed <= 0.1` nothing is
changed and nothing is divided. -/
theorem CollideObjects_impulse (env : CollideEnv) (hit : LevelHit) (a b : Object) :
    (1 / 10 < hit.Speed → b.Type_ ≠ ObjectType.Powerup → b.Type_ ≠ ObjectType.Marker →
      (CollideObjects env hit a b).b.Physics.Velocity
        = b.Physics.Velocity
          + (-hit.Normal) * hit.Speed * (collideMass a / collideMass b) * (1 / 2 : ℚ) ∧
      collideMass b ≠ 0 ∧
      (CollideObjects env hit a b).divisors.head? = some (collideMass b) ∧
      ((b.Type_ ≠ ObjectType.Robot ∨ b.Radius ≠ 0) →
        ∀ d ∈ (CollideObjects env hit a b).divisors, d ≠ 0)) ∧
    (hit.Speed ≤ 1 / 10 → CollideObjects env hit a b = ⟨a, b, []⟩) := by
  constructor
  · intro hs hp hm
    obtain ⟨_, h2, _, h4, h5⟩ := CollideObjects_active env hit a b hs hp hm
    have hm2 := collideMass_ne_zero b
    refine ⟨?_, hm2, ?_, ?_⟩
    · rw [h2]
      simp only [collideForce, RESITUTION, Vector3.scale_def, Vector3.div_def,
        Vector3.neg_def, Vector3.add_def]
      congr 1 <;> field_simp
    · by_cases hr : b.Type_ = ObjectType.Robot
      · rw [(h4 hr).2]; rfl
      · rw [(h5 hr).2]; rfl
    · intro hcase d hd
      by_cases hr : b.Type_ = ObjectType.Robot
      · rw [(h4 hr).2] at hd
        have hrad : b.Radius ≠ 0 := hcase.resolve_left (fun h => h hr)
        simp only [List.mem_cons, List.mem_singleton, List.not_mem_nil, or_false] at hd
        rcases hd with rfl | rfl
        · exact hm2
        · unfold collideInertia
          exact mul_ne_zero (mul_ne_zero (mul_ne_zero (by norm_num) hm2) hrad) hrad
      · rw [(h5 hr).2] at hd
        simp only [List.mem_singleton] at hd
        exact hd ▸ hm2
  · intro hs
    exact CollideObjects_inactive env hit a b (Or.inl hs)

/-- Witness of C16: a struck robot of mass 4 hit by a robot of mass 4 at speed 10, and a hit at
speed 0. -/
theorem CollideObjects_impulse_witness :
    ((CollideObjects sampleCollideEnv sampleSpeedHit sampleObject sampleRobotB).b.Physics.Velocity
        = sampleRobotB.Physics.Velocity
          + (-sampleSpeedHit.Normal) * sampleSpeedHit.Speed
            * (collideMass sampleObject / collideMass sampleRobotB) * (1 / 2 : ℚ) ∧
      collideMass sampleRobotB ≠ 0 ∧
      (CollideObjects sampleCollideEnv sampleSpeedHit sampleObject sampleRobotB).divisors.head?
        = some (collideMass sampleRobotB) ∧
      ∀ d ∈ (CollideObjects sampleCollideEnv sampleSpeedHit sampleObject
        sampleRobotB).divisors, d ≠ 0) ∧
    CollideObjects sampleCollideEnv sampleHit sampleObject sampleRobotB
      = ⟨sampleObject, sampleRobotB, []⟩ :=
  ⟨⟨((CollideObjects_impulse sampleCollideEnv sampleSpeedHit sampleObject sampleRobotB).1
        (by decide!) (by decide) (by decide)).1,
      ((CollideObjects_impulse sampleCollideEnv sampleSpeedHit sampleObject sampleRobotB).1
        (by decide!) (by decide) (by decide)).2.1,
      ((CollideObjects_impulse sampleCollideEnv sampleSpeedHit sampleObject sampleRobotB).1
        (by decide!) (by decide) (by decide)).2.2.1,
      ((CollideObjects_impulse sampleCollideEnv sampleSpeedHit sampleObject sampleRobotB).1
        (by decide!) (by decide) (by decide)).2.2.2 (Or.inr (by decide!))⟩,
    (CollideObjects_impulse sampleCollideEnv sampleHit sampleObject sampleRobotB).2
      (by decide!)⟩

theorem ObjectCanHitTarget_none_or_table (env : GameEnv) (src target : Object) :
    ObjectCanHitTarget env src target = CollisionType.None ∨
    ObjectCanHitTarget env src target = COLLISION_TABLE src.Type_ target.Type_ := by
  unfold ObjectCanHitTarget
  split_ifs <;> (try split) <;> first | exact Or.inl rfl | exact Or.inr rfl

theorem COLLISION_TABLE_poly (x y : ObjectType)
    (h : COLLISION_TABLE x y = CollisionType.SpherePoly ∨
      COLLISION_TABLE x y = CollisionType.PolySphere) :
    (x ≠ ObjectType.Powerup ∧ x ≠ ObjectType.Marker) ∧
    (y ≠ ObjectType.Powerup ∧ y ≠ ObjectType.Marker) := by
  revert h
  cases x <;> cases y <;> decide

/-- C17, counterexample: a `Powerup` passed as the first object `a` with a robot as `b` and
`hit.Speed = 10`: the call changes the velocity of `b` by `(0, 0, -5)` and its `LastHitForce`. -/
theorem CollideObjects_powerup_first_object :
    samplePowerup.Type_ = ObjectType.Powerup ∧
    (CollideObjects sampleCollideEnv sampleSpeedHit samplePowerup sampleRobotB).b.Physics.Velocity
      = (⟨0, 0, -5⟩ : Vector3) ∧
    (CollideObjects sampleCollideEnv sampleSpeedHit samplePowerup sampleRobotB).b.Physics.Velocity
      ≠ sampleRobotB.Physics.Velocity ∧
    (CollideObjects sampleCollideEnv sampleSpeedHit samplePowerup sampleRobotB).b.LastHitForce
      ≠ sampleRobotB.LastHitForce := by
  decide!

/-- C17, amended: whenever the struck object `b` is a `Powerup` or a `Marker`,
`CollideObjects` changes neither object and divides nothing, for every hit; and the object loop
of `IntersectLevelNew` selects an arm that calls `CollideObjects` (`SpherePoly`, `PolySphere`)
only when neither the moving object nor the target is a `Powerup` or a `Marker`. -/
theorem CollideObjects_powerup_marker (env : CollideEnv) (genv : GameEnv) (hit : LevelHit)
    (a b : Object) :
    ((b.Type_ = ObjectType.Powerup ∨ b.Type_ = ObjectType.Marker) →
      CollideObjects env hit a b = ⟨a, b, []⟩) ∧
    (∀ (level : Level) (oid entry : ObjID), level.TryGetObject entry = some b →
      (IntersectLevelNew_select genv level a oid entry = NarrowPhase.SpherePoly ∨
        IntersectLevelNew_select genv level a oid entry = NarrowPhase.PolySphere) →
      (a.Type_ ≠ ObjectType.Powerup ∧ a.Type_ ≠ ObjectType.Marker) ∧
      (b.Type_ ≠ ObjectType.Powerup ∧ b.Type_ ≠ ObjectType.Marker)) := by
  constructor
  · intro h
    exact CollideObjects_inactive env hit a b (Or.inr h)
  · intro level oid entry hget hsel
    apply COLLISION_TABLE_poly
    unfold IntersectLevelNew_select at hsel
    rw [hget] at hsel
    dsimp only at hsel
    by_cases h1 : oid = entry
    · rw [if_pos h1] at hsel
      rcases hsel with h | h <;> cases h
    · rw [if_neg h1] at hsel
      by_cases h2 : oid = b.Parent
      · rw [if_pos h2] at hsel
        rcases hsel with h | h <;> cases h
      · rw [if_neg h2] at hsel
        rcases ObjectCanHitTarget_none_or_table genv a b with h3 | h3
        · rw [h3] at hsel
          rcases hsel with h | h <;> cases h
        · rw [← h3]
          cases h4 : ObjectCanHitTarget genv a b <;> rw [h4] at hsel
          · rcases hsel with h | h <;> cases h
          · rcases hsel with h | h <;> cases h
          · exact Or.inl rfl
          · exact Or.inr rfl
          · rcases hsel with h | h <;> cases h

/-- Witness of the amended C17: a powerup as the struck object. -/
theorem CollideObjects_powerup_marker_witness :
    (samplePowerup.Type_ = ObjectType.Powerup ∨ samplePowerup.Type_ = ObjectType.Marker) ∧
    CollideObjects sampleCollideEnv sampleSpeedHit sampleObject samplePowerup
      = ⟨sampleObject, samplePowerup, []⟩ :=
  ⟨Or.inl rfl,
    (CollideObjects_powerup_marker sampleCollideEnv sampleGameEnv sampleSpeedHit sampleObject
      samplePowerup).1 (Or.inl rfl)⟩

/-- C18, counterexample: a struck robot of radius zero. The divisor `inertia` of the torque
conversion is zero. -/
theorem CollideObjects_zero_radius_divides_by_zero :
    zeroRadiusRobot.Type_ = ObjectType.Robot ∧ (1 / 10 : ℚ) < sampleSpeedHit.Speed ∧
    (CollideObjects sampleCollideEnv sampleSpeedHit sampleObject zeroRadiusRobot).divisors
      = [4, 0] := by
  decide!

/-- C18, amended: when the struck object `b` is a `Robot` and `hit.Speed > 0.1`, the call divides
by `m2` and by the inertia `2/5 * m2 * r^2`, where `m2` is the mass of `b` with 0 replaced by 1
and `r` is `b.Radius`; the inertia is zero exactly when `b.Radius` is zero. For a non-zero
radius `b.Physics.AngularAcceleration` increases by `(F x arm) / (2/5 * m2 * r^2)`, where
`F = -hit.Normal * hit.Speed * m1 / m2` (the force before the restitution factor) and
`arm = hit.Point - b.Position`, both transformed by the inverse of `b.Rotation`, and `m1` is the
mass of `a` with 0 replaced by 1. When `b` is not a `Robot` its angular acceleration is
unchanged. -/
theorem CollideObjects_torque (env : CollideEnv) (hit : LevelHit) (a b : Object) :
    (b.Type_ = ObjectType.Robot → 1 / 10 < hit.Speed →
      (CollideObjects env hit a b).divisors
        = [collideMass b, 2 / 5 * collideMass b * b.Radius * b.Radius] ∧
      (2 / 5 * collideMass b * b.Radius * b.Radius = 0 ↔ b.Radius = 0) ∧
      (b.Radius ≠ 0 →
        (CollideObjects env hit a b).b.Physics.AngularAcceleration
          = b.Physics.AngularAcceleration +
            ((env.TransformInverse
                ((-hit.Normal) * hit.Speed * collideMass a / collideMass b) b.Rotation).Cross
              (env.TransformInverse (hit.Point - b.Position) b.Rotation))
              / (2 / 5 * collideMass b * b.Radius * b.Radius))) ∧
    (b.Type_ ≠ ObjectType.Robot →
      (CollideObjects env hit a b).b.Physics.AngularAcceleration
        = b.Physics.AngularAcceleration) := by
  have hzero : 2 / 5 * collideMass b * b.Radius * b.Radius = 0 ↔ b.Radius = 0 := by
    constructor
    · intro h
      by_contra hrad
      exact mul_ne_zero (mul_ne_zero (mul_ne_zero (by norm_num) (collideMass_ne_zero b)) hrad)
        hrad h
    · intro h
      rw [h]
      ring
  constructor
  · intro hr hs
    obtain ⟨_, _, _, h4, _⟩ := CollideObjects_active env hit a b hs (by rw [hr]; decide)
      (by rw [hr]; decide)
    refine ⟨(h4 hr).2, hzero, ?_⟩
    intro hrad
    exact (h4 hr).1 (fun h => hrad (hzero.mp h))
  · intro hr
    by_cases hact : hit.Speed ≤ 1 / 10 ∨ b.Type_ = ObjectType.Powerup ∨
        b.Type_ = ObjectType.Marker
    · rw [CollideObjects_inactive env hit a b hact]
    · have h1 : 1 / 10 < hit.Speed := not_le.mp (fun h => hact (Or.inl h))
      have h2 : b.Type_ ≠ ObjectType.Powerup := fun h => hact (Or.inr (Or.inl h))
      have h3 : b.Type_ ≠ ObjectType.Marker := fun h => hact (Or.inr (Or.inr h))
      exact ((CollideObjects_active env hit a b h1 h2 h3).2.2.2.2 hr).1

/-- Witness of the amended C18: the struck robot `sampleRobotB` of mass 4 and radius 2 gains
the angular acceleration `(0, -25/16, 0)` with the inertia `32/5`; for the struck robot
`zeroRadiusRobot` the inertia is zero; and the struck object `samplePlayer`, which is not a
robot, keeps its angular acceleration. -/
theorem CollideObjects_torque_witness :
    ((CollideObjects sampleCollideEnv sampleSpeedHit sampleObject sampleRobotB).divisors
        = [4, 32 / 5] ∧
      (CollideObjects sampleCollideEnv sampleSpeedHit sampleObject
        sampleRobotB).b.Physics.AngularAcceleration
        = sampleRobotB.Physics.AngularAcceleration + (⟨0, -25 / 16, 0⟩ : Vector3)) ∧
    ((CollideObjects sampleCollideEnv sampleSpeedHit sampleObject zeroRadiusRobot).divisors
        = [collideMass zeroRadiusRobot,
            2 / 5 * collideMass zeroRadiusRobot * zeroRadiusRobot.Radius
              * zeroRadiusRobot.Radius] ∧
      2 / 5 * collideMass zeroRadiusRobot * zeroRadiusRobot.Radius * zeroRadiusRobot.Radius
        = 0) ∧
    (CollideObjects sampleCollideEnv sampleSpeedHit sampleObject
        samplePlayer).b.Physics.AngularAcceleration
      = samplePlayer.Physics.AngularAcceleration := by
  obtain ⟨h1, -, h3⟩ :=
    (CollideObjects_torque sampleCollideEnv sampleSpeedHit sampleObject sampleRobotB).1 rfl
      (by decide!)
  obtain ⟨k1, k2, -⟩ :=
    (CollideObjects_torque sampleCollideEnv sampleSpeedHit sampleObject zeroRadiusRobot).1 rfl
      (by decide!)
  refine ⟨⟨?_, ?_⟩, ⟨k1, k2.mpr rfl⟩,
    (CollideObjects_torque sampleCollideEnv sampleSpeedHit sampleObject samplePlayer).2
      (by decide)⟩
  · rw [h1]
    decide!
  · rw [h3 (by decide!)]
    decide!

/-! ## Explosions: proofs -/

theorem CreateExplosion_object_applied (fuel : Nat) (env : ExplosionEnv) (level : Level)
    (source : Option Nat) (explosion : GameExplosion) (index : Nat) (obj : Object)
    (e : ExplosionEffect)
    (h : CreateExplosion_object fuel env level source explosion index obj
      = some (ExplosionStep.applied e)) :
    e.index = index ∧ e.before = obj ∧
    explosionDistance env explosion obj < explosion.Radius ∧
    e.dist = max (explosionDistance env explosion obj) 0 ∧
    e.damage = explosion.Damage - e.dist * explosion.Damage / explosion.Radius ∧
    e.force = explosion.Force - e.dist * explosion.Force / explosion.Radius ∧
    e.forceVec = env.Normalize (obj.Position - explosion.Position) * e.force ∧
    (obj.Type_ = ObjectType.Player ∨ obj.Type_ = ObjectType.Robot ∨
      obj.Type_ = ObjectType.Weapon ∨ obj.Type_ = ObjectType.Reactor) ∧
    ∃ isPlayer divisors,
      explosionApply env isPlayer obj e.damage e.forceVec = some (e.after, e.damaged, divisors) := by
  unfold CreateExplosion_object at h
  by_cases h1 : source = some index
  · rw [if_pos h1] at h; cases h
  rw [if_neg h1] at h
  by_cases h2 : env.game.IsAlive obj = false
  · rw [if_pos h2] at h; cases h
  rw [if_neg h2] at h
  by_cases h3 : obj.Type_ = ObjectType.Weapon ∧
      (obj.ID ≠ env.ProxMine ∧ obj.ID ≠ env.SmartMine ∧ obj.ID ≠ env.LevelMine)
  · rw [if_pos h3] at h; cases h
  rw [if_neg h3] at h
  by_cases h4 : obj.Type_ ≠ ObjectType.Player ∧ obj.Type_ ≠ ObjectType.Robot ∧
      obj.Type_ ≠ ObjectType.Weapon ∧ obj.Type_ ≠ ObjectType.Reactor
  · rw [if_pos h4] at h; cases h
  rw [if_neg h4] at h
  by_cases h5 : explosionDistance env explosion obj ≥ explosion.Radius
  · rw [if_pos h5] at h; cases h
  rw [if_neg h5] at h
  cases hcast : IntersectRayLevel fuel env.ray level
      ⟨explosion.Position, env.Normalize (obj.Position - explosion.Position)⟩
      explosion.Segment (max (explosionDistance env explosion obj) 0) true true
      env.DefaultHit with
  | none => rw [hcast] at h; cases h
  | some cast =>
    rw [hcast] at h
    dsimp only at h
    by_cases h6 : cast.result = true
    · rw [if_pos h6] at h; cases h
    rw [if_neg h6] at h
    cases hsrc : explosionSourceIsPlayer env level source with
    | none => rw [hsrc] at h; cases h
    | some isPlayer =>
      rw [hsrc] at h
      dsimp only at h
      cases hap : explosionApply env isPlayer obj
          (explosion.Damage
            - max (explosionDistance env explosion obj) 0 * explosion.Damage / explosion.Radius)
          (env.Normalize (obj.Position - explosion.Position)
            * (explosion.Force
              - max (explosionDistance env explosion obj) 0 * explosion.Force
                / explosion.Radius)) with
      | none => rw [hap] at h; cases h
      | some res =>
        obtain ⟨after, damaged, divisors⟩ := res
        rw [hap] at h
        simp only [Option.some.injEq, ExplosionStep.applied.injEq] at h
        subst h
        refine ⟨rfl, rfl, not_le.mp h5, rfl, rfl, rfl, rfl, ?_, isPlayer, divisors, hap⟩
        by_contra hc
        apply h4
        simp only [not_or] at hc
        exact ⟨hc.1, hc.2.1, hc.2.2.1, hc.2.2.2⟩

theorem CreateExplosionFrom_keeps_effects (fuel : Nat) (env : ExplosionEnv) (source : Option Nat)
    (explosion : GameExplosion) :
    ∀ (count index : Nat) (level : Level) (effects : List ExplosionEffect)
      (r : ExplosionResult),
      CreateExplosionFrom fuel env source explosion count index level effects = some r →
      (∀ j, j < index → r.level.Objects[j]? = level.Objects[j]?) ∧
      r.level.Segments = level.Segments := by
  intro count
  induction count with
  | zero =>
    intro index level effects r h
    simp only [CreateExplosionFrom, Option.some.injEq] at h
    subst h
    exact ⟨fun _ _ => rfl, rfl⟩
  | succ count ih =>
    intro index level effects r h
    simp only [CreateExplosionFrom] at h
    split at h
    · cases h
    · split at h
      · cases h
      · exact ⟨fun j hj => (ih _ _ _ r h).1 j (Nat.lt_succ_of_lt hj), (ih _ _ _ r h).2⟩
      · simp only [Option.some.injEq] at h
        subst h
        exact ⟨fun _ _ => rfl, rfl⟩
      · obtain ⟨h1, h2⟩ := ih _ _ _ r h
        refine ⟨fun j hj => ?_, h2⟩
        rw [h1 j (Nat.lt_succ_of_lt hj)]
        exact List.getElem?_set_ne (Nat.ne_of_gt hj)

theorem CreateExplosionFrom_effects (fuel : Nat) (env : ExplosionEnv) (source : Option Nat)
    (explosion : GameExplosion) :
    ∀ (count index : Nat) (level : Level) (effects : List ExplosionEffect)
      (r : ExplosionResult),
      CreateExplosionFrom fuel env source explosion count index level effects = some r →
      ∀ e ∈ r.effects, e ∈ effects ∨
        (index ≤ e.index ∧ level.Objects[e.index]? = some e.before ∧
          r.level.Objects[e.index]? = some e.after ∧
          ∃ lvl, CreateExplosion_object fuel env lvl source explosion e.index e.before
            = some (ExplosionStep.applied e)) := by
  intro count
  induction count with
  | zero =>
    intro index level effects r h e he
    simp only [CreateExplosionFrom, Option.some.injEq] at h
    subst h
    exact Or.inl he
  | succ count ih =>
    intro index level effects r h e he
    simp only [CreateExplosionFrom] at h
    split at h
    · cases h
    · rename_i obj hobj
      split at h
      · cases h
      · rcases ih _ _ _ r h e he with h1 | ⟨h0, h1, h2, h3⟩
        · exact Or.inl h1
        · exact Or.inr ⟨Nat.le_of_succ_le h0, h1, h2, h3⟩
      · simp only [Option.some.injEq] at h
        subst h
        exact Or.inl he
      · rename_i effect hstep
        have hidx := (CreateExplosion_object_applied fuel env level source explosion index obj
          effect hstep)
        rcases ih _ _ _ r h e he with h1 | ⟨h0, h1, h2, h3⟩
        · rcases List.mem_append.mp h1 with h4 | h4
          · exact Or.inl h4
          · rw [List.mem_singleton] at h4
            subst h4
            right
            have hpre := (CreateExplosionFrom_keeps_effects fuel env source explosion count (index + 1)
              _ _ r h).1 index (Nat.lt_succ_self _)
            have hlt : index < level.Objects.length := by
              rcases List.getElem?_eq_some.mp hobj with ⟨hlt, _⟩
              exact hlt
            refine ⟨Nat.le_of_eq hidx.1.symm, ?_, ?_, level, ?_⟩
            · rw [hidx.1, hidx.2.1]; exact hobj
            · rw [hidx.1, hpre]
              simp only [List.getElem?_set_self hlt]
            · rw [hidx.1, hidx.2.1]; exact hstep
        · right
          refine ⟨Nat.le_of_succ_le h0, ?_, h2, h3⟩
          rw [← h1]
          exact (List.getElem?_set_ne (Nat.ne_of_lt h0)).symm

theorem explosionApply_cases (env : ExplosionEnv) (isPlayer : Bool) (obj : Object) (damage : ℚ)
    (forceVec : Vector3) (after : Object) (damaged : Bool) (divisors : List ℚ)
    (h : explosionApply env isPlayer obj damage forceVec = some (after, damaged, divisors)) :
    (obj.Type_ = ObjectType.Robot →
      damaged = !env.DisableWeaponDamage ∧
      after = (ApplyRotation env.math
        { (if env.DisableWeaponDamage = false then
            env.ApplyDamage (ApplyForce obj forceVec).obj damage
          else (ApplyForce obj forceVec).obj) with LastHitForce := forceVec } forceVec).obj) ∧
    ((obj.Type_ = ObjectType.Weapon ∨ obj.Type_ = ObjectType.Player) →
      damaged = false ∧ after = (ApplyForce obj forceVec).obj) ∧
    (obj.Type_ = ObjectType.Reactor →
      damaged = (!env.DisableWeaponDamage && isPlayer) ∧
      after = (if damaged = true then env.ApplyDamage obj damage else obj)) := by
  unfold explosionApply at h
  cases hty : obj.Type_ <;> rw [hty] at h <;> dsimp only at h
  all_goals try cases h
  case Robot =>
    refine ⟨fun _ => ⟨rfl, rfl⟩, fun hc => ?_, (fun hc => by cases hc)⟩
    rcases hc with hc | hc <;> cases hc
  case Weapon =>
    refine ⟨(fun hc => by cases hc), fun _ => ⟨rfl, rfl⟩, (fun hc => by cases hc)⟩
  case Player =>
    refine ⟨(fun hc => by cases hc), fun _ => ⟨rfl, rfl⟩, (fun hc => by cases hc)⟩
  case Reactor =>
    refine ⟨(fun hc => by cases hc), fun hc => ?_, fun _ => ?_⟩
    · rcases hc with hc | hc <;> cases hc
    · by_cases hd : env.DisableWeaponDamage = false ∧ isPlayer = true
      · rw [if_pos hd] at h
        cases h
        simp [hd.1, hd.2]
      · rw [if_neg hd] at h
        cases h
        constructor
        · cases hdis : env.DisableWeaponDamage <;> cases hpl : isPlayer <;> simp_all
        · simp

/-! ## Explosions: the call returns and reaches the objects in range -/

theorem rayScanSides_ignores_objects (env : RayEnv) (level : Level) (objects : List Object)
    (h : rayEnvIgnoresObjects env level) (ray : Ray) (maxDist : ℚ)
    (passTransparent hitTestTextures : Bool) (segId : SegID) (seg : Segment)
    (visitedSegs : List SegID) (hit : LevelHit) (sides : List SideID) :
    rayScanSides env { level with Objects := objects } ray maxDist passTransparent
      hitTestTextures segId seg visitedSegs hit sides
    = rayScanSides env level ray maxDist passTransparent hitTestTextures segId seg visitedSegs
      hit sides := by
  obtain ⟨h1, h2, h3, h4, h5, h6, h7⟩ := h objects
  induction sides with
  | nil => rfl
  | cons side rest ih =>
    simp only [rayScanSides, rayIsSolid, h1, h2, h3, h4, h5, h6, h7, ih]

theorem IntersectRayLevelLoop_ignores_objects (env : RayEnv) (level : Level)
    (objects : List Object) (h : rayEnvIgnoresObjects env level) (ray : Ray) (maxDist : ℚ)
    (passTransparent hitTestTextures : Bool) :
    ∀ (fuel : Nat) (next : SegID) (visitedSegs walked : List SegID)
      (acted : List (SegID × SideID)) (hit : LevelHit),
      IntersectRayLevelLoop env { level with Objects := objects } ray maxDist passTransparent
        hitTestTextures fuel next visitedSegs walked acted hit
      = IntersectRayLevelLoop env level ray maxDist passTransparent hitTestTextures fuel next
        visitedSegs walked acted hit := by
  intro fuel
  induction fuel with
  | zero => intro _ _ _ _ _; rfl
  | succ fuel ih =>
    intro next visitedSegs walked acted hit
    have hseg : ({ level with Objects := objects } : Level).GetSegment next
        = level.GetSegment next := rfl
    simp only [IntersectRayLevelLoop, hseg, rayScanSides_ignores_objects env level objects h, ih]

theorem IntersectRayLevel_ignores_objects (env : RayEnv) (level : Level)
    (objects : List Object) (h : rayEnvIgnoresObjects env level) (fuel : Nat) (ray : Ray)
    (start : SegID) (maxDist : ℚ) (passTransparent hitTestTextures : Bool) (hit : LevelHit) :
    IntersectRayLevel fuel env { level with Objects := objects } ray start maxDist
      passTransparent hitTestTextures hit
    = IntersectRayLevel fuel env level ray start maxDist passTransparent hitTestTextures hit := by
  unfold IntersectRayLevel
  rw [IntersectRayLevelLoop_ignores_objects env level objects h]

theorem explosionReaches_of_ignores (fuel : Nat) (env : ExplosionEnv) (level : Level)
    (source : Option Nat) (explosion : GameExplosion) (index : Nat) (obj : Object)
    (h : rayEnvIgnoresObjects env.ray level)
    (h1 : source ≠ some index) (h2 : env.game.IsAlive obj = true)
    (h3 : ¬ (obj.Type_ = ObjectType.Weapon ∧
      (obj.ID ≠ env.ProxMine ∧ obj.ID ≠ env.SmartMine ∧ obj.ID ≠ env.LevelMine)))
    (h4 : ¬ (obj.Type_ ≠ ObjectType.Player ∧ obj.Type_ ≠ ObjectType.Robot ∧
      obj.Type_ ≠ ObjectType.Weapon ∧ obj.Type_ ≠ ObjectType.Reactor))
    (h5 : explosionDistance env explosion obj < explosion.Radius)
    (h6 : (IntersectRayLevel fuel env.ray level
      ⟨explosion.Position, env.Normalize (obj.Position - explosion.Position)⟩
      explosion.Segment (max (explosionDistance env explosion obj) 0) true true
      env.DefaultHit).map (fun cast => cast.result) = some false) :
    explosionReaches fuel env level source explosion index obj := by
  refine ⟨h1, h2, h3, h4, h5, ?_⟩
  intro objects cast hcast
  rw [IntersectRayLevel_ignores_objects env.ray level objects h] at hcast
  rw [hcast] at h6
  exact Option.some.inj h6

theorem IntersectRayLevel_returns (env : RayEnv) (level : Level) (ray : Ray) (start : SegID)
    (maxDist : ℚ) (passTransparent hitTestTextures : Bool) (hit : LevelHit) (fuel : Nat)
    (hvalid : level.ConnectionsValid) (hstart : start < (level.Segments.length : Int))
    (hfuel : level.Segments.length + 1 ≤ fuel) :
    ∃ r, IntersectRayLevel fuel env level ray start maxDist passTransparent hitTestTextures hit
      = some r := by
  unfold IntersectRayLevel
  by_cases h1 : start = SegID.None
  · rw [if_pos h1]; exact ⟨_, rfl⟩
  · rw [if_neg h1]
    by_cases h2 : maxDist ≤ 1 / 100
    · rw [if_pos h2]; exact ⟨_, rfl⟩
    · rw [if_neg h2]
      refine rayLoop_terminates env level ray maxDist passTransparent hitTestTextures hvalid
        fuel start [] [] [] hit List.nodup_nil (fun x hx => by simp at hx) ?_
        (by simpa using hfuel)
      intro hgt
      refine ⟨⟨?_, hstart⟩, by simp⟩
      change (-1 : Int) < start at hgt
      change (0 : Int) ≤ start
      omega

theorem explosionApply_returns (env : ExplosionEnv) (isPlayer : Bool) (obj : Object)
    (damage : ℚ) (forceVec : Vector3)
    (htype : ¬ (obj.Type_ ≠ ObjectType.Player ∧ obj.Type_ ≠ ObjectType.Robot ∧
      obj.Type_ ≠ ObjectType.Weapon ∧ obj.Type_ ≠ ObjectType.Reactor)) :
    ∃ res, explosionApply env isPlayer obj damage forceVec = some res := by
  unfold explosionApply
  cases ht : obj.Type_ <;> dsimp only <;>
    first
      | exact ⟨_, rfl⟩
      | (split_ifs <;> exact ⟨_, rfl⟩)
      | (exfalso; apply htype; rw [ht]; exact ⟨by decide, by decide, by decide, by decide⟩)

theorem CreateExplosion_object_returns (fuel : Nat) (env : ExplosionEnv) (level : Level)
    (source : Option Nat) (explosion : GameExplosion) (index : Nat) (obj : Object)
    (hvalid : level.ConnectionsValid)
    (hseg : explosion.Segment < (level.Segments.length : Int))
    (hfuel : level.Segments.length + 1 ≤ fuel)
    (hsource : ∀ s, source = some s → s < level.Objects.length) :
    CreateExplosion_object fuel env level source explosion index obj
      = some ExplosionStep.skipped ∨
    ∃ e, CreateExplosion_object fuel env level source explosion index obj
      = some (ExplosionStep.applied e) := by
  unfold CreateExplosion_object
  by_cases h1 : source = some index
  · rw [if_pos h1]; exact Or.inl rfl
  rw [if_neg h1]
  by_cases h2 : env.game.IsAlive obj = false
  · rw [if_pos h2]; exact Or.inl rfl
  rw [if_neg h2]
  by_cases h3 : obj.Type_ = ObjectType.Weapon ∧
      (obj.ID ≠ env.ProxMine ∧ obj.ID ≠ env.SmartMine ∧ obj.ID ≠ env.LevelMine)
  · rw [if_pos h3]; exact Or.inl rfl
  rw [if_neg h3]
  by_cases h4 : obj.Type_ ≠ ObjectType.Player ∧ obj.Type_ ≠ ObjectType.Robot ∧
      obj.Type_ ≠ ObjectType.Weapon ∧ obj.Type_ ≠ ObjectType.Reactor
  · rw [if_pos h4]; exact Or.inl rfl
  rw [if_neg h4]
  by_cases h5 : explosionDistance env explosion obj ≥ explosion.Radius
  · rw [if_pos h5]; exact Or.inl rfl
  rw [if_neg h5]
  obtain ⟨cast, hcast⟩ := IntersectRayLevel_returns env.ray level
    ⟨explosion.Position, env.Normalize (obj.Position - explosion.Position)⟩
    explosion.Segment (max (explosionDistance env explosion obj) 0) true true
    env.DefaultHit fuel hvalid hseg hfuel
  rw [hcast]
  dsimp only
  by_cases h6 : cast.result = true
  · rw [if_pos h6]; exact Or.inl rfl
  rw [if_neg h6]
  have hsrc : ∃ isPlayer, explosionSourceIsPlayer env level source = some isPlayer := by
    unfold explosionSourceIsPlayer
    cases source with
    | none => exact ⟨_, rfl⟩
    | some s =>
      dsimp only
      rw [List.getElem?_eq_getElem (hsource s rfl)]
      exact ⟨_, rfl⟩
  obtain ⟨isPlayer, hsrc⟩ := hsrc
  rw [hsrc]
  dsimp only
  obtain ⟨res, hres⟩ := explosionApply_returns env isPlayer obj
    (explosion.Damage
      - max (explosionDistance env explosion obj) 0 * explosion.Damage / explosion.Radius)
    (env.Normalize (obj.Position - explosion.Position)
      * (explosion.Force
        - max (explosionDistance env explosion obj) 0 * explosion.Force
          / explosion.Radius)) h4
  rw [hres]
  exact Or.inr ⟨_, rfl⟩

theorem CreateExplosion_object_not_skipped (fuel : Nat) (env : ExplosionEnv) (level : Level)
    (objects : List Object) (source : Option Nat) (explosion : GameExplosion) (index : Nat)
    (obj : Object)
    (hreach : explosionReaches fuel env level source explosion index obj) :
    CreateExplosion_object fuel env { level with Objects := objects } source explosion index obj
      ≠ some ExplosionStep.skipped := by
  obtain ⟨h1, h2, h3, h4, h5, h6⟩ := hreach
  unfold CreateExplosion_object
  have h2f : ¬ env.game.IsAlive obj = false := by rw [h2]; simp
  rw [if_neg h1, if_neg h2f, if_neg h3, if_neg h4, if_neg (not_le.mpr h5)]
  cases hcast : IntersectRayLevel fuel env.ray { level with Objects := objects }
      ⟨explosion.Position, env.Normalize (obj.Position - explosion.Position)⟩
      explosion.Segment (max (explosionDistance env explosion obj) 0) true true
      env.DefaultHit with
  | none => intro h; cases h
  | some cast =>
    dsimp only
    have hres : ¬ cast.result = true := by rw [h6 objects cast hcast]; simp
    rw [if_neg hres]
    cases explosionSourceIsPlayer env { level with Objects := objects } source with
    | none => intro h; cases h
    | some isPlayer =>
      dsimp only
      cases explosionApply env isPlayer obj
          (explosion.Damage
            - max (explosionDistance env explosion obj) 0 * explosion.Damage / explosion.Radius)
          (env.Normalize (obj.Position - explosion.Position)
            * (explosion.Force
              - max (explosionDistance env explosion obj) 0 * explosion.Force
                / explosion.Radius)) with
      | none => intro h; cases h
      | some res => intro h; cases h

theorem CreateExplosionFrom_progress (fuel : Nat) (env : ExplosionEnv) (level : Level)
    (source : Option Nat) (explosion : GameExplosion)
    (hvalid : level.ConnectionsValid)
    (hseg : explosion.Segment < (level.Segments.length : Int))
    (hfuel : level.Segments.length + 1 ≤ fuel) :
    ∀ (count index : Nat) (objects : List Object) (effects : List ExplosionEffect),
      (∀ s, source = some s → s < objects.length) → index + count = objects.length →
      ∃ r, CreateExplosionFrom fuel env source explosion count index
          { level with Objects := objects } effects = some r ∧
        r.thrown = false ∧ (∀ e ∈ effects, e ∈ r.effects) ∧
        ∀ i obj, index ≤ i → objects[i]? = some obj →
          explosionReaches fuel env level source explosion i obj →
          ∃ e ∈ r.effects, e.index = i ∧ e.before = obj := by
  intro count
  induction count with
  | zero =>
    intro index objects effects _ hlen
    refine ⟨⟨false, { level with Objects := objects }, effects⟩, rfl, rfl, fun e he => he, ?_⟩
    intro i obj hi hget _
    have hlt : i < objects.length := by
      by_contra hn
      rw [List.getElem?_eq_none (not_lt.mp hn)] at hget
      cases hget
    omega
  | succ count ih =>
    intro index objects effects hsource hlen
    have hidx : index < objects.length := by omega
    simp only [CreateExplosionFrom]
    rw [List.getElem?_eq_getElem hidx]
    dsimp only
    rcases CreateExplosion_object_returns fuel env { level with Objects := objects } source
        explosion index objects[index] hvalid hseg hfuel hsource with hsk | ⟨e, he⟩
    · rw [hsk]
      dsimp only
      obtain ⟨r, hr, hthrown, hsub, hmem⟩ := ih (index + 1) objects effects hsource (by omega)
      refine ⟨r, hr, hthrown, hsub, ?_⟩
      intro i obj hi hget hreach
      rcases Nat.eq_or_lt_of_le hi with heq | hlt
      · subst heq
        rw [List.getElem?_eq_getElem hidx] at hget
        cases hget
        exact absurd hsk
          (CreateExplosion_object_not_skipped fuel env level objects source explosion index
            objects[index] hreach)
      · exact hmem i obj hlt hget hreach
    · rw [he]
      dsimp only
      obtain ⟨r, hr, hthrown, hsub, hmem⟩ := ih (index + 1) (objects.set index e.after)
        (effects ++ [e]) (fun s hs => by rw [List.length_set]; exact hsource s hs)
        (by rw [List.length_set]; omega)
      refine ⟨r, hr, hthrown, fun x hx => hsub x (List.mem_append_left _ hx), ?_⟩
      intro i obj hi hget hreach
      rcases Nat.eq_or_lt_of_le hi with heq | hlt
      · subst heq
        rw [List.getElem?_eq_getElem hidx] at hget
        cases hget
        obtain ⟨h1, h2, _⟩ := CreateExplosion_object_applied fuel env
          { level with Objects := objects } source explosion index objects[index] e he
        exact ⟨e, hsub e (List.mem_append_right _ (List.mem_singleton.mpr rfl)), h1, h2⟩
      · refine hmem i obj hlt ?_ hreach
        rw [List.getElem?_set_ne (Nat.ne_of_lt hlt)]
        exact hget

theorem CreateExplosion_progress (fuel : Nat) (env : ExplosionEnv) (level : Level)
    (source : Option Nat) (explosion : GameExplosion)
    (hvalid : level.ConnectionsValid)
    (hseg : explosion.Segment < (level.Segments.length : Int))
    (hfuel : level.Segments.length + 1 ≤ fuel)
    (hsource : ∀ s, source = some s → s < level.Objects.length) :
    ∃ r, CreateExplosion fuel env level source explosion = some r ∧ r.thrown = false ∧
      ∀ i obj, level.Objects[i]? = some obj →
        explosionReaches fuel env level source explosion i obj →
        ∃ e ∈ r.effects, e.index = i ∧ e.before = obj := by
  obtain ⟨r, hr, hthrown, _, hmem⟩ := CreateExplosionFrom_progress fuel env level source
    explosion hvalid hseg hfuel level.Objects.length 0 level.Objects [] hsource (by omega)
  exact ⟨r, hr, hthrown, fun i obj hget hreach => hmem i obj (Nat.zero_le i) hget hreach⟩

theorem openRayEnv_ignores_objects (level : Level) : rayEnvIgnoresObjects openRayEnv level :=
  fun _ => ⟨rfl, rfl, rfl, fun _ _ => rfl, rfl, rfl, rfl⟩

/-- C13, counterexample: the explosion of the scenario (radius 40, damage 40, force 20) and a
live robot of radius 2 whose centre is at distance 20 with a clear line of sight. The falloff
uses the distance less the robot radius, 18, and the damage applied is 22, not 20. -/
theorem CreateExplosion_robot_centre_distance :
    sampleExplosionEnv.Distance (robotAt 20).Position sampleExplosion.Position = 20 ∧
    (robotAt 20).Type_ = ObjectType.Robot ∧ sampleExplosionEnv.game.IsAlive (robotAt 20) = true ∧
    (CreateExplosion 10 sampleExplosionEnv (levelWith [robotAt 20]) none sampleExplosion).map
      (fun r => (r.thrown, r.effects.map (fun e => (e.index, e.damaged))))
      = some (false, [(0, true)]) ∧
    (CreateExplosion 10 sampleExplosionEnv (levelWith [robotAt 20]) none sampleExplosion).map
      (fun r => r.effects.map (fun e =>
        [e.dist, e.damage, e.before.HitPoints - e.after.HitPoints]))
      = some [[18, 22, 22]] ∧
    (CreateExplosion 10 sampleExplosionEnv (levelWith [robotAt 20]) none sampleExplosion).map
      (fun r => r.level.Objects.map (fun o => o.HitPoints))
      = some [78] := by
  decide!

/-- C13, amended: on a level with valid connections, with fuel above the segment count, the
explosion segment in range and the source in `level.Objects`, `CreateExplosion` returns without
throwing; every object that is reached (not the source, alive, a player, robot, reactor or
mine, adjusted distance below `R`, no wall on the line of sight) is affected; and every
affected object is assigned the damage `D - d * D / R` and the force vector
`dir * (F - d * F / R)`, where `d` is the adjusted distance (distance from the explosion less
the object radius, no subtraction for `Player` and `Coop`, clamped at 0), which is below `R`,
and `dir` is the normalised direction from the explosion to the object. `ApplyDamage` is called
with that damage for a `Robot` unless the cheat setting disables it; a `Weapon` or `Player`
only gets `ApplyForce` with the force vector. With radius 40 and damage 40 an object at
adjusted distance 20 is assigned damage 20. -/
theorem CreateExplosion_linear_falloff (fuel : Nat) (env : ExplosionEnv) (level : Level)
    (source : Option Nat) (explosion : GameExplosion)
    (hvalid : level.ConnectionsValid)
    (hseg : explosion.Segment < (level.Segments.length : Int))
    (hfuel : level.Segments.length + 1 ≤ fuel)
    (hsource : ∀ s, source = some s → s < level.Objects.length) :
    ∃ r, CreateExplosion fuel env level source explosion = some r ∧ r.thrown = false ∧
      (∀ i obj, level.Objects[i]? = some obj →
        explosionReaches fuel env level source explosion i obj →
        ∃ e ∈ r.effects, e.index = i ∧ e.before = obj) ∧
      ∀ e ∈ r.effects,
        level.Objects[e.index]? = some e.before ∧ r.level.Objects[e.index]? = some e.after ∧
        e.dist = max (explosionDistance env explosion e.before) 0 ∧ 0 ≤ e.dist ∧
        explosionDistance env explosion e.before < explosion.Radius ∧
        e.damage = explosion.Damage - e.dist * explosion.Damage / explosion.Radius ∧
        e.force = explosion.Force - e.dist * explosion.Force / explosion.Radius ∧
        e.forceVec = env.Normalize (e.before.Position - explosion.Position) * e.force ∧
        (e.before.Type_ = ObjectType.Robot → e.damaged = !env.DisableWeaponDamage) ∧
        ((e.before.Type_ = ObjectType.Weapon ∨ e.before.Type_ = ObjectType.Player) →
          e.damaged = false ∧ e.after = (ApplyForce e.before e.forceVec).obj) ∧
        (explosion.Radius = 40 → explosion.Damage = 40 → e.dist = 20 → e.damage = 20) := by
  obtain ⟨r, h, hthrown, hmem⟩ := CreateExplosion_progress fuel env level source explosion
    hvalid hseg hfuel hsource
  refine ⟨r, h, hthrown, hmem, ?_⟩
  intro e he
  rcases CreateExplosionFrom_effects fuel env source explosion _ _ _ _ r h e he with
    h1 | ⟨_, h1, h2, lvl, h3⟩
  · simp at h1
  · obtain ⟨_, _, h6, h7, h8, h9, h10, _, isPlayer, divisors, h11⟩ :=
      CreateExplosion_object_applied fuel env lvl source explosion e.index e.before e h3
    obtain ⟨h12, h13, _⟩ := explosionApply_cases env isPlayer e.before e.damage e.forceVec
      e.after e.damaged divisors h11
    refine ⟨h1, h2, h7, ?_, h6, h8, h9, h10, fun hr => (h12 hr).1, h13, ?_⟩
    · rw [h7]; exact le_max_right _ _
    · intro hR hD hd
      rw [h8, hR, hD, hd]
      norm_num

/-- Witness of the amended C13: a robot of radius 2 with its centre at distance 22, so at
adjusted distance 20, is reached, is assigned damage 20 and force 10 and loses 20 hit points. -/
theorem CreateExplosion_linear_falloff_witness :
    explosionReaches 10 sampleExplosionEnv (levelWith [robotAt 22]) none sampleExplosion 0
      (robotAt 22) ∧
    ∃ r, CreateExplosion 10 sampleExplosionEnv (levelWith [robotAt 22]) none sampleExplosion
        = some r ∧
      r.effects.map (fun e =>
        [e.dist, e.damage, e.force, e.before.HitPoints - e.after.HitPoints])
        = [[20, 20, 10, 20]] ∧
      (∃ e ∈ r.effects, e.index = 0 ∧ e.before = robotAt 22) ∧
      ∀ e ∈ r.effects,
        (levelWith [robotAt 22]).Objects[e.index]? = some e.before ∧
        r.level.Objects[e.index]? = some e.after ∧
        e.dist = max (explosionDistance sampleExplosionEnv sampleExplosion e.before) 0 ∧
        0 ≤ e.dist ∧
        explosionDistance sampleExplosionEnv sampleExplosion e.before
          < sampleExplosion.Radius ∧
        e.damage = sampleExplosion.Damage
          - e.dist * sampleExplosion.Damage / sampleExplosion.Radius ∧
        e.force = sampleExplosion.Force
          - e.dist * sampleExplosion.Force / sampleExplosion.Radius ∧
        e.forceVec = sampleExplosionEnv.Normalize (e.before.Position - sampleExplosion.Position)
          * e.force ∧
        (e.before.Type_ = ObjectType.Robot →
          e.damaged = !sampleExplosionEnv.DisableWeaponDamage) ∧
        ((e.before.Type_ = ObjectType.Weapon ∨ e.before.Type_ = ObjectType.Player) →
          e.damaged = false ∧ e.after = (ApplyForce e.before e.forceVec).obj) ∧
        (sampleExplosion.Radius = 40 → sampleExplosion.Damage = 40 → e.dist = 20 →
          e.damage = 20) := by
  have hreach : explosionReaches 10 sampleExplosionEnv (levelWith [robotAt 22]) none
      sampleExplosion 0 (robotAt 22) :=
    explosionReaches_of_ignores 10 sampleExplosionEnv (levelWith [robotAt 22]) none
      sampleExplosion 0 (robotAt 22) (openRayEnv_ignores_objects _) (by decide) (by decide!)
      (by decide) (by decide) (by decide!) (by decide!)
  have hs : (CreateExplosion 10 sampleExplosionEnv (levelWith [robotAt 22]) none
      sampleExplosion).map (fun r => r.effects.map (fun e =>
        [e.dist, e.damage, e.force, e.before.HitPoints - e.after.HitPoints]))
      = some [[20, 20, 10, 20]] := by
    decide!
  obtain ⟨r, hr, _, hmem, hall⟩ := CreateExplosion_linear_falloff 10 sampleExplosionEnv
    (levelWith [robotAt 22]) none sampleExplosion (by decide) (by decide) (by decide)
    (fun s hsrc => by cases hsrc)
  rw [hr] at hs
  exact ⟨hreach, r, hr, Option.some.inj hs, hmem 0 (robotAt 22) rfl hreach, hall⟩

theorem ApplyForce_keeps_rotation_inputs (obj : Object) (force : Vector3) :
    (ApplyForce obj force).obj.Physics.AngularAcceleration = obj.Physics.AngularAcceleration ∧
    (ApplyForce obj force).obj.Physics.AngularVelocity = obj.Physics.AngularVelocity := by
  unfold ApplyForce
  split_ifs <;> exact ⟨rfl, rfl⟩

theorem ApplyRotation_keeps_angular_acceleration (m : MathEnv) (obj : Object)
    (force : Vector3) :
    (ApplyRotation m obj force).obj.Physics.AngularAcceleration
      = obj.Physics.AngularAcceleration := by
  unfold ApplyRotation TurnTowardsVector
  split_ifs <;> rfl

/-- C14, counterexample: in the explosion scenario (radius 40, damage 40, force 20, live robot
of mass 4 at distance 20, clear line of sight) the robot's `Physics.AngularAcceleration` is the
same before and after `CreateExplosion`; what changes is `Physics.AngularVelocity`. -/
theorem CreateExplosion_keeps_angular_acceleration_scenario :
    (robotAt 20).Type_ = ObjectType.Robot ∧ 0 < (robotAt 20).Physics.Mass ∧
    (CreateExplosion 10 sampleExplosionEnv (levelWith [robotAt 20]) none sampleExplosion).map
      (fun r => r.level.Objects.map (fun o => o.Physics.AngularAcceleration))
      = some [(robotAt 20).Physics.AngularAcceleration] ∧
    (CreateExplosion 10 sampleExplosionEnv (levelWith [robotAt 20]) none sampleExplosion).map
      (fun r => r.level.Objects.map (fun o => o.Physics.AngularVelocity))
      = some [⟨121 / 192, 0, -11 / 192⟩] ∧
    (robotAt 20).Physics.AngularVelocity = ⟨0, 0, 0⟩ := by
  decide!

/-- C14, amended: on a level with valid connections, with fuel above the segment count, the
explosion segment in range and the source in `level.Objects`, `CreateExplosion` returns, and
it leaves the `Physics.AngularAcceleration` of every robot it affects unchanged (provided
`Object::ApplyDamage` does not write it); the rotational impulse goes through `ApplyRotation`,
so the robot ends with the `Physics.AngularVelocity` that `ApplyRotation` computes for it from
the explosion force vector. -/
theorem CreateExplosion_robot_rotation (fuel : Nat) (env : ExplosionEnv) (level : Level)
    (source : Option Nat) (explosion : GameExplosion)
    (hdamage : ∀ (o : Object) (d : ℚ),
      env.ApplyDamage o d = { o with HitPoints := (env.ApplyDamage o d).HitPoints })
    (hvalid : level.ConnectionsValid)
    (hseg : explosion.Segment < (level.Segments.length : Int))
    (hfuel : level.Segments.length + 1 ≤ fuel)
    (hsource : ∀ s, source = some s → s < level.Objects.length) :
    ∃ r, CreateExplosion fuel env level source explosion = some r ∧
      ∀ e ∈ r.effects, e.before.Type_ = ObjectType.Robot →
        level.Objects[e.index]? = some e.before ∧ r.level.Objects[e.index]? = some e.after ∧
        e.after.Physics.AngularAcceleration = e.before.Physics.AngularAcceleration ∧
        e.after.Physics.AngularVelocity
          = (ApplyRotation env.math e.before e.forceVec).obj.Physics.AngularVelocity := by
  obtain ⟨r, h, _, _⟩ := CreateExplosion_progress fuel env level source explosion
    hvalid hseg hfuel hsource
  refine ⟨r, h, ?_⟩
  intro e he hrobot
  rcases CreateExplosionFrom_effects fuel env source explosion _ _ _ _ r h e he with
    h1 | ⟨_, h1, h2, lvl, h3⟩
  · simp at h1
  · obtain ⟨_, _, _, _, _, _, _, _, isPlayer, divisors, h11⟩ :=
      CreateExplosion_object_applied fuel env lvl source explosion e.index e.before e h3
    obtain ⟨h12, _, _⟩ := explosionApply_cases env isPlayer e.before e.damage e.forceVec
      e.after e.damaged divisors h11
    obtain ⟨_, hafter⟩ := h12 hrobot
    refine ⟨h1, h2, ?_, ?_⟩
    · rw [hafter, ApplyRotation_keeps_angular_acceleration]
      by_cases hd : env.DisableWeaponDamage = false
      · rw [if_pos hd, hdamage]
        exact (ApplyForce_keeps_rotation_inputs e.before e.forceVec).1
      · rw [if_neg hd]
        exact (ApplyForce_keeps_rotation_inputs e.before e.forceVec).1
    · rw [hafter]
      have hforce : (ApplyForce e.before e.forceVec).obj =
          { e.before with Physics := { e.before.Physics with
            Velocity := (ApplyForce e.before e.forceVec).obj.Physics.Velocity } } := by
        unfold ApplyForce
        split_ifs <;> rfl
      by_cases hd : env.DisableWeaponDamage = false
      · rw [if_pos hd, hdamage, hforce]
        unfold ApplyRotation TurnTowardsVector
        dsimp only
        split_ifs <;> rfl
      · rw [if_neg hd, hforce]
        unfold ApplyRotation TurnTowardsVector
        dsimp only
        split_ifs <;> rfl

/-- Witness of the amended C14 in the explosion scenario: the call returns with one effect,
on the robot at index 0. -/
theorem CreateExplosion_robot_rotation_witness :
    ∃ r, CreateExplosion 10 sampleExplosionEnv (levelWith [robotAt 20]) none sampleExplosion
        = some r ∧
      r.effects.map (fun e => (e.index, e.before.Type_)) = [(0, ObjectType.Robot)] ∧
      ∀ e ∈ r.effects, e.before.Type_ = ObjectType.Robot →
        (levelWith [robotAt 20]).Objects[e.index]? = some e.before ∧
        r.level.Objects[e.index]? = some e.after ∧
        e.after.Physics.AngularAcceleration = e.before.Physics.AngularAcceleration ∧
        e.after.Physics.AngularVelocity
          = (ApplyRotation sampleExplosionEnv.math e.before
              e.forceVec).obj.Physics.AngularVelocity := by
  have hs : (CreateExplosion 10 sampleExplosionEnv (levelWith [robotAt 20]) none
      sampleExplosion).map (fun r => r.effects.map (fun e => (e.index, e.before.Type_)))
      = some [(0, ObjectType.Robot)] := by
    decide!
  obtain ⟨r, hr, hall⟩ := CreateExplosion_robot_rotation 10 sampleExplosionEnv
    (levelWith [robotAt 20]) none sampleExplosion (fun _ _ => rfl) (by decide) (by decide)
    (by decide) (fun s hsrc => by cases hsrc)
  rw [hr] at hs
  exact ⟨r, hr, Option.some.inj hs, hall⟩

/-! ## Level mesh: proofs -/

theorem meshShape_refl (a : Object) : meshShape a a := ⟨rfl, rfl, rfl, rfl, rfl⟩

theorem meshShape_trans {a b c : Object} (h1 : meshShape a b) (h2 : meshShape b c) :
    meshShape a c :=
  ⟨h1.1.trans h2.1, h1.2.1.trans h2.2.1, h1.2.2.1.trans h2.2.2.1,
    h1.2.2.2.1.trans h2.2.2.2.1, h1.2.2.2.2.trans h2.2.2.2.2⟩

theorem IntersectLevelMesh_resolve_shape (env : MeshEnv) (level : Level) (segId : SegID)
    (seg : Segment) (sideId : SideID) (tri : Int) (st : MeshState) (hitDistance : ℚ)
    (hitPoint hitNormal tangent : Vector3) (edgeDistance : ℚ) :
    meshShape (IntersectLevelMesh_resolve env level segId seg sideId tri st hitDistance hitPoint
      hitNormal tangent edgeDistance).obj st.obj := by
  unfold IntersectLevelMesh_resolve
  dsimp only
  split_ifs <;> exact ⟨rfl, rfl, rfl, rfl, rfl⟩

theorem IntersectLevelMesh_resolve_far (env : MeshEnv) (level : Level) (segId : SegID)
    (seg : Segment) (sideId : SideID) (tri : Int) (st : MeshState) (hitDistance : ℚ)
    (hitPoint hitNormal tangent : Vector3) (edgeDistance : ℚ)
    (hfar : st.obj.Radius ≤ hitDistance) :
    (IntersectLevelMesh_resolve env level segId seg sideId tri st hitDistance hitPoint
      hitNormal tangent edgeDistance).obj = st.obj ∧
    (IntersectLevelMesh_resolve env level segId seg sideId tri st hitDistance hitPoint
      hitNormal tangent edgeDistance).averagePosition = st.averagePosition ∧
    (IntersectLevelMesh_resolve env level segId seg sideId tri st hitDistance hitPoint
      hitNormal tangent edgeDistance).hits = st.hits := by
  unfold IntersectLevelMesh_resolve
  rw [if_neg (not_lt.mpr hfar)]
  split_ifs <;> exact ⟨rfl, rfl, rfl⟩

theorem IntersectLevelMesh_resolve_near (env : MeshEnv) (level : Level) (segId : SegID)
    (seg : Segment) (sideId : SideID) (tri : Int) (st : MeshState) (hitDistance : ℚ)
    (hitPoint hitNormal tangent : Vector3) (edgeDistance : ℚ)
    (hnear : hitDistance < st.obj.Radius) (hweapon : st.obj.Type_ ≠ ObjectType.Weapon)
    (hpierce : st.obj.Physics.Flags.Piercing = false) :
    (IntersectLevelMesh_resolve env level segId seg sideId tri st hitDistance hitPoint
      hitNormal tangent edgeDistance).averagePosition
      = st.averagePosition + (hitPoint + hitNormal * st.obj.Radius) ∧
    (IntersectLevelMesh_resolve env level segId seg sideId tri st hitDistance hitPoint
      hitNormal tangent edgeDistance).hits = st.hits + 1 := by
  unfold IntersectLevelMesh_resolve
  have h2 : ¬ (st.obj.Type_ = ObjectType.Weapon ∧
      env.ray.WallPointIsTransparent level seg sideId hitPoint tri = true) :=
    fun h => hweapon h.1
  rw [if_pos hnear, if_neg h2]
  dsimp only
  rw [if_pos hpierce]
  split_ifs <;> exact ⟨rfl, rfl⟩

theorem IntersectLevelMesh_triangle_shape (env : MeshEnv) (level : Level) (pathRay : Ray)
    (travelDistance : ℚ) (segId : SegID) (seg : Segment) (sideId : SideID) (tri : Int)
    (st : MeshState) (edgeDistance : ℚ) :
    meshShape (IntersectLevelMesh_triangle env level pathRay travelDistance segId seg sideId tri
      st edgeDistance).1.obj st.obj := by
  unfold IntersectLevelMesh_triangle
  dsimp only
  split_ifs
  · split
    · split_ifs
      · exact meshShape_refl _
      · exact IntersectLevelMesh_resolve_shape _ _ _ _ _ _ _ _ _ _ _ _
      · exact IntersectLevelMesh_resolve_shape _ _ _ _ _ _ _ _ _ _ _ _
    · exact IntersectLevelMesh_resolve_shape _ _ _ _ _ _ _ _ _ _ _ _
  all_goals first
    | exact meshShape_refl _
    | exact IntersectLevelMesh_resolve_shape _ _ _ _ _ _ _ _ _ _ _ _

theorem IntersectLevelMesh_triangle_miss (env : MeshEnv) (level : Level) (pathRay : Ray)
    (travelDistance : ℚ) (segId : SegID) (seg : Segment) (sideId : SideID) (tri : Int)
    (st : MeshState) (edgeDistance : ℚ)
    (hweapon : st.obj.Type_ ≠ ObjectType.Weapon) (hradius : st.obj.Radius ≤ FLT_MAX)
    (hmiss : meshMisses env level pathRay.direction st.obj.Position st.obj.Radius seg sideId
      tri) :
    (IntersectLevelMesh_triangle env level pathRay travelDistance segId seg sideId tri st
      edgeDistance).1.obj = st.obj ∧
    (IntersectLevelMesh_triangle env level pathRay travelDistance segId seg sideId tri st
      edgeDistance).1.averagePosition = st.averagePosition ∧
    (IntersectLevelMesh_triangle env level pathRay travelDistance segId seg sideId tri st
      edgeDistance).1.hits = st.hits := by
  unfold meshMisses meshProjectionInside meshInflatedPlane at hmiss
  unfold IntersectLevelMesh_triangle
  dsimp only
  rw [if_neg hweapon]
  split_ifs
  all_goals first
    | exact ⟨rfl, rfl, rfl⟩
    | exact IntersectLevelMesh_resolve_far _ _ _ _ _ _ _ _ _ _ _ _ hradius
    | (exfalso; rcases hmiss with h | h | h <;> first | tauto | linarith [h.2])

theorem IntersectLevelMesh_triangle_face_hit (env : MeshEnv) (level : Level) (pathRay : Ray)
    (travelDistance : ℚ) (segId : SegID) (seg : Segment) (sideId : SideID) (tri : Int)
    (st : MeshState) (edgeDistance : ℚ)
    (hweapon : st.obj.Type_ ≠ ObjectType.Weapon)
    (hpierce : st.obj.Physics.Flags.Piercing = false)
    (hneg : (meshInflatedPlane env level seg sideId tri st.obj.Radius).DotCoordinate
      st.obj.Position < 0)
    (hclose : -st.obj.Radius ≤ (meshInflatedPlane env level seg sideId tri
      st.obj.Radius).DotCoordinate st.obj.Position)
    (hfaces : pathRay.direction.Dot (env.SideNormal seg sideId tri) ≤ 0)
    (hinside : meshProjectionInside env level seg sideId tri st.obj.Position st.obj.Radius) :
    (IntersectLevelMesh_triangle env level pathRay travelDistance segId seg sideId tri st
      edgeDistance).1.averagePosition
      = st.averagePosition +
        ((env.geom.ProjectPointOntoPlane st.obj.Position
            (meshInflatedPlane env level seg sideId tri st.obj.Radius)
          - env.SideNormal seg sideId tri * st.obj.Radius)
          + env.SideNormal seg sideId tri * st.obj.Radius) ∧
    (IntersectLevelMesh_triangle env level pathRay travelDistance segId seg sideId tri st
      edgeDistance).1.hits = st.hits + 1 := by
  unfold meshProjectionInside at hinside
  unfold meshInflatedPlane at hneg hclose hinside ⊢
  unfold IntersectLevelMesh_triangle
  dsimp only
  have h1 : ¬ ((env.geom.PlaneFromPoints
        (env.FaceVertex level seg sideId tri 0 + env.SideNormal seg sideId tri * st.obj.Radius)
        (env.FaceVertex level seg sideId tri 1 + env.SideNormal seg sideId tri * st.obj.Radius)
        (env.FaceVertex level seg sideId tri 2
          + env.SideNormal seg sideId tri * st.obj.Radius)).DotCoordinate st.obj.Position ≥ 0 ∨
      (env.geom.PlaneFromPoints
        (env.FaceVertex level seg sideId tri 0 + env.SideNormal seg sideId tri * st.obj.Radius)
        (env.FaceVertex level seg sideId tri 1 + env.SideNormal seg sideId tri * st.obj.Radius)
        (env.FaceVertex level seg sideId tri 2
          + env.SideNormal seg sideId tri * st.obj.Radius)).DotCoordinate st.obj.Position
        < -st.obj.Radius) := by
    rintro (h | h)
    · exact absurd hneg (not_lt.mpr h)
    · exact absurd hclose (not_le.mpr h)
  rw [if_neg hweapon, if_neg h1, if_pos ⟨hfaces, hinside⟩]
  have hnear : (env.geom.PlaneFromPoints
        (env.FaceVertex level seg sideId tri 0 + env.SideNormal seg sideId tri * st.obj.Radius)
        (env.FaceVertex level seg sideId tri 1 + env.SideNormal seg sideId tri * st.obj.Radius)
        (env.FaceVertex level seg sideId tri 2
          + env.SideNormal seg sideId tri * st.obj.Radius)).DotCoordinate st.obj.Position
      < st.obj.Radius := by linarith
  exact IntersectLevelMesh_resolve_near _ _ _ _ _ _ _ _ _ _ _ _ hnear hweapon hpierce

theorem IntersectLevelMesh_triangle_miss_of_shape (env : MeshEnv) (level : Level)
    (pathRay : Ray) (travelDistance : ℚ) (segId : SegID) (seg : Segment) (sideId : SideID)
    (tri : Int) (st : MeshState) (edgeDistance : ℚ) (o : Object)
    (hs : meshShape st.obj o) (hweapon : o.Type_ ≠ ObjectType.Weapon)
    (hradius : o.Radius ≤ FLT_MAX)
    (hmiss : meshMisses env level pathRay.direction o.Position o.Radius seg sideId tri) :
    (IntersectLevelMesh_triangle env level pathRay travelDistance segId seg sideId tri st
      edgeDistance).1.obj = st.obj ∧
    (IntersectLevelMesh_triangle env level pathRay travelDistance segId seg sideId tri st
      edgeDistance).1.averagePosition = st.averagePosition ∧
    (IntersectLevelMesh_triangle env level pathRay travelDistance segId seg sideId tri st
      edgeDistance).1.hits = st.hits := by
  obtain ⟨h1, _, h3, h4, _⟩ := hs
  apply IntersectLevelMesh_triangle_miss
  · rw [h4]; exact hweapon
  · rw [h3]; exact hradius
  · rw [h1, h3]; exact hmiss

theorem IntersectLevelMesh_side_miss (env : MeshEnv) (level : Level)
    (pathRay : Ray) (travelDistance : ℚ) (segId : SegID) (seg : Segment) (sideId : SideID)
    (st : MeshState) (o : Object)
    (hs : meshShape st.obj o) (hweapon : o.Type_ ≠ ObjectType.Weapon)
    (hradius : o.Radius ≤ FLT_MAX)
    (hmiss : env.ray.SideIsSolid seg sideId level = true → ∀ tri : Int, tri = 0 ∨ tri = 1 →
      meshMisses env level pathRay.direction o.Position o.Radius seg sideId tri) :
    (IntersectLevelMesh_side env level pathRay travelDistance segId seg st sideId).obj = st.obj ∧
    (IntersectLevelMesh_side env level pathRay travelDistance segId seg st
      sideId).averagePosition = st.averagePosition ∧
    (IntersectLevelMesh_side env level pathRay travelDistance segId seg st sideId).hits
      = st.hits := by
  unfold IntersectLevelMesh_side
  by_cases hsolid : env.ray.SideIsSolid seg sideId level = false
  · rw [if_pos hsolid]
    exact ⟨rfl, rfl, rfl⟩
  · rw [if_neg hsolid]
    have hsol : env.ray.SideIsSolid seg sideId level = true := by
      cases h : env.ray.SideIsSolid seg sideId level
      · exact absurd h hsolid
      · rfl
    dsimp only
    have h0 := IntersectLevelMesh_triangle_miss_of_shape env level pathRay travelDistance segId
      seg sideId 0 st 0 o hs hweapon hradius (hmiss hsol 0 (Or.inl rfl))
    have hs1 : meshShape (IntersectLevelMesh_triangle env level pathRay travelDistance segId
        seg sideId 0 st 0).1.obj o := by
      rw [h0.1]; exact hs
    have h1 := IntersectLevelMesh_triangle_miss_of_shape env level pathRay travelDistance segId
      seg sideId 1 (IntersectLevelMesh_triangle env level pathRay travelDistance segId
        seg sideId 0 st 0).1 (IntersectLevelMesh_triangle env level pathRay travelDistance segId
        seg sideId 0 st 0).2 o hs1 hweapon hradius (hmiss hsol 1 (Or.inr rfl))
    exact ⟨h1.1.trans h0.1, h1.2.1.trans h0.2.1, h1.2.2.trans h0.2.2⟩

theorem IntersectLevelMesh_sides_miss (env : MeshEnv) (level : Level)
    (pathRay : Ray) (travelDistance : ℚ) (segId : SegID) (seg : Segment) (o : Object)
    (hweapon : o.Type_ ≠ ObjectType.Weapon) (hradius : o.Radius ≤ FLT_MAX)
    (sides : List SideID) :
    ∀ st : MeshState, meshShape st.obj o →
    (∀ sideId ∈ sides, env.ray.SideIsSolid seg sideId level = true →
      ∀ tri : Int, tri = 0 ∨ tri = 1 →
      meshMisses env level pathRay.direction o.Position o.Radius seg sideId tri) →
    (sides.foldl (IntersectLevelMesh_side env level pathRay travelDistance segId seg) st).obj
      = st.obj ∧
    (sides.foldl (IntersectLevelMesh_side env level pathRay travelDistance segId seg)
      st).averagePosition = st.averagePosition ∧
    (sides.foldl (IntersectLevelMesh_side env level pathRay travelDistance segId seg) st).hits
      = st.hits := by
  induction sides with
  | nil => intro st _ _; exact ⟨rfl, rfl, rfl⟩
  | cons x xs ih =>
    intro st hs hmiss
    rw [List.foldl_cons]
    have hx := IntersectLevelMesh_side_miss env level pathRay travelDistance segId seg x st o
      hs hweapon hradius (hmiss x (List.mem_cons_self x xs))
    have hs1 : meshShape (IntersectLevelMesh_side env level pathRay travelDistance segId seg
        st x).obj o := by
      rw [hx.1]; exact hs
    have hrest := ih _ hs1 (fun s hmem => hmiss s (List.mem_cons_of_mem x hmem))
    exact ⟨hrest.1.trans hx.1, hrest.2.1.trans hx.2.1, hrest.2.2.trans hx.2.2⟩

theorem IntersectLevelMesh_segments_miss (env : MeshEnv) (level : Level)
    (pathRay : Ray) (travelDistance : ℚ) (o : Object)
    (hweapon : o.Type_ ≠ ObjectType.Weapon) (hradius : o.Radius ≤ FLT_MAX)
    (pvs : List SegID) :
    ∀ st : MeshState, meshShape st.obj o →
    (∀ segId ∈ pvs, ∃ seg, level.GetSegment segId = some seg) →
    (∀ segId ∈ pvs, ∀ seg, level.GetSegment segId = some seg → ∀ sideId ∈ SideIDs,
      env.ray.SideIsSolid seg sideId level = true → ∀ tri : Int, tri = 0 ∨ tri = 1 →
      meshMisses env level pathRay.direction o.Position o.Radius seg sideId tri) →
    ∃ st1, IntersectLevelMesh_segments env level pathRay travelDistance pvs st = some st1 ∧
      st1.obj = st.obj ∧ st1.averagePosition = st.averagePosition ∧ st1.hits = st.hits := by
  induction pvs with
  | nil => intro st _ _ _; exact ⟨st, rfl, rfl, rfl, rfl⟩
  | cons x xs ih =>
    intro st hs hex hmiss
    obtain ⟨seg, hseg⟩ := hex x (List.mem_cons_self x xs)
    unfold IntersectLevelMesh_segments
    rw [hseg]
    dsimp only
    have hx := IntersectLevelMesh_sides_miss env level pathRay travelDistance x seg o hweapon
      hradius SideIDs st hs (hmiss x (List.mem_cons_self x xs) seg hseg)
    have hs1 : meshShape (SideIDs.foldl (IntersectLevelMesh_side env level pathRay
        travelDistance x seg) st).obj o := by
      rw [hx.1]; exact hs
    obtain ⟨st1, hst1, h1, h2, h3⟩ := ih _ hs1
      (fun s hmem => hex s (List.mem_cons_of_mem x hmem))
      (fun s hmem => hmiss s (List.mem_cons_of_mem x hmem))
    exact ⟨st1, hst1, h1.trans hx.1, h2.trans hx.2.1, h3.trans hx.2.2⟩

theorem Vector3.scale_succ (c : Vector3) (n : Nat) :
    c * ((n + 1 : Nat) : ℚ) = c * (n : ℚ) + c := by
  rw [Vector3.scale_def, Vector3.scale_def, Vector3.add_def]
  push_cast
  congr 1 <;> ring

theorem Vector3.scale_zero (c : Vector3) : c * ((0 : Nat) : ℚ) = Vector3.Zero := by
  rw [Vector3.scale_def]
  simp [Vector3.Zero]

theorem Vector3.scale_div_cancel (c : Vector3) (q : ℚ) (hq : q ≠ 0) : c * q / q = c := by
  rw [Vector3.scale_def, Vector3.div_def]
  simp [mul_div_assoc, div_self hq]

theorem IntersectLevelMesh_triangle_step (env : MeshEnv) (level : Level)
    (pathRay : Ray) (travelDistance : ℚ) (segId : SegID) (seg : Segment) (sideId : SideID)
    (tri : Int) (st : MeshState) (edgeDistance : ℚ) (o : Object) (c : Vector3)
    (hs : meshShape st.obj o) (hweapon : o.Type_ ≠ ObjectType.Weapon)
    (hpierce : o.Physics.Flags.Piercing = false) (hradius : o.Radius ≤ FLT_MAX)
    (hinv : st.averagePosition = c * (st.hits : ℚ))
    (h : meshMisses env level pathRay.direction o.Position o.Radius seg sideId tri ∨
      meshFaceHit env level pathRay.direction o.Position o.Radius seg sideId tri c) :
    meshShape (IntersectLevelMesh_triangle env level pathRay travelDistance segId seg sideId tri
      st edgeDistance).1.obj o ∧
    (IntersectLevelMesh_triangle env level pathRay travelDistance segId seg sideId tri st
      edgeDistance).1.averagePosition
      = c * ((IntersectLevelMesh_triangle env level pathRay travelDistance segId seg sideId tri
        st edgeDistance).1.hits : ℚ) ∧
    st.hits ≤ (IntersectLevelMesh_triangle env level pathRay travelDistance segId seg sideId tri
      st edgeDistance).1.hits ∧
    (meshFaceHit env level pathRay.direction o.Position o.Radius seg sideId tri c →
      st.hits < (IntersectLevelMesh_triangle env level pathRay travelDistance segId seg sideId
        tri st edgeDistance).1.hits) := by
  have hshape := meshShape_trans
    (IntersectLevelMesh_triangle_shape env level pathRay travelDistance segId seg sideId tri st
      edgeDistance) hs
  have hhit : meshFaceHit env level pathRay.direction o.Position o.Radius seg sideId tri c →
      (IntersectLevelMesh_triangle env level pathRay travelDistance segId seg sideId tri st
        edgeDistance).1.averagePosition = st.averagePosition + c ∧
      (IntersectLevelMesh_triangle env level pathRay travelDistance segId seg sideId tri st
        edgeDistance).1.hits = st.hits + 1 := by
    intro hf
    obtain ⟨h1, _, h3, h4, h5⟩ := hs
    obtain ⟨f1, f2, f3, f4, f5⟩ := hf
    rw [← h1, ← h3] at f1 f2 f4 f5
    have hw : st.obj.Type_ ≠ ObjectType.Weapon := by rw [h4]; exact hweapon
    have hp : st.obj.Physics.Flags.Piercing = false := by rw [h5]; exact hpierce
    have hx := IntersectLevelMesh_triangle_face_hit env level pathRay travelDistance segId seg
      sideId tri st edgeDistance hw hp f1 f2 f3 f4
    rw [f5] at hx
    exact hx
  rcases h with h | h
  · have hm := IntersectLevelMesh_triangle_miss_of_shape env level pathRay travelDistance segId
      seg sideId tri st edgeDistance o hs hweapon hradius h
    refine ⟨hshape, ?_, ?_, ?_⟩
    · rw [hm.2.1, hm.2.2]; exact hinv
    · rw [hm.2.2]
    · intro hf
      rw [(hhit hf).2]
      exact Nat.lt_succ_self _
  · obtain ⟨ha, hh⟩ := hhit h
    refine ⟨hshape, ?_, ?_, ?_⟩
    · rw [ha, hh, Vector3.scale_succ, hinv]
    · rw [hh]; exact Nat.le_succ _
    · intro _
      rw [hh]
      exact Nat.lt_succ_self _

theorem IntersectLevelMesh_side_step (env : MeshEnv) (level : Level)
    (pathRay : Ray) (travelDistance : ℚ) (segId : SegID) (seg : Segment) (sideId : SideID)
    (st : MeshState) (o : Object) (c : Vector3)
    (hs : meshShape st.obj o) (hweapon : o.Type_ ≠ ObjectType.Weapon)
    (hpierce : o.Physics.Flags.Piercing = false) (hradius : o.Radius ≤ FLT_MAX)
    (hinv : st.averagePosition = c * (st.hits : ℚ))
    (h : env.ray.SideIsSolid seg sideId level = true → ∀ tri : Int, tri = 0 ∨ tri = 1 →
      meshMisses env level pathRay.direction o.Position o.Radius seg sideId tri ∨
      meshFaceHit env level pathRay.direction o.Position o.Radius seg sideId tri c) :
    meshShape (IntersectLevelMesh_side env level pathRay travelDistance segId seg st
      sideId).obj o ∧
    (IntersectLevelMesh_side env level pathRay travelDistance segId seg st
      sideId).averagePosition
      = c * ((IntersectLevelMesh_side env level pathRay travelDistance segId seg st
        sideId).hits : ℚ) ∧
    st.hits ≤ (IntersectLevelMesh_side env level pathRay travelDistance segId seg st
      sideId).hits ∧
    (env.ray.SideIsSolid seg sideId level = true → ∀ tri : Int, tri = 0 ∨ tri = 1 →
      meshFaceHit env level pathRay.direction o.Position o.Radius seg sideId tri c →
      st.hits < (IntersectLevelMesh_side env level pathRay travelDistance segId seg st
        sideId).hits) := by
  unfold IntersectLevelMesh_side
  by_cases hsolid : env.ray.SideIsSolid seg sideId level = false
  · rw [if_pos hsolid]
    refine ⟨hs, hinv, le_refl _, ?_⟩
    intro htrue
    rw [hsolid] at htrue
    cases htrue
  · rw [if_neg hsolid]
    have hsol : env.ray.SideIsSolid seg sideId level = true := by
      cases hb : env.ray.SideIsSolid seg sideId level
      · exact absurd hb hsolid
      · rfl
    dsimp only
    have h0 := IntersectLevelMesh_triangle_step env level pathRay travelDistance segId
      seg sideId 0 st 0 o c hs hweapon hpierce hradius hinv (h hsol 0 (Or.inl rfl))
    have h1 := IntersectLevelMesh_triangle_step env level pathRay travelDistance segId
      seg sideId 1 (IntersectLevelMesh_triangle env level pathRay travelDistance segId
        seg sideId 0 st 0).1 (IntersectLevelMesh_triangle env level pathRay travelDistance segId
        seg sideId 0 st 0).2 o c h0.1 hweapon hpierce hradius h0.2.1 (h hsol 1 (Or.inr rfl))
    refine ⟨h1.1, h1.2.1, le_trans h0.2.2.1 h1.2.2.1, ?_⟩
    intro _ tri htri hf
    rcases htri with htri | htri
    · subst htri
      exact lt_of_lt_of_le (h0.2.2.2 hf) h1.2.2.1
    · subst htri
      exact lt_of_le_of_lt h0.2.2.1 (h1.2.2.2 hf)

theorem IntersectLevelMesh_sides_step (env : MeshEnv) (level : Level)
    (pathRay : Ray) (travelDistance : ℚ) (segId : SegID) (seg : Segment) (o : Object)
    (c : Vector3) (hweapon : o.Type_ ≠ ObjectType.Weapon)
    (hpierce : o.Physics.Flags.Piercing = false) (hradius : o.Radius ≤ FLT_MAX)
    (sides : List SideID) :
    ∀ st : MeshState, meshShape st.obj o → st.averagePosition = c * (st.hits : ℚ) →
    (∀ sideId ∈ sides, env.ray.SideIsSolid seg sideId level = true →
      ∀ tri : Int, tri = 0 ∨ tri = 1 →
      meshMisses env level pathRay.direction o.Position o.Radius seg sideId tri ∨
      meshFaceHit env level pathRay.direction o.Position o.Radius seg sideId tri c) →
    meshShape (sides.foldl (IntersectLevelMesh_side env level pathRay travelDistance segId seg)
      st).obj o ∧
    (sides.foldl (IntersectLevelMesh_side env level pathRay travelDistance segId seg)
      st).averagePosition
      = c * ((sides.foldl (IntersectLevelMesh_side env level pathRay travelDistance segId seg)
        st).hits : ℚ) ∧
    st.hits ≤ (sides.foldl (IntersectLevelMesh_side env level pathRay travelDistance segId seg)
      st).hits ∧
    (∀ sideId ∈ sides, env.ray.SideIsSolid seg sideId level = true →
      ∀ tri : Int, tri = 0 ∨ tri = 1 →
      meshFaceHit env level pathRay.direction o.Position o.Radius seg sideId tri c →
      st.hits < (sides.foldl (IntersectLevelMesh_side env level pathRay travelDistance segId
        seg) st).hits) := by
  induction sides with
  | nil =>
    intro st hs hinv _
    refine ⟨hs, hinv, le_refl _, ?_⟩
    intro s hmem
    cases hmem
  | cons x xs ih =>
    intro st hs hinv h
    rw [List.foldl_cons]
    have hx := IntersectLevelMesh_side_step env level pathRay travelDistance segId seg x st o c
      hs hweapon hpierce hradius hinv (h x (List.mem_cons_self x xs))
    have hrest := ih _ hx.1 hx.2.1 (fun s hmem => h s (List.mem_cons_of_mem x hmem))
    refine ⟨hrest.1, hrest.2.1, le_trans hx.2.2.1 hrest.2.2.1, ?_⟩
    intro s hmem hsol tri htri hf
    rcases List.mem_cons.mp hmem with heq | hin
    · subst heq
      exact lt_of_lt_of_le (hx.2.2.2 hsol tri htri hf) hrest.2.2.1
    · exact lt_of_le_of_lt hx.2.2.1 (hrest.2.2.2 s hin hsol tri htri hf)

theorem IntersectLevelMesh_segments_step (env : MeshEnv) (level : Level)
    (pathRay : Ray) (travelDistance : ℚ) (o : Object) (c : Vector3)
    (hweapon : o.Type_ ≠ ObjectType.Weapon)
    (hpierce : o.Physics.Flags.Piercing = false) (hradius : o.Radius ≤ FLT_MAX)
    (pvs : List SegID) :
    ∀ st : MeshState, meshShape st.obj o → st.averagePosition = c * (st.hits : ℚ) →
    (∀ segId ∈ pvs, ∃ seg, level.GetSegment segId = some seg) →
    (∀ segId ∈ pvs, ∀ seg, level.GetSegment segId = some seg → ∀ sideId ∈ SideIDs,
      env.ray.SideIsSolid seg sideId level = true → ∀ tri : Int, tri = 0 ∨ tri = 1 →
      meshMisses env level pathRay.direction o.Position o.Radius seg sideId tri ∨
      meshFaceHit env level pathRay.direction o.Position o.Radius seg sideId tri c) →
    ∃ st1, IntersectLevelMesh_segments env level pathRay travelDistance pvs st = some st1 ∧
      meshShape st1.obj o ∧ st1.averagePosition = c * (st1.hits : ℚ) ∧ st.hits ≤ st1.hits ∧
      (∀ segId ∈ pvs, ∀ seg, level.GetSegment segId = some seg → ∀ sideId ∈ SideIDs,
        env.ray.SideIsSolid seg sideId level = true → ∀ tri : Int, tri = 0 ∨ tri = 1 →
        meshFaceHit env level pathRay.direction o.Position o.Radius seg sideId tri c →
        st.hits < st1.hits) := by
  induction pvs with
  | nil =>
    intro st hs hinv _ _
    refine ⟨st, rfl, hs, hinv, le_refl _, ?_⟩
    intro s hmem
    cases hmem
  | cons x xs ih =>
    intro st hs hinv hex h
    obtain ⟨seg, hseg⟩ := hex x (List.mem_cons_self x xs)
    unfold IntersectLevelMesh_segments
    rw [hseg]
    dsimp only
    have hx := IntersectLevelMesh_sides_step env level pathRay travelDistance x seg o c hweapon
      hpierce hradius SideIDs st hs hinv (h x (List.mem_cons_self x xs) seg hseg)
    obtain ⟨st1, hst1, h1, h2, h3, h4⟩ := ih _ hx.1 hx.2.1
      (fun s hmem => hex s (List.mem_cons_of_mem x hmem))
      (fun s hmem => h s (List.mem_cons_of_mem x hmem))
    refine ⟨st1, hst1, h1, h2, le_trans hx.2.2.1 h3, ?_⟩
    intro s hmem sg hsg side hside hsol tri htri hf
    rcases List.mem_cons.mp hmem with heq | hin
    · subst heq
      have hsame : sg = seg := by
        rw [hseg] at hsg
        exact (Option.some.inj hsg).symm
      subst hsame
      exact lt_of_lt_of_le (hx.2.2.2 side hside hsol tri htri hf) h3
    · exact lt_of_le_of_lt hx.2.2.1 (h4 s hin sg hsg side hside hsol tri htri hf)

theorem LinearPhysics_shape (obj : Object) (dt : ℚ) :
    (LinearPhysics obj dt).Radius = obj.Radius ∧ (LinearPhysics obj dt).Type_ = obj.Type_ ∧
    (LinearPhysics obj dt).Physics.Flags = obj.Physics.Flags ∧
    (LinearPhysics obj dt).PrevPosition = obj.PrevPosition := by
  unfold LinearPhysics
  split_ifs <;> exact ⟨rfl, rfl, rfl, rfl⟩

theorem Vector3.sub_add_cancel (a b : Vector3) : a - b + b = a := by
  rw [Vector3.sub_def, Vector3.add_def]
  simp

theorem Plane.dotCoordinate_inflated (p0 n pos : Vector3) (r : ℚ) (hunit : n.Dot n = 1) :
    (Plane.fromPointNormal p0 n).DotCoordinate pos
      = (Plane.fromPointNormal (p0 + n * r) n).DotCoordinate pos + r := by
  unfold Vector3.Dot at hunit
  simp only [Plane.fromPointNormal, Plane.DotCoordinate, Vector3.Dot, Vector3.add_def,
    Vector3.scale_def]
  linear_combination r * hunit

theorem Plane.dotCoordinate_move (point n pos : Vector3) (δ : ℚ) (hunit : n.Dot n = 1) :
    (Plane.fromPointNormal point n).DotCoordinate (pos - n * δ)
      = (Plane.fromPointNormal point n).DotCoordinate pos - δ := by
  unfold Vector3.Dot at hunit
  simp only [Plane.fromPointNormal, Plane.DotCoordinate, Vector3.Dot, Vector3.sub_def,
    Vector3.scale_def]
  linear_combination (-δ) * hunit

theorem Plane.dotCoordinate_projection (point n pos : Vector3) (hunit : n.Dot n = 1) :
    (Plane.fromPointNormal point n).DotCoordinate
      (pos - n * (Plane.fromPointNormal point n).DotCoordinate pos) = 0 := by
  rw [Plane.dotCoordinate_move point n pos _ hunit]
  ring

theorem SideIDs_complete (s : SideID) : s ∈ SideIDs := by
  revert s
  decide

/-- C12 (counterexample): a robot of radius 1 starts at `(0, -2/5, -4/5)`, in front of the
inflated plane `z = -1` of triangle 0 of the sample wall `z = -2`, and moves `9/10` head-on in
one sub-step; its projection falls inside the inflated triangle 0. Triangle 0 registers a face
hit and the coplanar triangle 1 an edge hit on the shared diagonal, so the average of the two
corrected positions is `(0, -3/5, -6/5)`, at signed distance `4/5 < 1` from the wall plane. -/
theorem IntersectLevelMesh_neighbour_edge_hit_pulls_inside :
    diagonalSphere.Type_ ≠ ObjectType.Weapon ∧
    diagonalSphere.Physics.Flags.Piercing = false ∧
    wallMeshEnv.ray.SideIsSolid (sampleSegment 1 0 (-1) (-1) (-1) (-1)) 0 sampleLevel = true ∧
    0 ≤ (meshInflatedPlane wallMeshEnv sampleLevel (sampleSegment 1 0 (-1) (-1) (-1) (-1)) 0 0
      diagonalSphere.Radius).DotCoordinate diagonalSphere.Position ∧
    (subStepMove diagonalSphere (1 / 128)).Position
      = diagonalSphere.Position - (⟨0, 0, 1⟩ : Vector3) * (9 / 10 : ℚ) ∧
    (9 / 10 : ℚ) < diagonalSphere.Radius ∧
    wallMeshEnv.geom.Normalize (subStepMove diagonalSphere (1 / 128)).Physics.Velocity
      = ⟨0, 0, -1⟩ ∧
    meshProjectionInside wallMeshEnv sampleLevel (sampleSegment 1 0 (-1) (-1) (-1) (-1)) 0 0
      (subStepMove diagonalSphere (1 / 128)).Position diagonalSphere.Radius ∧
    (meshSubStep wallMeshEnv sampleLevel [0] sampleHit (1 / 128) diagonalSphere).map
      (fun st => (st.obj.Position, st.hits, st.corrected))
      = some (⟨0, -3 / 5, -6 / 5⟩, 2, [⟨0, -2 / 5, -1⟩, ⟨0, -4 / 5, -7 / 5⟩]) ∧
    (Plane.fromPointNormal (wallCorner 0) ⟨0, 0, 1⟩).DotCoordinate ⟨0, -3 / 5, -6 / 5⟩
      = 4 / 5 ∧
    ¬ (diagonalSphere.Radius ≤ (Plane.fromPointNormal (wallCorner 0) ⟨0, 0, 1⟩).DotCoordinate
      ⟨0, -3 / 5, -6 / 5⟩) := by
  unfold meshProjectionInside
  refine ⟨by decide, rfl, rfl, by decide!, by decide!, by decide!, by decide!, by decide!,
    by decide!, by decide!, by decide!⟩

theorem meshTick_scenario :
    ∃ st, meshTick wallMeshEnv sampleLevel [0] sampleHit (1 / 64) scenarioSphere = some st ∧
      st.obj.Position = ⟨0, 0, -25 / 32⟩ ∧ -1 ≤ st.obj.Position.z := by
  have h : (meshTick wallMeshEnv sampleLevel [0] sampleHit (1 / 64) scenarioSphere).map
      (fun st => st.obj.Position) = some ⟨0, 0, -25 / 32⟩ := by decide!
  cases hx : meshTick wallMeshEnv sampleLevel [0] sampleHit (1 / 64) scenarioSphere with
  | none =>
    rw [hx] at h
    cases h
  | some st =>
    rw [hx] at h
    have hpos : st.obj.Position = ⟨0, 0, -25 / 32⟩ := Option.some.inj h
    refine ⟨st, rfl, hpos, ?_⟩
    rw [hpos]
    decide!

/-- C12 (amended): a sphere that is not a weapon and not piercing, of radius `r ≤ FLT_MAX`,
starts a sub-step in front of the radius-inflated plane of a solid triangle of the potential
segments, is moved by `LinearPhysics` by `δ < r` against the unit triangle normal, the triangle
faces the path and the projection of the moved centre falls inside the inflated triangle. If
no other solid triangle of the potential segments registers a hit at the moved position, then
`IntersectLevelMesh` returns and the signed distance of the resulting position from the wall
plane is at least `r`. In the scenario of a sphere of radius 1 at the origin with velocity
`(0, 0, -50)`, the wall plane `z = -2` facing `+z` and `dt = 1/64` in two sub-steps, the
position after the tick is `(0, 0, -25/32)`, so its z-position is at least `-1`. -/
theorem IntersectLevelMesh_no_tunneling (env : MeshEnv) (level : Level) (obj : Object)
    (pvs : List SegID) (hit : LevelHit) (dt : ℚ) (segT : SegID) (seg : Segment)
    (sideT : SideID) (triT : Int) (δ : ℚ)
    (hweapon : obj.Type_ ≠ ObjectType.Weapon)
    (hpierce : obj.Physics.Flags.Piercing = false)
    (hradius : obj.Radius ≤ FLT_MAX)
    (hpvs : ∀ segId ∈ pvs, ∃ s, level.GetSegment segId = some s)
    (hmem : segT ∈ pvs) (hseg : level.GetSegment segT = some seg)
    (htri : triT = 0 ∨ triT = 1)
    (hsolid : env.ray.SideIsSolid seg sideT level = true)
    (hunit : (env.SideNormal seg sideT triT).Dot (env.SideNormal seg sideT triT) = 1)
    (hplane : meshInflatedPlane env level seg sideT triT obj.Radius
      = Plane.fromPointNormal
          (env.FaceVertex level seg sideT triT 0 + env.SideNormal seg sideT triT * obj.Radius)
          (env.SideNormal seg sideT triT))
    (hproj : ∀ p plane, env.geom.ProjectPointOntoPlane p plane
      = p - plane.normal * plane.DotCoordinate p)
    (hstart : 0 ≤ (meshInflatedPlane env level seg sideT triT obj.Radius).DotCoordinate
      obj.Position)
    (hδ : 0 ≤ δ ∧ δ < obj.Radius)
    (hmove : (subStepMove obj dt).Position = obj.Position - env.SideNormal seg sideT triT * δ)
    (hfaces : (env.geom.Normalize (subStepMove obj dt).Physics.Velocity).Dot
      (env.SideNormal seg sideT triT) ≤ 0)
    (hinside : meshProjectionInside env level seg sideT triT (subStepMove obj dt).Position
      obj.Radius)
    (hothers : ∀ segId ∈ pvs, ∀ s, level.GetSegment segId = some s → ∀ sideId,
      env.ray.SideIsSolid s sideId level = true → ∀ tri : Int, tri = 0 ∨ tri = 1 →
      ¬ (segId = segT ∧ sideId = sideT ∧ tri = triT) →
      meshMisses env level (env.geom.Normalize (subStepMove obj dt).Physics.Velocity)
        (subStepMove obj dt).Position obj.Radius s sideId tri) :
    (∃ st, meshSubStep env level pvs hit dt obj = some st ∧
      obj.Radius ≤ (Plane.fromPointNormal (env.FaceVertex level seg sideT triT 0)
        (env.SideNormal seg sideT triT)).DotCoordinate st.obj.Position) ∧
    ∃ st, meshTick wallMeshEnv sampleLevel [0] sampleHit (1 / 64) scenarioSphere = some st ∧
      st.obj.Position = ⟨0, 0, -25 / 32⟩ ∧ -1 ≤ st.obj.Position.z := by
  refine ⟨?_, meshTick_scenario⟩
  have hshape := LinearPhysics_shape { obj with PrevPosition := obj.Position } dt
  have hor : (subStepMove obj dt).Radius = obj.Radius := hshape.1
  have hw : (subStepMove obj dt).Type_ ≠ ObjectType.Weapon := by
    rw [show (subStepMove obj dt).Type_ = obj.Type_ from hshape.2.1]; exact hweapon
  have hp : (subStepMove obj dt).Physics.Flags.Piercing = false := by
    rw [show (subStepMove obj dt).Physics.Flags = obj.Physics.Flags from hshape.2.2.1]
    exact hpierce
  have hpv : (meshInflatedPlane env level seg sideT triT obj.Radius).DotCoordinate
      (subStepMove obj dt).Position
      = (meshInflatedPlane env level seg sideT triT obj.Radius).DotCoordinate obj.Position
        - δ := by
    rw [hplane, hmove, Plane.dotCoordinate_move _ _ _ _ hunit]
  unfold meshSubStep
  rw [← hor] at hradius hplane hstart hδ hinside hothers hpv ⊢
  clear hshape
  generalize subStepMove obj dt = o at *
  unfold IntersectLevelMesh
  by_cases hneg : (meshInflatedPlane env level seg sideT triT o.Radius).DotCoordinate
      o.Position < 0
  · have hface : meshFaceHit env level (env.geom.Normalize o.Physics.Velocity) o.Position
        o.Radius seg sideT triT
        ((env.geom.ProjectPointOntoPlane o.Position
            (meshInflatedPlane env level seg sideT triT o.Radius)
          - env.SideNormal seg sideT triT * o.Radius)
          + env.SideNormal seg sideT triT * o.Radius) :=
      ⟨hneg, by linarith [hδ.2, hpv, hstart], hfaces, hinside, rfl⟩
    obtain ⟨st1, hst1, _, hinv1, _, hlt⟩ := IntersectLevelMesh_segments_step env level
      ⟨o.PrevPosition, env.geom.Normalize o.Physics.Velocity⟩
      (env.geom.Length o.Physics.Velocity * dt) o
      ((env.geom.ProjectPointOntoPlane o.Position
            (meshInflatedPlane env level seg sideT triT o.Radius)
          - env.SideNormal seg sideT triT * o.Radius)
          + env.SideNormal seg sideT triT * o.Radius) hw hp hradius pvs
      ⟨o, Vector3.Zero, 0, hit, []⟩ (meshShape_refl o) (Vector3.scale_zero _).symm hpvs
      (by
        intro segId hin s hs sideId _ hsol tri htr
        by_cases hT : segId = segT ∧ sideId = sideT ∧ tri = triT
        · obtain ⟨h1, h2, h3⟩ := hT
          subst h1 h2 h3
          rw [hseg] at hs
          cases hs
          exact Or.inr hface
        · exact Or.inl (hothers segId hin s hs sideId hsol tri htr hT))
    have hpos : 0 < st1.hits :=
      hlt segT hmem seg hseg sideT (SideIDs_complete sideT) hsolid triT htri hface
    rw [hst1]
    dsimp only
    rw [if_pos hpos]
    refine ⟨_, rfl, ?_⟩
    dsimp only
    have hne : (st1.hits : ℚ) ≠ 0 := by
      exact_mod_cast (Nat.pos_iff_ne_zero.mp hpos)
    rw [hinv1, Vector3.scale_div_cancel _ _ hne, Vector3.sub_add_cancel, hproj, hplane]
    rw [Plane.dotCoordinate_inflated _ _ _ o.Radius hunit]
    have hzero := Plane.dotCoordinate_projection
      (env.FaceVertex level seg sideT triT 0 + env.SideNormal seg sideT triT * o.Radius)
      (env.SideNormal seg sideT triT) o.Position hunit
    have hnormal : (Plane.fromPointNormal
        (env.FaceVertex level seg sideT triT 0 + env.SideNormal seg sideT triT * o.Radius)
        (env.SideNormal seg sideT triT)).normal = env.SideNormal seg sideT triT := rfl
    rw [hnormal, hzero]
    simp
  · obtain ⟨st1, hst1, hobj1, _, hhits1⟩ := IntersectLevelMesh_segments_miss env level
      ⟨o.PrevPosition, env.geom.Normalize o.Physics.Velocity⟩
      (env.geom.Length o.Physics.Velocity * dt) o hw hradius pvs
      ⟨o, Vector3.Zero, 0, hit, []⟩ (meshShape_refl o) hpvs
      (by
        intro segId hin s hs sideId _ hsol tri htr
        by_cases hT : segId = segT ∧ sideId = sideT ∧ tri = triT
        · obtain ⟨h1, h2, h3⟩ := hT
          subst h1 h2 h3
          rw [hseg] at hs
          cases hs
          exact Or.inl (not_lt.mp hneg)
        · exact hothers segId hin s hs sideId hsol tri htr hT)
    have hzero : ¬ st1.hits > 0 := by
      rw [hhits1]
      exact Nat.lt_irrefl 0
    rw [hst1]
    dsimp only
    rw [if_neg hzero]
    refine ⟨_, rfl, ?_⟩
    rw [hobj1]
    dsimp only
    rw [Plane.dotCoordinate_inflated _ _ _ o.Radius hunit, ← hplane]
    linarith [not_lt.mp hneg]

theorem offsetSphere_others_miss :
    ∀ segId ∈ ([0] : List SegID), ∀ s, sampleLevel.GetSegment segId = some s → ∀ sideId,
      wallMeshEnv.ray.SideIsSolid s sideId sampleLevel = true → ∀ tri : Int,
      tri = 0 ∨ tri = 1 → ¬ (segId = 0 ∧ sideId = 0 ∧ tri = 0) →
      meshMisses wallMeshEnv sampleLevel
        (wallMeshEnv.geom.Normalize (subStepMove offsetSphere (1 / 128)).Physics.Velocity)
        (subStepMove offsetSphere (1 / 128)).Position offsetSphere.Radius s sideId tri := by
  intro segId hin s hs sideId hsol tri htr hT
  have hside : sideId = 0 := of_decide_eq_true hsol
  subst hside
  have hseg0 : segId = 0 := List.mem_singleton.mp hin
  subst hseg0
  have h2 : sampleLevel.GetSegment 0 = some (sampleSegment 1 0 (-1) (-1) (-1) (-1)) := rfl
  rw [h2] at hs
  have hs2 : s = sampleSegment 1 0 (-1) (-1) (-1) (-1) := (Option.some.inj hs).symm
  subst hs2
  rcases htr with h | h
  · exact absurd ⟨rfl, rfl, h⟩ hT
  · subst h
    unfold meshMisses meshProjectionInside meshInflatedPlane
    decide!

/-- Witness of the amended C12: the robot of radius 1 at `(0, -5, -4/5)` moving `9/10` at the
sample wall ends the sub-step at `(0, -5, -1)`, at signed distance 1 from the wall plane. -/
theorem IntersectLevelMesh_no_tunneling_witness :
    (meshSubStep wallMeshEnv sampleLevel [0] sampleHit (1 / 128) offsetSphere).map
      (fun st => (st.obj.Position, st.hits)) = some (⟨0, -5, -1⟩, 1) ∧
    (∃ st, meshSubStep wallMeshEnv sampleLevel [0] sampleHit (1 / 128) offsetSphere = some st ∧
      offsetSphere.Radius ≤ (Plane.fromPointNormal
        (wallMeshEnv.FaceVertex sampleLevel (sampleSegment 1 0 (-1) (-1) (-1) (-1)) 0 0 0)
        (wallMeshEnv.SideNormal (sampleSegment 1 0 (-1) (-1) (-1) (-1)) 0 0)).DotCoordinate
          st.obj.Position) ∧
    ∃ st, meshTick wallMeshEnv sampleLevel [0] sampleHit (1 / 64) scenarioSphere = some st ∧
      st.obj.Position = ⟨0, 0, -25 / 32⟩ ∧ -1 ≤ st.obj.Position.z :=
  ⟨by decide!,
    IntersectLevelMesh_no_tunneling wallMeshEnv sampleLevel offsetSphere [0] sampleHit (1 / 128)
      0 (sampleSegment 1 0 (-1) (-1) (-1) (-1)) 0 0 (9 / 10) (by decide) rfl (by decide!)
      (fun segId hin => by rw [List.mem_singleton.mp hin]; exact ⟨_, rfl⟩)
      (List.mem_singleton.mpr rfl) rfl (Or.inl rfl) rfl (by decide!) (by decide!)
      (fun _ _ => rfl) (by decide!) (by decide!) (by decide!) (by decide!)
      (by unfold meshProjectionInside; decide!) offsetSphere_others_miss⟩

/-! ## Dispatch exclusions of `IntersectLevelNew` -/

/-- C20 (counterexample): the weapon at index 2 whose `Parent` is 1 is dispatched to the
`SpherePoly` arm, hence to `IntersectSpherePoly` and `CollideObjects`, against the robot at
index 1, its own parent. -/
theorem IntersectLevelNew_select_dispatches_parent :
    robotShot.Parent = 1 ∧
    parentLevel.TryGetObject 2 = some robotShot ∧
    parentLevel.TryGetObject 1 = some sampleObject ∧
    sampleObject.Type_ = ObjectType.Robot ∧
    IntersectLevelNew_select sampleGameEnv parentLevel robotShot 2 1 = NarrowPhase.SpherePoly := by
  refine ⟨rfl, by decide!, by decide!, rfl, by decide!⟩

/-- C20 (amended): when the body of the object loop of `IntersectLevelNew` dispatches the object
`obj` with identifier `oid` against the list entry `entry`, the entry is not `oid`, it is the
index of an object `other` whose `Parent` is not `oid` and whose signature differs from that of
`obj`, and `obj` is not a weapon with `Parent = 0` facing a player. -/
theorem IntersectLevelNew_select_exclusions (env : GameEnv) (level : Level) (obj : Object)
    (oid entry : ObjID)
    (h : IntersectLevelNew_select env level obj oid entry ≠ NarrowPhase.Skipped) :
    oid ≠ entry ∧ ∃ other, level.TryGetObject entry = some other ∧ oid ≠ other.Parent ∧
      obj.Signature ≠ other.Signature ∧
      ¬ (obj.Type_ = ObjectType.Weapon ∧ other.Type_ = ObjectType.Player ∧ obj.Parent = 0) := by
  unfold IntersectLevelNew_select at h
  by_cases h1 : oid = entry
  · rw [if_pos h1] at h
    exact absurd rfl h
  · rw [if_neg h1] at h
    refine ⟨h1, ?_⟩
    cases hget : level.TryGetObject entry with
    | none =>
      rw [hget] at h
      exact absurd rfl h
    | some other =>
      rw [hget] at h
      dsimp only at h
      by_cases h2 : oid = other.Parent
      · rw [if_pos h2] at h
        exact absurd rfl h
      · rw [if_neg h2] at h
        refine ⟨other, rfl, h2, ?_, ?_⟩
        · intro hsig
          apply h
          have hnone : ObjectCanHitTarget env obj other = CollisionType.None := by
            unfold ObjectCanHitTarget
            split_ifs <;> rfl
          rw [hnone]
        · rintro ⟨hw, hp, hpar⟩
          apply h
          have hnone : ObjectCanHitTarget env obj other = CollisionType.None := by
            unfold ObjectCanHitTarget
            rw [hp]
            dsimp only
            split_ifs <;> rfl
          rw [hnone]

/-- Witness of the amended C20: the robot at index 1 is dispatched against the player at
index 0. -/
theorem IntersectLevelNew_select_exclusions_witness :
    (1 : ObjID) ≠ 0 ∧ ∃ other, parentLevel.TryGetObject 0 = some other ∧
      (1 : ObjID) ≠ other.Parent ∧ sampleObject.Signature ≠ other.Signature ∧
      ¬ (sampleObject.Type_ = ObjectType.Weapon ∧ other.Type_ = ObjectType.Player ∧
        sampleObject.Parent = 0) :=
  IntersectLevelNew_select_exclusions sampleGameEnv parentLevel sampleObject 1 0 (by decide!)

/-! ## Collision phase: writes to other objects -/

theorem replayWrites_append (objects : List Object) (ws vs : List ObjectWrite) :
    replayWrites objects (ws ++ vs) = replayWrites (replayWrites objects ws) vs := by
  induction ws generalizing objects with
  | nil => rfl
  | cons w rest ih => exact ih _

theorem writesValid_append (env : CollisionEnv) (oid : ObjID) (dt : ℚ) (objects : List Object)
    (ws vs : List ObjectWrite) :
    writesValid env oid dt objects (ws ++ vs) ↔
      writesValid env oid dt objects ws ∧
        writesValid env oid dt (replayWrites objects ws) vs := by
  induction ws generalizing objects with
  | nil => exact ⟨fun h => ⟨trivial, h⟩, fun h => h.2⟩
  | cons w rest ih =>
    constructor
    · intro h
      exact ⟨⟨h.1, ((ih _).mp h.2).1⟩, ((ih _).mp h.2).2⟩
    · intro h
      exact ⟨h.1.1, (ih _).mpr ⟨h.1.2, h.2⟩⟩

theorem replayWrites_frame (objects : List Object) (ws : List ObjectWrite) (i : Nat)
    (h : ∀ w ∈ ws, w.index.toNat ≠ i) : (replayWrites objects ws)[i]? = objects[i]? := by
  induction ws generalizing objects with
  | nil => rfl
  | cons w rest ih =>
    unfold replayWrites
    rw [ih _ (fun v hv => h v (List.mem_cons_of_mem w hv))]
    exact List.getElem?_set_ne (h w (List.mem_cons_self w rest))

theorem Level.TryGetObject_some (level : Level) (id : Int) (o : Object)
    (h : level.TryGetObject id = some o) :
    0 ≤ id ∧ id.toNat < level.Objects.length ∧ level.Objects[id.toNat]? = some o := by
  unfold Level.TryGetObject at h
  by_cases hc : id < 0 ∨ id ≥ level.Objects.length
  · rw [if_pos hc] at h
    cases h
  · rw [if_neg hc] at h
    have h0 : (0 : Int) ≤ id := by
      by_contra hn
      exact hc (Or.inl (not_le.mp hn))
    have h1 : id < (level.Objects.length : Int) := by
      by_contra hn
      exact hc (Or.inr (not_lt.mp hn))
    refine ⟨h0, ?_, h⟩
    omega

theorem writes_push (env : CollisionEnv) (oid : ObjID) (dt : ℚ) (objs0 objs : List Object)
    (ws : List ObjectWrite) (w : ObjectWrite) (h1 : objs = replayWrites objs0 ws)
    (h2 : writesValid env oid dt objs0 ws) (h0 : 0 ≤ w.index)
    (hb : objs[w.index.toNat]? = some w.before) (hj : writeJustified env oid dt w) :
    objs.set w.index.toNat w.after = replayWrites objs0 (ws ++ [w]) ∧
      writesValid env oid dt objs0 (ws ++ [w]) := by
  constructor
  · rw [replayWrites_append, ← h1]
    rfl
  · rw [writesValid_append, ← h1]
    exact ⟨h2, ⟨h0, hb, hj⟩, trivial⟩

theorem IntersectLevelNew_object_writes (env : CollisionEnv) (level : Level) (oid : ObjID)
    (dt : ℚ) (objs0 : List Object) (st st1 : CollisionState) (entry : ObjID)
    (hinv1 : st.objects = replayWrites objs0 st.writes)
    (hinv2 : writesValid env oid dt objs0 st.writes)
    (h : IntersectLevelNew_object env level oid dt st entry = some st1) :
    st1.objects = replayWrites objs0 st1.writes ∧ writesValid env oid dt objs0 st1.writes := by
  unfold IntersectLevelNew_object at h
  by_cases h1 : oid = entry
  · rw [if_pos h1] at h
    cases h
    exact ⟨hinv1, hinv2⟩
  · rw [if_neg h1] at h
    cases hget : ({ level with Objects := st.objects } : Level).TryGetObject entry with
    | none =>
      rw [hget] at h
      cases h
      exact ⟨hinv1, hinv2⟩
    | some other =>
      rw [hget] at h
      dsimp only at h
      obtain ⟨h0, hlen, hidx⟩ := Level.TryGetObject_some _ entry other hget
      have hidx1 : st.objects[entry.toNat]? = some other := hidx
      have hlen1 : entry.toNat < st.objects.length := hlen
      by_cases h2 : oid = other.Parent
      · rw [if_pos h2] at h
        cases h
        exact ⟨hinv1, hinv2⟩
      · rw [if_neg h2] at h
        cases hc : ObjectCanHitTarget env.game st.obj other with
        | None =>
          rw [hc] at h
          cases h
          exact ⟨hinv1, hinv2⟩
        | SphereRoom =>
          rw [hc] at h
          cases h
          exact ⟨hinv1, hinv2⟩
        | SpherePoly =>
          rw [hc] at h
          dsimp only at h
          cases hres : IntersectSpherePoly env.poly st.obj other dt with
          | none =>
            rw [hres] at h
            cases h
          | some res =>
            rw [hres] at h
            dsimp only at h
            by_cases hh : env.HitInfoIsHit res.info = true
            · rw [if_pos hh] at h
              cases h
              exact writes_push env oid dt objs0 st.objects st.writes
                ⟨entry, Writer.CollideObjects, other, _⟩ hinv1 hinv2 h0 hidx1
                ⟨Ne.symm h1, Or.inr ⟨rfl, _, _, rfl⟩⟩
            · rw [if_neg hh] at h
              cases h
              exact ⟨hinv1, hinv2⟩
        | PolySphere =>
          rw [hc] at h
          dsimp only at h
          cases hres : IntersectPolySphere env.poly st.obj other dt with
          | none =>
            rw [hres] at h
            cases h
          | some res =>
            rw [hres] at h
            dsimp only at h
            have hfirst := writes_push env oid dt objs0 st.objects st.writes
              ⟨entry, Writer.PolySphere, other, res.obj⟩ hinv1 hinv2 h0 hidx1
              ⟨Ne.symm h1, Or.inl ⟨rfl, st.obj, res.info, hres⟩⟩
            by_cases hh : env.HitInfoIsHit res.info = true
            · rw [if_pos hh] at h
              cases h
              have hset : (st.objects.set entry.toNat res.obj)[entry.toNat]? = some res.obj := by
                simp [hlen1]
              have hsecond := writes_push env oid dt objs0
                (st.objects.set entry.toNat res.obj)
                (st.writes ++ [⟨entry, Writer.PolySphere, other, res.obj⟩])
                ⟨entry, Writer.CollideObjects, res.obj,
                  (CollideObjects env.collide (env.LevelHitUpdate st.hit res.info entry) st.obj
                    res.obj).b⟩ hfirst.1 hfirst.2 h0 hset
                ⟨Ne.symm h1, Or.inr ⟨rfl, _, _, rfl⟩⟩
              rw [List.append_assoc] at hsecond
              exact hsecond
            · rw [if_neg hh] at h
              cases h
              exact hfirst
        | SphereSphere =>
          rw [hc] at h
          dsimp only at h
          split_ifs at h <;> cases h <;> exact ⟨hinv1, hinv2⟩

theorem IntersectLevelNew_objects_writes (env : CollisionEnv) (level : Level) (oid : ObjID)
    (dt : ℚ) (objs0 : List Object) (entries : List ObjID) :
    ∀ st st1 : CollisionState, st.objects = replayWrites objs0 st.writes →
      writesValid env oid dt objs0 st.writes →
      IntersectLevelNew_objects env level oid dt entries st = some st1 →
      st1.objects = replayWrites objs0 st1.writes ∧
        writesValid env oid dt objs0 st1.writes := by
  induction entries with
  | nil =>
    intro st st1 h1 h2 h
    cases h
    exact ⟨h1, h2⟩
  | cons entry rest ih =>
    intro st st1 h1 h2 h
    unfold IntersectLevelNew_objects at h
    cases hstep : IntersectLevelNew_object env level oid dt st entry with
    | none =>
      rw [hstep] at h
      cases h
    | some st2 =>
      rw [hstep] at h
      obtain ⟨k1, k2⟩ := IntersectLevelNew_object_writes env level oid dt objs0 st st2 entry
        h1 h2 hstep
      exact ih st2 st1 k1 k2 h

theorem IntersectLevelNew_segments_writes (env : CollisionEnv) (level : Level) (oid : ObjID)
    (dt : ℚ) (objs0 : List Object) (pvs : List SegID) :
    ∀ st st1 : CollisionState, st.objects = replayWrites objs0 st.writes →
      writesValid env oid dt objs0 st.writes →
      IntersectLevelNew_segments env level oid dt pvs st = some st1 →
      st1.objects = replayWrites objs0 st1.writes ∧
        writesValid env oid dt objs0 st1.writes := by
  induction pvs with
  | nil =>
    intro st st1 h1 h2 h
    cases h
    exact ⟨h1, h2⟩
  | cons segId rest ih =>
    intro st st1 h1 h2 h
    unfold IntersectLevelNew_segments at h
    cases hseg : level.GetSegment segId with
    | none =>
      rw [hseg] at h
      cases h
    | some seg =>
      rw [hseg] at h
      dsimp only at h
      cases hobjs : IntersectLevelNew_objects env level oid dt seg.Objects st with
      | none =>
        rw [hobjs] at h
        cases h
      | some st2 =>
        rw [hobjs] at h
        obtain ⟨k1, k2⟩ := IntersectLevelNew_objects_writes env level oid dt objs0 seg.Objects
          st st2 h1 h2 hobjs
        exact ih st2 st1 k1 k2 h

/-- C19 (counterexample): while the robot at index 0 is processed, the player at index 1, at
`(0, 0, 1/2)` with velocity `(0, 0, -1/20)`, is selected for the `PolySphere` arm.
`IntersectPolySphere` runs `IntersectSpherePoly` with the player as the sphere and moves it to
`(0, 0, 1)` with velocity zero; the impact speed `1/20` is below the threshold of
`CollideObjects`, whose write leaves the player as it found it. -/
theorem IntersectLevelNew_poly_sphere_moves_other :
    polyLevel.Objects.map (fun o => (o.Position, o.Physics.Velocity))
      = [(⟨0, 0, 0⟩, ⟨0, 0, 0⟩), (⟨0, 0, 1 / 2⟩, ⟨0, 0, -1 / 20⟩)] ∧
    IntersectLevelNew_select sampleGameEnv polyLevel sampleObject 0 1
      = NarrowPhase.PolySphere ∧
    (IntersectPolySphere samplePolyEnv sampleObject slowPlayer (1 / 128)).map
      (fun r => (r.obj.Position, r.obj.Physics.Velocity))
      = some (⟨0, 0, 1⟩, ⟨0, 0, 0⟩) ∧
    (IntersectLevelNew 10 sampleCollisionEnv polyLevel ⟨[], []⟩ sampleObject 0 sampleHit
      (1 / 128)).map (fun r => r.objects.map (fun o => (o.Position, o.Physics.Velocity)))
      = some [(⟨0, 0, 0⟩, ⟨0, 0, 0⟩), (⟨0, 0, 1⟩, ⟨0, 0, 0⟩)] ∧
    (IntersectLevelNew 10 sampleCollisionEnv polyLevel ⟨[], []⟩ sampleObject 0 sampleHit
      (1 / 128)).map
      (fun r => r.writes.map (fun w => (w.index, w.routine, decide (w.before = w.after))))
      = some [(1, Writer.PolySphere, false), (1, Writer.CollideObjects, true)] := by
  refine ⟨by decide!, by decide!, by decide!, by decide!, by decide!⟩

/-- C19 (amended): in a call of `IntersectLevelNew` for the object `oid`, the objects of the
level evolve only through the logged writes, replayed in order. Each write goes to an index
other than `oid`, reads the object the earlier writes left there, and is either the result of
`IntersectPolySphere` (that is `IntersectSpherePoly` with the written object as the sphere) or
the second object of a `CollideObjects` call; the `SpherePoly` and `SphereSphere` arms and the
level mesh test add no write. An object that no write addresses is unchanged. -/
theorem IntersectLevelNew_writes_to_others (fuel : Nat) (env : CollisionEnv) (level : Level)
    (scratch : PvsScratch) (obj : Object) (oid : ObjID) (hit : LevelHit) (dt : ℚ)
    (r : CollisionResult)
    (h : IntersectLevelNew fuel env level scratch obj oid hit dt = some r) :
    r.objects = replayWrites level.Objects r.writes ∧
    writesValid env oid dt level.Objects r.writes ∧
    ∀ i : Nat, (∀ w ∈ r.writes, w.index.toNat ≠ i) → r.objects[i]? = level.Objects[i]? := by
  unfold IntersectLevelNew at h
  cases hpvs : GetPotentialSegments fuel level scratch obj.Segment obj.Position
      (obj.Radius * 2) with
  | none =>
    rw [hpvs] at h
    cases h
  | some pvs =>
    rw [hpvs] at h
    dsimp only at h
    cases hsegs : IntersectLevelNew_segments env level oid dt pvs.g_VisitedSegs
        ⟨obj, level.Objects, hit, []⟩ with
    | none =>
      rw [hsegs] at h
      cases h
    | some st =>
      rw [hsegs] at h
      dsimp only at h
      cases hmesh : IntersectLevelMesh env.mesh { level with Objects := st.objects } st.obj
          pvs.g_VisitedSegs st.hit dt with
      | none =>
        rw [hmesh] at h
        cases h
      | some ms =>
        rw [hmesh] at h
        cases h
        obtain ⟨k1, k2⟩ := IntersectLevelNew_segments_writes env level oid dt level.Objects
          pvs.g_VisitedSegs ⟨obj, level.Objects, hit, []⟩ st rfl trivial hsegs
        refine ⟨k1, k2, ?_⟩
        intro i hi
        dsimp only at hi ⊢
        rw [k1]
        exact replayWrites_frame level.Objects st.writes i hi

/-- Witness of the amended C19 in the scenario of the robot and the drifting player: the call
returns, and its two writes address index 1. -/
theorem IntersectLevelNew_writes_to_others_witness :
    ∃ r, IntersectLevelNew 10 sampleCollisionEnv polyLevel ⟨[], []⟩ sampleObject 0 sampleHit
        (1 / 128) = some r ∧
      r.writes.map (fun w => w.index) = [1, 1] ∧
      r.objects = replayWrites polyLevel.Objects r.writes ∧
      writesValid sampleCollisionEnv 0 (1 / 128) polyLevel.Objects r.writes ∧
      ∀ i : Nat, (∀ w ∈ r.writes, w.index.toNat ≠ i) →
        r.objects[i]? = polyLevel.Objects[i]? := by
  have hs : (IntersectLevelNew 10 sampleCollisionEnv polyLevel ⟨[], []⟩ sampleObject 0
      sampleHit (1 / 128)).map (fun r => r.writes.map (fun w => w.index)) = some [1, 1] := by
    decide!
  cases hr : IntersectLevelNew 10 sampleCollisionEnv polyLevel ⟨[], []⟩ sampleObject 0
      sampleHit (1 / 128) with
  | none =>
    rw [hr] at hs
    cases hs
  | some r =>
    rw [hr] at hs
    exact ⟨r, rfl, Option.some.inj hs,
      IntersectLevelNew_writes_to_others 10 sampleCollisionEnv polyLevel ⟨[], []⟩ sampleObject
        0 sampleHit (1 / 128) r hr⟩

/-! ## Explosions: the exception and the bounds of the falloff -/

theorem CreateExplosion_object_not_thrown (fuel : Nat) (env : ExplosionEnv) (level : Level)
    (source : Option Nat) (explosion : GameExplosion) (index : Nat) (obj : Object) :
    CreateExplosion_object fuel env level source explosion index obj
      ≠ some ExplosionStep.thrown := by
  unfold CreateExplosion_object
  by_cases h1 : source = some index
  · rw [if_pos h1]; intro h; cases h
  rw [if_neg h1]
  by_cases h2 : env.game.IsAlive obj = false
  · rw [if_pos h2]; intro h; cases h
  rw [if_neg h2]
  by_cases h3 : obj.Type_ = ObjectType.Weapon ∧
      (obj.ID ≠ env.ProxMine ∧ obj.ID ≠ env.SmartMine ∧ obj.ID ≠ env.LevelMine)
  · rw [if_pos h3]; intro h; cases h
  rw [if_neg h3]
  by_cases h4 : obj.Type_ ≠ ObjectType.Player ∧ obj.Type_ ≠ ObjectType.Robot ∧
      obj.Type_ ≠ ObjectType.Weapon ∧ obj.Type_ ≠ ObjectType.Reactor
  · rw [if_pos h4]; intro h; cases h
  rw [if_neg h4]
  by_cases h5 : explosionDistance env explosion obj ≥ explosion.Radius
  · rw [if_pos h5]; intro h; cases h
  rw [if_neg h5]
  cases IntersectRayLevel fuel env.ray level
      ⟨explosion.Position, env.Normalize (obj.Position - explosion.Position)⟩
      explosion.Segment (max (explosionDistance env explosion obj) 0) true true
      env.DefaultHit with
  | none => intro h; cases h
  | some cast =>
    dsimp only
    by_cases h6 : cast.result = true
    · rw [if_pos h6]; intro h; cases h
    rw [if_neg h6]
    cases explosionSourceIsPlayer env level source with
    | none => intro h; cases h
    | some isPlayer =>
      dsimp only
      obtain ⟨res, hres⟩ := explosionApply_returns env isPlayer obj
        (explosion.Damage
          - max (explosionDistance env explosion obj) 0 * explosion.Damage / explosion.Radius)
        (env.Normalize (obj.Position - explosion.Position)
          * (explosion.Force
            - max (explosionDistance env explosion obj) 0 * explosion.Force
              / explosion.Radius)) h4
      rw [hres]
      intro h
      cases h

theorem CreateExplosionFrom_not_thrown (fuel : Nat) (env : ExplosionEnv) (source : Option Nat)
    (explosion : GameExplosion) :
    ∀ (count index : Nat) (level : Level) (effects : List ExplosionEffect)
      (r : ExplosionResult),
      CreateExplosionFrom fuel env source explosion count index level effects = some r →
      r.thrown = false := by
  intro count
  induction count with
  | zero =>
    intro index level effects r h
    simp only [CreateExplosionFrom, Option.some.injEq] at h
    subst h
    rfl
  | succ count ih =>
    intro index level effects r h
    simp only [CreateExplosionFrom] at h
    split at h
    · cases h
    · rename_i obj hobj
      split at h
      · cases h
      · exact ih _ _ _ r h
      · rename_i hstep
        exact absurd hstep
          (CreateExplosion_object_not_thrown fuel env level source explosion index obj)
      · exact ih _ _ _ r h

/-- C28: `CreateExplosion` never raises its `Invalid object type` exception. The body of the
object loop never ends in the `default` branch of the type switch, whatever the level, the
source, the explosion and the object are, because the switch returns for every `Weapon`,
`Robot`, `Reactor` and `Player` and every other type is skipped before it; so every completed
call ends without the exception, and on a level with valid connections, with fuel above the
segment count, the explosion segment in range and the source in `level.Objects`, the call
completes. -/
theorem CreateExplosion_never_throws (fuel : Nat) (env : ExplosionEnv) (level : Level)
    (source : Option Nat) (explosion : GameExplosion) :
    (∀ (lvl : Level) (index : Nat) (obj : Object),
      CreateExplosion_object fuel env lvl source explosion index obj
        ≠ some ExplosionStep.thrown) ∧
    (∀ (isPlayer : Bool) (obj : Object) (damage : ℚ) (forceVec : Vector3),
      (obj.Type_ = ObjectType.Weapon ∨ obj.Type_ = ObjectType.Robot ∨
        obj.Type_ = ObjectType.Reactor ∨ obj.Type_ = ObjectType.Player) →
      explosionApply env isPlayer obj damage forceVec ≠ none) ∧
    (∀ r, CreateExplosion fuel env level source explosion = some r →
      r.thrown = false ∧
      ∀ e ∈ r.effects, e.before.Type_ = ObjectType.Weapon ∨ e.before.Type_ = ObjectType.Robot ∨
        e.before.Type_ = ObjectType.Reactor ∨ e.before.Type_ = ObjectType.Player) ∧
    (level.ConnectionsValid → explosion.Segment < (level.Segments.length : Int) →
      level.Segments.length + 1 ≤ fuel → (∀ s, source = some s → s < level.Objects.length) →
      ∃ r, CreateExplosion fuel env level source explosion = some r ∧ r.thrown = false) := by
  refine ⟨fun lvl index obj =>
      CreateExplosion_object_not_thrown fuel env lvl source explosion index obj, ?_, ?_, ?_⟩
  · intro isPlayer obj damage forceVec htype
    have h4 : ¬ (obj.Type_ ≠ ObjectType.Player ∧ obj.Type_ ≠ ObjectType.Robot ∧
        obj.Type_ ≠ ObjectType.Weapon ∧ obj.Type_ ≠ ObjectType.Reactor) := by
      rintro ⟨hp, hr, hw, hre⟩
      rcases htype with h | h | h | h
      · exact hw h
      · exact hr h
      · exact hre h
      · exact hp h
    obtain ⟨res, hres⟩ := explosionApply_returns env isPlayer obj damage forceVec h4
    rw [hres]
    intro h
    cases h
  · intro r h
    refine ⟨CreateExplosionFrom_not_thrown fuel env source explosion _ _ _ _ r h, ?_⟩
    intro e he
    rcases CreateExplosionFrom_effects fuel env source explosion _ _ _ _ r h e he with
      h1 | ⟨_, _, _, lvl, h3⟩
    · simp at h1
    · obtain ⟨_, _, _, _, _, _, _, htype, _⟩ :=
        CreateExplosion_object_applied fuel env lvl source explosion e.index e.before e h3
      rcases htype with h | h | h | h
      · exact Or.inr (Or.inr (Or.inr h))
      · exact Or.inr (Or.inl h)
      · exact Or.inl h
      · exact Or.inr (Or.inr (Or.inl h))
  · intro hvalid hseg hfuel hsource
    obtain ⟨r, hr, hthrown, _⟩ := CreateExplosion_progress fuel env level source explosion
      hvalid hseg hfuel hsource
    exact ⟨r, hr, hthrown⟩

/-- Witness of C28 in the explosion scenario: the call completes without the exception. -/
theorem CreateExplosion_never_throws_witness :
    explosionApply sampleExplosionEnv false (robotAt 20) 22 ⟨11, 0, 0⟩ ≠ none ∧
    ∃ r, CreateExplosion 10 sampleExplosionEnv (levelWith [robotAt 20]) none sampleExplosion
        = some r ∧ r.thrown = false :=
  ⟨(CreateExplosion_never_throws 10 sampleExplosionEnv (levelWith [robotAt 20]) none
      sampleExplosion).2.1 false (robotAt 20) 22 ⟨11, 0, 0⟩ (Or.inr (Or.inl rfl)),
    (CreateExplosion_never_throws 10 sampleExplosionEnv (levelWith [robotAt 20]) none
      sampleExplosion).2.2.2 (by decide) (by decide) (by decide) (fun s hsrc => by cases hsrc)⟩

theorem TurnRoll_roll_cases (rollRate theta : ℚ) (hrate : 0 ≤ rollRate) :
    (0 < theta → (if |theta| < rollRate then theta
        else if theta < 0 then -rollRate else rollRate) = min rollRate |theta|) ∧
    (theta < 0 → (if |theta| < rollRate then theta
        else if theta < 0 then -rollRate else rollRate) = -min rollRate |theta|) ∧
    (theta = 0 → (if |theta| < rollRate then theta
        else if theta < 0 then -rollRate else rollRate) = 0) ∧
    |if |theta| < rollRate then theta else if theta < 0 then -rollRate else rollRate|
      = min rollRate |theta| ∧
    |if |theta| < rollRate then theta else if theta < 0 then -rollRate else rollRate|
      ≤ |theta| ∧
    0 ≤ (if |theta| < rollRate then theta else if theta < 0 then -rollRate else rollRate)
      * theta := by
  have kpos : 0 < theta → (if |theta| < rollRate then theta
      else if theta < 0 then -rollRate else rollRate) = min rollRate |theta| := by
    intro hpos
    rw [abs_of_pos hpos]
    by_cases h1 : theta < rollRate
    · rw [if_pos h1, min_eq_right (le_of_lt h1)]
    · rw [if_neg h1, if_neg (not_lt.mpr (le_of_lt hpos)), min_eq_left (not_lt.mp h1)]
  have kneg : theta < 0 → (if |theta| < rollRate then theta
      else if theta < 0 then -rollRate else rollRate) = -min rollRate |theta| := by
    intro hneg
    rw [abs_of_neg hneg]
    by_cases h1 : -theta < rollRate
    · rw [if_pos h1, min_eq_right (le_of_lt h1), neg_neg]
    · rw [if_neg h1, if_pos hneg, min_eq_left (not_lt.mp h1)]
  have kzero : theta = 0 → (if |theta| < rollRate then theta
      else if theta < 0 then -rollRate else rollRate) = 0 := by
    intro hzero
    subst hzero
    rw [abs_zero]
    by_cases h1 : (0 : ℚ) < rollRate
    · rw [if_pos h1]
    · rw [if_neg h1, if_neg (lt_irrefl 0)]
      exact le_antisymm (not_lt.mp h1) hrate
  generalize (if |theta| < rollRate then theta
      else if theta < 0 then -rollRate else rollRate) = roll at *
  have hmin : 0 ≤ min rollRate |theta| := le_min hrate (abs_nonneg theta)
  have hle : min rollRate |theta| ≤ |theta| := min_le_right _ _
  refine ⟨kpos, kneg, kzero, ?_, ?_, ?_⟩
  · rcases lt_trichotomy theta 0 with h | h | h
    · rw [kneg h, abs_neg, abs_of_nonneg hmin]
    · rw [kzero h, h, abs_zero, min_eq_right hrate]
    · rw [kpos h, abs_of_nonneg hmin]
  · rcases lt_trichotomy theta 0 with h | h | h
    · rw [kneg h, abs_neg, abs_of_nonneg hmin]; exact hle
    · rw [kzero h, abs_zero]; exact abs_nonneg _
    · rw [kpos h, abs_of_nonneg hmin]; exact hle
  · rcases lt_trichotomy theta 0 with h | h | h
    · rw [kneg h]
      have : 0 ≤ min rollRate |theta| * (-theta) := mul_nonneg hmin (by linarith)
      linarith
    · rw [kzero h, zero_mul]
    · rw [kpos h]
      exact mul_nonneg hmin (le_of_lt h)

/-- C26: in `TurnRoll`, with `desired = AngularVelocity.y * rollScale` and
`theta = desired - TurnRoll`, for every `rollRate >= 0` the roll step passed to the bank state
is `min(rollRate, |theta|)` when `theta > 0`, its negation when `theta < 0` and zero when
`theta = 0`; so it has absolute value `min(rollRate, |theta|)`, never the opposite sign of
`theta`, and never exceeds the remaining delta `|theta|`. The new `TurnRoll` is what
`BankState.Update` returns for that step. -/
theorem TurnRoll_never_overshoots (Update : ℚ → ℚ → ℚ) (pd : PhysicsData)
    (rollScale rollRate dt : ℚ) (hrate : 0 ≤ rollRate) :
    (0 < pd.AngularVelocity.y * rollScale - pd.TurnRoll →
      TurnRoll_roll pd rollScale rollRate
        = min rollRate |pd.AngularVelocity.y * rollScale - pd.TurnRoll|) ∧
    (pd.AngularVelocity.y * rollScale - pd.TurnRoll < 0 →
      TurnRoll_roll pd rollScale rollRate
        = -min rollRate |pd.AngularVelocity.y * rollScale - pd.TurnRoll|) ∧
    (pd.AngularVelocity.y * rollScale - pd.TurnRoll = 0 →
      TurnRoll_roll pd rollScale rollRate = 0) ∧
    |TurnRoll_roll pd rollScale rollRate|
      = min rollRate |pd.AngularVelocity.y * rollScale - pd.TurnRoll| ∧
    |TurnRoll_roll pd rollScale rollRate| ≤ |pd.AngularVelocity.y * rollScale - pd.TurnRoll| ∧
    0 ≤ TurnRoll_roll pd rollScale rollRate * (pd.AngularVelocity.y * rollScale - pd.TurnRoll) ∧
    (TurnRoll Update pd rollScale rollRate dt).TurnRoll
      = Update (TurnRoll_roll pd rollScale rollRate) dt := by
  obtain ⟨h1, h2, h3, h4, h5, h6⟩ := TurnRoll_roll_cases rollRate
    (pd.AngularVelocity.y * rollScale - pd.TurnRoll) hrate
  exact ⟨h1, h2, h3, h4, h5, h6, rfl⟩

/-- Witness of C26: with a yaw rate 2, scale 1 and current bank 1/2 the delta is 3/2; at the
rate 1 the step is 1, at the rate 2 it is the whole delta 3/2. -/
theorem TurnRoll_never_overshoots_witness :
    TurnRoll_roll samplePhysicsBank 1 1 = min 1 |samplePhysicsBank.AngularVelocity.y * 1
      - samplePhysicsBank.TurnRoll| ∧
    TurnRoll_roll samplePhysicsBank 1 1 = 1 ∧
    TurnRoll_roll samplePhysicsBank 1 2 = 3 / 2 ∧
    |TurnRoll_roll samplePhysicsBank 1 2|
      ≤ |samplePhysicsBank.AngularVelocity.y * 1 - samplePhysicsBank.TurnRoll| ∧
    TurnRoll_roll samplePhysicsBank (-1) 1 = -1 :=
  ⟨(TurnRoll_never_overshoots (fun roll _ => roll) samplePhysicsBank 1 1 0 (by decide!)).1
      (by decide!),
    by decide!, by decide!,
    (TurnRoll_never_overshoots (fun roll _ => roll) samplePhysicsBank 1 2 0
      (by decide!)).2.2.2.2.1,
    by decide!⟩

/-! ## Weapon autoselection: proofs -/

theorem GetWeaponPriorityLoop_below_marker (primary : Int) :
    ∀ (entries : List Nat) (i : Nat), i + entries.length ≤ 255 →
      0 ≤ GetWeaponPriorityLoop primary entries i ∧
      GetWeaponPriorityLoop primary entries i < 255 := by
  intro entries
  induction entries with
  | nil =>
    intro i _
    simp only [GetWeaponPriorityLoop]
    exact ⟨le_refl _, by decide⟩
  | cons entry rest ih =>
    intro i hlen
    rw [List.length_cons] at hlen
    simp only [GetWeaponPriorityLoop]
    have hi : i ≠ 255 := by omega
    rw [if_neg hi]
    by_cases he : (entry : Int) = primary
    · rw [if_pos he]
      constructor
      · exact Int.natCast_nonneg i
      · omega
    · rw [if_neg he]
      exact ih (i + 1) (by omega)

/-- C23 (code bug): `GetWeaponPriority` compares the loop index, not the list entry, with 255.
With the priority list `1, 255, 0, 2, ..., 9` weapon 0, which is listed right after the marker,
gets priority 2 instead of 255, and no weapon index from 0 to 9 gets 255; `getPriority` of
`AutoselectSecondary`, which tests the entry, returns 255 for the same list and weapon. When
weapon 0 is the only one that can fire, `AutoselectPrimary` selects it. -/
theorem GetWeaponPriority_ignores_marker :
    vulcanOnlyPriority.length = DefaultPrimaryPriority.length ∧
    vulcanOnlyPriority.take 3 = [1, 255, 0] ∧
    GetWeaponPriority vulcanOnlyPriority 0 = 2 ∧
    getPriority vulcanOnlyPriority 0 = 255 ∧
    (∀ primary : Fin 10, GetWeaponPriority vulcanOnlyPriority (primary.val : Int) ≠ 255) ∧
    AutoselectPrimary_index laserOnlyEnv vulcanOnlyPriority = 0 := by
  refine ⟨by decide, by decide, by decide, by decide, by decide, by decide!⟩

/-! ## Object scans and absent objects -/

theorem IntersectLevelDebris_objects_absent (env : DebrisEnv) (level : Level)
    (capsule : BoundingCapsule) (ray : Ray) (segment : SegID) (hit : LevelHit) :
    ∀ entries : List ObjID, (∃ entry ∈ entries, level.TryGetObject entry = none) →
      IntersectLevelDebris_objects env level capsule ray segment hit entries
        = Except.error ScanFault.nullObject ∨
      ∃ found, IntersectLevelDebris_objects env level capsule ray segment hit entries
        = Except.ok (some found) := by
  intro entries
  induction entries with
  | nil =>
    rintro ⟨entry, hmem, _⟩
    cases hmem
  | cons head rest ih =>
    rintro ⟨entry, hmem, habsent⟩
    simp only [IntersectLevelDebris_objects]
    cases hget : level.TryGetObject head with
    | none => exact Or.inl rfl
    | some other =>
      have hrest : ∃ e ∈ rest, level.TryGetObject e = none := by
        rcases List.mem_cons.mp hmem with heq | hin
        · subst heq
          rw [hget] at habsent
          cases habsent
        · exact ⟨entry, hin, habsent⟩
      dsimp only
      split_ifs
      · exact ih hrest
      · exact ih hrest
      · cases env.RayIntersectsSphere ray other.Position other.Radius with
        | none => exact ih hrest
        | some dist =>
          dsimp only
          split_ifs
          · exact Or.inr ⟨_, rfl⟩
          · exact ih hrest

theorem IntersectLevelNew_object_absent (env : CollisionEnv) (level : Level) (oid : ObjID)
    (dt : ℚ) (st : CollisionState) (entry : ObjID)
    (h : ({ level with Objects := st.objects } : Level).TryGetObject entry = none) :
    IntersectLevelNew_object env level oid dt st entry = some st := by
  unfold IntersectLevelNew_object
  rw [h]
  split_ifs <;> rfl

/-- C21 (code bug): `IntersectLevelDebris` dereferences the pointer that `TryGetObject`
returns without testing it. On a level of one robot whose only segment lists the identifiers
0, 5 and -1, `TryGetObject` returns nothing for 5 and for -1 and the scan stops with the null
object fault at the entry 5, while `IntersectLevelNew` for the robot skips both entries and
completes without writing to an object. -/
theorem IntersectLevelDebris_dereferences_absent_object :
    staleLevel.TryGetObject 5 = none ∧ staleLevel.TryGetObject (-1) = none ∧
    (staleLevel.GetSegment 0).map (fun seg => seg.Objects) = some [0, 5, -1] ∧
    IntersectLevelDebris 10 sampleDebrisEnv staleLevel ⟨[], []⟩ sampleCapsule 0 sampleHit
      = Except.error ScanFault.nullObject ∧
    (IntersectLevelNew 10 sampleCollisionEnv staleLevel ⟨[], []⟩ sampleObject 0 sampleHit
      (1 / 128)).map (fun r => (r.objects, r.writes.length)) = some (staleLevel.Objects, 0) := by
  refine ⟨by decide, by decide, by decide, by decide!, by decide!⟩

/-! ## Potential segment set: termination and exactness -/

theorem pvsLoop_fuel_succ (level : Level) (point : Vector3) (radius : ℚ) :
    ∀ (fuel depth : Nat) (visited queue : List SegID) (r : PvsScratch),
      GetPotentialSegmentsLoop level point radius fuel depth visited queue = some r →
      GetPotentialSegmentsLoop level point radius (fuel + 1) depth visited queue = some r := by
  intro fuel
  induction fuel with
  | zero =>
    intro depth visited queue r h
    simp [GetPotentialSegmentsLoop] at h
  | succ fuel ih =>
    intro depth visited queue r h
    cases queue with
    | nil =>
      simp only [GetPotentialSegmentsLoop] at h ⊢
      exact h
    | cons segId rest =>
      simp only [GetPotentialSegmentsLoop] at h ⊢
      cases hseg : level.GetSegment segId with
      | none =>
        rw [hseg] at h
        cases h
      | some seg =>
        rw [hseg] at h
        exact ih _ _ _ r h

theorem pvsLoop_fuel_mono (level : Level) (point : Vector3) (radius : ℚ)
    (fuel depth : Nat) (visited queue : List SegID) (r : PvsScratch)
    (h : GetPotentialSegmentsLoop level point radius fuel depth visited queue = some r) :
    ∀ fuel1, fuel ≤ fuel1 →
      GetPotentialSegmentsLoop level point radius fuel1 depth visited queue = some r := by
  intro fuel1 hle
  induction hle with
  | refl => exact h
  | step _ ih => exact pvsLoop_fuel_succ level point radius _ _ _ _ r ih

/-- C24: on a level whose connections are `None` or in range, for a start segment of the level
and a work queue that holds segments of the level only, `GetPotentialSegments` terminates:
from some amount of fuel on every run returns the same buffers, whatever cycles and
self-connections the level has and however often a segment is queued; every completed run
returns these buffers, and the shared work queue `g_VisitedStack` is empty in them. -/
theorem GetPotentialSegments_terminates (level : Level) (scratch : PvsScratch)
    (start : SegID) (point : Vector3) (radius : ℚ)
    (hvalid : level.ConnectionsValid) (hstart : level.SegmentExists start)
    (hqueue : ∀ x ∈ scratch.g_VisitedStack, level.SegmentExists x) :
    ∃ fuel0 r,
      (∀ fuel, fuel0 ≤ fuel →
        GetPotentialSegments fuel level scratch start point radius = some r) ∧
      r.g_VisitedStack = [] ∧
      ∀ fuel r1, GetPotentialSegments fuel level scratch start point radius = some r1 →
        r1 = r ∧ r1.g_VisitedStack = [] := by
  unfold GetPotentialSegments
  obtain ⟨fuel0, r, hr⟩ := pvsLoop_terminates level point radius hvalid _ _ 0 []
    (scratch.g_VisitedStack ++ [start]) rfl rfl (by
      intro x hx
      rcases List.mem_append.mp hx with h | h
      · exact hqueue x h
      · rw [List.mem_singleton] at h
        exact h ▸ hstart)
  have hempty : ∀ fuel r1, GetPotentialSegmentsLoop level point radius fuel 0 []
      (scratch.g_VisitedStack ++ [start]) = some r1 → r1.g_VisitedStack = [] := by
    intro fuel r1 h1
    exact (pvsLoop_invariant level point radius fuel 0 [] _ r1 h1
      (fun s hs => by cases hs)).2.1
  refine ⟨fuel0, r, pvsLoop_fuel_mono level point radius fuel0 0 [] _ r hr, hempty fuel0 r hr,
    ?_⟩
  intro fuel r1 h1
  refine ⟨?_, hempty fuel r1 h1⟩
  have ha := pvsLoop_fuel_mono level point radius fuel0 0 [] _ r hr (max fuel0 fuel)
    (le_max_left _ _)
  have hb := pvsLoop_fuel_mono level point radius fuel 0 [] _ r1 h1 (max fuel0 fuel)
    (le_max_right _ _)
  rw [ha] at hb
  exact (Option.some.inj hb).symm

/-- Witness of C24 on `sampleLevel`, which has a self-connected segment, a cycle and a segment
that is queued twice before its first visit: the flood makes four visits for three segments,
so it needs fuel 5, and it returns with an empty queue. -/
theorem GetPotentialSegments_terminates_witness :
    GetPotentialSegments 4 sampleLevel ⟨[7], []⟩ 0 ⟨0, 0, -5⟩ 1 = none ∧
    GetPotentialSegments 5 sampleLevel ⟨[7], []⟩ 0 ⟨0, 0, -5⟩ 1 = some ⟨[2, 1, 0], []⟩ ∧
    ∃ fuel0 r,
      (∀ fuel, fuel0 ≤ fuel →
        GetPotentialSegments fuel sampleLevel ⟨[7], []⟩ 0 ⟨0, 0, -5⟩ 1 = some r) ∧
      r.g_VisitedStack = [] ∧
      ∀ fuel r1, GetPotentialSegments fuel sampleLevel ⟨[7], []⟩ 0 ⟨0, 0, -5⟩ 1 = some r1 →
        r1 = r ∧ r1.g_VisitedStack = [] :=
  ⟨by decide!, by decide!,
    GetPotentialSegments_terminates sampleLevel ⟨[7], []⟩ 0 ⟨0, 0, -5⟩ 1 (by decide)
      (by decide) (fun x hx => by cases hx)⟩

theorem pvsFold_origin_plane (seg : Segment) (point : Vector3) (radius : ℚ) (depth : Nat)
    (visited : List SegID) (sides : List SideID) :
    ∀ queue : List SegID, ∀ x ∈ sides.foldl (pvsVisitSide seg point radius depth visited) queue,
      x ∈ queue ∨ ∃ sideId, x = seg.GetConnection sideId ∧ x ≠ SegID.None ∧
        (depth = 0 ∨ inflatedPlaneValue (seg.GetSide sideId) point radius ≤ 0) := by
  induction sides with
  | nil => intro queue x hx; exact Or.inl (by simpa using hx)
  | cons s rest ih =>
    intro queue x hx
    rw [List.foldl_cons] at hx
    rcases ih _ x hx with h | h
    · unfold pvsVisitSide at h
      by_cases h1 : depth = 0 ∨ inflatedPlaneValue (seg.GetSide s) point radius ≤ 0
      · rw [if_pos h1] at h
        by_cases h2 : seg.GetConnection s ≠ SegID.None ∧ ¬ seg.GetConnection s ∈ visited
        · rw [if_pos h2] at h
          rcases List.mem_append.mp h with h3 | h3
          · exact Or.inl h3
          · rw [List.mem_singleton] at h3
            exact Or.inr ⟨s, h3, h3 ▸ h2.1, h1⟩
        · rw [if_neg h2] at h
          exact Or.inl h
      · rw [if_neg h1] at h
        exact Or.inl h
    · exact Or.inr h

theorem pvsLoop_reach (level : Level) (point : Vector3) (radius : ℚ) (start : SegID) :
    ∀ (fuel depth : Nat) (visited queue : List SegID) (r : PvsScratch),
      GetPotentialSegmentsLoop level point radius fuel depth visited queue = some r →
      (∀ x ∈ visited, PvsReach level point radius start x) →
      (∀ x ∈ queue, PvsReach level point radius start x) →
      (depth = 0 → ∀ s rest, queue = s :: rest → s = start) →
      ∀ x ∈ r.g_VisitedSegs, PvsReach level point radius start x := by
  intro fuel
  induction fuel with
  | zero => intro depth visited queue r h; simp [GetPotentialSegmentsLoop] at h
  | succ fuel ih =>
    intro depth visited queue r h hv hq hd
    cases queue with
    | nil =>
      simp only [GetPotentialSegmentsLoop, Option.some.injEq] at h
      subst h
      exact hv
    | cons segId rest =>
      simp only [GetPotentialSegmentsLoop] at h
      cases hseg : level.GetSegment segId with
      | none => rw [hseg] at h; cases h
      | some seg =>
        rw [hseg] at h
        have hsegId : PvsReach level point radius start segId :=
          hq segId (List.mem_cons_self _ _)
        refine ih _ _ _ r h ?_ ?_ ?_
        · intro x hx
          rcases List.mem_insert_iff.mp hx with heq | hin
          · rw [heq]; exact hsegId
          · exact hv x hin
        · intro x hx
          rcases pvsFold_origin_plane seg point radius depth _ SideIDs rest x hx with
            h1 | ⟨side, h1, h2, h3⟩
          · exact hq x (List.mem_cons_of_mem _ h1)
          · rw [h1] at h2 ⊢
            rcases h3 with h3 | h3
            · have hs : segId = start := hd h3 segId rest rfl
              rw [hs] at hseg
              exact PvsReach.neighbour seg side hseg h2
            · exact PvsReach.cross segId seg side hsegId hseg h3 h2
        · intro h0
          exact absurd h0 (Nat.succ_ne_zero depth)

/-- C29: on a level whose connections are `None` or in range, from a clean work queue,
`GetPotentialSegments` returns, and the set of every completed run is exactly the least set
closed under three rules: it holds the start segment, every segment connected to a side of the
start segment, and every segment connected to a member across a side whose plane moved outward
by `radius` has the query point behind or on it. So every returned segment is the start, a direct
neighbour of the start, or such a connection of a returned segment; the set lies in every set
closed under the rules; and the run does not depend on what `g_VisitedSegs` held before. -/
theorem GetPotentialSegments_exact (level : Level) (scratch : PvsScratch)
    (start : SegID) (point : Vector3) (radius : ℚ)
    (hvalid : level.ConnectionsValid) (hstart : level.SegmentExists start)
    (hqueue : scratch.g_VisitedStack = []) :
    (∃ fuel r, GetPotentialSegments fuel level scratch start point radius = some r) ∧
    ∀ fuel r, GetPotentialSegments fuel level scratch start point radius = some r →
      (∀ t, t ∈ r.g_VisitedSegs ↔ PvsReach level point radius start t) ∧
      (∀ t ∈ r.g_VisitedSegs, t = start ∨
        (∃ seg side, level.GetSegment start = some seg ∧ t = seg.GetConnection side) ∨
        ∃ s ∈ r.g_VisitedSegs, ∃ seg side, level.GetSegment s = some seg ∧
          inflatedPlaneValue (seg.GetSide side) point radius ≤ 0 ∧
          t = seg.GetConnection side) ∧
      pvsRulesClosed level point radius start (fun t => t ∈ r.g_VisitedSegs) ∧
      (∀ S : SegID → Prop, pvsRulesClosed level point radius start S →
        ∀ t ∈ r.g_VisitedSegs, S t) ∧
      ∀ visitedBefore : List SegID,
        GetPotentialSegments fuel level ⟨visitedBefore, scratch.g_VisitedStack⟩ start point
          radius = some r := by
  constructor
  · unfold GetPotentialSegments
    rw [hqueue, List.nil_append]
    refine pvsLoop_terminates level point radius hvalid _ _ 0 [] [start] rfl rfl ?_
    intro x hx
    rw [List.mem_singleton] at hx
    exact hx ▸ hstart
  · intro fuel r h
    have hloop : GetPotentialSegmentsLoop level point radius fuel 0 [] [start] = some r := by
      unfold GetPotentialSegments at h
      rw [hqueue, List.nil_append] at h
      exact h
    obtain ⟨hclosed, _, h3, h4⟩ := pvsLoop_first level point radius fuel start r hloop
    have hsub : ∀ x ∈ r.g_VisitedSegs, PvsReach level point radius start x :=
      pvsLoop_reach level point radius start fuel 0 [] [start] r hloop
        (fun x hx => by cases hx)
        (fun x hx => by
          rw [List.mem_singleton] at hx
          rw [hx]
          exact PvsReach.start)
        (fun _ s rest hq => by
          cases hq
          rfl)
    have hsup : ∀ t, PvsReach level point radius start t → t ∈ r.g_VisitedSegs := by
      intro t ht
      induction ht with
      | start => exact h3
      | neighbour seg side hseg hconn => exact h4 seg hseg side hconn
      | cross s seg side _ hseg hval hconn ih =>
        rcases hclosed s ih seg hseg side hval hconn with h5 | h5
        · exact h5
        · cases h5
    refine ⟨fun t => ⟨hsub t, hsup t⟩, ?_, ?_, ?_, ?_⟩
    · intro t ht
      cases hsub t ht with
      | start => exact Or.inl rfl
      | neighbour seg side hseg _ => exact Or.inr (Or.inl ⟨seg, side, hseg, rfl⟩)
      | cross s seg side hs hseg hval _ =>
        exact Or.inr (Or.inr ⟨s, hsup s hs, seg, side, hseg, hval, rfl⟩)
    · refine ⟨h3, fun seg side hseg hconn => h4 seg hseg side hconn, ?_⟩
      intro s seg side hs hseg hval hconn
      exact hsup _ (PvsReach.cross s seg side (hsub s hs) hseg hval hconn)
    · intro S hS t ht
      have hreach := hsub t ht
      induction hreach with
      | start => exact hS.1
      | neighbour seg side hseg hconn => exact hS.2.1 seg side hseg hconn
      | cross s seg side hs hseg hval hconn ih =>
        exact hS.2.2 s seg side (ih (hsup s hs)) hseg hval hconn
    · intro visitedBefore
      exact h

/-- Witness of C29 on `sampleLevel` for a point in front of every inflated side plane: the set
is the start segment 0 and its neighbour 1; segment 2 is behind no plane and is not reached. -/
theorem GetPotentialSegments_exact_witness :
    GetPotentialSegments 5 sampleLevel ⟨[7], []⟩ 0 ⟨0, 0, 5⟩ 1 = some ⟨[1, 0], []⟩ ∧
    (∀ t, t ∈ [(1 : SegID), 0] ↔ PvsReach sampleLevel ⟨0, 0, 5⟩ 1 0 t) ∧
    ¬ PvsReach sampleLevel ⟨0, 0, 5⟩ 1 0 2 ∧
    ∀ visitedBefore : List SegID,
      GetPotentialSegments 5 sampleLevel ⟨visitedBefore, []⟩ 0 ⟨0, 0, 5⟩ 1
        = some ⟨[1, 0], []⟩ :=
  have hrun : GetPotentialSegments 5 sampleLevel ⟨[7], []⟩ 0 ⟨0, 0, 5⟩ 1 = some ⟨[1, 0], []⟩ := by
    decide!
  have hall := (GetPotentialSegments_exact sampleLevel ⟨[7], []⟩ 0 ⟨0, 0, 5⟩ 1 (by decide)
    (by decide) rfl).2 5 ⟨[1, 0], []⟩ hrun
  ⟨hrun, hall.1, fun h => by
      have hmem := (hall.1 2).mpr h
      revert hmem
      decide,
    hall.2.2.2.2⟩

/-! ## Level mesh: corrected positions and the slide -/

theorem IntersectLevelMesh_resolve_cases (env : MeshEnv) (level : Level) (segId : SegID)
    (seg : Segment) (sideId : SideID) (tri : Int) (st : MeshState) (hitDistance : ℚ)
    (hitPoint hitNormal tangent : Vector3) (edgeDistance : ℚ) :
    ∃ post : List Vector3,
      (IntersectLevelMesh_resolve env level segId seg sideId tri st hitDistance hitPoint
        hitNormal tangent edgeDistance).corrected = st.corrected ++ post ∧
      (IntersectLevelMesh_resolve env level segId seg sideId tri st hitDistance hitPoint
        hitNormal tangent edgeDistance).hits = st.hits + post.length ∧
      (IntersectLevelMesh_resolve env level segId seg sideId tri st hitDistance hitPoint
        hitNormal tangent edgeDistance).averagePosition
        = post.foldl (fun a b => a + b) st.averagePosition ∧
      ((post = [] ∧
          (IntersectLevelMesh_resolve env level segId seg sideId tri st hitDistance hitPoint
            hitNormal tangent edgeDistance).obj.Physics.Velocity = st.obj.Physics.Velocity) ∨
        (st.obj.Physics.Flags.Piercing = false ∧ hitDistance < st.obj.Radius ∧
          post = [hitPoint + hitNormal * st.obj.Radius] ∧
          (IntersectLevelMesh_resolve env level segId seg sideId tri st hitDistance hitPoint
            hitNormal tangent edgeDistance).obj.Physics.Velocity
            = st.obj.Physics.Velocity
              - hitNormal * hitNormal.Dot st.obj.Physics.Velocity)) := by
  unfold IntersectLevelMesh_resolve
  by_cases hnear : hitDistance < st.obj.Radius
  · rw [if_pos hnear]
    by_cases htrans : st.obj.Type_ = ObjectType.Weapon ∧
        env.ray.WallPointIsTransparent level seg sideId hitPoint tri = true
    · rw [if_pos htrans]
      exact ⟨[], by simp, rfl, rfl, Or.inl ⟨rfl, rfl⟩⟩
    · rw [if_neg htrans]
      dsimp only
      by_cases hpierce : st.obj.Physics.Flags.Piercing = false
      · rw [if_pos hpierce]
        refine ⟨[hitPoint + hitNormal * st.obj.Radius], ?_, ?_, ?_, Or.inr ⟨hpierce, hnear, rfl, ?_⟩⟩
        all_goals split_ifs <;> rfl
      · rw [if_neg hpierce]
        refine ⟨[], ?_, ?_, ?_, Or.inl ⟨rfl, ?_⟩⟩
        · split_ifs <;> simp
        all_goals split_ifs <;> rfl
  · rw [if_neg hnear]
    refine ⟨[], ?_, ?_, ?_, Or.inl ⟨rfl, ?_⟩⟩
    · split_ifs <;> simp
    all_goals split_ifs <;> rfl

theorem meshTriangleStep_of_resolve (direction : Vector3) (st st1 : MeshState)
    (hitDistance : ℚ) (hitPoint hitNormal : Vector3)
    (h : ∃ post : List Vector3,
      st1.corrected = st.corrected ++ post ∧
      st1.hits = st.hits + post.length ∧
      st1.averagePosition = post.foldl (fun a b => a + b) st.averagePosition ∧
      ((post = [] ∧ st1.obj.Physics.Velocity = st.obj.Physics.Velocity) ∨
        (st.obj.Physics.Flags.Piercing = false ∧ hitDistance < st.obj.Radius ∧
          post = [hitPoint + hitNormal * st.obj.Radius] ∧
          st1.obj.Physics.Velocity
            = st.obj.Physics.Velocity - hitNormal * hitNormal.Dot st.obj.Physics.Velocity))) :
    meshTriangleStep direction st st1 := by
  obtain ⟨post, h1, h2, h3, h4⟩ := h
  refine ⟨[], post, by simpa using h1, by simpa using h2, by simpa using h3, Or.inl rfl, ?_⟩
  rcases h4 with h4 | ⟨hp, hd, hpost, hv⟩
  · exact Or.inl h4
  · exact Or.inr ⟨hp, hitPoint, hitNormal, hitDistance, hd, hpost, hv⟩

theorem meshTriangleStep_refl (direction : Vector3) (st : MeshState) :
    meshTriangleStep direction st st :=
  ⟨[], [], by simp, by simp, rfl, Or.inl rfl, Or.inl ⟨rfl, rfl⟩⟩

theorem IntersectLevelMesh_triangle_cases (env : MeshEnv) (level : Level) (pathRay : Ray)
    (travelDistance : ℚ) (segId : SegID) (seg : Segment) (sideId : SideID) (tri : Int)
    (st : MeshState) (edgeDistance : ℚ) :
    meshTriangleStep pathRay.direction st
      (IntersectLevelMesh_triangle env level pathRay travelDistance segId seg sideId tri st
        edgeDistance).1 := by
  unfold IntersectLevelMesh_triangle
  dsimp only
  by_cases hweapon : st.obj.Type_ = ObjectType.Weapon
  · rw [if_pos hweapon]
    cases hray : env.geom.RayIntersectsTriangle pathRay
        (env.FaceVertex level seg sideId tri 0) (env.FaceVertex level seg sideId tri 1)
        (env.FaceVertex level seg sideId tri 2) with
    | none =>
      exact meshTriangleStep_of_resolve _ _ _ _ _ _
        (IntersectLevelMesh_resolve_cases env level segId seg sideId tri st _ _ _ _ _)
    | some dist =>
      dsimp only
      by_cases hface : pathRay.direction.Dot (env.SideNormal seg sideId tri) ≤ 0 ∧
          dist < travelDistance
      · rw [if_pos hface]
        by_cases htrans : env.ray.WallPointIsTransparent level seg sideId
            (st.obj.PrevPosition + pathRay.direction * dist) tri = true
        · rw [if_pos htrans]
          exact meshTriangleStep_refl _ _
        · rw [if_neg htrans]
          obtain ⟨post, h1, h2, h3, h4⟩ :=
            IntersectLevelMesh_resolve_cases env level segId seg sideId tri
              { st with
                averagePosition := st.averagePosition +
                  (st.obj.PrevPosition + pathRay.direction * dist
                    - pathRay.direction * st.obj.Radius)
                hits := st.hits + 1
                corrected := st.corrected ++
                  [st.obj.PrevPosition + pathRay.direction * dist
                    - pathRay.direction * st.obj.Radius] }
              dist (st.obj.PrevPosition + pathRay.direction * dist)
              (env.SideNormal seg sideId tri) (env.ray.SideTangent level seg sideId tri)
              (env.ray.FaceEdgeDistance level seg sideId
                (st.obj.PrevPosition + pathRay.direction * dist))
          refine ⟨[st.obj.PrevPosition + pathRay.direction * dist
              - pathRay.direction * st.obj.Radius], post, ?_, ?_, ?_,
            Or.inr ⟨hweapon, _, rfl⟩, ?_⟩
          · rw [h1]; simp
          · rw [h2]; simp only [List.length_append, List.length_singleton]; omega
          · rw [h3]; simp
          · rcases h4 with h4 | ⟨hp, hd, hpost, hv⟩
            · exact Or.inl h4
            · exact Or.inr ⟨hp, _, _, dist, hd, hpost, hv⟩
      · rw [if_neg hface]
        exact meshTriangleStep_of_resolve _ _ _ _ _ _
          (IntersectLevelMesh_resolve_cases env level segId seg sideId tri st _ _ _ _ _)
  · rw [if_neg hweapon]
    split_ifs
    all_goals first
      | exact meshTriangleStep_refl _ _
      | exact meshTriangleStep_of_resolve _ _ _ _ _ _
          (IntersectLevelMesh_resolve_cases env level segId seg sideId tri st _ _ _ _ _)

theorem IntersectLevelMesh_side_invariant (env : MeshEnv) (level : Level) (pathRay : Ray)
    (travelDistance : ℚ) (P : MeshState → Prop)
    (hstep : ∀ segId seg sideId tri st edgeDistance, P st →
      P (IntersectLevelMesh_triangle env level pathRay travelDistance segId seg sideId tri st
        edgeDistance).1)
    (segId : SegID) (seg : Segment) (st : MeshState) (sideId : SideID) (h : P st) :
    P (IntersectLevelMesh_side env level pathRay travelDistance segId seg st sideId) := by
  unfold IntersectLevelMesh_side
  split_ifs
  · exact h
  · exact hstep _ _ _ _ _ _ (hstep _ _ _ _ _ _ h)

theorem IntersectLevelMesh_sides_invariant (env : MeshEnv) (level : Level) (pathRay : Ray)
    (travelDistance : ℚ) (P : MeshState → Prop)
    (hstep : ∀ segId seg sideId tri st edgeDistance, P st →
      P (IntersectLevelMesh_triangle env level pathRay travelDistance segId seg sideId tri st
        edgeDistance).1)
    (segId : SegID) (seg : Segment) (sides : List SideID) :
    ∀ st : MeshState, P st →
      P (sides.foldl (IntersectLevelMesh_side env level pathRay travelDistance segId seg)
        st) := by
  induction sides with
  | nil => intro st h; exact h
  | cons side rest ih =>
    intro st h
    rw [List.foldl_cons]
    exact ih _ (IntersectLevelMesh_side_invariant env level pathRay travelDistance P hstep
      segId seg st side h)

theorem IntersectLevelMesh_segments_invariant (env : MeshEnv) (level : Level) (pathRay : Ray)
    (travelDistance : ℚ) (P : MeshState → Prop)
    (hstep : ∀ segId seg sideId tri st edgeDistance, P st →
      P (IntersectLevelMesh_triangle env level pathRay travelDistance segId seg sideId tri st
        edgeDistance).1) :
    ∀ (pvs : List SegID) (st st1 : MeshState), P st →
      IntersectLevelMesh_segments env level pathRay travelDistance pvs st = some st1 →
      P st1 := by
  intro pvs
  induction pvs with
  | nil =>
    intro st st1 h hrun
    simp only [IntersectLevelMesh_segments, Option.some.injEq] at hrun
    exact hrun ▸ h
  | cons segId rest ih =>
    intro st st1 h hrun
    simp only [IntersectLevelMesh_segments] at hrun
    cases hseg : level.GetSegment segId with
    | none => rw [hseg] at hrun; exact absurd hrun (by simp)
    | some seg =>
      rw [hseg] at hrun
      exact ih _ _ (IntersectLevelMesh_sides_invariant env level pathRay travelDistance P hstep
        segId seg SideIDs st h) hrun

theorem IntersectLevelMesh_segments_returns (env : MeshEnv) (level : Level) (pathRay : Ray)
    (travelDistance : ℚ) :
    ∀ (pvs : List SegID) (st : MeshState),
      (∀ segId ∈ pvs, ∃ seg, level.GetSegment segId = some seg) →
      ∃ st1, IntersectLevelMesh_segments env level pathRay travelDistance pvs st
        = some st1 := by
  intro pvs
  induction pvs with
  | nil => intro st _; exact ⟨st, rfl⟩
  | cons segId rest ih =>
    intro st hpvs
    obtain ⟨seg, hseg⟩ := hpvs segId (List.mem_cons_self _ _)
    simp only [IntersectLevelMesh_segments, hseg]
    exact ih _ (fun s hs => hpvs s (List.mem_cons_of_mem _ hs))

theorem meshTriangleStep_tally (direction : Vector3) (st st1 : MeshState)
    (hstep : meshTriangleStep direction st st1)
    (h : st.hits = st.corrected.length ∧ st.averagePosition = sumPositions st.corrected) :
    st1.hits = st1.corrected.length ∧ st1.averagePosition = sumPositions st1.corrected := by
  obtain ⟨pre, post, h1, h2, h3, -, -⟩ := hstep
  constructor
  · rw [h2, h1, h.1]; simp only [List.length_append]
  · rw [h3, h1, h.2]
    unfold sumPositions
    simp only [List.foldl_append]

theorem IntersectLevelMesh_triangle_resolves (env : MeshEnv) (level : Level) (pathRay : Ray)
    (travelDistance : ℚ) (segId : SegID) (seg : Segment) (sideId : SideID) (tri : Int)
    (st : MeshState) (edgeDistance : ℚ) (hweapon : st.obj.Type_ ≠ ObjectType.Weapon) :
    (IntersectLevelMesh_triangle env level pathRay travelDistance segId seg sideId tri st
        edgeDistance).1 = st ∨
    ∃ (hitDistance : ℚ) (hitPoint hitNormal tangent : Vector3) (edge : ℚ),
      (IntersectLevelMesh_triangle env level pathRay travelDistance segId seg sideId tri st
        edgeDistance).1
        = IntersectLevelMesh_resolve env level segId seg sideId tri st hitDistance hitPoint
            hitNormal tangent edge := by
  unfold IntersectLevelMesh_triangle
  dsimp only
  rw [if_neg hweapon]
  split_ifs
  all_goals first
    | exact Or.inl rfl
    | exact Or.inr ⟨_, _, _, _, _, rfl⟩

theorem IntersectLevelMesh_resolve_single (env : MeshEnv) (level : Level) (segId : SegID)
    (seg : Segment) (sideId : SideID) (tri : Int) (st : MeshState) (hitDistance : ℚ)
    (hitPoint hitNormal tangent : Vector3) (edgeDistance : ℚ) (obj : Object)
    (hshape : meshShape st.obj obj) (hweapon : obj.Type_ ≠ ObjectType.Weapon)
    (hpierce : obj.Physics.Flags.Piercing = false) (h : meshSingleHit obj st) :
    meshSingleHit obj (IntersectLevelMesh_resolve env level segId seg sideId tri st hitDistance
      hitPoint hitNormal tangent edgeDistance) := by
  obtain ⟨-, -, hR, hT, hF⟩ := hshape
  have hw : st.obj.Type_ ≠ ObjectType.Weapon := by rw [hT]; exact hweapon
  have hp1 : st.obj.Physics.Flags.Piercing = false := by rw [hF]; exact hpierce
  unfold IntersectLevelMesh_resolve
  by_cases hnear : hitDistance < st.obj.Radius
  · rw [if_pos hnear, if_neg (fun h => hw h.1)]
    dsimp only
    rw [if_pos hp1]
    rcases h with ⟨hc, hv, hdist⟩ | ⟨hc, hv, hdist⟩ | hlen
    · have hlt : hitDistance < st.hit.Distance := lt_of_lt_of_le (hR ▸ hnear) hdist
      refine Or.inr (Or.inl ?_)
      by_cases hrobot : st.obj.Type_ = ObjectType.Robot
      · rw [if_pos hrobot, if_pos hlt]
        exact ⟨by rw [hc, hR]; rfl, by dsimp only; rw [hv], hR ▸ hnear⟩
      · rw [if_neg hrobot, if_pos hlt]
        exact ⟨by rw [hc, hR]; rfl, by dsimp only; rw [hv], hR ▸ hnear⟩
    · refine Or.inr (Or.inr ?_)
      split_ifs <;> simp [hc]
    · refine Or.inr (Or.inr ?_)
      split_ifs <;> simp <;> omega
  · rw [if_neg hnear]
    rcases h with ⟨hc, hv, hdist⟩ | ⟨hc, hv, hdist⟩ | hlen
    · refine Or.inl ?_
      split_ifs
      · exact ⟨hc, hv, by rw [← hR]; exact not_lt.mp hnear⟩
      · exact ⟨hc, hv, hdist⟩
    · have hge : ¬ hitDistance < st.hit.Distance := by
        rw [← hR] at hdist
        exact not_lt.mpr (le_trans hdist.le (not_lt.mp hnear))
      rw [if_neg hge]
      exact Or.inr (Or.inl ⟨hc, hv, hdist⟩)
    · refine Or.inr (Or.inr ?_)
      split_ifs <;> exact hlen

theorem IntersectLevelMesh_loops_tally (env : MeshEnv) (level : Level) (pathRay : Ray)
    (travelDistance : ℚ) (obj : Object) (pvs : List SegID) (hit : LevelHit) (st : MeshState)
    (hrun : IntersectLevelMesh_segments env level pathRay travelDistance pvs
      ⟨obj, Vector3.Zero, 0, hit, []⟩ = some st) :
    meshShape st.obj obj ∧ st.hits = st.corrected.length ∧
      st.averagePosition = sumPositions st.corrected := by
  refine IntersectLevelMesh_segments_invariant env level pathRay travelDistance
    (fun s => meshShape s.obj obj ∧ s.hits = s.corrected.length ∧
      s.averagePosition = sumPositions s.corrected) ?_ pvs _ st
    ⟨meshShape_refl _, rfl, rfl⟩ hrun
  intro segId seg sideId tri s edge hs
  exact ⟨meshShape_trans (IntersectLevelMesh_triangle_shape _ _ _ _ _ _ _ _ _ _) hs.1,
    meshTriangleStep_tally pathRay.direction _ _
      (IntersectLevelMesh_triangle_cases _ _ _ _ _ _ _ _ _ _) hs.2⟩

theorem IntersectLevelMesh_loops_single (env : MeshEnv) (level : Level) (pathRay : Ray)
    (travelDistance : ℚ) (obj : Object) (pvs : List SegID) (hit : LevelHit) (st : MeshState)
    (hweapon : obj.Type_ ≠ ObjectType.Weapon) (hpierce : obj.Physics.Flags.Piercing = false)
    (hfar : obj.Radius ≤ hit.Distance)
    (hrun : IntersectLevelMesh_segments env level pathRay travelDistance pvs
      ⟨obj, Vector3.Zero, 0, hit, []⟩ = some st) :
    meshSingleHit obj st := by
  refine (IntersectLevelMesh_segments_invariant env level pathRay travelDistance
    (fun s => meshShape s.obj obj ∧ meshSingleHit obj s) ?_ pvs _ st
    ⟨meshShape_refl _, Or.inl ⟨rfl, rfl, hfar⟩⟩ hrun).2
  intro segId seg sideId tri s edge hs
  refine ⟨meshShape_trans (IntersectLevelMesh_triangle_shape _ _ _ _ _ _ _ _ _ _) hs.1, ?_⟩
  have hw : s.obj.Type_ ≠ ObjectType.Weapon := by rw [hs.1.2.2.2.1]; exact hweapon
  rcases IntersectLevelMesh_triangle_resolves env level pathRay travelDistance segId seg sideId
    tri s edge hw with h | ⟨hd, hp, hn, tan, ed, h⟩
  · rw [h]; exact hs.2
  · rw [h]
    exact IntersectLevelMesh_resolve_single env level segId seg sideId tri s hd hp hn tan ed obj
      hs.1 hweapon hpierce hs.2

theorem IntersectLevelMesh_loops_piercing (env : MeshEnv) (level : Level) (pathRay : Ray)
    (travelDistance : ℚ) (obj : Object) (pvs : List SegID) (hit : LevelHit) (st : MeshState)
    (hpierce : obj.Physics.Flags.Piercing = true)
    (hrun : IntersectLevelMesh_segments env level pathRay travelDistance pvs
      ⟨obj, Vector3.Zero, 0, hit, []⟩ = some st) :
    st.obj.Physics.Velocity = obj.Physics.Velocity := by
  refine (IntersectLevelMesh_segments_invariant env level pathRay travelDistance
    (fun s => meshShape s.obj obj ∧ s.obj.Physics.Velocity = obj.Physics.Velocity) ?_ pvs _ st
    ⟨meshShape_refl _, rfl⟩ hrun).2
  intro segId seg sideId tri s edge hs
  refine ⟨meshShape_trans (IntersectLevelMesh_triangle_shape _ _ _ _ _ _ _ _ _ _) hs.1, ?_⟩
  obtain ⟨pre, post, -, -, -, -, h⟩ :=
    IntersectLevelMesh_triangle_cases env level pathRay travelDistance segId seg sideId tri s edge
  rcases h with h | h
  · rw [h.2]; exact hs.2
  · rw [hs.1.2.2.2.2, hpierce] at h
    exact absurd h.1 (by simp)

theorem Vector3.slide_normal (n v : Vector3) (hunit : n.Dot n = 1) :
    n.Dot (v - n * n.Dot v) = 0 := by
  simp only [Vector3.Dot, Vector3.sub_def, Vector3.scale_def] at hunit ⊢
  linear_combination (-(n.x * v.x + n.y * v.y + n.z * v.z)) * hunit

theorem Vector3.slide_tangent (n v : Vector3) (hunit : n.Dot n = 1) :
    (v - n * n.Dot v) - n * n.Dot (v - n * n.Dot v) = v - n * n.Dot v := by
  rw [Vector3.slide_normal n v hunit]
  simp [Vector3.sub_def, Vector3.scale_def]

theorem sumPositions_singleton (c : Vector3) : sumPositions [c] / ((1 : Nat) : ℚ) = c := by
  simp [sumPositions, Vector3.add_def, Vector3.div_def, Vector3.Zero]

/-! ## Hit averaging in `IntersectLevelMesh` -/

/-- C25 (counterexample): a weapon of radius `3/2` without `Piercing` flies along
`(0, -3/5, -4/5)` and its path ray meets triangle 0 of the sample wall `z = -2` with normal
`(0, 0, 1)` at distance 1, at the hit point `(0, -23/5, -2)`. This one hit adds two positions to
`averagePosition`: the ray correction `hitPoint - direction * radius = (0, -37/10, -4/5)` and
`hitPoint + hitNormal * radius = (0, -23/5, -1/2)`; `hits` is 2 and the final position is their
mean `(0, -83/20, -13/20)`, which is not `hitPoint + hitNormal * radius`. -/
theorem IntersectLevelMesh_weapon_hit_adds_two :
    (obliqueWeapon (3 / 2)).Type_ = ObjectType.Weapon ∧
    (obliqueWeapon (3 / 2)).Physics.Flags.Piercing = false ∧
    wallMeshEnv.geom.Normalize (obliqueWeapon (3 / 2)).Physics.Velocity = ⟨0, -3 / 5, -4 / 5⟩ ∧
    (IntersectLevelMesh wallMeshEnv sampleLevel (obliqueWeapon (3 / 2)) [0] sampleHit
        (1 / 128)).map (fun st => (st.hit.Point, st.hit.Normal, st.hit.Distance))
      = some (⟨0, -23 / 5, -2⟩, ⟨0, 0, 1⟩, 1) ∧
    (IntersectLevelMesh wallMeshEnv sampleLevel (obliqueWeapon (3 / 2)) [0] sampleHit
        (1 / 128)).map (fun st => (st.obj.Position, st.hits, st.corrected))
      = some (⟨0, -83 / 20, -13 / 20⟩, 2, [⟨0, -37 / 10, -4 / 5⟩, ⟨0, -23 / 5, -1 / 2⟩]) ∧
    (⟨0, -23 / 5, -2⟩ : Vector3) + (⟨0, 0, 1⟩ : Vector3) * (obliqueWeapon (3 / 2)).Radius
      = ⟨0, -23 / 5, -1 / 2⟩ ∧
    (⟨0, -83 / 20, -13 / 20⟩ : Vector3) ≠ ⟨0, -23 / 5, -1 / 2⟩ := by
  refine ⟨rfl, rfl, by decide!, by decide!, by decide!, by decide!, by decide!⟩

/-- C25 (amended): when every potential segment exists, `IntersectLevelMesh` returns; `hits` is
the number of positions that the call added to `averagePosition`; with `hits = 0` the position of
the object is unchanged and with `hits > 0` it is the sum of the added positions divided by
`hits`. Each triangle test adds at most the ray correction `hitPoint - direction * Radius` of a
weapon, followed by at most one `hitPoint + hitNormal * Radius`, the latter only for a hit
closer than the radius on an object without `Piercing`. For an object that is not a weapon and
has no `Piercing`, called with a recorded distance of at least the radius, a call with
`hits = 1` ends at `hit.Point + hit.Normal * Radius` of the recorded hit. -/
theorem IntersectLevelMesh_position_is_mean (env : MeshEnv) (level : Level) (obj : Object)
    (pvs : List SegID) (hit : LevelHit) (dt : ℚ)
    (hpvs : ∀ segId ∈ pvs, ∃ s, level.GetSegment segId = some s) :
    ∃ st, IntersectLevelMesh env level obj pvs hit dt = some st ∧
      st.hits = st.corrected.length ∧
      (st.hits = 0 → st.obj.Position = obj.Position) ∧
      (0 < st.hits → st.obj.Position = sumPositions st.corrected / (st.hits : ℚ)) ∧
      (obj.Type_ ≠ ObjectType.Weapon → obj.Physics.Flags.Piercing = false →
        obj.Radius ≤ hit.Distance → st.hits = 1 →
        st.obj.Position = st.hit.Point + st.hit.Normal * obj.Radius) ∧
      ∀ (pathRay : Ray) (travelDistance : ℚ) (segId : SegID) (seg : Segment) (sideId : SideID)
        (tri : Int) (st0 : MeshState) (edgeDistance : ℚ),
        meshTriangleStep pathRay.direction st0
          (IntersectLevelMesh_triangle env level pathRay travelDistance segId seg sideId tri st0
            edgeDistance).1 := by
  obtain ⟨st, hrun⟩ := IntersectLevelMesh_segments_returns env level
    ⟨obj.PrevPosition, env.geom.Normalize obj.Physics.Velocity⟩
    (env.geom.Length obj.Physics.Velocity * dt) pvs ⟨obj, Vector3.Zero, 0, hit, []⟩ hpvs
  obtain ⟨hshape, hhits, havg⟩ := IntersectLevelMesh_loops_tally env level _ _ obj pvs hit st hrun
  have hsteps := fun (pathRay : Ray) (travelDistance : ℚ) (segId : SegID) (seg : Segment)
      (sideId : SideID) (tri : Int) (st0 : MeshState) (edgeDistance : ℚ) =>
    IntersectLevelMesh_triangle_cases env level pathRay travelDistance segId seg sideId tri st0
      edgeDistance
  unfold IntersectLevelMesh
  rw [hrun]
  dsimp only
  by_cases hpos : st.hits > 0
  · rw [if_pos hpos]
    refine ⟨_, rfl, hhits, fun h0 => absurd h0 (Nat.pos_iff_ne_zero.mp hpos), fun _ => ?_, ?_,
      hsteps⟩
    · dsimp only
      rw [havg]
    · intro hweapon hpierce hfar hone
      dsimp only at hone ⊢
      have hsingle := IntersectLevelMesh_loops_single env level _ _ obj pvs hit st hweapon
        hpierce hfar hrun
      rcases hsingle with ⟨hc, -, -⟩ | ⟨hc, -, -⟩ | hlen
      · rw [hhits, hc] at hone
        exact absurd hone (by simp)
      · rw [havg, hone, hc]
        exact sumPositions_singleton _
      · rw [hhits] at hone
        omega
  · rw [if_neg hpos]
    refine ⟨st, rfl, hhits, fun _ => hshape.1, fun h => absurd h hpos, ?_, hsteps⟩
    intro _ _ _ hone
    omega

theorem IntersectLevelMesh_position_is_mean_witness :
    (IntersectLevelMesh wallMeshEnv sampleLevel (subStepMove diagonalSphere (1 / 128)) [0]
        sampleHit (1 / 128)).map (fun st => (st.obj.Position, st.hits, st.corrected))
      = some (⟨0, -3 / 5, -6 / 5⟩, 2, [⟨0, -2 / 5, -1⟩, ⟨0, -4 / 5, -7 / 5⟩]) ∧
    sumPositions [⟨0, -2 / 5, -1⟩, ⟨0, -4 / 5, -7 / 5⟩] / ((2 : Nat) : ℚ)
      = ⟨0, -3 / 5, -6 / 5⟩ ∧
    ∃ st, IntersectLevelMesh wallMeshEnv sampleLevel (subStepMove diagonalSphere (1 / 128)) [0]
        sampleHit (1 / 128) = some st ∧
      st.hits = st.corrected.length ∧
      (0 < st.hits → st.obj.Position = sumPositions st.corrected / (st.hits : ℚ)) := by
  obtain ⟨st, h1, h2, -, h4, -, -⟩ :=
    IntersectLevelMesh_position_is_mean wallMeshEnv sampleLevel
      (subStepMove diagonalSphere (1 / 128)) [0] sampleHit (1 / 128)
      (fun segId hin => by rw [List.mem_singleton.mp hin]; exact ⟨_, rfl⟩)
  exact ⟨by decide!, by decide!, st, h1, h2, h4⟩

/-! ## Model mesh: the slide of `IntersectSpherePoly` -/

theorem hitTestIndices_invariant (env : PolyEnv) (target : Object) (travelDist : ℚ)
    (needsRaycast : Bool) (ray : Ray) (localDir : Vector3) (model : Model)
    (submodelOffset : Vector3) (normals : List Vector3) (P : PolyState → Prop)
    (hstep : ∀ p0 p1 p2 normal st, P st →
      P (IntersectSpherePoly_triangle env target travelDist needsRaycast ray localDir p0 p1 p2
        normal st)) :
    ∀ (n : Nat) (indices : List Nat) (normalIndex : Nat) (st : PolyState)
      (r : PolyState × Nat), indices.length ≤ n → P st →
      hitTestIndices env target travelDist needsRaycast ray localDir model submodelOffset
        normals indices normalIndex st = some r → P r.1 := by
  intro n
  induction n with
  | zero =>
    intro indices normalIndex st r hlen h hrun
    have hnil : indices = [] := List.length_eq_zero.mp (Nat.le_zero.mp hlen)
    subst hnil
    simp only [hitTestIndices, Option.some.injEq] at hrun
    rw [← hrun]
    exact h
  | succ n ih =>
    intro indices normalIndex st r hlen h hrun
    rcases indices with _ | ⟨i0, _ | ⟨i1, _ | ⟨i2, rest⟩⟩⟩
    · simp only [hitTestIndices, Option.some.injEq] at hrun
      rw [← hrun]
      exact h
    · simp [hitTestIndices] at hrun
    · simp [hitTestIndices] at hrun
    · simp only [hitTestIndices] at hrun
      cases h0 : modelCorner model submodelOffset i0 with
      | none => simp [h0] at hrun
      | some p0 =>
        cases h1 : modelCorner model submodelOffset i1 with
        | none => simp [h0, h1] at hrun
        | some p1 =>
          cases h2 : modelCorner model submodelOffset i2 with
          | none => simp [h0, h1, h2] at hrun
          | some p2 =>
            cases h3 : normals[normalIndex]? with
            | none => simp [h0, h1, h2, h3] at hrun
            | some normal =>
              simp only [h0, h1, h2, h3] at hrun
              refine ih rest (normalIndex + 1) _ r ?_ (hstep p0 p1 p2 normal st h) hrun
              simp only [List.length_cons] at hlen
              omega

theorem IntersectSpherePoly_submodels_invariant (env : PolyEnv) (target : Object)
    (travelDist : ℚ) (needsRaycast : Bool) (ray : Ray) (localDir : Vector3) (model : Model)
    (P : PolyState → Prop)
    (hstep : ∀ p0 p1 p2 normal st, P st →
      P (IntersectSpherePoly_triangle env target travelDist needsRaycast ray localDir p0 p1 p2
        normal st)) :
    ∀ (submodels : List Submodel) (smIndex texNormalIndex flatNormalIndex : Nat)
      (st st1 : PolyState), P st →
      IntersectSpherePoly_submodels env target travelDist needsRaycast ray localDir model
        submodels smIndex texNormalIndex flatNormalIndex st = some st1 → P st1 := by
  intro submodels
  induction submodels with
  | nil =>
    intro smIndex tex flat st st1 h hrun
    simp only [IntersectSpherePoly_submodels, Option.some.injEq] at hrun
    rw [← hrun]
    exact h
  | cons submodel rest ih =>
    intro smIndex tex flat st st1 h hrun
    simp only [IntersectSpherePoly_submodels] at hrun
    cases ha : hitTestIndices env target travelDist needsRaycast ray localDir model
        (env.GetSubmodelOffset model smIndex) model.Normals submodel.Indices tex st with
    | none => rw [ha] at hrun; exact absurd hrun (by simp)
    | some ra =>
      rw [ha] at hrun
      dsimp only at hrun
      cases hb : hitTestIndices env target travelDist needsRaycast ray localDir model
          (env.GetSubmodelOffset model smIndex) model.FlatNormals submodel.FlatIndices flat
          ra.1 with
      | none => rw [hb] at hrun; exact absurd hrun (by simp)
      | some rb =>
        rw [hb] at hrun
        dsimp only at hrun
        exact ih _ _ _ _ _
          (hitTestIndices_invariant env target travelDist needsRaycast ray localDir model _ _ P
            hstep _ _ _ _ _ (le_refl _)
            (hitTestIndices_invariant env target travelDist needsRaycast ray localDir model _ _
              P hstep _ _ _ _ _ (le_refl _) h ha) hb) hrun

theorem IntersectSpherePoly_triangle_resolves (env : PolyEnv) (target : Object)
    (travelDist : ℚ) (needsRaycast : Bool) (ray : Ray) (localDir : Vector3)
    (p0 p1 p2 normal : Vector3) (st : PolyState) :
    ∃ localPos : Vector3,
      IntersectSpherePoly_triangle env target travelDist needsRaycast ray localDir p0 p1 p2
          normal st = { st with localPos := localPos } ∨
      ∃ (hitDistance : ℚ) (hitPoint hitNormal : Vector3),
        IntersectSpherePoly_triangle env target travelDist needsRaycast ray localDir p0 p1 p2
          normal st
          = IntersectSpherePoly_resolve env target { st with localPos := localPos }
              hitDistance hitPoint hitNormal := by
  unfold IntersectSpherePoly_triangle
  dsimp only
  split_ifs
  all_goals first
    | exact ⟨_, Or.inl rfl⟩
    | exact ⟨_, Or.inr ⟨_, _, _, rfl⟩⟩

theorem IntersectSpherePoly_resolve_piercing (env : PolyEnv) (target : Object) (st : PolyState)
    (hitDistance : ℚ) (hitPoint hitNormal : Vector3)
    (hpierce : st.obj.Physics.Flags.Piercing = true) :
    (IntersectSpherePoly_resolve env target st hitDistance hitPoint hitNormal).obj = st.obj ∧
    (IntersectSpherePoly_resolve env target st hitDistance hitPoint hitNormal).hits
      = st.hits := by
  unfold IntersectSpherePoly_resolve
  have hp : ¬ st.obj.Physics.Flags.Piercing = false := by rw [hpierce]; simp
  dsimp only
  rw [if_neg hp]
  split_ifs <;> exact ⟨rfl, rfl⟩

theorem IntersectSpherePoly_resolve_slide (env : PolyEnv) (target : Object) (st : PolyState)
    (hitDistance : ℚ) (hitPoint hitNormal : Vector3)
    (hpierce : st.obj.Physics.Flags.Piercing = false) (hnear : hitDistance < st.obj.Radius) :
    (IntersectSpherePoly_resolve env target st hitDistance hitPoint hitNormal).hit.Normal
      = env.NormalToWorld target hitNormal ∧
    (IntersectSpherePoly_resolve env target st hitDistance hitPoint hitNormal).obj.Physics.Velocity
      = st.obj.Physics.Velocity
        - env.NormalToWorld target hitNormal
          * (env.NormalToWorld target hitNormal).Dot st.obj.Physics.Velocity ∧
    (IntersectSpherePoly_resolve env target st hitDistance hitPoint hitNormal).hits
      = st.hits + 1 ∧
    (IntersectSpherePoly_resolve env target st hitDistance hitPoint hitNormal).obj.Physics.Flags
      = st.obj.Physics.Flags := by
  unfold IntersectSpherePoly_resolve
  dsimp only
  rw [if_pos hnear, if_pos hpierce]
  exact ⟨rfl, rfl, rfl, rfl⟩

theorem IntersectSpherePoly_resolve_far (env : PolyEnv) (target : Object) (st : PolyState)
    (hitDistance : ℚ) (hitPoint hitNormal : Vector3) (hfar : ¬ hitDistance < st.obj.Radius) :
    IntersectSpherePoly_resolve env target st hitDistance hitPoint hitNormal = st := by
  unfold IntersectSpherePoly_resolve
  rw [if_neg hfar]

theorem IntersectSpherePoly_loops_piercing (env : PolyEnv) (target : Object) (travelDist : ℚ)
    (needsRaycast : Bool) (ray : Ray) (localDir : Vector3) (model : Model) (obj : Object)
    (localPos : Vector3) (st : PolyState) (hpierce : obj.Physics.Flags.Piercing = true)
    (hrun : IntersectSpherePoly_submodels env target travelDist needsRaycast ray localDir model
      model.Submodels 0 0 0 ⟨obj, localPos, env.DefaultHit, Vector3.Zero, 0⟩ = some st) :
    st.obj = obj ∧ st.hits = 0 := by
  refine IntersectSpherePoly_submodels_invariant env target travelDist needsRaycast ray localDir
    model (fun s => s.obj = obj ∧ s.hits = 0) ?_ _ _ _ _ _ st ⟨rfl, rfl⟩ hrun
  intro p0 p1 p2 normal s hs
  obtain ⟨lp, h | ⟨hd, hp, hn, h⟩⟩ := IntersectSpherePoly_triangle_resolves env target
    travelDist needsRaycast ray localDir p0 p1 p2 normal s
  · rw [h]; exact hs
  · rw [h]
    have hp1 : ({ s with localPos := lp } : PolyState).obj.Physics.Flags.Piercing = true := by
      dsimp only; rw [hs.1]; exact hpierce
    obtain ⟨h1, h2⟩ := IntersectSpherePoly_resolve_piercing env target
      { s with localPos := lp } hd hp hn hp1
    rw [h1, h2]
    exact hs

theorem IntersectSpherePoly_loops_single (env : PolyEnv) (target : Object) (travelDist : ℚ)
    (needsRaycast : Bool) (ray : Ray) (localDir : Vector3) (model : Model) (obj : Object)
    (localPos : Vector3) (st : PolyState) (hpierce : obj.Physics.Flags.Piercing = false)
    (hrun : IntersectSpherePoly_submodels env target travelDist needsRaycast ray localDir model
      model.Submodels 0 0 0 ⟨obj, localPos, env.DefaultHit, Vector3.Zero, 0⟩ = some st) :
    polySingleHit obj st := by
  refine (IntersectSpherePoly_submodels_invariant env target travelDist needsRaycast ray
    localDir model (fun s => s.obj.Physics.Flags = obj.Physics.Flags ∧ polySingleHit obj s) ?_
    _ _ _ _ _ st ⟨rfl, Or.inl ⟨rfl, rfl⟩⟩ hrun).2
  intro p0 p1 p2 normal s hs
  obtain ⟨lp, h | ⟨hd, hp, hn, h⟩⟩ := IntersectSpherePoly_triangle_resolves env target
    travelDist needsRaycast ray localDir p0 p1 p2 normal s
  · rw [h]; exact hs
  · rw [h]
    by_cases hnear : hd < s.obj.Radius
    · have hp1 : ({ s with localPos := lp } : PolyState).obj.Physics.Flags.Piercing = false := by
        dsimp only; rw [hs.1]; exact hpierce
      obtain ⟨h1, h2, h3, h4⟩ := IntersectSpherePoly_resolve_slide env target
        { s with localPos := lp } hd hp hn hp1 hnear
      refine ⟨h4.trans hs.1, ?_⟩
      rcases hs.2 with ⟨hz, hv⟩ | ⟨hone, -⟩ | htwo
      · refine Or.inr (Or.inl ⟨?_, ?_⟩)
        · rw [h3]; dsimp only; rw [hz]
        · rw [h2, h1]; dsimp only; rw [hv]
      · refine Or.inr (Or.inr ?_)
        rw [h3]; dsimp only; omega
      · refine Or.inr (Or.inr ?_)
        rw [h3]; dsimp only; omega
    · rw [IntersectSpherePoly_resolve_far env target { s with localPos := lp } hd hp hn hnear]
      exact hs

theorem IntersectLevelMesh_resolve_slide (env : MeshEnv) (level : Level) (segId : SegID)
    (seg : Segment) (sideId : SideID) (tri : Int) (st : MeshState) (hitDistance : ℚ)
    (hitPoint hitNormal tangent : Vector3) (edgeDistance : ℚ)
    (hpierce : st.obj.Physics.Flags.Piercing = false) (hnear : hitDistance < st.obj.Radius)
    (hsolid : ¬ (st.obj.Type_ = ObjectType.Weapon ∧
      env.ray.WallPointIsTransparent level seg sideId hitPoint tri = true)) :
    (IntersectLevelMesh_resolve env level segId seg sideId tri st hitDistance hitPoint hitNormal
      tangent edgeDistance).obj.Physics.Velocity
      = st.obj.Physics.Velocity - hitNormal * hitNormal.Dot st.obj.Physics.Velocity := by
  unfold IntersectLevelMesh_resolve
  rw [if_pos hnear, if_neg hsolid]
  dsimp only
  rw [if_pos hpierce]
  split_ifs <;> rfl

theorem IntersectSpherePoly_piercing (env : PolyEnv) (obj target : Object) (dt : ℚ)
    (hpierce : obj.Physics.Flags.Piercing = true) (res : SpherePolyResult)
    (hrun : IntersectSpherePoly env obj target dt = some res) : res.obj = obj := by
  unfold IntersectSpherePoly at hrun
  cases hmodel : env.GetModel target with
  | none =>
    rw [hmodel] at hrun
    simp only [Option.some.injEq] at hrun
    rw [← hrun]
  | some model =>
    rw [hmodel] at hrun
    dsimp only at hrun
    split_ifs at hrun with hskip
    · simp only [Option.some.injEq] at hrun
      rw [← hrun]
    · cases hloops : IntersectSpherePoly_submodels env target
          (env.geom.Length obj.Physics.Velocity * dt)
          (decide (env.geom.Length obj.Physics.Velocity * dt > obj.Radius * (3 / 2 : ℚ)))
          ⟨env.ToLocal target obj.Position,
            env.geom.Normalize (env.DirToLocal target (env.geom.Normalize obj.Physics.Velocity))⟩
          (env.geom.Normalize (env.DirToLocal target (env.geom.Normalize obj.Physics.Velocity)))
          model model.Submodels 0 0 0
          ⟨obj, env.ToLocal target obj.Position, env.DefaultHit, Vector3.Zero, 0⟩ with
      | none =>
        rw [hloops] at hrun
        exact absurd hrun (by simp)
      | some st =>
        rw [hloops] at hrun
        obtain ⟨hobj, hhits⟩ := IntersectSpherePoly_loops_piercing env target _ _ _ _ model obj
          _ st hpierce hloops
        have hno : ¬ (st.hits > 0 ∧ st.obj.Type_ ≠ ObjectType.Weapon ∧
            st.obj.Type_ ≠ ObjectType.Reactor) := by
          rw [hhits]
          exact fun h => absurd h.1 (by decide)
        dsimp only at hrun
        rw [if_neg hno] at hrun
        simp only [Option.some.injEq] at hrun
        rw [← hrun]
        exact hobj

/-! ## The slide response -/

/-- C27 (counterexample): a weapon of radius `1/4` without `Piercing` flies along
`(0, -3/5, -4/5)` with velocity `(0, -192, -256)`; its path ray meets triangle 0 of the sample
wall with unit normal `(0, 0, 1)` at distance 1, beyond the radius and within the travel
distance `5/2`. `IntersectLevelMesh` registers this single hit (`hits = 1`, the hit record holds
the normal and the distance, and the weapon is moved to `(0, -89/20, -9/5)`), but the velocity
is left as it was instead of `v - (n . v) n = (0, -192, 0)`; its component along `n` is
`-256`. -/
theorem IntersectLevelMesh_weapon_ray_hit_keeps_velocity :
    (obliqueWeapon (1 / 4)).Type_ = ObjectType.Weapon ∧
    (obliqueWeapon (1 / 4)).Physics.Flags.Piercing = false ∧
    (obliqueWeapon (1 / 4)).Physics.Velocity = ⟨0, -192, -256⟩ ∧
    wallMeshEnv.geom.Length (obliqueWeapon (1 / 4)).Physics.Velocity * (1 / 128) = 5 / 2 ∧
    (IntersectLevelMesh wallMeshEnv sampleLevel (obliqueWeapon (1 / 4)) [0] sampleHit
        (1 / 128)).map (fun st => (st.hits, st.corrected, st.obj.Position))
      = some (1, [⟨0, -89 / 20, -9 / 5⟩], ⟨0, -89 / 20, -9 / 5⟩) ∧
    (IntersectLevelMesh wallMeshEnv sampleLevel (obliqueWeapon (1 / 4)) [0] sampleHit
        (1 / 128)).map (fun st => (st.hit.Normal, st.hit.Distance, st.hit.Point))
      = some (⟨0, 0, 1⟩, 1, ⟨0, -23 / 5, -2⟩) ∧
    (IntersectLevelMesh wallMeshEnv sampleLevel (obliqueWeapon (1 / 4)) [0] sampleHit
        (1 / 128)).map (fun st => st.obj.Physics.Velocity) = some ⟨0, -192, -256⟩ ∧
    (⟨0, 0, 1⟩ : Vector3).Dot ⟨0, 0, 1⟩ = 1 ∧
    (obliqueWeapon (1 / 4)).Physics.Velocity
      - (⟨0, 0, 1⟩ : Vector3) * (⟨0, 0, 1⟩ : Vector3).Dot (obliqueWeapon (1 / 4)).Physics.Velocity
      = ⟨0, -192, 0⟩ ∧
    (⟨0, 0, 1⟩ : Vector3).Dot ⟨0, -192, -256⟩ = -256 := by
  refine ⟨rfl, rfl, rfl, by decide!, by decide!, by decide!, by decide!, by decide!, by decide!,
    by decide!⟩

/-- C27 (amended): the slide belongs to a hit closer than the radius. In the triangle loops of
`IntersectLevelMesh` and `IntersectSpherePoly`, a hit with `hitDistance < Radius` on an object
without `Piercing` (for a weapon on the level mesh: at a wall point that is not transparent)
replaces the velocity `v` by `v - (n . v) n` for the hit normal `n`, and for a unit `n` the new
velocity has no component along `n`. When every potential segment exists `IntersectLevelMesh`
returns; for an object that is not a weapon, called with a recorded distance of at least the
radius, a call with `hits = 1` leaves `v - (n . v) n` for the recorded normal `n`, whose
component along a unit `n` is zero and whose part perpendicular to `n` is that of `v`; the same
holds for the loops of `IntersectSpherePoly` when they end with `hits = 1`. For an object with
`Piercing`, `IntersectLevelMesh` leaves the velocity and `IntersectSpherePoly` the whole sphere
object unchanged. -/
theorem slide_on_close_hit (env : MeshEnv) (poly : PolyEnv) (level : Level)
    (obj sphere target : Object) (pvs : List SegID) (hit : LevelHit) (dt : ℚ)
    (hpvs : ∀ segId ∈ pvs, ∃ s, level.GetSegment segId = some s) :
    (∃ st, IntersectLevelMesh env level obj pvs hit dt = some st ∧
      (obj.Physics.Flags.Piercing = true →
        st.obj.Physics.Velocity = obj.Physics.Velocity) ∧
      (obj.Type_ ≠ ObjectType.Weapon → obj.Physics.Flags.Piercing = false →
        obj.Radius ≤ hit.Distance → st.hits = 1 →
        st.obj.Physics.Velocity
          = obj.Physics.Velocity - st.hit.Normal * st.hit.Normal.Dot obj.Physics.Velocity ∧
        (st.hit.Normal.Dot st.hit.Normal = 1 →
          st.hit.Normal.Dot st.obj.Physics.Velocity = 0 ∧
          st.obj.Physics.Velocity - st.hit.Normal * st.hit.Normal.Dot st.obj.Physics.Velocity
            = obj.Physics.Velocity
              - st.hit.Normal * st.hit.Normal.Dot obj.Physics.Velocity))) ∧
    (∀ (segId : SegID) (seg : Segment) (sideId : SideID) (tri : Int) (st : MeshState)
        (hitDistance : ℚ) (hitPoint hitNormal tangent : Vector3) (edgeDistance : ℚ),
      st.obj.Physics.Flags.Piercing = false → hitDistance < st.obj.Radius →
      ¬ (st.obj.Type_ = ObjectType.Weapon ∧
        env.ray.WallPointIsTransparent level seg sideId hitPoint tri = true) →
      (IntersectLevelMesh_resolve env level segId seg sideId tri st hitDistance hitPoint
          hitNormal tangent edgeDistance).obj.Physics.Velocity
        = st.obj.Physics.Velocity - hitNormal * hitNormal.Dot st.obj.Physics.Velocity ∧
      (hitNormal.Dot hitNormal = 1 →
        hitNormal.Dot (IntersectLevelMesh_resolve env level segId seg sideId tri st hitDistance
          hitPoint hitNormal tangent edgeDistance).obj.Physics.Velocity = 0)) ∧
    (sphere.Physics.Flags.Piercing = true →
      ∀ res, IntersectSpherePoly poly sphere target dt = some res → res.obj = sphere) ∧
    (sphere.Physics.Flags.Piercing = false →
      ∀ (model : Model) (travelDist : ℚ) (needsRaycast : Bool) (ray : Ray)
        (localDir localPos : Vector3) (st : PolyState),
        IntersectSpherePoly_submodels poly target travelDist needsRaycast ray localDir model
          model.Submodels 0 0 0 ⟨sphere, localPos, poly.DefaultHit, Vector3.Zero, 0⟩ = some st →
        st.hits = 1 →
        st.obj.Physics.Velocity
          = sphere.Physics.Velocity - st.hit.Normal * st.hit.Normal.Dot sphere.Physics.Velocity ∧
        (st.hit.Normal.Dot st.hit.Normal = 1 →
          st.hit.Normal.Dot st.obj.Physics.Velocity = 0 ∧
          st.obj.Physics.Velocity - st.hit.Normal * st.hit.Normal.Dot st.obj.Physics.Velocity
            = sphere.Physics.Velocity
              - st.hit.Normal * st.hit.Normal.Dot sphere.Physics.Velocity)) ∧
    (∀ (st : PolyState) (hitDistance : ℚ) (hitPoint hitNormal : Vector3),
      st.obj.Physics.Flags.Piercing = false → hitDistance < st.obj.Radius →
      (IntersectSpherePoly_resolve poly target st hitDistance hitPoint hitNormal).hit.Normal
        = poly.NormalToWorld target hitNormal ∧
      (IntersectSpherePoly_resolve poly target st hitDistance hitPoint
          hitNormal).obj.Physics.Velocity
        = st.obj.Physics.Velocity
          - poly.NormalToWorld target hitNormal
            * (poly.NormalToWorld target hitNormal).Dot st.obj.Physics.Velocity ∧
      ((poly.NormalToWorld target hitNormal).Dot (poly.NormalToWorld target hitNormal) = 1 →
        (poly.NormalToWorld target hitNormal).Dot
          (IntersectSpherePoly_resolve poly target st hitDistance hitPoint
            hitNormal).obj.Physics.Velocity = 0)) := by
  refine ⟨?_, ?_, ?_, ?_, ?_⟩
  · obtain ⟨st, hrun⟩ := IntersectLevelMesh_segments_returns env level
      ⟨obj.PrevPosition, env.geom.Normalize obj.Physics.Velocity⟩
      (env.geom.Length obj.Physics.Velocity * dt) pvs ⟨obj, Vector3.Zero, 0, hit, []⟩ hpvs
    obtain ⟨-, hhits, -⟩ := IntersectLevelMesh_loops_tally env level _ _ obj pvs hit st hrun
    have hpiercing : obj.Physics.Flags.Piercing = true →
        st.obj.Physics.Velocity = obj.Physics.Velocity := fun hp =>
      IntersectLevelMesh_loops_piercing env level _ _ obj pvs hit st hp hrun
    have hslide : obj.Type_ ≠ ObjectType.Weapon → obj.Physics.Flags.Piercing = false →
        obj.Radius ≤ hit.Distance → st.hits = 1 →
        st.obj.Physics.Velocity
          = obj.Physics.Velocity - st.hit.Normal * st.hit.Normal.Dot obj.Physics.Velocity ∧
        (st.hit.Normal.Dot st.hit.Normal = 1 →
          st.hit.Normal.Dot st.obj.Physics.Velocity = 0 ∧
          st.obj.Physics.Velocity - st.hit.Normal * st.hit.Normal.Dot st.obj.Physics.Velocity
            = obj.Physics.Velocity
              - st.hit.Normal * st.hit.Normal.Dot obj.Physics.Velocity) := by
      intro hweapon hpierce hfar hone
      rcases IntersectLevelMesh_loops_single env level _ _ obj pvs hit st hweapon hpierce hfar
        hrun with ⟨hc, -, -⟩ | ⟨-, hv, -⟩ | hlen
      · rw [hhits, hc] at hone
        exact absurd hone (by simp)
      · refine ⟨hv, fun hunit => ?_⟩
        rw [hv]
        exact ⟨Vector3.slide_normal _ _ hunit, Vector3.slide_tangent _ _ hunit⟩
      · rw [hhits] at hone
        omega
    unfold IntersectLevelMesh
    rw [hrun]
    dsimp only
    by_cases hpos : st.hits > 0
    · rw [if_pos hpos]
      exact ⟨_, rfl, hpiercing, hslide⟩
    · rw [if_neg hpos]
      exact ⟨st, rfl, hpiercing, hslide⟩
  · intro segId seg sideId tri st hitDistance hitPoint hitNormal tangent edgeDistance hpierce
      hnear hsolid
    have hv := IntersectLevelMesh_resolve_slide env level segId seg sideId tri st hitDistance
      hitPoint hitNormal tangent edgeDistance hpierce hnear hsolid
    refine ⟨hv, fun hunit => ?_⟩
    rw [hv]
    exact Vector3.slide_normal _ _ hunit
  · intro hpierce res hrun
    exact IntersectSpherePoly_piercing poly sphere target dt hpierce res hrun
  · intro hpierce model travelDist needsRaycast ray localDir localPos st hrun hone
    rcases IntersectSpherePoly_loops_single poly target travelDist needsRaycast ray localDir
      model sphere localPos st hpierce hrun with ⟨hz, -⟩ | ⟨-, hv⟩ | htwo
    · rw [hz] at hone
      exact absurd hone (by decide)
    · refine ⟨hv, fun hunit => ?_⟩
      rw [hv]
      exact ⟨Vector3.slide_normal _ _ hunit, Vector3.slide_tangent _ _ hunit⟩
    · omega
  · intro st hitDistance hitPoint hitNormal hpierce hnear
    obtain ⟨h1, h2, -, -⟩ := IntersectSpherePoly_resolve_slide poly target st hitDistance
      hitPoint hitNormal hpierce hnear
    refine ⟨h1, h2, fun hunit => ?_⟩
    rw [h2]
    exact Vector3.slide_normal _ _ hunit

theorem slide_on_close_hit_witness :
    (∃ st, IntersectLevelMesh wallMeshEnv sampleLevel glancingSphere [0] sampleHit (1 / 100)
        = some st ∧ st.hits = 1 ∧ st.hit.Normal = ⟨0, 0, 1⟩ ∧
      glancingSphere.Physics.Velocity = ⟨30, 0, -40⟩ ∧
      st.obj.Physics.Velocity = ⟨30, 0, 0⟩ ∧
      st.hit.Normal.Dot st.obj.Physics.Velocity = 0) ∧
    (∃ st, IntersectLevelMesh wallMeshEnv sampleLevel piercingSphere [0] sampleHit (1 / 100)
        = some st ∧ st.hit.Normal = ⟨0, 0, 1⟩ ∧ st.obj.Physics.Velocity = ⟨30, 0, -40⟩) ∧
    (∃ res, IntersectSpherePoly samplePolyEnv piercingPlayer sampleObject (1 / 100) = some res ∧
      res.info.Normal = ⟨0, 0, 1⟩ ∧ res.info.Distance < piercingPlayer.Radius ∧
      res.obj = piercingPlayer) := by
  obtain ⟨⟨st, hrun, -, hs⟩, -, -, -, -⟩ :=
    slide_on_close_hit wallMeshEnv samplePolyEnv sampleLevel glancingSphere glancingPlayer
      sampleObject [0] sampleHit (1 / 100)
      (fun segId hin => by rw [List.mem_singleton.mp hin]; exact ⟨_, rfl⟩)
  obtain ⟨⟨st2, hrun2, hp2, -⟩, -, hpoly, -, -⟩ :=
    slide_on_close_hit wallMeshEnv samplePolyEnv sampleLevel piercingSphere piercingPlayer
      sampleObject [0] sampleHit (1 / 100)
      (fun segId hin => by rw [List.mem_singleton.mp hin]; exact ⟨_, rfl⟩)
  have hvals : (IntersectLevelMesh wallMeshEnv sampleLevel glancingSphere [0] sampleHit
      (1 / 100)).map (fun s => (s.hits, s.hit.Normal)) = some (1, ⟨0, 0, 1⟩) := by decide!
  rw [hrun] at hvals
  have hone : st.hits = 1 := congrArg Prod.fst (Option.some.inj hvals)
  have hnormal : st.hit.Normal = ⟨0, 0, 1⟩ := congrArg Prod.snd (Option.some.inj hvals)
  obtain ⟨hv, hunit⟩ := hs (by decide) rfl (by decide!) hone
  rw [hnormal] at hv hunit
  have hvals2 : (IntersectLevelMesh wallMeshEnv sampleLevel piercingSphere [0] sampleHit
      (1 / 100)).map (fun s => s.hit.Normal) = some ⟨0, 0, 1⟩ := by decide!
  rw [hrun2] at hvals2
  have hvals3 : (IntersectSpherePoly samplePolyEnv piercingPlayer sampleObject (1 / 100)).map
      (fun r => (r.info.Normal, r.info.Distance)) = some (⟨0, 0, 1⟩, -1 / 2) := by decide!
  refine ⟨⟨st, hrun, hone, hnormal, rfl, ?_, ?_⟩, ⟨st2, hrun2, Option.some.inj hvals2, ?_⟩, ?_⟩
  · rw [hv]; decide!
  · rw [hnormal]; exact (hunit (by decide!)).1
  · rw [hp2 rfl]; rfl
  · cases hr : IntersectSpherePoly samplePolyEnv piercingPlayer sampleObject (1 / 100) with
    | none =>
      rw [hr] at hvals3
      cases hvals3
    | some res =>
      rw [hr] at hvals3
      have h1 : res.info.Normal = ⟨0, 0, 1⟩ := congrArg Prod.fst (Option.some.inj hvals3)
      have h2 : res.info.Distance = -1 / 2 := congrArg Prod.snd (Option.some.inj hvals3)
      refine ⟨res, rfl, h1, ?_, hpoly rfl res hr⟩
      rw [h2]
      decide!

theorem Level.setConnection_GetSegment (level : Level) (id : Int) (side : SideID) (value : Int)
    (j : Int) :
    (level.setConnection id side value).GetSegment j
      = if j = id then
          (level.GetSegment id).map
            (fun seg => { seg with
              Connections := fun s => if s = side then value else seg.Connections s })
        else level.GetSegment j := by
  unfold Level.setConnection
  cases hseg : level.GetSegment id with
  | none =>
    dsimp only
    split_ifs with h
    · rw [h, hseg]; rfl
    · rfl
  | some seg =>
    dsimp only
    have hex := (Level.GetSegment_mem level id seg hseg).2
    have h0 : (0 : Int) ≤ id := hex.1
    have h1 : (id : Int) < level.Segments.length := hex.2
    unfold Level.GetSegment
    dsimp only
    by_cases hj : 0 ≤ j
    · rw [if_pos hj]
      by_cases h : j = id
      · rw [if_pos h, h, List.getElem?_set_self (by omega)]
        rfl
      · rw [if_neg h, if_pos hj, List.getElem?_set_ne (by omega)]
    · rw [if_neg hj]
      have h : j ≠ id := by omega
      rw [if_neg h, if_neg hj]

theorem Level.addConnection_GetSegment (level : Level) (S T : Int) (A B : SideID) (j : Int) :
    ((level.setConnection S A T).setConnection T B S).GetSegment j
      = (level.GetSegment j).map (fun seg => { seg with
          Connections := fun s =>
            if j = T ∧ s = B then S else if j = S ∧ s = A then T else seg.Connections s }) := by
  rw [Level.setConnection_GetSegment]
  simp only [Level.setConnection_GetSegment]
  by_cases hT : j = T
  · subst hT
    by_cases hS : j = S
    · subst hS
      cases level.GetSegment j with
      | none => simp
      | some seg =>
        simp only [if_true, Option.map_some', true_and]
    · cases level.GetSegment j with
      | none => simp [hS]
      | some seg =>
        simp only [if_true, hS, if_false, Option.map_some', true_and, false_and]
  · by_cases hS : j = S
    · subst hS
      cases level.GetSegment j with
      | none => simp [hT]
      | some seg =>
        simp only [if_true, hT, if_false, Option.map_some', true_and, false_and]
    · cases level.GetSegment j with
      | none => simp [hT, hS]
      | some seg =>
        simp only [hT, hS, if_false, Option.map_some', false_and]

theorem Level.addConnection_bidirectional (level : Level) (S T : Int) (A B : SideID)
    (src dest : Segment) (hsrc : level.GetSegment S = some src)
    (hdest : level.GetSegment T = some dest)
    (hfreeSrc : ¬ level.SegmentExists (src.GetConnection A))
    (hfreeDest : ¬ level.SegmentExists (dest.GetConnection B))
    (hbi : level.Bidirectional) :
    ((level.setConnection S A T).setConnection T B S).Bidirectional := by
  intro s seg2 hseg2 side other2 hother2
  rw [Level.addConnection_GetSegment] at hseg2 hother2
  cases hseg : level.GetSegment s with
  | none => rw [hseg] at hseg2; cases hseg2
  | some seg =>
    rw [hseg] at hseg2
    simp only [Option.map_some', Option.some.injEq] at hseg2
    subst hseg2
    simp only [Segment.GetConnection] at hother2 ⊢
    cases hother : level.GetSegment
        (if s = T ∧ side = B then S else if s = S ∧ side = A then T
          else seg.Connections side) with
    | none => rw [hother] at hother2; cases hother2
    | some other =>
      rw [hother] at hother2
      simp only [Option.map_some', Option.some.injEq] at hother2
      subst hother2
      dsimp only
      by_cases h1 : s = T ∧ side = B
      · simp only [if_pos h1] at hother ⊢
        refine ⟨A, ?_⟩
        by_cases h2 : S = T ∧ A = B
        · rw [h1.1]
          simp only [h2.1, h2.2, and_self, if_true]
        · simp only [if_neg h2, true_and, and_self, if_true, h1.1]
      · simp only [if_neg h1] at hother ⊢
        by_cases h2 : s = S ∧ side = A
        · simp only [if_pos h2] at hother ⊢
          exact ⟨B, by simp only [true_and, if_true, h2.1]⟩
        · simp only [if_neg h2] at hother ⊢
          obtain ⟨back, hback⟩ := hbi s seg hseg side other hother
          simp only [Segment.GetConnection] at hback
          have hs := (Level.GetSegment_mem level s seg hseg).2
          refine ⟨back, ?_⟩
          by_cases h3 : seg.Connections side = T ∧ back = B
          · exfalso
            rw [h3.1, hdest] at hother
            have hd : dest = other := Option.some.inj hother
            apply hfreeDest
            rw [hd, ← h3.2]
            simp only [Segment.GetConnection]
            rw [hback]
            exact hs
          · simp only [if_neg h3]
            by_cases h4 : seg.Connections side = S ∧ back = A
            · exfalso
              rw [h4.1, hsrc] at hother
              have hd : src = other := Option.some.inj hother
              apply hfreeSrc
              rw [hd, ← h4.2]
              simp only [Segment.GetConnection]
              rw [hback]
              exact hs
            · simp only [if_neg h4]
              exact hback

/-- C22: `Level::TryAddConnection` called with two tags whose sides are real sides returns. It
returns true exactly when both segments exist and `SideHasConnection` is false for both sides,
and a call that returns false leaves the level as it was. A call that returns true changes only
the two connections it writes, the source side to the destination segment and then the
destination side to the source segment. When a side without a connection, as
`SideHasConnection` reports it, never leads to a segment of the level, the call preserves
bidirectionality: if every connection to a segment of the level has a back-connection before
the call, the same holds after it. -/
theorem TryAddConnection_keeps_bidirectional (SideHasConnection : Segment → SideID → Bool)
    (level : Level) (srcId destId : Tag) (srcSide destSide : SideID)
    (hsrcSide : srcId.Side = some srcSide) (hdestSide : destId.Side = some destSide) :
    ∃ r, level.TryAddConnection SideHasConnection srcId destId = some r ∧
      (r.1 = true ↔
        (level.SegmentExists srcId.Segment ∧ level.SegmentExists destId.Segment ∧
          ∃ src dest, level.GetSegment srcId.Segment = some src ∧
            level.GetSegment destId.Segment = some dest ∧
            SideHasConnection src srcSide = false ∧
            SideHasConnection dest destSide = false)) ∧
      (r.1 = false → r.2 = level) ∧
      (r.1 = true → ∀ j : SegID,
        r.2.GetSegment j = (level.GetSegment j).map (fun seg => { seg with
          Connections := fun s =>
            if j = destId.Segment ∧ s = destSide then srcId.Segment
            else if j = srcId.Segment ∧ s = srcSide then destId.Segment
            else seg.Connections s })) ∧
      ((∀ seg side, SideHasConnection seg side = false →
          ¬ level.SegmentExists (seg.GetConnection side)) →
        level.Bidirectional → r.2.Bidirectional) := by
  unfold Level.TryAddConnection
  by_cases hex : ¬ level.SegmentExists srcId.Segment ∨ ¬ level.SegmentExists destId.Segment
  · rw [if_pos hex]
    refine ⟨(false, level), rfl, ⟨fun h => absurd h (by simp), fun h => ?_⟩, fun _ => rfl,
      fun h => absurd h (by simp), fun _ hbi => hbi⟩
    rcases hex with h1 | h1
    · exact absurd h.1 h1
    · exact absurd h.2.1 h1
  · rw [if_neg hex]
    have hexS : level.SegmentExists srcId.Segment := by
      by_contra h; exact hex (Or.inl h)
    have hexT : level.SegmentExists destId.Segment := by
      by_contra h; exact hex (Or.inr h)
    obtain ⟨src, hsrc, -⟩ := Level.GetSegment_of_exists level srcId.Segment hexS
    obtain ⟨dest, hdest, -⟩ := Level.GetSegment_of_exists level destId.Segment hexT
    rw [hsrc, hdest, hsrcSide, hdestSide]
    dsimp only
    by_cases hA : SideHasConnection src srcSide = true
    · rw [if_pos hA]
      refine ⟨(false, level), rfl, ⟨fun h => absurd h (by simp), fun h => ?_⟩, fun _ => rfl,
        fun h => absurd h (by simp), fun _ hbi => hbi⟩
      obtain ⟨-, -, src1, dest1, h1, -, h3, -⟩ := h
      rw [← Option.some.inj h1, hA] at h3
      cases h3
    · rw [if_neg hA]
      by_cases hB : SideHasConnection dest destSide = true
      · rw [if_pos hB]
        refine ⟨(false, level), rfl, ⟨fun h => absurd h (by simp), fun h => ?_⟩, fun _ => rfl,
          fun h => absurd h (by simp), fun _ hbi => hbi⟩
        obtain ⟨-, -, src1, dest1, -, h2, -, h4⟩ := h
        rw [← Option.some.inj h2, hB] at h4
        cases h4
      · rw [if_neg hB]
        have hA1 : SideHasConnection src srcSide = false := by simpa using hA
        have hB1 : SideHasConnection dest destSide = false := by simpa using hB
        refine ⟨_, rfl, ⟨fun _ => ⟨hexS, hexT, src, dest, rfl, rfl, hA1, hB1⟩, fun _ => rfl⟩,
          fun h => absurd h (by simp), fun _ j => ?_, fun hhelper hbi => ?_⟩
        · exact Level.addConnection_GetSegment level srcId.Segment destId.Segment srcSide
            destSide j
        · exact Level.addConnection_bidirectional level srcId.Segment destId.Segment srcSide
            destSide src dest hsrc hdest (hhelper src srcSide hA1) (hhelper dest destSide hB1)
            hbi

theorem TryAddConnection_keeps_bidirectional_witness :
    (∃ r, looseLevel.TryAddConnection sampleSideHasConnection ⟨0, some 1⟩ ⟨1, some 2⟩ = some r ∧
      r.1 = true ∧
      (r.2.GetSegment 0).map (fun seg => seg.GetConnection 1) = some 1 ∧
      (r.2.GetSegment 1).map (fun seg => seg.GetConnection 2) = some 0 ∧
      looseLevel.Bidirectional ∧ r.2.Bidirectional) ∧
    (∃ r, sampleLevel.TryAddConnection sampleSideHasConnection ⟨0, some 0⟩ ⟨2, some 1⟩
        = some r ∧ r.1 = false ∧ r.2 = sampleLevel) := by
  obtain ⟨r, hr, hiff, -, hwrites, hbi⟩ :=
    TryAddConnection_keeps_bidirectional sampleSideHasConnection looseLevel ⟨0, some 1⟩
      ⟨1, some 2⟩ 1 2 rfl rfl
  obtain ⟨q, hq, -, hfalse, -, -⟩ :=
    TryAddConnection_keeps_bidirectional sampleSideHasConnection sampleLevel ⟨0, some 0⟩
      ⟨2, some 1⟩ 0 1 rfl rfl
  have htrue : r.1 = true :=
    hiff.mpr ⟨by decide, by decide, _, _, rfl, rfl, by decide, by decide⟩
  have hloose : looseLevel.Bidirectional := by
    intro s seg hseg side other hother
    have hmem := (Level.GetSegment_mem looseLevel s seg hseg).1
    have hseg1 : seg = sampleSegment (-1) (-1) (-1) (-1) (-1) (-1) := by
      simpa [looseLevel] using hmem
    rw [hseg1] at hother
    have hnone : ∀ a : SideID,
        (sampleSegment (-1) (-1) (-1) (-1) (-1) (-1)).GetConnection a = -1 := by decide
    rw [hnone side] at hother
    cases hother
  have hhelper : ∀ seg side, sampleSideHasConnection seg side = false →
      ¬ looseLevel.SegmentExists (seg.GetConnection side) := by
    intro seg side h hexists
    unfold sampleSideHasConnection at h
    exact (of_decide_eq_false h) hexists.1
  have hq1 : (sampleLevel.TryAddConnection sampleSideHasConnection ⟨0, some 0⟩
      ⟨2, some 1⟩).map Prod.fst = some false := by decide
  rw [hq] at hq1
  have hqfalse : q.1 = false := Option.some.inj hq1
  refine ⟨⟨r, hr, htrue, ?_, ?_, hloose, hbi hhelper hloose⟩, ⟨q, hq, hqfalse, hfalse hqfalse⟩⟩
  · rw [hwrites htrue 0]
    decide
  · rw [hwrites htrue 1]
    decide

end Inferno
